import Mathlib

/-!
# ALPS touchpad PS/2 driver (`alps.c`): shallow embedding and verified properties

The development follows the layout of the C source.

* Part I holds the definitions: the model table and the first-byte test, the bitmap
  resolver `alps_process_bitmap`, the V1/V2 packet decoder, the framing state machine
  (`alps_process_byte`, `alps_handle_interleaved_ps2`, `alps_flush_packet`), the V4
  packet decoder, the command-mode register engine, the model identification
  `alps_get_model`, the V3/V5 and V6 packet decoders with the decoder dispatch
  `alps_process_packet`, the hardware initialisation `alps_hw_init`, and the bare PS/2
  report `alps_report_bare_ps2_packet`.
* Part II holds the lemmas and theorems.

Conventions. Bytes (`unsigned char`) and `unsigned int` values are natural numbers; an
`unsigned int` left shift is reduced modulo `2 ^ 32`. C `int` values are integers. C
truth values are numbers tested against zero. Calls into the input layer and calls of the
variant decoder are recorded, in order, in a trace. The transport `ps2_command` is a
parameter of the functions that talk to the device; its calls are recorded in a trace as
well.
-/

namespace Alps


/-! ## Part I: definitions -/

/-! ### Bitmap resolver (`alps_process_bitmap`, alps.c lines 127-131 and 276-387) -/

/-- The four file-scope statics `ALPS_X_MAX`, `ALPS_Y_MAX`, `ALPS_BITMAP_X_BITS` and
`ALPS_BITMAP_Y_BITS` (alps.c lines 128-131), all of C type `int`. The only values
`alps_init` stores in them are at most 2000 and 23, for which no `int` expression of
`alps_process_bitmap` leaves the 32-bit range; the embedding computes with unbounded
integers. -/
structure Geometry where
  ALPS_X_MAX : Int
  ALPS_Y_MAX : Int
  ALPS_BITMAP_X_BITS : Int
  ALPS_BITMAP_Y_BITS : Int
deriving DecidableEq, Repr

/-- Values stored by `alps_init` for protocol versions V3, V4 and V5 (lines 2157-2160). -/
def geometry_v3_v4_v5 : Geometry :=
  { ALPS_X_MAX := 2000, ALPS_Y_MAX := 1400, ALPS_BITMAP_X_BITS := 15, ALPS_BITMAP_Y_BITS := 11 }

/-- Values stored by `alps_init` for protocol version V6 (lines 2175-2178). -/
def geometry_v6 : Geometry :=
  { ALPS_X_MAX := 1360, ALPS_Y_MAX := 660, ALPS_BITMAP_X_BITS := 23, ALPS_BITMAP_Y_BITS := 12 }

/-- Local `struct alps_bitmap_point` of `alps_process_bitmap` (lines 289-292). -/
structure alps_bitmap_point where
  start_bit : Int
  num_bits : Int
deriving DecidableEq, Repr

/-- Locals of one scanning loop of `alps_process_bitmap`: the loop counter `i`, `prev_bit`,
the pointer `point` (`at_high` is true when it points at the high point, false when it
points at the low point), the two points of the axis, and the axis finger counter. -/
structure BitmapScan where
  i : Int
  prev_bit : Nat
  at_high : Bool
  low : alps_bitmap_point
  high : alps_bitmap_point
  fingers : Int
deriving DecidableEq, Repr

/-- State of the locals right before a scanning loop: `prev_bit = 0`, `point` at the low
point, `i = 0`, both points zero-initialised (lines 296-297), finger counter zero. -/
def scan_init : BitmapScan :=
  { i := 0, prev_bit := 0, at_high := false,
    low := { start_bit := 0, num_bits := 0 },
    high := { start_bit := 0, num_bits := 0 },
    fingers := 0 }

/-- Body of the scanning loops (lines 308-321 for x, lines 332-345 for y; the two bodies
are the same text up to the names of the points and of the counter), followed by the
`i++` of the loop header. The argument `bit` is the value the loop assigns to `bit`. -/
def scan_body (bit : Nat) (st : BitmapScan) : BitmapScan :=
  let st1 : BitmapScan :=
    if bit ≠ 0 then
      let st2 : BitmapScan :=
        if st.prev_bit = 0 then
          if st.at_high then
            { st with high := { st.high with start_bit := st.i }, fingers := st.fingers + 1 }
          else
            { st with low := { st.low with start_bit := st.i }, fingers := st.fingers + 1 }
        else st
      if st2.at_high then
        { st2 with high := { st2.high with num_bits := st2.high.num_bits + 1 } }
      else
        { st2 with low := { st2.low with num_bits := st2.low.num_bits + 1 } }
    else
      if st.prev_bit ≠ 0 then
        { st with at_high := true }
      else if st.at_high then
        { st with high := { st.high with num_bits := 0 } }
      else
        { st with low := { st.low with num_bits := 0 } }
  { st1 with prev_bit := bit, i := st1.i + 1 }

/-- The x loop `for (i = 0; x_map != 0; i++, x_map >>= 1)` (lines 307-322), with
`bit = x_map & 1`. The first argument bounds the number of iterations; 32 iterations
exhaust an `unsigned int`, and the bound is never reached (`x_scan_fuel_enough`). -/
def x_scan : Nat → Nat → BitmapScan → BitmapScan
  | 0, _, st => st
  | fuel + 1, x_map, st =>
    if x_map = 0 then st
    else x_scan fuel (x_map >>> 1) (scan_body (x_map &&& 1) st)

/-- The y loop `for (i = 0; y_map != 0; i++, y_map <<= 1)` (lines 331-346), with
`bit = y_map & (1 << 31)`; the left shift of the `unsigned int` drops the top bit. The
first argument bounds the number of iterations as in `x_scan` (`y_scan_fuel_enough`). -/
def y_scan : Nat → Nat → BitmapScan → BitmapScan
  | 0, _, st => st
  | fuel + 1, y_map, st =>
    if y_map = 0 then st
    else y_scan fuel ((y_map <<< 1) % 2 ^ 32) (scan_body (y_map &&& (1 <<< 31)) st)

/-- Locals of `alps_process_bitmap` at line 373, after the scans and the bisection. -/
structure BitmapPoints where
  fingers_x : Int
  fingers_y : Int
  fingers : Int
  x_low : alps_bitmap_point
  x_high : alps_bitmap_point
  y_low : alps_bitmap_point
  y_high : alps_bitmap_point
deriving DecidableEq, Repr

/-- Lines 305-372 of `alps_process_bitmap`: both scans, `fingers = max(fingers_x,
fingers_y)`, and the bisection of a single contact when `fingers > 1`. The pre-shift of
line 328 moves bit `ALPS_BITMAP_Y_BITS - 1` of `y_map` to bit 31. -/
def alps_bitmap_points (g : Geometry) (x_map y_map : Nat) : BitmapPoints :=
  let sx := x_scan 32 x_map scan_init
  let y_shifted := (y_map <<< (32 - g.ALPS_BITMAP_Y_BITS).toNat) % 2 ^ 32
  let sy := y_scan 32 y_shifted scan_init
  let fingers := max sx.fingers sy.fingers
  let p : BitmapPoints :=
    { fingers_x := sx.fingers, fingers_y := sy.fingers, fingers := fingers,
      x_low := sx.low, x_high := sx.high, y_low := sy.low, y_high := sy.high }
  if fingers > 1 then
    if p.fingers_x = 1 then
      let i := p.x_low.num_bits.tdiv 2
      { p with
        x_low := { p.x_low with num_bits := p.x_low.num_bits - i },
        x_high := { start_bit := p.x_low.start_bit + i, num_bits := max i 1 } }
    else if p.fingers_y = 1 then
      let i := p.y_low.num_bits.tdiv 2
      { p with
        y_low := { p.y_low with num_bits := p.y_low.num_bits - i },
        y_high := { start_bit := p.y_low.start_bit + i, num_bits := max i 1 } }
    else p
  else p

/-- The four output parameters `*x1`, `*y1`, `*x2`, `*y2` of `alps_process_bitmap`. -/
structure BitmapCoords where
  x1 : Int
  y1 : Int
  x2 : Int
  y2 : Int
deriving DecidableEq, Repr

/-- The scaling expression of lines 374-383: `(max * (2 * start_bit + num_bits - 1)) /
(2 * (bits - 1))` with C division (truncation toward zero). -/
def bitmap_scale (max_coord bits : Int) (p : alps_bitmap_point) : Int :=
  (max_coord * (2 * p.start_bit + p.num_bits - 1)).tdiv (2 * (bits - 1))

/-- The function `alps_process_bitmap` (lines 286-387). The argument `out` holds the
values of `*x1`, `*y1`, `*x2`, `*y2` on entry; the result is the return value together
with the values of the four outputs on exit. On the early return of line 301 the outputs
are left untouched. -/
def alps_process_bitmap (g : Geometry) (x_map y_map : Nat) (out : BitmapCoords) :
    Int × BitmapCoords :=
  if x_map = 0 ∨ y_map = 0 then (0, out)
  else
    let p := alps_bitmap_points g x_map y_map
    let x1 := bitmap_scale g.ALPS_X_MAX g.ALPS_BITMAP_X_BITS p.x_low
    let y1 := bitmap_scale g.ALPS_Y_MAX g.ALPS_BITMAP_Y_BITS p.y_low
    if p.fingers > 1 then
      (p.fingers,
        { x1 := x1, y1 := y1,
          x2 := bitmap_scale g.ALPS_X_MAX g.ALPS_BITMAP_X_BITS p.x_high,
          y2 := bitmap_scale g.ALPS_Y_MAX g.ALPS_BITMAP_Y_BITS p.y_high })
    else
      (p.fingers, { x1 := x1, y1 := y1, x2 := 0, y2 := 0 })

/-! ### Maximal runs of 1 bits (the vocabulary of the bitmap properties) -/

/-- Bits `lo .. hi` of `m` form a maximal run of consecutive 1 bits: they are all set, the
bit below `lo` (if there is one) is clear, and the bit above `hi` is clear. -/
def IsMaximalRun (m lo hi : Nat) : Prop :=
  lo ≤ hi ∧ (∀ k ≤ hi, lo ≤ k → m.testBit k = true) ∧
    (lo = 0 ∨ m.testBit (lo - 1) = false) ∧ m.testBit (hi + 1) = false

instance (m lo hi : Nat) : Decidable (IsMaximalRun m lo hi) := by
  unfold IsMaximalRun
  infer_instance

/-- Number of maximal runs of consecutive 1 bits in a 32-bit value (`unsigned int`). -/
def count_runs (m : Nat) : Nat :=
  ((Finset.range 32 ×ˢ Finset.range 32).filter (fun p => IsMaximalRun m p.1 p.2)).card

/-- The value whose 1 bits are exactly bits `s .. s + n - 1`: one run of `n` bits that
starts at bit `s`. -/
def run_bits (s n : Nat) : Nat := (2 ^ n - 1) <<< s

/-! ### Model table (alps.c lines 78-125, 141-145) -/

/-- Protocol versions `ALPS_PROTO_V1` .. `ALPS_PROTO_V6`. -/
inductive ProtoVersion where
  | ALPS_PROTO_V1
  | ALPS_PROTO_V2
  | ALPS_PROTO_V3
  | ALPS_PROTO_V4
  | ALPS_PROTO_V5
  | ALPS_PROTO_V6
deriving DecidableEq, Repr

open ProtoVersion

def ALPS_DUALPOINT : Nat := 0x02
def ALPS_PASS : Nat := 0x04
def ALPS_WHEEL : Nat := 0x08
def ALPS_FW_BK_1 : Nat := 0x10
def ALPS_FW_BK_2 : Nat := 0x20
def ALPS_FOUR_BUTTONS : Nat := 0x40
def ALPS_PS2_INTERLEAVED : Nat := 0x80

/-- A row of `alps_model_data` (`struct alps_model_info`). The initialisers of the table
list the fields in the order signature, command_mode_resp, proto_version, byte0, mask0,
flags; the row `0x88, 0xf8` of the UMAX-530T can match a byte only in this order. -/
structure alps_model_info where
  signature : Nat × Nat × Nat
  command_mode_resp : Nat
  proto_version : ProtoVersion
  byte0 : Nat
  mask0 : Nat
  flags : Nat
deriving DecidableEq, Repr

/-- The table `alps_model_data` (lines 88-125), row by row. -/
def alps_model_data : List alps_model_info :=
  [ ⟨(0x32, 0x02, 0x14), 0x00, ALPS_PROTO_V2, 0xf8, 0xf8, ALPS_PASS ||| ALPS_DUALPOINT⟩,
    ⟨(0x33, 0x02, 0x0a), 0x00, ALPS_PROTO_V1, 0x88, 0xf8, 0⟩,
    ⟨(0x53, 0x02, 0x0a), 0x00, ALPS_PROTO_V2, 0xf8, 0xf8, 0⟩,
    ⟨(0x53, 0x02, 0x14), 0x00, ALPS_PROTO_V2, 0xf8, 0xf8, 0⟩,
    ⟨(0x60, 0x03, 0xc8), 0x00, ALPS_PROTO_V2, 0xf8, 0xf8, 0⟩,
    ⟨(0x63, 0x02, 0x0a), 0x00, ALPS_PROTO_V2, 0xf8, 0xf8, 0⟩,
    ⟨(0x63, 0x02, 0x14), 0x00, ALPS_PROTO_V2, 0xf8, 0xf8, 0⟩,
    ⟨(0x63, 0x02, 0x28), 0x00, ALPS_PROTO_V2, 0xf8, 0xf8, ALPS_FW_BK_2⟩,
    ⟨(0x63, 0x02, 0x3c), 0x00, ALPS_PROTO_V2, 0x8f, 0x8f, ALPS_WHEEL⟩,
    ⟨(0x63, 0x02, 0x50), 0x00, ALPS_PROTO_V2, 0xef, 0xef, ALPS_FW_BK_1⟩,
    ⟨(0x63, 0x02, 0x64), 0x00, ALPS_PROTO_V2, 0xf8, 0xf8, 0⟩,
    ⟨(0x63, 0x03, 0xc8), 0x00, ALPS_PROTO_V2, 0xf8, 0xf8, ALPS_PASS ||| ALPS_DUALPOINT⟩,
    ⟨(0x73, 0x00, 0x0a), 0x00, ALPS_PROTO_V2, 0xf8, 0xf8, ALPS_DUALPOINT⟩,
    ⟨(0x73, 0x02, 0x0a), 0x00, ALPS_PROTO_V2, 0xf8, 0xf8, 0⟩,
    ⟨(0x73, 0x02, 0x14), 0x00, ALPS_PROTO_V2, 0xf8, 0xf8, ALPS_FW_BK_2⟩,
    ⟨(0x20, 0x02, 0x0e), 0x00, ALPS_PROTO_V2, 0xf8, 0xf8, ALPS_PASS ||| ALPS_DUALPOINT⟩,
    ⟨(0x22, 0x02, 0x0a), 0x00, ALPS_PROTO_V2, 0xf8, 0xf8, ALPS_PASS ||| ALPS_DUALPOINT⟩,
    ⟨(0x22, 0x02, 0x14), 0x00, ALPS_PROTO_V2, 0xff, 0xff, ALPS_PASS ||| ALPS_DUALPOINT⟩,
    ⟨(0x62, 0x02, 0x14), 0x00, ALPS_PROTO_V2, 0xcf, 0xcf,
      ALPS_PASS ||| ALPS_DUALPOINT ||| ALPS_PS2_INTERLEAVED⟩,
    ⟨(0x73, 0x02, 0x50), 0x00, ALPS_PROTO_V2, 0xcf, 0xcf, ALPS_FOUR_BUTTONS⟩,
    ⟨(0x52, 0x01, 0x14), 0x00, ALPS_PROTO_V2, 0xff, 0xff,
      ALPS_PASS ||| ALPS_DUALPOINT ||| ALPS_PS2_INTERLEAVED⟩,
    ⟨(0x73, 0x02, 0x64), 0x9b, ALPS_PROTO_V3, 0x8f, 0x8f, ALPS_DUALPOINT⟩,
    ⟨(0x73, 0x02, 0x64), 0x9d, ALPS_PROTO_V3, 0x8f, 0x8f, ALPS_DUALPOINT⟩,
    ⟨(0x73, 0x02, 0x64), 0x8a, ALPS_PROTO_V4, 0x8f, 0x8f, 0⟩,
    ⟨(0x73, 0x03, 0x0a), 0x1d, ALPS_PROTO_V5, 0x8f, 0x8f, ALPS_DUALPOINT⟩,
    ⟨(0x73, 0x03, 0x50), 0x0d, ALPS_PROTO_V6, 0xc8, 0xc8, 0⟩,
    ⟨(0x73, 0x03, 0x50), 0x02, ALPS_PROTO_V6, 0xc8, 0xc8, 0⟩ ]

/-- The function `alps_is_valid_first_byte` (lines 141-145). -/
def alps_is_valid_first_byte (model : alps_model_info) (data : Nat) : Bool :=
  data &&& model.mask0 == model.byte0

/-- Read of `packet[i]`. -/
def byte_at (packet : List Nat) (i : Nat) : Nat := packet.getD i 0

/-! ### Input layer interface and the V1/V2 decoder (alps.c lines 147-274) -/

/-- The two input devices of a session: `psmouse->dev` and `priv->dev2`. -/
inductive Dev where
  | dev1
  | dev2
deriving DecidableEq, Repr

/-- Key codes used by the driver. -/
inductive Key where
  | BTN_LEFT | BTN_RIGHT | BTN_MIDDLE | BTN_TOUCH | BTN_TOOL_FINGER
  | BTN_FORWARD | BTN_BACK | BTN_0 | BTN_1 | BTN_2 | BTN_3
deriving DecidableEq, Repr

/-- Absolute axis codes used by the driver. -/
inductive AbsAxis where
  | ABS_X | ABS_Y | ABS_PRESSURE | ABS_MT_POSITION_X | ABS_MT_POSITION_Y
deriving DecidableEq, Repr

/-- Relative axis codes used by the driver. -/
inductive RelAxis where
  | REL_X | REL_Y | REL_WHEEL
deriving DecidableEq, Repr

/-- One call into the input layer. `input_report_key` passes `!!value` on, so a key event
carries a truth value. The last three are `input_mt_slot(dev, slot)`,
`input_mt_report_slot_state(dev, MT_TOOL_FINGER, active)` and
`input_mt_report_finger_count(dev, count)`. -/
inductive InputEvent where
  | key (dev : Dev) (code : Key) (value : Bool)
  | abs (dev : Dev) (code : AbsAxis) (value : Int)
  | rel (dev : Dev) (code : RelAxis) (value : Int)
  | sync (dev : Dev)
  | mt_slot (dev : Dev) (slot : Int)
  | mt_slot_state (dev : Dev) (active : Bool)
  | mt_finger_count (dev : Dev) (count : Int)
deriving DecidableEq, Repr

/-- The call `input_report_key(dev, code, value)` for a C integer `value`. -/
def input_report_key (dev : Dev) (code : Key) (value : Nat) : InputEvent :=
  InputEvent.key dev code (decide (value ≠ 0))

/-- The function `alps_report_buttons` (lines 147-172); `d1` and `d2` are its parameters
`dev1` and `dev2`. The argument `key_state d k` is `test_bit(k, d->key)`, the key state
the input layer holds for device `d`. -/
def alps_report_buttons (key_state : Dev → Key → Bool) (d1 d2 : Dev)
    (left right middle : Nat) : List InputEvent :=
  [ input_report_key (if key_state d2 Key.BTN_LEFT then d2 else d1) Key.BTN_LEFT left,
    input_report_key (if key_state d2 Key.BTN_RIGHT then d2 else d1) Key.BTN_RIGHT right,
    input_report_key (if key_state d2 Key.BTN_MIDDLE then d2 else d1) Key.BTN_MIDDLE middle,
    InputEvent.sync d2 ]

/-- Fields of `struct alps_data` (`psmouse->private`) that the packet decoders read or
write. -/
structure alps_data where
  prev_fin : Nat
  multi_packet : Int
  multi_data : List Nat
  x1 : Int
  x2 : Int
  y1 : Int
  y2 : Int
  fingers : Int
  quirks : Nat
deriving DecidableEq, Repr

/-- The function `alps_process_packet_v1_v2` (lines 174-274): the new session state and
the input events, in call order. -/
def alps_process_packet_v1_v2 (model : alps_model_info) (key_state : Dev → Key → Bool)
    (priv : alps_data) (packet : List Nat) : alps_data × List InputEvent :=
  let isV1 := model.proto_version = ALPS_PROTO_V1
  let left := if isV1 then byte_at packet 2 &&& 0x10 else byte_at packet 3 &&& 1
  let right := if isV1 then byte_at packet 2 &&& 0x08 else byte_at packet 3 &&& 2
  let middle0 := if isV1 then 0 else byte_at packet 3 &&& 4
  let x := if isV1 then byte_at packet 1 ||| ((byte_at packet 0 &&& 0x07) <<< 7)
    else byte_at packet 1 ||| ((byte_at packet 2 &&& 0x78) <<< (7 - 3))
  let y := if isV1 then byte_at packet 4 ||| ((byte_at packet 3 &&& 0x07) <<< 7)
    else byte_at packet 4 ||| ((byte_at packet 3 &&& 0x70) <<< (7 - 4))
  let z0 := byte_at packet 5
  let fb1 := model.flags &&& ALPS_FW_BK_1 ≠ 0
  let back1 := if fb1 then byte_at packet 0 &&& 0x10 else 0
  let forward1 := if fb1 then byte_at packet 2 &&& 4 else 0
  let fb2 := model.flags &&& ALPS_FW_BK_2 ≠ 0
  let back2 := if fb2 then byte_at packet 3 &&& 4 else back1
  let forward2 := if fb2 then byte_at packet 2 &&& 4 else forward1
  let middle := if fb2 then (if forward2 ≠ 0 ∧ back2 ≠ 0 then 1 else 0) else middle0
  let back := if fb2 ∧ middle ≠ 0 then 0 else back2
  let forward := if fb2 ∧ middle ≠ 0 then 0 else forward2
  let ges := byte_at packet 2 &&& 1
  let fin := byte_at packet 2 &&& 2
  if model.flags &&& ALPS_DUALPOINT ≠ 0 ∧ z0 = 127 then
    (priv,
      [ InputEvent.rel Dev.dev2 RelAxis.REL_X (if x > 383 then (x : Int) - 768 else x),
        InputEvent.rel Dev.dev2 RelAxis.REL_Y (-(if y > 255 then (y : Int) - 512 else y)) ]
      ++ alps_report_buttons key_state Dev.dev2 Dev.dev1 left right middle
      ++ [InputEvent.sync Dev.dev2])
  else
    let z := if ges ≠ 0 ∧ fin = 0 then 40 else z0
    ({ priv with prev_fin := fin },
      alps_report_buttons key_state Dev.dev1 Dev.dev2 left right middle
      ++ (if ges ≠ 0 ∧ fin ≠ 0 ∧ priv.prev_fin = 0 then
            [ InputEvent.abs Dev.dev1 AbsAxis.ABS_X x,
              InputEvent.abs Dev.dev1 AbsAxis.ABS_Y y,
              InputEvent.abs Dev.dev1 AbsAxis.ABS_PRESSURE 0,
              input_report_key Dev.dev1 Key.BTN_TOOL_FINGER 0,
              InputEvent.sync Dev.dev1 ]
          else [])
      ++ (if z > 30 then [input_report_key Dev.dev1 Key.BTN_TOUCH 1] else [])
      ++ (if z < 25 then [input_report_key Dev.dev1 Key.BTN_TOUCH 0] else [])
      ++ (if z > 0 then
            [ InputEvent.abs Dev.dev1 AbsAxis.ABS_X x, InputEvent.abs Dev.dev1 AbsAxis.ABS_Y y ]
          else [])
      ++ [ InputEvent.abs Dev.dev1 AbsAxis.ABS_PRESSURE z,
           input_report_key Dev.dev1 Key.BTN_TOOL_FINGER (if z > 0 then 1 else 0) ]
      ++ (if model.flags &&& ALPS_WHEEL ≠ 0 then
            [ InputEvent.rel Dev.dev1 RelAxis.REL_WHEEL
                ((((byte_at packet 2 <<< 1) &&& 0x08 : Nat) : Int)
                  - (((byte_at packet 0 >>> 4) &&& 0x07 : Nat) : Int)) ]
          else [])
      ++ (if model.flags &&& (ALPS_FW_BK_1 ||| ALPS_FW_BK_2) ≠ 0 then
            [ input_report_key Dev.dev1 Key.BTN_FORWARD forward,
              input_report_key Dev.dev1 Key.BTN_BACK back ]
          else [])
      ++ (if model.flags &&& ALPS_FOUR_BUTTONS ≠ 0 then
            [ input_report_key Dev.dev1 Key.BTN_0 (byte_at packet 2 &&& 4),
              input_report_key Dev.dev1 Key.BTN_1 (byte_at packet 0 &&& 0x10),
              input_report_key Dev.dev1 Key.BTN_2 (byte_at packet 3 &&& 4),
              input_report_key Dev.dev1 Key.BTN_3 (byte_at packet 0 &&& 0x20) ]
          else [])
      ++ [InputEvent.sync Dev.dev1])

/-- A well-formed V1/V2 packet for `model`: six bytes, the first passing the first-byte
test of the model, the other five with the high bit clear (what `alps_process_byte`
lets through to the decoder for these protocol versions). -/
def valid_v1_v2_packet (model : alps_model_info) (packet : List Nat) : Prop :=
  (model.proto_version = ALPS_PROTO_V1 ∨ model.proto_version = ALPS_PROTO_V2) ∧
    packet.length = 6 ∧ (∀ b ∈ packet, b < 256) ∧
    alps_is_valid_first_byte model (byte_at packet 0) = true ∧
    ∀ i < 6, 1 ≤ i → byte_at packet i &&& 0x80 = 0

instance (model : alps_model_info) (packet : List Nat) :
    Decidable (valid_v1_v2_packet model packet) := by
  unfold valid_v1_v2_packet
  infer_instance

/-! ### Framing state machine (alps.c lines 802-1009, 2238) -/

/-- Return values of a protocol handler (`psmouse_ret_t`). -/
inductive psmouse_ret_t where
  | PSMOUSE_BAD_DATA
  | PSMOUSE_GOOD_DATA
  | PSMOUSE_FULL_PACKET
deriving DecidableEq, Repr

open psmouse_ret_t

/-- Fields of `struct psmouse` used by the framing code: the packet buffer
`packet` (eight bytes), the number of buffered bytes `pktcnt`, and `pktsize`. -/
structure psmouse where
  packet : List Nat
  pktcnt : Nat
  pktsize : Nat
deriving DecidableEq, Repr

/-- What the framing code does besides updating the buffer, in call order: a call of
`alps_process_packet` (recorded with the buffer it is called on), a call of
`alps_report_bare_ps2_packet` (with the three bytes it points at and `report_buttons`),
and the two timer operations. -/
inductive FramingCall where
  | process_packet (packet : List Nat)
  | report_bare_ps2_packet (b0 b1 b2 : Nat) (report_buttons : Bool)
  | mod_timer
  | del_timer
deriving DecidableEq, Repr

/-- The packet size `alps_init` stores in `psmouse->pktsize` (line 2238). -/
def alps_pktsize (model : alps_model_info) : Nat :=
  if model.proto_version = ALPS_PROTO_V4 then 8 else 6

/-- The function `alps_handle_interleaved_ps2` (lines 852-931). -/
def alps_handle_interleaved_ps2 (model : alps_model_info) (ps : psmouse) :
    psmouse × psmouse_ret_t × List FramingCall :=
  if ps.pktcnt < 6 then (ps, PSMOUSE_GOOD_DATA, [])
  else if ps.pktcnt = 6 then (ps, PSMOUSE_GOOD_DATA, [FramingCall.mod_timer])
  else if byte_at ps.packet 6 &&& 0x80 ≠ 0 then
    if (byte_at ps.packet 3 ||| byte_at ps.packet 4 ||| byte_at ps.packet 5) &&& 0x80 ≠ 0
        ∨ alps_is_valid_first_byte model (byte_at ps.packet 6) = false then
      (ps, PSMOUSE_BAD_DATA, [FramingCall.del_timer])
    else
      ({ ps with packet := ps.packet.set 0 (byte_at ps.packet 6), pktcnt := 1 },
        PSMOUSE_GOOD_DATA,
        [FramingCall.del_timer, FramingCall.process_packet ps.packet])
  else
    ({ ps with packet := ps.packet.set 3 (byte_at ps.packet 6 &&& 0xf7), pktcnt := 4 },
      PSMOUSE_GOOD_DATA,
      [FramingCall.del_timer,
        FramingCall.report_bare_ps2_packet (byte_at ps.packet 3) (byte_at ps.packet 4)
          (byte_at ps.packet 5) false])

/-- The function `alps_flush_packet` (lines 933-960), the timer callback. -/
def alps_flush_packet (ps : psmouse) : psmouse × List FramingCall :=
  if ps.pktcnt = ps.pktsize then
    if (byte_at ps.packet 3 ||| byte_at ps.packet 4 ||| byte_at ps.packet 5) &&& 0x80 ≠ 0 then
      ({ ps with pktcnt := 0 }, [])
    else
      ({ ps with pktcnt := 0 }, [FramingCall.process_packet ps.packet])
  else (ps, [])

/-- The function `alps_process_byte` (lines 962-1009), the protocol handler. -/
def alps_process_byte (model : alps_model_info) (ps : psmouse) :
    psmouse × psmouse_ret_t × List FramingCall :=
  if byte_at ps.packet 0 &&& 0xc8 = 0x08 then
    if ps.pktcnt = 3 then
      (ps, PSMOUSE_FULL_PACKET,
        [FramingCall.report_bare_ps2_packet (byte_at ps.packet 0) (byte_at ps.packet 1)
          (byte_at ps.packet 2) true])
    else (ps, PSMOUSE_GOOD_DATA, [])
  else if model.flags &&& ALPS_PS2_INTERLEAVED ≠ 0 ∧ ps.pktcnt ≥ 4
      ∧ byte_at ps.packet 3 &&& 0x0f = 0x0f then
    alps_handle_interleaved_ps2 model ps
  else if alps_is_valid_first_byte model (byte_at ps.packet 0) = false then
    (ps, PSMOUSE_BAD_DATA, [])
  else if model.proto_version ≠ ALPS_PROTO_V6 ∧ ps.pktcnt ≥ 2 ∧ ps.pktcnt ≤ ps.pktsize
      ∧ byte_at ps.packet (ps.pktcnt - 1) &&& 0x80 ≠ 0 then
    (ps, PSMOUSE_BAD_DATA, [])
  else if ps.pktcnt = ps.pktsize then
    (ps, PSMOUSE_FULL_PACKET, [FramingCall.process_packet ps.packet])
  else (ps, PSMOUSE_GOOD_DATA, [])

/-- What arrives at the driver: a byte from the serial port, or the expiry of the flush
timer. -/
inductive WireInput where
  | byte (data : Nat)
  | flush
deriving DecidableEq, Repr

/-- Modelled from the spec: the byte dispatch of the psmouse core, which is not part of
alps.c. The core stores the received byte at `packet[pktcnt]`, increments `pktcnt`,
calls the protocol handler, and empties the buffer (`pktcnt = 0`) when the handler
returns `PSMOUSE_BAD_DATA` or `PSMOUSE_FULL_PACKET`. The result carries the value the
handler returned. -/
def psmouse_handle_byte (model : alps_model_info) (ps : psmouse) (data : Nat) :
    psmouse × psmouse_ret_t × List FramingCall :=
  let r := alps_process_byte model
    { ps with packet := ps.packet.set ps.pktcnt data, pktcnt := ps.pktcnt + 1 }
  if r.2.1 = PSMOUSE_GOOD_DATA then r
  else ({ r.1 with pktcnt := 0 }, r.2.1, r.2.2)

/-- One step of the framing state machine on one input, with the calls it makes. -/
def framing_step (model : alps_model_info) (ps : psmouse) (inp : WireInput) :
    psmouse × List FramingCall :=
  match inp with
  | WireInput.byte data =>
    let r := psmouse_handle_byte model ps data
    (r.1, r.2.2)
  | WireInput.flush => alps_flush_packet ps

/-- The framing state machine run over a sequence of inputs: the final buffer state and
all calls made, in order. -/
def framing_run (model : alps_model_info) : psmouse → List WireInput → psmouse × List FramingCall
  | ps, [] => (ps, [])
  | ps, inp :: rest =>
    let r := framing_step model ps inp
    let r2 := framing_run model r.1 rest
    (r2.1, r.2 ++ r2.2)

/-- The buffers on which `alps_process_packet` (the variant decoder) was called. -/
def decoded_packets : List FramingCall → List (List Nat)
  | [] => []
  | FramingCall.process_packet p :: rest => p :: decoded_packets rest
  | _ :: rest => decoded_packets rest

/-- An empty packet buffer for `model`: eight bytes of arbitrary content, no byte
buffered, `pktsize` as set by `alps_init`. -/
def psmouse_empty (model : alps_model_info) (packet : List Nat) : psmouse :=
  { packet := packet, pktcnt := 0, pktsize := alps_pktsize model }


/-- What holds of the packet buffer between two inputs, as far as byte 0 is concerned:
when bytes are buffered, either byte 0 matches the bare PS/2 signature of line 967 and
fewer than three bytes are buffered, or it does not match it and passes the first-byte
test of the model. -/
def FirstByteInv (model : alps_model_info) (ps : psmouse) : Prop :=
  3 ≤ ps.pktsize ∧ 1 ≤ ps.packet.length ∧
    (1 ≤ ps.pktcnt →
      (byte_at ps.packet 0 &&& 0xc8 = 0x08 ∧ ps.pktcnt < 3) ∨
      (byte_at ps.packet 0 &&& 0xc8 ≠ 0x08 ∧
        alps_is_valid_first_byte model (byte_at ps.packet 0) = true))


/-- Bytes `1 .. n - 1` of a buffer all have the high bit (0x80) clear. -/
def ClearUpTo (packet : List Nat) (n : Nat) : Prop :=
  ∀ i, 1 ≤ i → i < n → byte_at packet i &&& 0x80 = 0

/-- The test of lines 977-978 of `alps_process_byte` that sends a byte to
`alps_handle_interleaved_ps2`. -/
def InterleavedActive (model : alps_model_info) (ps : psmouse) : Prop :=
  model.flags &&& ALPS_PS2_INTERLEAVED ≠ 0 ∧ ps.pktcnt ≥ 4 ∧ byte_at ps.packet 3 &&& 0x0f = 0x0f

/-- What holds of the packet buffer between two inputs, as far as the high bits are
concerned: a bare PS/2 packet in progress holds fewer than three bytes; during the
interleaved handling at most six bytes are buffered and bytes 1 and 2 have the high bit
clear; otherwise fewer than `pktsize` bytes are buffered and all of them after the first
have the high bit clear. -/
def HighBitInv (model : alps_model_info) (ps : psmouse) : Prop :=
  ps.pktsize = alps_pktsize model ∧ ps.packet.length = 8 ∧
    (1 ≤ ps.pktcnt →
      (byte_at ps.packet 0 &&& 0xc8 = 0x08 ∧ ps.pktcnt < 3) ∨
      (byte_at ps.packet 0 &&& 0xc8 ≠ 0x08 ∧
        ((InterleavedActive model ps ∧ ps.pktcnt ≤ 6 ∧ ClearUpTo ps.packet 3) ∨
          (¬ InterleavedActive model ps ∧ ps.pktcnt < ps.pktsize ∧
            ClearUpTo ps.packet ps.pktcnt))))

/-- The state of the buffer right after the core has stored a byte and before the
protocol handler runs, for a buffer that satisfied `HighBitInv` before the store. -/
def HighBitPre (model : alps_model_info) (ps : psmouse) : Prop :=
  ps.pktsize = alps_pktsize model ∧ ps.packet.length = 8 ∧ 1 ≤ ps.pktcnt ∧
    (2 ≤ ps.pktcnt →
      (byte_at ps.packet 0 &&& 0xc8 = 0x08 ∧ ps.pktcnt ≤ 3) ∨
      (byte_at ps.packet 0 &&& 0xc8 ≠ 0x08 ∧
        ((InterleavedActive model ps ∧ ps.pktcnt ≤ 7 ∧ ClearUpTo ps.packet 3) ∨
          (¬ InterleavedActive model ps ∧ ps.pktcnt ≤ ps.pktsize ∧
            ClearUpTo ps.packet (ps.pktcnt - 1)))))

/-- Row 19 of `alps_model_data` (Dell Latitude E5500, E6400, E6500, Precision M4400), a
V2 model with the `ALPS_PS2_INTERLEAVED` flag. -/
def model_dell_e6400 : alps_model_info :=
  ⟨(0x62, 0x02, 0x14), 0x00, ALPS_PROTO_V2, 0xcf, 0xcf,
    ALPS_PASS ||| ALPS_DUALPOINT ||| ALPS_PS2_INTERLEAVED⟩

/-- Row 1 of `alps_model_data` (Toshiba Satellite Pro M10), a V2 model with the
`ALPS_DUALPOINT` flag. -/
def model_toshiba_m10 : alps_model_info :=
  ⟨(0x32, 0x02, 0x14), 0x00, ALPS_PROTO_V2, 0xf8, 0xf8, ALPS_PASS ||| ALPS_DUALPOINT⟩

/-- Row 3 of `alps_model_data`, a V2 model without capability flags. -/
def model_plain_v2 : alps_model_info :=
  ⟨(0x53, 0x02, 0x0a), 0x00, ALPS_PROTO_V2, 0xf8, 0xf8, 0⟩

/-- Row 26 of `alps_model_data` (Dell Inspiron N5110), a V6 model. -/
def model_dell_n5110 : alps_model_info :=
  ⟨(0x73, 0x03, 0x50), 0x0d, ALPS_PROTO_V6, 0xc8, 0xc8, 0⟩

/-- The values reported for `BTN_TOUCH`, in call order, among a list of input events. -/
def btn_touch_reports (events : List InputEvent) : List Bool :=
  events.filterMap fun e =>
    match e with
    | InputEvent.key _ Key.BTN_TOUCH v => some v
    | _ => none

/-- A session state with every field zero, as `kzalloc` leaves it in `alps_init`. -/
def alps_data_zero : alps_data :=
  { prev_fin := 0, multi_packet := 0, multi_data := [0, 0, 0, 0, 0, 0],
    x1 := 0, x2 := 0, y1 := 0, y2 := 0, fingers := 0, quirks := 0 }

/-- Bit `i` of `m` begins a maximal run of 1 bits: it is set and the bit below it (if
there is one) is clear. -/
def IsRunStart (m i : Nat) : Prop :=
  m.testBit i = true ∧ (i = 0 ∨ m.testBit (i - 1) = false)

instance (m i : Nat) : Decidable (IsRunStart m i) := by
  unfold IsRunStart
  infer_instance

/-- Bit `i` of `m` ends a maximal run of 1 bits: it is set and the bit above it is
clear. -/
def IsRunTop (m i : Nat) : Prop :=
  m.testBit i = true ∧ m.testBit (i + 1) = false

instance (m i : Nat) : Decidable (IsRunTop m i) := by
  unfold IsRunTop
  infer_instance


/-! ### Sequences of V1/V2 packets and the touch state -/

/-- The decoder `alps_process_packet_v1_v2` called on a sequence of packets, one call per
packet, each with the key state the input layer holds at that moment: the final session
state and all input events, in call order. -/
def v1_v2_run (model : alps_model_info) :
    alps_data → List ((Dev → Key → Bool) × List Nat) → alps_data × List InputEvent
  | priv, [] => (priv, [])
  | priv, (key_state, packet) :: rest =>
    let r := alps_process_packet_v1_v2 model key_state priv packet
    let r2 := v1_v2_run model r.1 rest
    (r2.1, r.2 ++ r2.2)

/-- Modelled from the spec: the touch state held by the input sink, which is not part of
alps.c. It is the last value reported for `BTN_TOUCH`, and the value it had before when
no report was made. -/
def touch_state (before : Bool) (events : List InputEvent) : Bool :=
  ((btn_touch_reports events).getLast?).getD before

/-- A V1/V2 packet in the hysteresis band: it does not flag a hardware tap (`packet[2] &
1` set with `packet[2] & 2` clear) and its pressure byte lies in 25 .. 30. -/
def in_hysteresis_band (packet : List Nat) : Prop :=
  ¬ (byte_at packet 2 &&& 1 ≠ 0 ∧ byte_at packet 2 &&& 2 = 0) ∧
    25 ≤ byte_at packet 5 ∧ byte_at packet 5 ≤ 30

instance (packet : List Nat) : Decidable (in_hysteresis_band packet) := by
  unfold in_hysteresis_band
  infer_instance

/-! ### Semi-multitouch reports and the V4 decoder (alps.c lines 389-405, 619-714) -/

/-- The function `alps_set_slot` (lines 389-398). -/
def alps_set_slot (dev : Dev) (slot : Int) (active : Bool) (x y : Int) : List InputEvent :=
  [InputEvent.mt_slot dev slot, InputEvent.mt_slot_state dev active] ++
    (if active then
      [InputEvent.abs dev AbsAxis.ABS_MT_POSITION_X x,
        InputEvent.abs dev AbsAxis.ABS_MT_POSITION_Y y]
    else [])

/-- The function `alps_report_semi_mt_data` (lines 400-405). -/
def alps_report_semi_mt_data (dev : Dev) (num_fingers : Int) (x1 y1 x2 y2 : Int) :
    List InputEvent :=
  alps_set_slot dev 0 (decide (num_fingers ≠ 0)) x1 y1 ++
    alps_set_slot dev 1 (decide (num_fingers = 2)) x2 y2

/-- What a call of `alps_process_packet_v4` does: the new session state, the input
events in call order, and the arguments `(x_bitmap, y_bitmap)` of each call of
`alps_process_bitmap` it makes. -/
structure V4Out where
  priv : alps_data
  events : List InputEvent
  bitmap_calls : List (Nat × Nat)
deriving DecidableEq, Repr

/-- The expression of lines 651-654 that assembles `x_bitmap` from `priv->multi_data`. -/
def v4_x_bitmap (md : List Nat) : Nat :=
  ((byte_at md 2 &&& 0x1f) <<< 10) ||| ((byte_at md 3 &&& 0x60) <<< 3) |||
    ((byte_at md 0 &&& 0x3f) <<< 2) ||| ((byte_at md 1 &&& 0x60) >>> 5)

/-- The expression of lines 655-657 that assembles `y_bitmap` from `priv->multi_data`. -/
def v4_y_bitmap (md : List Nat) : Nat :=
  ((byte_at md 5 &&& 0x01) <<< 10) ||| ((byte_at md 3 &&& 0x1f) <<< 5) |||
    (byte_at md 1 &&& 0x1f)

/-- Lines 644-646 of `alps_process_packet_v4`: the two fragment bytes `packet[6]` and
`packet[7]` are stored in `priv->multi_data` at `offset = 2 * priv->multi_packet` and
`offset + 1`. -/
def v4_store_fragment (multi_data : List Nat) (multi_packet : Int) (packet : List Nat) :
    List Nat :=
  (multi_data.set (2 * multi_packet).toNat (byte_at packet 6)).set
    ((2 * multi_packet).toNat + 1) (byte_at packet 7)

/-- The function `alps_process_packet_v4` (lines 619-714). The argument `uninit` holds the
indeterminate values of the uninitialised locals `x1`, `y1`, `x2`, `y2`. The fragment
counter `priv->multi_packet` is used as an array index; the embedding follows the C code
for counters that are not negative. -/
def alps_process_packet_v4 (g : Geometry) (priv : alps_data) (packet : List Nat)
    (uninit : BitmapCoords) : V4Out :=
  let mp0 : Int := if byte_at packet 6 &&& 0x40 ≠ 0 then 0 else priv.multi_packet
  if mp0 > 2 then
    { priv := { priv with multi_packet := mp0 }, events := [], bitmap_calls := [] }
  else
    let md := v4_store_fragment priv.multi_data mp0 packet
    let mp1 : Int := mp0 + 1
    let bm := alps_process_bitmap g (v4_x_bitmap md) (v4_y_bitmap md) uninit
    let priv1 : alps_data :=
      if mp1 > 2 then
        { priv with multi_packet := 0, multi_data := md, fingers := bm.1,
                    x1 := bm.2.x1, x2 := bm.2.x2, y1 := bm.2.y1, y2 := bm.2.y2 }
      else { priv with multi_packet := mp1, multi_data := md }
    let loc : BitmapCoords := if mp1 > 2 then bm.2 else uninit
    let left := byte_at packet 4 &&& 0x01
    let right := byte_at packet 4 &&& 0x02
    let x : Nat := ((byte_at packet 1 &&& 0x7f) <<< 4) ||| ((byte_at packet 3 &&& 0x30) >>> 2) |||
      ((byte_at packet 0 &&& 0x30) >>> 4)
    let y : Nat := ((byte_at packet 2 &&& 0x7f) <<< 4) ||| (byte_at packet 3 &&& 0x0f)
    let z : Nat := byte_at packet 5 &&& 0x7f
    let st : Bool := decide (priv1.fingers < 2)
    let fingers : Int := if st then (if z > 0 then 1 else 0) else priv1.fingers
    let x1 : Int := if st then x else priv1.x1
    let y1 : Int := if st then y else priv1.y1
    let x2 : Int := if st then loc.x2 else priv1.x2
    let y2 : Int := if st then loc.y2 else priv1.y2
    { priv := priv1,
      events :=
        [input_report_key Dev.dev1 Key.BTN_TOUCH (if z ≥ 64 then 1 else 0)]
        ++ alps_report_semi_mt_data Dev.dev1 fingers x1 y1 x2 y2
        ++ [ InputEvent.mt_finger_count Dev.dev1 fingers,
             input_report_key Dev.dev1 Key.BTN_LEFT left,
             input_report_key Dev.dev1 Key.BTN_RIGHT right ]
        ++ (if z > 0 then
              [ InputEvent.abs Dev.dev1 AbsAxis.ABS_X x, InputEvent.abs Dev.dev1 AbsAxis.ABS_Y y ]
            else [])
        ++ [InputEvent.abs Dev.dev1 AbsAxis.ABS_PRESSURE z, InputEvent.sync Dev.dev1],
      bitmap_calls := if mp1 > 2 then [(v4_x_bitmap md, v4_y_bitmap md)] else [] }

/-- The cached contact count and coordinates `priv->fingers`, `priv->x1`, `priv->y1`,
`priv->x2`, `priv->y2`. -/
def cached_contacts (priv : alps_data) : Int × Int × Int × Int × Int :=
  (priv.fingers, priv.x1, priv.y1, priv.x2, priv.y2)

/-- The sync flag of a V4 packet: bit 6 of byte 6. -/
def v4_sync (packet : List Nat) : Bool := decide (byte_at packet 6 &&& 0x40 ≠ 0)

/-- The decoder `alps_process_packet_v4` called on a sequence of packets. Each result is
listed together with the number of fragments stored since the last sync-flag reset or
bitmap decode, the fragment of that call included; that number is kept apart from the
session state: a sync flag sets it to 0 before the fragment is counted, and a bitmap
decode sets it to 0 for the next call. -/
def v4_run (g : Geometry) :
    alps_data → Nat → List (List Nat × BitmapCoords) → List (V4Out × Nat)
  | _, _, [] => []
  | priv, stored, (packet, uninit) :: rest =>
    let out := alps_process_packet_v4 g priv packet uninit
    let stored1 := (if v4_sync packet then 0 else stored) + 1
    (out, stored1) :: v4_run g out.priv (if out.bitmap_calls ≠ [] then 0 else stored1) rest

/-! ### Transport interface and the command-mode register engine (alps.c lines 37-75,
1011-1179) -/

/-- The command codes `PSMOUSE_CMD_*` that alps.c passes to `ps2_command`. They are
defined in psmouse.h, which is not part of the source, and are taken as a parameter. -/
structure psmouse_commands where
  SETSCALE11 : Nat
  SETSCALE21 : Nat
  SETRES : Nat
  GETINFO : Nat
  SETSTREAM : Nat
  SETPOLL : Nat
  RESET_WRAP : Nat
  SETRATE : Nat
  ENABLE : Nat
  DISABLE : Nat
  RESET_DIS : Nat
deriving DecidableEq, Repr

/-- The values of the codes in the psmouse.h of the Linux kernel. The definitions of the
driver do not depend on them; they serve to evaluate the definitions at concrete
inputs. -/
def linux_psmouse_commands : psmouse_commands :=
  { SETSCALE11 := 0x00e6, SETSCALE21 := 0x00e7, SETRES := 0x10e8, GETINFO := 0x03e9,
    SETSTREAM := 0x00ea, SETPOLL := 0x00f0, RESET_WRAP := 0x00ec, SETRATE := 0x10f3,
    ENABLE := 0x00f4, DISABLE := 0x00f5, RESET_DIS := 0x00f6 }

def ALPS_CMD_NIBBLE_10 : Nat := 0x01f2

/-- An entry of a nibble table (`struct alps_nibble_commands`): the command that stands
for a nibble and its data byte. -/
structure alps_nibble_commands where
  command : Nat
  data : Nat
deriving DecidableEq, Repr

/-- The table `alps_v3_nibble_commands` (lines 39-56). -/
def alps_v3_nibble_commands (K : psmouse_commands) : List alps_nibble_commands :=
  [ ⟨K.SETPOLL, 0x00⟩, ⟨K.RESET_DIS, 0x00⟩, ⟨K.SETSCALE21, 0x00⟩, ⟨K.SETRATE, 0x0a⟩,
    ⟨K.SETRATE, 0x14⟩, ⟨K.SETRATE, 0x28⟩, ⟨K.SETRATE, 0x3c⟩, ⟨K.SETRATE, 0x50⟩,
    ⟨K.SETRATE, 0x64⟩, ⟨K.SETRATE, 0xc8⟩, ⟨ALPS_CMD_NIBBLE_10, 0x00⟩, ⟨K.SETRES, 0x00⟩,
    ⟨K.SETRES, 0x01⟩, ⟨K.SETRES, 0x02⟩, ⟨K.SETRES, 0x03⟩, ⟨K.SETSCALE11, 0x00⟩ ]

/-- The table `alps_v4_nibble_commands` (lines 58-75). -/
def alps_v4_nibble_commands (K : psmouse_commands) : List alps_nibble_commands :=
  [ ⟨K.ENABLE, 0x00⟩, ⟨K.RESET_DIS, 0x00⟩, ⟨K.SETSCALE21, 0x00⟩, ⟨K.SETRATE, 0x0a⟩,
    ⟨K.SETRATE, 0x14⟩, ⟨K.SETRATE, 0x28⟩, ⟨K.SETRATE, 0x3c⟩, ⟨K.SETRATE, 0x50⟩,
    ⟨K.SETRATE, 0x64⟩, ⟨K.SETRATE, 0xc8⟩, ⟨ALPS_CMD_NIBBLE_10, 0x00⟩, ⟨K.SETRES, 0x00⟩,
    ⟨K.SETRES, 0x01⟩, ⟨K.SETRES, 0x02⟩, ⟨K.SETRES, 0x03⟩, ⟨K.SETSCALE11, 0x00⟩ ]

/-- The fields `nibble_commands` and `addr_command` of `struct alps_data`, which select
the command set of the register engine. -/
structure alps_command_set where
  nibble_commands : List alps_nibble_commands
  addr_command : Nat
deriving DecidableEq, Repr

/-- The command set that `alps_hw_init_v3` installs (lines 1551-1552). -/
def command_set_v3 (K : psmouse_commands) : alps_command_set :=
  { nibble_commands := alps_v3_nibble_commands K, addr_command := K.RESET_WRAP }

/-- The command set that `alps_hw_init_v4` installs (lines 1681-1682). -/
def command_set_v4 (K : psmouse_commands) : alps_command_set :=
  { nibble_commands := alps_v4_nibble_commands K, addr_command := K.DISABLE }

/-- What one call of the transport leaves behind: the state of the device, whether the
call failed (`ps2_command` returned non-zero), and the contents of the parameter buffer
after the call. -/
structure ps2_reply (σ : Type) where
  state : σ
  failed : Bool
  param : List Nat

/-- The transport primitive `ps2_command(ps2dev, param, command)` of libps2, which is not
part of the source, as a parameter: a function of the device state, the parameter buffer
and the command. The buffer argument is `none` for `param == NULL`, and otherwise holds
the bytes the driver has written to the buffer, none for an uninitialised local array.
The reply holds the buffer as the call leaves it. -/
abbrev Transport (σ : Type) := σ → Option (List Nat) → Nat → ps2_reply σ

/-- A record of one call of `ps2_command`: the command, the buffer passed, whether the
call failed and the buffer after the call. -/
structure ps2_call where
  command : Nat
  param : Option (List Nat)
  failed : Bool
  reply : List Nat
deriving DecidableEq, Repr

/-- The outcome of a driver function that talks to the device: its return value, the
device state, the calls of `ps2_command` it made, in order, and the contents of the
buffer it fills for its caller (empty when it has none). -/
structure CmdResult (σ : Type) where
  ret : Int
  state : σ
  calls : List ps2_call
  param : List Nat

/-- One call of `ps2_command`. The buffer is an array of `unsigned char`, so every byte
the transport leaves in it is kept modulo 256. The return value is non-zero exactly on
failure. -/
def ps2_command {σ : Type} (T : Transport σ) (s : σ) (param : Option (List Nat))
    (command : Nat) : CmdResult σ :=
  let r := T s param command
  { ret := if r.failed then -1 else 0,
    state := r.state,
    calls := [⟨command, param, r.failed, r.param.map (· % 256)⟩],
    param := r.param.map (· % 256) }

/-- The function `alps_command_mode_send_nibble` (lines 1011-1029). Commands that read a
reply (`command & 0x0f00`) get the uninitialised local `dummy`, the others get the data
byte of the table entry. Every caller masks the nibble with `0xf`. -/
def alps_command_mode_send_nibble {σ : Type} (cs : alps_command_set) (T : Transport σ)
    (s : σ) (nibble : Nat) : CmdResult σ :=
  let command := (cs.nibble_commands.getD nibble ⟨0, 0⟩).command
  let param : List Nat :=
    if command &&& 0x0f00 ≠ 0 then [] else [(cs.nibble_commands.getD nibble ⟨0, 0⟩).data]
  let r := ps2_command T s (some param) command
  if r.ret ≠ 0 then { r with ret := -1, param := [] } else { r with ret := 0, param := [] }

/-- The command and the buffer of the call of `ps2_command` by which
`alps_command_mode_send_nibble` sends `nibble`. -/
def nibble_request (cs : alps_command_set) (nibble : Nat) : Nat × Option (List Nat) :=
  ((cs.nibble_commands.getD nibble ⟨0, 0⟩).command,
    some (if (cs.nibble_commands.getD nibble ⟨0, 0⟩).command &&& 0x0f00 ≠ 0 then []
      else [(cs.nibble_commands.getD nibble ⟨0, 0⟩).data]))

/-- The loop of `alps_command_mode_set_addr` (lines 1057-1061) with `k` iterations left,
that is, at `i = 4 * (k - 1)`. -/
def set_addr_loop {σ : Type} (cs : alps_command_set) (T : Transport σ) (addr : Nat) :
    Nat → σ → CmdResult σ
  | 0, s => { ret := 0, state := s, calls := [], param := [] }
  | k + 1, s =>
    let r := alps_command_mode_send_nibble cs T s ((addr >>> (4 * k)) &&& 0xf)
    if r.ret ≠ 0 then { r with ret := -1 }
    else
      let r2 := set_addr_loop cs T addr k r.state
      { r2 with calls := r.calls ++ r2.calls }

/-- The function `alps_command_mode_set_addr` (lines 1048-1064). Every caller passes a
non-negative address. -/
def alps_command_mode_set_addr {σ : Type} (cs : alps_command_set) (T : Transport σ)
    (s : σ) (addr : Nat) : CmdResult σ :=
  let r := ps2_command T s none cs.addr_command
  if r.ret ≠ 0 then { r with ret := -1, param := [] }
  else
    let r2 := set_addr_loop cs T addr 4 r.state
    { r2 with calls := r.calls ++ r2.calls }

/-- The function `__alps_command_mode_read_reg` (lines 1066-1083). -/
def __alps_command_mode_read_reg {σ : Type} (K : psmouse_commands) (T : Transport σ)
    (s : σ) (addr : Nat) : CmdResult σ :=
  let r := ps2_command T s (some []) K.GETINFO
  if r.ret ≠ 0 then { r with ret := -1 }
  else if addr ≠ ((byte_at r.param 0 <<< 8) ||| byte_at r.param 1) then { r with ret := -1 }
  else { r with ret := byte_at r.param 2 }

/-- The function `alps_command_mode_read_reg` (lines 1085-1090). -/
def alps_command_mode_read_reg {σ : Type} (K : psmouse_commands) (cs : alps_command_set)
    (T : Transport σ) (s : σ) (addr : Nat) : CmdResult σ :=
  let r := alps_command_mode_set_addr cs T s addr
  if r.ret ≠ 0 then { r with ret := -1 }
  else
    let r2 := __alps_command_mode_read_reg K T r.state addr
    { r2 with calls := r.calls ++ r2.calls }

/-- The function `__alps_command_mode_write_reg` (lines 1092-1099); `value` is a `u8`. -/
def __alps_command_mode_write_reg {σ : Type} (cs : alps_command_set)
    (T : Transport σ) (s : σ) (value : Nat) : CmdResult σ :=
  let r := alps_command_mode_send_nibble cs T s (((value % 256) >>> 4) &&& 0xf)
  if r.ret ≠ 0 then { r with ret := -1 }
  else
    let r2 := alps_command_mode_send_nibble cs T r.state ((value % 256) &&& 0xf)
    if r2.ret ≠ 0 then { r2 with ret := -1, calls := r.calls ++ r2.calls }
    else { r2 with ret := 0, calls := r.calls ++ r2.calls }

/-- The function `alps_command_mode_write_reg` (lines 1101-1107). -/
def alps_command_mode_write_reg {σ : Type} (cs : alps_command_set) (T : Transport σ)
    (s : σ) (addr : Nat) (value : Nat) : CmdResult σ :=
  let r := alps_command_mode_set_addr cs T s addr
  if r.ret ≠ 0 then { r with ret := -1 }
  else
    let r2 := __alps_command_mode_write_reg cs T r.state value
    { r2 with calls := r.calls ++ r2.calls }

/-- The function `alps_enter_command_mode` (lines 1139-1171). The `||` chain stops at the
first failing command. `resp` is the caller's buffer, `none` for `NULL`; on success its
first byte receives `param[2]`. -/
def alps_enter_command_mode {σ : Type} (K : psmouse_commands) (T : Transport σ) (s : σ)
    (resp : Option (List Nat)) : CmdResult σ :=
  let r1 := ps2_command T s none K.RESET_WRAP
  if r1.ret ≠ 0 then { r1 with ret := -1, param := resp.getD [] }
  else
    let r2 := ps2_command T r1.state none K.RESET_WRAP
    if r2.ret ≠ 0 then
      { ret := -1, state := r2.state, calls := r1.calls ++ r2.calls, param := resp.getD [] }
    else
      let r3 := ps2_command T r2.state none K.RESET_WRAP
      if r3.ret ≠ 0 then
        { ret := -1, state := r3.state, calls := r1.calls ++ r2.calls ++ r3.calls,
          param := resp.getD [] }
      else
        let r4 := ps2_command T r3.state (some []) K.GETINFO
        let calls := r1.calls ++ r2.calls ++ r3.calls ++ r4.calls
        if r4.ret ≠ 0 then
          { ret := -1, state := r4.state, calls := calls, param := resp.getD [] }
        else if (byte_at r4.param 0 ≠ 0x88 ∧ byte_at r4.param 1 ≠ 0x07)
            ∧ (byte_at r4.param 0 ≠ 0x73 ∧ byte_at r4.param 1 ≠ 0x01) then
          { ret := -1, state := r4.state, calls := calls, param := resp.getD [] }
        else
          { ret := 0, state := r4.state, calls := calls,
            param := match resp with
              | some buf => byte_at r4.param 2 :: buf.tail
              | none => [] }

/-- The function `alps_exit_command_mode` (lines 1173-1179). -/
def alps_exit_command_mode {σ : Type} (K : psmouse_commands) (T : Transport σ) (s : σ) :
    CmdResult σ :=
  let r := ps2_command T s none K.SETSTREAM
  if r.ret ≠ 0 then { r with ret := -1, param := [] } else { r with ret := 0, param := [] }

/-! ### Model identification (alps.c lines 1181-1308) -/

/-- The function `alps_get_e6_report` (lines 1181-1203). `param` is the caller's buffer.
The function returns 0 also when the final info query fails. -/
def alps_get_e6_report {σ : Type} (K : psmouse_commands) (T : Transport σ) (s : σ)
    (param : List Nat) : CmdResult σ :=
  let r1 := ps2_command T s (some (0 :: param.tail)) K.SETRES
  if r1.ret ≠ 0 then { r1 with ret := -1 }
  else
    let r2 := ps2_command T r1.state none K.SETSCALE11
    if r2.ret ≠ 0 then
      { ret := -1, state := r2.state, calls := r1.calls ++ r2.calls, param := r1.param }
    else
      let r3 := ps2_command T r2.state none K.SETSCALE11
      if r3.ret ≠ 0 then
        { ret := -1, state := r3.state, calls := r1.calls ++ r2.calls ++ r3.calls,
          param := r1.param }
      else
        let r4 := ps2_command T r3.state none K.SETSCALE11
        if r4.ret ≠ 0 then
          { ret := -1, state := r4.state,
            calls := r1.calls ++ r2.calls ++ r3.calls ++ r4.calls, param := r1.param }
        else
          let r5 := ps2_command T r4.state (some ([0xff, 0xff, 0xff] ++ r1.param.drop 3))
            K.GETINFO
          { ret := 0, state := r5.state,
            calls := r1.calls ++ r2.calls ++ r3.calls ++ r4.calls ++ r5.calls,
            param := r5.param }

/-- The function `alps_get_e7_report` (lines 1205-1228). -/
def alps_get_e7_report {σ : Type} (K : psmouse_commands) (T : Transport σ) (s : σ)
    (param : List Nat) : CmdResult σ :=
  let r1 := ps2_command T s none K.SETSCALE21
  if r1.ret ≠ 0 then { r1 with ret := -1, param := param }
  else
    let r2 := ps2_command T r1.state none K.SETSCALE21
    if r2.ret ≠ 0 then
      { ret := -1, state := r2.state, calls := r1.calls ++ r2.calls, param := param }
    else
      let r3 := ps2_command T r2.state none K.SETSCALE21
      if r3.ret ≠ 0 then
        { ret := -1, state := r3.state, calls := r1.calls ++ r2.calls ++ r3.calls,
          param := param }
      else
        let r4 := ps2_command T r3.state (some ([0xff, 0xff, 0xff] ++ param.drop 3))
          K.GETINFO
        { ret := 0, state := r4.state,
          calls := r1.calls ++ r2.calls ++ r3.calls ++ r4.calls, param := r4.param }

/-- Modelled from the spec: the test `proto_version > ALPS_PROTO_V2`. The values of the
`ALPS_PROTO_*` constants are in alps.h, which is not part of the source; the
specification calls the variants that pass the test "newer than V2". -/
def proto_newer_than_v2 : ProtoVersion → Bool
  | ALPS_PROTO_V1 => false
  | ALPS_PROTO_V2 => false
  | _ => true

/-- The first search of `alps_get_model` (lines 1269-1275): the first row whose signature
equals the first three bytes of `param`. -/
def signature_search (param : List Nat) : Option alps_model_info :=
  alps_model_data.find? fun m =>
    decide ((byte_at param 0, byte_at param 1, byte_at param 2) = m.signature)

/-- The second search of `alps_get_model` (lines 1287-1293): the first row of a variant
above V2 whose `command_mode_resp` equals `param[0]`. -/
def command_mode_resp_search (param : List Nat) : Option alps_model_info :=
  alps_model_data.find? fun m =>
    proto_newer_than_v2 m.proto_version && decide (m.command_mode_resp = byte_at param 0)

/-- The table `rates` of `alps_get_model` (line 1233). -/
def rates : List Nat := [0, 10, 20, 40, 60, 80, 100, 200]

/-- The outcome of `alps_get_model`: the row returned (`none` for `NULL`), the value
written to `*version` if the function gets that far, the device state and the calls of
`ps2_command`, in order. -/
structure ModelResult (σ : Type) where
  model : Option alps_model_info
  version : Option Nat
  state : σ
  calls : List ps2_call

/-- The function `alps_get_model` (lines 1230-1311), called with a non-null `version`.
The return value of the two report functions is ignored, as in the source. -/
def alps_get_model {σ : Type} (K : psmouse_commands) (T : Transport σ) (s : σ) :
    ModelResult σ :=
  let e6 := alps_get_e6_report K T s []
  if byte_at e6.param 0 &&& 0xf8 ≠ 0 ∨ byte_at e6.param 1 ≠ 0
      ∨ (byte_at e6.param 2 ≠ 10 ∧ byte_at e6.param 2 ≠ 100) then
    { model := none, version := none, state := e6.state, calls := e6.calls }
  else
    let r := ps2_command T e6.state (some (0 :: e6.param.tail)) K.SETRES
    if r.ret ≠ 0 then
      { model := none, version := none, state := r.state, calls := e6.calls ++ r.calls }
    else
      let e7 := alps_get_e7_report K T r.state r.param
      let i := (rates.takeWhile fun x => decide (byte_at e7.param 2 ≠ x)).length
      let version := (byte_at e7.param 0 <<< 8) ||| (byte_at e7.param 1 <<< 4) ||| i
      let calls := e6.calls ++ r.calls ++ e7.calls
      match signature_search e7.param with
      | none => { model := none, version := some version, state := e7.state, calls := calls }
      | some m =>
        if proto_newer_than_v2 m.proto_version then
          let en := alps_enter_command_mode K T e7.state (some e7.param)
          if en.ret ≠ 0 then
            { model := none, version := some version, state := en.state,
              calls := calls ++ en.calls }
          else
            let ex := alps_exit_command_mode K T en.state
            { model := command_mode_resp_search en.param, version := some version,
              state := ex.state, calls := calls ++ en.calls ++ ex.calls }
        else
          { model := some m, version := some version, state := e7.state, calls := calls }

/-- The test of lines 1244-1246 on the buffer that the E6 report leaves: the response is
rejected and `alps_get_model` returns `NULL`. -/
def e6_rejected (param : List Nat) : Prop :=
  byte_at param 0 &&& 0xf8 ≠ 0 ∨ byte_at param 1 ≠ 0
    ∨ (byte_at param 2 ≠ 10 ∧ byte_at param 2 ≠ 100)

instance (param : List Nat) : Decidable (e6_rejected param) := by
  unfold e6_rejected
  infer_instance

/-- The `SETRES` command of `alps_get_model` (line 1259), in the state that the E6 report
leaves. -/
def get_model_setres {σ : Type} (K : psmouse_commands) (T : Transport σ) (s : σ) :
    CmdResult σ :=
  ps2_command T (alps_get_e6_report K T s []).state
    (some (0 :: (alps_get_e6_report K T s []).param.tail)) K.SETRES

/-- The E7 report of `alps_get_model` (line 1261), in the state that the `SETRES` command
leaves. -/
def get_model_e7 {σ : Type} (K : psmouse_commands) (T : Transport σ) (s : σ) :
    CmdResult σ :=
  alps_get_e7_report K T (get_model_setres K T s).state (get_model_setres K T s).param

/-- The call of `alps_enter_command_mode` of `alps_get_model` (line 1282), in the state
that the E7 report leaves and on the buffer that holds the E7 response. -/
def get_model_enter {σ : Type} (K : psmouse_commands) (T : Transport σ) (s : σ) :
    CmdResult σ :=
  alps_enter_command_mode K T (get_model_e7 K T s).state (some (get_model_e7 K T s).param)

/-- A transport that replays a script: each call consumes the next entry, which says
whether the call fails and what it leaves in the buffer; a call past the end of the
script fails. -/
def scripted_transport : Transport (List (Bool × List Nat)) :=
  fun s param _ =>
    match s with
    | [] => { state := [], failed := true, param := param.getD [] }
    | (failed, reply) :: rest => { state := rest, failed := failed, param := reply }

/-- Modelled from the spec: the state of the mock device of the round-trip law: the
nibbles received since the last address-prefix command (`none` before the first one), the
address register, and the register file as a list of (address, value) pairs, latest
write first. -/
structure MockDevice where
  nibbles : Option (List Nat)
  addr : Nat
  regs : List (Nat × Nat)
deriving DecidableEq, Repr

/-- The value of register `addr` of the mock device, 0 if it was never written. -/
def mock_reg (regs : List (Nat × Nat)) (addr : Nat) : Nat :=
  ((regs.find? fun e => decide (e.1 = addr)).map Prod.snd).getD 0

/-- The nibble that a call of the transport stands for in the command set `cs`: the
index of the first table entry with this command and, for commands that carry their data
byte, this data byte. -/
def mock_decode (cs : alps_command_set) (param : Option (List Nat)) (command : Nat) :
    Option Nat :=
  let i := cs.nibble_commands.findIdx fun e =>
    decide (e.command = command) &&
      (decide (command &&& 0x0f00 ≠ 0) || decide (param = some [e.data]))
  if i < cs.nibble_commands.length then some i else none

/-- The mock device after one more nibble: the fourth nibble after the address prefix
completes the address, the sixth completes a value, which is stored in the register at
that address. -/
def mock_nibble (m : MockDevice) (n : Nat) : MockDevice :=
  match m.nibbles with
  | none => m
  | some ns =>
    let ns1 := ns ++ [n]
    if ns1.length = 4 then
      { m with nibbles := some ns1,
               addr := ns1.getD 0 0 * 4096 + ns1.getD 1 0 * 256 + ns1.getD 2 0 * 16 +
                 ns1.getD 3 0 }
    else if ns1.length = 6 then
      { m with nibbles := some ns1,
               regs := (m.addr, ns1.getD 4 0 * 16 + ns1.getD 5 0) :: m.regs }
    else { m with nibbles := some ns1 }

/-- Modelled from the spec: the faked transport of the round-trip law. It never fails.
The address-prefix command starts a new address; the info query is answered with the
address high byte, the address low byte and the value stored at the address; a command
of the nibble table is decoded back to its nibble; any other command is ignored. -/
def mock_transport (K : psmouse_commands) (cs : alps_command_set) : Transport MockDevice :=
  fun m param command =>
    if command = cs.addr_command then
      { state := { m with nibbles := some [] }, failed := false, param := param.getD [] }
    else if command = K.GETINFO then
      { state := m, failed := false,
        param := [m.addr / 256, m.addr % 256, mock_reg m.regs m.addr] }
    else
      match mock_decode cs param command with
      | some n => { state := mock_nibble m n, failed := false, param := param.getD [] }
      | none => { state := m, failed := false, param := param.getD [] }

/-- The mock device can tell the commands of the set `cs` apart: the address prefix is
not the info query, and the command for each nibble is neither of them and decodes back
to the nibble. -/
def mock_decodes (K : psmouse_commands) (cs : alps_command_set) : Prop :=
  cs.addr_command ≠ K.GETINFO ∧
    ∀ n < 16,
      (cs.nibble_commands.getD n ⟨0, 0⟩).command ≠ cs.addr_command ∧
      (cs.nibble_commands.getD n ⟨0, 0⟩).command ≠ K.GETINFO ∧
      mock_decode cs (nibble_request cs n).2 (nibble_request cs n).1 = some n

instance (K : psmouse_commands) (cs : alps_command_set) : Decidable (mock_decodes K cs) := by
  unfold mock_decodes
  infer_instance

/-- The calls of a trace that failed stop the operation: a failed call is the last call
of the trace and the operation returns -1. -/
def fail_stop (calls : List ps2_call) (ret : Int) : Prop :=
  ∀ k (h : k < calls.length), (calls.get ⟨k, h⟩).failed = true →
    calls.length = k + 1 ∧ ret = -1

/-! ### The V3/V5 and V6 decoders and the decoder dispatch (alps.c lines 407-617,
716-818) -/

/-- What a call of a variant decoder does: the new session state, the input events in
call order, and the arguments `(x_bitmap, y_bitmap)` of each call of
`alps_process_bitmap` it makes. -/
structure DecodeOut where
  priv : alps_data
  events : List InputEvent
  bitmap_calls : List (Nat × Nat)
deriving DecidableEq, Repr

/-- The cast `(s8)v` of a value `v` in 0 .. 255 to a signed 8-bit integer. -/
def s8 (v : Nat) : Int :=
  if v % 256 ≥ 128 then ((v % 256 : Nat) : Int) - 256 else ((v % 256 : Nat) : Int)

/-- The test of lines 415-426 of `alps_process_trackstick_packet_v3_v5`: the packet has
the marker bit 0x40 of byte 0 set and is not the end-of-stream packet. -/
def trackstick_accepted (packet : List Nat) : Prop :=
  byte_at packet 0 &&& 0x40 ≠ 0 ∧
    ¬ (byte_at packet 1 = 0x7f ∧ byte_at packet 2 = 0x7f ∧ byte_at packet 4 = 0x7f)

instance (packet : List Nat) : Decidable (trackstick_accepted packet) := by
  unfold trackstick_accepted
  infer_instance

/-- One of the three button bits of byte 3 of a trackstick packet is set (`left ||
right || middle` of line 452). -/
def trackstick_button_pressed (packet : List Nat) : Prop :=
  byte_at packet 3 &&& 0x01 ≠ 0 ∨ byte_at packet 3 &&& 0x02 ≠ 0 ∨ byte_at packet 3 &&& 0x04 ≠ 0

instance (packet : List Nat) : Decidable (trackstick_button_pressed packet) := by
  unfold trackstick_button_pressed
  infer_instance

/-- The function `alps_process_trackstick_packet_v3_v5` (lines 407-461). The constant
`ALPS_QUIRK_TRACKSTICK_BUTTONS` is defined in alps.h, which is not part of the source,
and is taken as the parameter `Q`. The local `z` is computed and not used. -/
def alps_process_trackstick_packet_v3_v5 (Q : Nat) (priv : alps_data) (packet : List Nat) :
    DecodeOut :=
  if byte_at packet 0 &&& 0x40 = 0 then { priv := priv, events := [], bitmap_calls := [] }
  else if byte_at packet 1 = 0x7f ∧ byte_at packet 2 = 0x7f ∧ byte_at packet 4 = 0x7f then
    { priv := priv, events := [], bitmap_calls := [] }
  else
    let x : Int := (s8 (((byte_at packet 0 &&& 0x20) <<< 2) ||| (byte_at packet 1 &&& 0x7f))).tdiv 8
    let y : Int := (s8 (((byte_at packet 0 &&& 0x10) <<< 3) ||| (byte_at packet 2 &&& 0x7f))).tdiv 8
    let left := byte_at packet 3 &&& 0x01
    let right := byte_at packet 3 &&& 0x02
    let middle := byte_at packet 3 &&& 0x04
    let quirks : Nat :=
      if priv.quirks &&& Q = 0 ∧ (left ≠ 0 ∨ right ≠ 0 ∨ middle ≠ 0) then priv.quirks ||| Q
      else priv.quirks
    { priv := { priv with quirks := quirks },
      events :=
        [ InputEvent.rel Dev.dev2 RelAxis.REL_X x, InputEvent.rel Dev.dev2 RelAxis.REL_Y (-y) ]
        ++ (if quirks &&& Q ≠ 0 then
              [ input_report_key Dev.dev2 Key.BTN_LEFT left,
                input_report_key Dev.dev2 Key.BTN_RIGHT right,
                input_report_key Dev.dev2 Key.BTN_MIDDLE middle ]
            else [])
        ++ [InputEvent.sync Dev.dev2],
      bitmap_calls := [] }

/-- The expression of lines 495-497 that assembles `x_bitmap` from a V3/V5 bitmap
packet. -/
def v3_x_bitmap (packet : List Nat) : Nat :=
  ((byte_at packet 4 &&& 0x7e) <<< 8) ||| ((byte_at packet 1 &&& 0x7f) <<< 2) |||
    ((byte_at packet 0 &&& 0x30) >>> 4)

/-- The expression of lines 498-500 that assembles `y_bitmap` from a V3/V5 bitmap
packet. -/
def v3_y_bitmap (packet : List Nat) : Nat :=
  ((byte_at packet 3 &&& 0x70) <<< 4) ||| ((byte_at packet 2 &&& 0x7f) <<< 1) |||
    (byte_at packet 4 &&& 0x01)

/-- The packet is handled as a bitmap packet by `alps_process_touchpad_packet_v3_v5`
(lines 485-493): a multi-packet sequence is open and bit 6 of byte 0 is set. -/
def v3_bitmap_packet (priv : alps_data) (packet : List Nat) : Prop :=
  priv.multi_packet ≠ 0 ∧ byte_at packet 0 &&& 0x40 ≠ 0

instance (priv : alps_data) (packet : List Nat) : Decidable (v3_bitmap_packet priv packet) := by
  unfold v3_bitmap_packet
  infer_instance

/-- The single-contact coordinate `x` of a V3/V5 position packet (lines 541-542). -/
def v3_x (pkt : List Nat) : Nat :=
  ((byte_at pkt 1 &&& 0x7f) <<< 4) ||| ((byte_at pkt 4 &&& 0x30) >>> 2) |||
    ((byte_at pkt 0 &&& 0x30) >>> 4)

/-- The single-contact coordinate `y` of a V3/V5 position packet (line 543). -/
def v3_y (pkt : List Nat) : Nat :=
  ((byte_at pkt 2 &&& 0x7f) <<< 4) ||| (byte_at pkt 4 &&& 0x0f)

/-- The local `fingers` of `alps_process_touchpad_packet_v3_v5` after lines 485-517: 0
when the packet is not handled as a bitmap packet; otherwise the finger-count field
`(packet[5] & 0x3) + 1`, replaced by the count `alps_process_bitmap` returns when the
field claims more than one finger and the bitmap resolves to fewer than two. -/
def v3_fingers (g : Geometry) (priv : alps_data) (packet : List Nat) : Int :=
  if v3_bitmap_packet priv packet then
    (if ((byte_at packet 5 &&& 0x3 : Nat) : Int) + 1 > 1 ∧
        (alps_process_bitmap g (v3_x_bitmap packet) (v3_y_bitmap packet) ⟨0, 0, 0, 0⟩).1 < 2
      then (alps_process_bitmap g (v3_x_bitmap packet) (v3_y_bitmap packet) ⟨0, 0, 0, 0⟩).1
      else ((byte_at packet 5 &&& 0x3 : Nat) : Int) + 1)
  else 0

/-- The locals `x1`, `y1`, `x2`, `y2` of `alps_process_touchpad_packet_v3_v5` after lines
485-517: they start at 0 and are passed to `alps_process_bitmap` when the packet is
handled as a bitmap packet. -/
def v3_coords (g : Geometry) (priv : alps_data) (packet : List Nat) : BitmapCoords :=
  if v3_bitmap_packet priv packet then
    (alps_process_bitmap g (v3_x_bitmap packet) (v3_y_bitmap packet) ⟨0, 0, 0, 0⟩).2
  else ⟨0, 0, 0, 0⟩

/-- The local pointer `packet` of `alps_process_touchpad_packet_v3_v5` after line 512:
the stored position packet `priv->multi_data` when a bitmap packet is being handled, the
received packet otherwise. -/
def v3_position_packet (priv : alps_data) (packet : List Nat) : List Nat :=
  if v3_bitmap_packet priv packet then priv.multi_data else packet

/-- Lines 536-596 of `alps_process_touchpad_packet_v3_v5` from the test `if (!fingers)`
on: the events reported for the position packet `pkt`, given the locals `fingers`
(`fingers0`) and `x1`, `y1`, `x2`, `y2` (`loc`) at that point. -/
def v3_touchpad_report (Q : Nat) (quirks : Nat) (pkt : List Nat) (fingers0 : Int)
    (loc : BitmapCoords) : List InputEvent :=
  let z : Nat := byte_at pkt 5 &&& 0x7f
  let x1 : Int := if fingers0 = 0 then (v3_x pkt : Int) else loc.x1
  let y1 : Int := if fingers0 = 0 then (v3_y pkt : Int) else loc.y1
  let fingers : Int := if fingers0 = 0 then (if z > 0 then 1 else 0) else fingers0
  [input_report_key Dev.dev1 Key.BTN_TOUCH (if z ≥ 64 then 1 else 0)]
  ++ alps_report_semi_mt_data Dev.dev1 fingers x1 y1 loc.x2 loc.y2
  ++ [ InputEvent.mt_finger_count Dev.dev1 fingers,
       input_report_key Dev.dev1 Key.BTN_LEFT (byte_at pkt 3 &&& 0x01),
       input_report_key Dev.dev1 Key.BTN_RIGHT (byte_at pkt 3 &&& 0x02),
       input_report_key Dev.dev1 Key.BTN_MIDDLE (byte_at pkt 3 &&& 0x04) ]
  ++ (if z > 0 then
        [ InputEvent.abs Dev.dev1 AbsAxis.ABS_X (v3_x pkt),
          InputEvent.abs Dev.dev1 AbsAxis.ABS_Y (v3_y pkt) ]
      else [])
  ++ [InputEvent.abs Dev.dev1 AbsAxis.ABS_PRESSURE z, InputEvent.sync Dev.dev1]
  ++ (if quirks &&& Q = 0 then
        [ input_report_key Dev.dev2 Key.BTN_LEFT (byte_at pkt 3 &&& 0x10),
          input_report_key Dev.dev2 Key.BTN_RIGHT (byte_at pkt 3 &&& 0x20),
          input_report_key Dev.dev2 Key.BTN_MIDDLE (byte_at pkt 3 &&& 0x40),
          InputEvent.sync Dev.dev2 ]
      else [])

/-- The function `alps_process_touchpad_packet_v3_v5` (lines 463-597). `mp1` is
`priv->multi_packet` after line 516. `memcpy` copies the six bytes of
`priv->multi_data`. -/
def alps_process_touchpad_packet_v3_v5 (g : Geometry) (Q : Nat) (priv : alps_data)
    (packet : List Nat) : DecodeOut :=
  let pkt : List Nat := v3_position_packet priv packet
  let mp1 : Int :=
    if priv.multi_packet ≠ 0 ∧ byte_at packet 0 &&& 0x40 = 0 then 0 else priv.multi_packet
  let calls : List (Nat × Nat) :=
    if v3_bitmap_packet priv packet then [(v3_x_bitmap packet, v3_y_bitmap packet)] else []
  if byte_at pkt 0 &&& 0x40 ≠ 0 then
    { priv := { priv with multi_packet := mp1 }, events := [], bitmap_calls := calls }
  else if mp1 = 0 ∧ byte_at pkt 4 &&& 0x40 ≠ 0 then
    { priv := { priv with multi_packet := 1, multi_data := pkt.take 6 }, events := [],
      bitmap_calls := calls }
  else if v3_x pkt ≠ 0 ∧ v3_y pkt ≠ 0 ∧ byte_at pkt 5 &&& 0x7f = 0 then
    { priv := { priv with multi_packet := 0 }, events := [], bitmap_calls := calls }
  else
    { priv := { priv with multi_packet := 0 },
      events := v3_touchpad_report Q priv.quirks pkt (v3_fingers g priv packet)
        (v3_coords g priv packet),
      bitmap_calls := calls }

/-- The function `alps_process_packet_v3_v5` (lines 599-617). -/
def alps_process_packet_v3_v5 (g : Geometry) (Q : Nat) (priv : alps_data)
    (packet : List Nat) : DecodeOut :=
  if byte_at packet 5 = 0x3f then alps_process_trackstick_packet_v3_v5 Q priv packet
  else alps_process_touchpad_packet_v3_v5 g Q priv packet

/-- The expression of lines 735-740 that assembles `x_bitmap` from a V6 bitmap packet. -/
def v6_x_bitmap (packet : List Nat) : Nat :=
  ((byte_at packet 2 &&& 0x60) >>> 5) ||| ((byte_at packet 4 &&& 0x7f) <<< 2) |||
    ((byte_at packet 5 &&& 0x7f) <<< 9) ||| ((byte_at packet 3 &&& 0x07) <<< 16) |||
    ((byte_at packet 3 &&& 0x70) <<< 15) ||| ((byte_at packet 0 &&& 0x01) <<< 22)

/-- The expression of lines 741-742 that assembles `y_bitmap` from a V6 bitmap packet. -/
def v6_y_bitmap (packet : List Nat) : Nat :=
  (byte_at packet 1 &&& 0x7f) ||| ((byte_at packet 2 &&& 0x1f) <<< 7)

/-- The packet is handled as a bitmap packet by `alps_process_packet_v6` (lines
730-731): a multi-packet sequence is open and bit 5 of byte 0 is set. -/
def v6_bitmap_packet (priv : alps_data) (packet : List Nat) : Prop :=
  priv.multi_packet ≠ 0 ∧ byte_at packet 0 &&& 0x20 ≠ 0

instance (priv : alps_data) (packet : List Nat) : Decidable (v6_bitmap_packet priv packet) := by
  unfold v6_bitmap_packet
  infer_instance

/-- The local `fingers` of `alps_process_packet_v6` after lines 730-750; `>>` binds
tighter than `|` in lines 732-733. -/
def v6_fingers (priv : alps_data) (packet : List Nat) : Int :=
  if v6_bitmap_packet priv packet then
    ((((byte_at packet 0 &&& 0x6) >>> 1) ||| ((byte_at packet 0 &&& 0x10) >>> 2) : Nat) : Int)
  else 0

/-- The locals `x1`, `y1`, `x2`, `y2` of `alps_process_packet_v6` after lines 730-750. The
return value of `alps_process_bitmap` is not used. -/
def v6_coords (g : Geometry) (priv : alps_data) (packet : List Nat) : BitmapCoords :=
  if v6_bitmap_packet priv packet then
    (alps_process_bitmap g (v6_x_bitmap packet) (v6_y_bitmap packet) ⟨0, 0, 0, 0⟩).2
  else ⟨0, 0, 0, 0⟩

/-- The local pointer `packet` of `alps_process_packet_v6` after line 747. -/
def v6_position_packet (priv : alps_data) (packet : List Nat) : List Nat :=
  if v6_bitmap_packet priv packet then priv.multi_data else packet

/-- The coordinate `x` of a V6 position packet (line 765). -/
def v6_x (pkt : List Nat) : Nat := (byte_at pkt 1 &&& 0x7f) ||| ((byte_at pkt 4 &&& 0x0f) <<< 7)

/-- The coordinate `y` of a V6 position packet (line 766). -/
def v6_y (pkt : List Nat) : Nat := (byte_at pkt 2 &&& 0x7f) ||| ((byte_at pkt 4 &&& 0xf0) <<< 3)

/-- The pressure `z` of a V6 position packet (line 767). -/
def v6_z (pkt : List Nat) : Nat := if byte_at pkt 0 &&& 4 ≠ 0 then 0 else byte_at pkt 5 &&& 0x7f

/-- Lines 772-793 of `alps_process_packet_v6` from the test `if (!fingers)` on. -/
def v6_report (pkt : List Nat) (fingers0 : Int) (loc : BitmapCoords) : List InputEvent :=
  let z : Nat := v6_z pkt
  let x1 : Int := if fingers0 = 0 then (v6_x pkt : Int) else loc.x1
  let y1 : Int := if fingers0 = 0 then (v6_y pkt : Int) else loc.y1
  let fingers : Int := if fingers0 = 0 then (if z > 0 then 1 else 0) else fingers0
  [input_report_key Dev.dev1 Key.BTN_TOUCH (if z > 64 then 1 else 0)]
  ++ alps_report_semi_mt_data Dev.dev1 fingers x1 y1 loc.x2 loc.y2
  ++ [ InputEvent.mt_finger_count Dev.dev1 fingers,
       input_report_key Dev.dev1 Key.BTN_LEFT (byte_at pkt 3 &&& 0x1),
       input_report_key Dev.dev1 Key.BTN_RIGHT (byte_at pkt 3 &&& 0x2),
       input_report_key Dev.dev1 Key.BTN_MIDDLE (byte_at pkt 3 &&& 0x4) ]
  ++ (if z > 0 then
        [ InputEvent.abs Dev.dev1 AbsAxis.ABS_X (v6_x pkt),
          InputEvent.abs Dev.dev1 AbsAxis.ABS_Y (v6_y pkt) ]
      else [])
  ++ [InputEvent.abs Dev.dev1 AbsAxis.ABS_PRESSURE z, InputEvent.sync Dev.dev1]

/-- The function `alps_process_packet_v6` (lines 719-794). `mp1` is `priv->multi_packet`
after line 749. -/
def alps_process_packet_v6 (g : Geometry) (priv : alps_data) (packet : List Nat) :
    DecodeOut :=
  let pkt : List Nat := v6_position_packet priv packet
  let mp1 : Int :=
    if priv.multi_packet ≠ 0 ∧ byte_at packet 0 &&& 0x20 = 0 then 0 else priv.multi_packet
  let calls : List (Nat × Nat) :=
    if v6_bitmap_packet priv packet then [(v6_x_bitmap packet, v6_y_bitmap packet)] else []
  if byte_at pkt 0 &&& 0x20 ≠ 0 then
    { priv := { priv with multi_packet := mp1 }, events := [], bitmap_calls := calls }
  else if mp1 = 0 ∧ byte_at pkt 0 &&& 0x2 ≠ 0 then
    { priv := { priv with multi_packet := 1, multi_data := pkt.take 6 }, events := [],
      bitmap_calls := calls }
  else if v6_x pkt ≠ 0 ∧ v6_y pkt ≠ 0 ∧ v6_z pkt = 0 then
    { priv := { priv with multi_packet := 0 }, events := [], bitmap_calls := calls }
  else
    { priv := { priv with multi_packet := 0 },
      events := v6_report pkt (v6_fingers priv packet) (v6_coords g priv packet),
      bitmap_calls := calls }

/-- The function `alps_process_packet` (lines 796-818): the variant decoder of the
model. `g` holds the axis geometry globals, `Q` the constant
`ALPS_QUIRK_TRACKSTICK_BUTTONS`, `key_state` the key state of the input layer (read by
the V1/V2 decoder) and `uninit` the indeterminate locals of the V4 decoder. -/
def alps_process_packet (g : Geometry) (Q : Nat) (model : alps_model_info)
    (key_state : Dev → Key → Bool) (priv : alps_data) (packet : List Nat)
    (uninit : BitmapCoords) : DecodeOut :=
  match model.proto_version with
  | ALPS_PROTO_V1 | ALPS_PROTO_V2 =>
    { priv := (alps_process_packet_v1_v2 model key_state priv packet).1,
      events := (alps_process_packet_v1_v2 model key_state priv packet).2,
      bitmap_calls := [] }
  | ALPS_PROTO_V3 => alps_process_packet_v3_v5 g Q priv packet
  | ALPS_PROTO_V4 =>
    { priv := (alps_process_packet_v4 g priv packet uninit).priv,
      events := (alps_process_packet_v4 g priv packet uninit).events,
      bitmap_calls := (alps_process_packet_v4 g priv packet uninit).bitmap_calls }
  | ALPS_PROTO_V5 => alps_process_packet_v3_v5 g Q priv packet
  | ALPS_PROTO_V6 => alps_process_packet_v6 g priv packet

/-- The values reported for `ABS_PRESSURE`, in call order, among a list of input
events. -/
def abs_pressure_reports (events : List InputEvent) : List Int :=
  events.filterMap fun e =>
    match e with
    | InputEvent.abs _ AbsAxis.ABS_PRESSURE v => some v
    | _ => none

/-- The finger counts passed to `input_mt_report_finger_count`, in call order, among a
list of input events. -/
def finger_count_reports (events : List InputEvent) : List Int :=
  events.filterMap fun e =>
    match e with
    | InputEvent.mt_finger_count _ v => some v
    | _ => none

/-- The coordinates reported for contact slot 0: the two position events that follow
`input_mt_slot(dev, 0)` and the slot state when the slot is active. -/
def slot0_position : List InputEvent → Option (Int × Int)
  | InputEvent.mt_slot _ 0 :: InputEvent.mt_slot_state _ true ::
      InputEvent.abs _ AbsAxis.ABS_MT_POSITION_X x ::
      InputEvent.abs _ AbsAxis.ABS_MT_POSITION_Y y :: _ => some (x, y)
  | _ :: rest => slot0_position rest
  | [] => none

/-- The input events made on the secondary device `priv->dev2`. -/
def dev2_key_reports (events : List InputEvent) : List InputEvent :=
  events.filter fun e =>
    match e with
    | InputEvent.key Dev.dev2 _ _ => true
    | _ => false

/-- The decoder `alps_process_packet_v3_v5` called on a sequence of packets: the final
session state. -/
def v3_v5_run (g : Geometry) (Q : Nat) : alps_data → List (List Nat) → alps_data
  | priv, [] => priv
  | priv, packet :: rest =>
    v3_v5_run g Q (alps_process_packet_v3_v5 g Q priv packet).priv rest

/-! ### Register checks and hardware initialisation (alps.c lines 1110-1137,
1313-2074) -/

/-- The function `alps_command_mode_check_reg` (lines 1110-1121): -1 on error, 0 on
mismatch, 1 on match; `value` is a `u8`. -/
def alps_command_mode_check_reg {σ : Type} (K : psmouse_commands) (cs : alps_command_set)
    (T : Transport σ) (s : σ) (addr value : Nat) : CmdResult σ :=
  let r := alps_command_mode_read_reg K cs T s addr
  if r.ret < 0 then { r with ret := -1 }
  else { r with ret := if r.ret = ((value % 256 : Nat) : Int) then 1 else 0 }

/-- The function `alps_command_mode_checkset_reg` (lines 1124-1137); `value` is a
`u8`. -/
def alps_command_mode_checkset_reg {σ : Type} (K : psmouse_commands)
    (cs : alps_command_set) (T : Transport σ) (s : σ) (addr value : Nat) : CmdResult σ :=
  let r := alps_command_mode_read_reg K cs T s addr
  if r.ret < 0 then { r with ret := -1 }
  else
    let r2 := __alps_command_mode_write_reg cs T r.state value
    if r2.ret ≠ 0 then { r2 with ret := -1, calls := r.calls ++ r2.calls }
    else { r2 with ret := 0, calls := r.calls ++ r2.calls }

/-- The collaborators of the hardware initialisation that are not part of the source, as
parameters: the transport `ps2_command`, `psmouse_reset` of the psmouse core (new device
state and return value) and `ps2_drain` of libps2. -/
structure psmouse_io (σ : Type) where
  transport : Transport σ
  reset : σ → σ × Int
  drain : σ → σ

/-- What the hardware initialisation does, in order: a call of `ps2_command`, a call of
`psmouse_reset` or `ps2_drain`, and the return of a call of `alps_enter_command_mode`,
`alps_exit_command_mode`, `alps_command_mode_read_reg`, `alps_command_mode_write_reg` or
`__alps_command_mode_write_reg` (`write_value`), each recorded after the calls of
`ps2_command` it made and with its return value. -/
inductive hw_event where
  | command (c : ps2_call)
  | reset (ret : Int)
  | drain
  | enter_command_mode (ret : Int)
  | exit_command_mode (ret : Int)
  | read_reg (addr : Nat) (ret : Int)
  | write_reg (addr value : Nat) (ret : Int)
  | write_value (value : Nat) (ret : Int)
deriving DecidableEq, Repr

/-- The state of a run of the hardware initialisation: the device state, what was done so
far, the return value of the last operation, the local variable `ok` of the
initialisers that have one, and the contents of the local buffer `param`, as far as the
driver or the device wrote it. -/
structure HwRun (σ : Type) where
  state : σ
  trace : List hw_event
  ret : Int
  ok : Bool
  param : List Nat

/-- The start of a run: nothing done, `ok = 1`, `param` uninitialised. -/
def hw_start {σ : Type} (s : σ) : HwRun σ :=
  { state := s, trace := [], ret := 0, ok := true, param := [] }

/-- A run continued by a function of the register engine; `marks` are the events recorded
at its return. -/
def hw_op {σ : Type} (f : σ → CmdResult σ) (marks : Int → List hw_event) (w : HwRun σ) :
    HwRun σ :=
  { w with state := (f w.state).state,
           trace := w.trace ++ (f w.state).calls.map hw_event.command ++ marks (f w.state).ret,
           ret := (f w.state).ret }

/-- The statement `ps2_command(ps2dev, param, command)` for a buffer that is not the
local `param` (`none` for `NULL`). -/
def hw_ps2 {σ : Type} (E : psmouse_io σ) (param : Option (List Nat)) (command : Nat)
    (w : HwRun σ) : HwRun σ :=
  hw_op (fun s => ps2_command E.transport s param command) (fun _ => []) w

/-- The statement `ps2_command(ps2dev, &param[off], command)` on the local buffer
`param`. -/
def hw_ps2_param {σ : Type} (E : psmouse_io σ) (off : Nat) (command : Nat) (w : HwRun σ) :
    HwRun σ :=
  { hw_op (fun s => ps2_command E.transport s (some (w.param.drop off)) command)
      (fun _ => []) w with
    param := w.param.take off ++
      (ps2_command E.transport w.state (some (w.param.drop off)) command).param }

/-- The assignment `param[i] = v` on the local buffer; bytes below `i` that were not
written before are shown as 0. -/
def hw_set_param {σ : Type} (i v : Nat) (w : HwRun σ) : HwRun σ :=
  { w with param := (w.param ++ List.replicate (i + 1 - w.param.length) 0).set i v }

/-- The call `psmouse_reset(psmouse)`. -/
def hw_reset {σ : Type} (E : psmouse_io σ) (w : HwRun σ) : HwRun σ :=
  { w with state := (E.reset w.state).1,
           trace := w.trace ++ [hw_event.reset (E.reset w.state).2],
           ret := (E.reset w.state).2 }

/-- The call `ps2_drain(ps2dev, 3, 100)`. -/
def hw_drain {σ : Type} (E : psmouse_io σ) (w : HwRun σ) : HwRun σ :=
  { w with state := E.drain w.state, trace := w.trace ++ [hw_event.drain] }

/-- The call `alps_enter_command_mode(psmouse, NULL)`. -/
def hw_enter {σ : Type} (K : psmouse_commands) (E : psmouse_io σ) (w : HwRun σ) : HwRun σ :=
  hw_op (fun s => alps_enter_command_mode K E.transport s none)
    (fun r => [hw_event.enter_command_mode r]) w

/-- The call `alps_enter_command_mode(psmouse, param)` on the local buffer `param`. -/
def hw_enter_param {σ : Type} (K : psmouse_commands) (E : psmouse_io σ) (w : HwRun σ) :
    HwRun σ :=
  { hw_op (fun s => alps_enter_command_mode K E.transport s (some w.param))
      (fun r => [hw_event.enter_command_mode r]) w with
    param := (alps_enter_command_mode K E.transport w.state (some w.param)).param }

/-- The call `alps_exit_command_mode(psmouse)`. -/
def hw_exit {σ : Type} (K : psmouse_commands) (E : psmouse_io σ) (w : HwRun σ) : HwRun σ :=
  hw_op (fun s => alps_exit_command_mode K E.transport s)
    (fun r => [hw_event.exit_command_mode r]) w

/-- The call `alps_command_mode_read_reg(psmouse, addr)`. -/
def hw_read_reg {σ : Type} (K : psmouse_commands) (cs : alps_command_set)
    (E : psmouse_io σ) (addr : Nat) (w : HwRun σ) : HwRun σ :=
  hw_op (fun s => alps_command_mode_read_reg K cs E.transport s addr)
    (fun r => [hw_event.read_reg addr r]) w

/-- The call `alps_command_mode_write_reg(psmouse, addr, value)`. -/
def hw_write_reg {σ : Type} (cs : alps_command_set) (E : psmouse_io σ) (addr value : Nat)
    (w : HwRun σ) : HwRun σ :=
  hw_op (fun s => alps_command_mode_write_reg cs E.transport s addr value)
    (fun r => [hw_event.write_reg addr value r]) w

/-- The call `__alps_command_mode_write_reg(psmouse, value)`. -/
def hw_write_value {σ : Type} (cs : alps_command_set) (E : psmouse_io σ) (value : Nat)
    (w : HwRun σ) : HwRun σ :=
  hw_op (fun s => __alps_command_mode_write_reg cs E.transport s value)
    (fun r => [hw_event.write_value value r]) w

/-- The call `alps_command_mode_send_nibble(psmouse, nibble)`. -/
def hw_send_nibble {σ : Type} (cs : alps_command_set) (E : psmouse_io σ) (nibble : Nat)
    (w : HwRun σ) : HwRun σ :=
  hw_op (fun s => alps_command_mode_send_nibble cs E.transport s nibble) (fun _ => []) w

/-- The call `alps_get_e7_report(psmouse, param)` on the local buffer `param`. -/
def hw_get_e7_report {σ : Type} (K : psmouse_commands) (E : psmouse_io σ) (w : HwRun σ) :
    HwRun σ :=
  { hw_op (fun s => alps_get_e7_report K E.transport s w.param) (fun _ => []) w with
    param := (alps_get_e7_report K E.transport w.state w.param).param }

/-- The call `alps_command_mode_check_reg(psmouse, addr, value)`: its register read is
recorded. -/
def hw_check_reg {σ : Type} (K : psmouse_commands) (cs : alps_command_set)
    (E : psmouse_io σ) (addr value : Nat) (w : HwRun σ) : HwRun σ :=
  let w1 := hw_read_reg K cs E addr w
  if w1.ret < 0 then { w1 with ret := -1 }
  else { w1 with ret := if w1.ret = ((value % 256 : Nat) : Int) then 1 else 0 }

/-- The call `alps_command_mode_checkset_reg(psmouse, addr, value)`: its register read
and its register write are recorded. -/
def hw_checkset_reg {σ : Type} (K : psmouse_commands) (cs : alps_command_set)
    (E : psmouse_io σ) (addr value : Nat) (w : HwRun σ) : HwRun σ :=
  let w1 := hw_read_reg K cs E addr w
  if w1.ret < 0 then { w1 with ret := -1 }
  else
    let w2 := hw_write_value cs E value w1
    if w2.ret ≠ 0 then { w2 with ret := -1 } else { w2 with ret := 0 }

/-- Statements run in order until the first whose return value is not zero, as in a chain
`a || b || ...` or a sequence of `if (a) goto error; if (b) goto error; ...`: the return
value is -1 when a statement failed and 0 when all were run and none failed. -/
def until_failure {σ : Type} : List (HwRun σ → HwRun σ) → HwRun σ → HwRun σ
  | [], w => { w with ret := 0 }
  | f :: fs, w => if (f w).ret ≠ 0 then { f w with ret := -1 } else until_failure fs (f w)

/-- The statement `ok = ok && test(f(...))`: the call is made only when `ok` is set. -/
def hw_and {σ : Type} (test : Int → Bool) (f : HwRun σ → HwRun σ) (w : HwRun σ) : HwRun σ :=
  if w.ok then { f w with ok := test (f w).ret } else w

/-- The statements `reg_val = alps_command_mode_read_reg(psmouse, addr); if (reg_val ==
-1) fail; if (__alps_command_mode_write_reg(psmouse, f(reg_val))) fail;`: -1 on failure
and 0 otherwise. -/
def hw_read_then_write {σ : Type} (K : psmouse_commands) (cs : alps_command_set)
    (E : psmouse_io σ) (addr : Nat) (f : Nat → Nat) (w : HwRun σ) : HwRun σ :=
  let w1 := hw_read_reg K cs E addr w
  if w1.ret = -1 then { w1 with ret := -1 }
  else
    let w2 := hw_write_value cs E (f w1.ret.toNat) w1
    if w2.ret ≠ 0 then { w2 with ret := -1 } else { w2 with ret := 0 }

/-- The statement `if (alps_command_mode_read_reg(psmouse, addr) == -1) fail;`: -1 on
failure and 0 otherwise. -/
def hw_read_check {σ : Type} (K : psmouse_commands) (cs : alps_command_set)
    (E : psmouse_io σ) (addr : Nat) (w : HwRun σ) : HwRun σ :=
  let w1 := hw_read_reg K cs E addr w
  { w1 with ret := if w1.ret = -1 then -1 else 0 }

/-- The function `alps_passthrough_mode_v2` (lines 1319-1335). -/
def alps_passthrough_mode_v2 {σ : Type} (K : psmouse_commands) (E : psmouse_io σ)
    (enable : Bool) (w : HwRun σ) : HwRun σ :=
  let cmd := if enable then K.SETSCALE21 else K.SETSCALE11
  let w1 := until_failure
    [hw_ps2 E none cmd, hw_ps2 E none cmd, hw_ps2 E none cmd, hw_ps2 E none K.DISABLE] w
  if w1.ret ≠ 0 then w1 else { hw_drain E w1 with ret := 0 }

/-- The function `alps_absolute_mode_v1_v2` (lines 1337-1354). -/
def alps_absolute_mode_v1_v2 {σ : Type} (K : psmouse_commands) (E : psmouse_io σ)
    (w : HwRun σ) : HwRun σ :=
  let w1 := until_failure
    [hw_ps2 E none K.DISABLE, hw_ps2 E none K.DISABLE, hw_ps2 E none K.DISABLE,
      hw_ps2 E none K.DISABLE, hw_ps2 E none K.ENABLE] w
  if w1.ret ≠ 0 then w1 else hw_ps2 E none K.SETPOLL w1

/-- The function `alps_get_status` (lines 1356-1372), on the local buffer `param` of its
caller. -/
def alps_get_status {σ : Type} (K : psmouse_commands) (E : psmouse_io σ) (w : HwRun σ) :
    HwRun σ :=
  until_failure
    [hw_ps2 E none K.DISABLE, hw_ps2 E none K.DISABLE, hw_ps2 E none K.DISABLE,
      hw_ps2_param E 0 K.GETINFO] w

/-- The function `alps_tap_mode` (lines 1384-1402); its local `param` starts
uninitialised and `tap_arg` is a buffer of its own. -/
def alps_tap_mode {σ : Type} (K : psmouse_commands) (E : psmouse_io σ) (enable : Bool)
    (w : HwRun σ) : HwRun σ :=
  let cmd := if enable then K.SETRATE else K.SETRES
  let tap_arg := if enable then 0x0A else 0x00
  let w1 := until_failure
    [hw_ps2_param E 0 K.GETINFO, hw_ps2 E none K.DISABLE, hw_ps2 E none K.DISABLE,
      hw_ps2 E (some [tap_arg]) cmd] { w with param := [] }
  if w1.ret ≠ 0 then w1
  else until_failure [alps_get_status K E] w1

/-- The function `alps_hw_init_v1_v2` (lines 1431-1462). -/
def alps_hw_init_v1_v2 {σ : Type} (K : psmouse_commands) (E : psmouse_io σ)
    (model : alps_model_info) (s : σ) : HwRun σ :=
  until_failure
    [ (fun w => if model.flags &&& ALPS_PASS ≠ 0 then alps_passthrough_mode_v2 K E true w
        else { w with ret := 0 }),
      alps_tap_mode K E true,
      alps_absolute_mode_v1_v2 K E,
      (fun w => if model.flags &&& ALPS_PASS ≠ 0 then alps_passthrough_mode_v2 K E false w
        else { w with ret := 0 }),
      hw_ps2 E none K.SETSTREAM ] (hw_start s)

/-- The function `alps_passthrough_mode_v3` (lines 1468-1486). The register value is
between 0 and 255, so `reg_val & ~0x01` is `reg_val & 0xfe`. -/
def alps_passthrough_mode_v3 {σ : Type} (K : psmouse_commands) (cs : alps_command_set)
    (E : psmouse_io σ) (enable : Bool) (w : HwRun σ) : HwRun σ :=
  hw_read_then_write K cs E 0x0008
    (fun reg_val => if enable then reg_val ||| 0x01 else reg_val &&& 0xfe) w

/-- The function `alps_absolute_mode_v3` (lines 1489-1502). -/
def alps_absolute_mode_v3 {σ : Type} (K : psmouse_commands) (cs : alps_command_set)
    (E : psmouse_io σ) (w : HwRun σ) : HwRun σ :=
  hw_read_then_write K cs E 0x0004 (fun reg_val => reg_val ||| 0x06) w

/-- The function `alps_e6_sort_of_setmode` (lines 1504-1528); `byte` is a `u8`. -/
def alps_e6_sort_of_setmode {σ : Type} (K : psmouse_commands) (cs : alps_command_set)
    (E : psmouse_io σ) (byte : Nat) (w : HwRun σ) : HwRun σ :=
  until_failure
    [ hw_ps2 E none K.SETSCALE11, hw_ps2 E none K.SETSCALE11, hw_ps2 E none K.SETSCALE11,
      hw_send_nibble cs E ((byte % 256) >>> 4), hw_send_nibble cs E ((byte % 256) &&& 0xf) ] w

/-- The function `alps_set_rate_and_enable` (lines 1530-1543); it does not use its
argument `rate`, and its buffer is a local of its own with `param[0] = 0x64`. -/
def alps_set_rate_and_enable {σ : Type} (K : psmouse_commands) (E : psmouse_io σ)
    (w : HwRun σ) : HwRun σ :=
  until_failure [hw_ps2 E (some [0x64]) K.SETRATE, hw_ps2 E none K.ENABLE] w

/-- Where the body of `alps_hw_init_v3` leaves: at the end of the register set-up, at
the label `error` or at the label `error_passthrough`. -/
inductive v3_label where
  | done
  | error
  | error_passthrough
deriving DecidableEq, Repr

/-- Lines 1561-1586 of `alps_hw_init_v3`: the body of `if (reg_val & 0x80)`, the
trackstick set-up. The return value of `alps_e6_sort_of_setmode` is not used. -/
def alps_hw_init_v3_trackstick {σ : Type} (K : psmouse_commands) (E : psmouse_io σ)
    (w : HwRun σ) : HwRun σ × v3_label :=
  let cs := command_set_v3 K
  let w1 := alps_passthrough_mode_v3 K cs E true w
  if w1.ret ≠ 0 then (w1, v3_label.error)
  else
    let w2 := hw_exit K E w1
    if w2.ret ≠ 0 then (w2, v3_label.error)
    else
      let w3 := hw_get_e7_report K E (hw_set_param 0 0x64 w2)
      let w4 := if w3.ret ≠ 0 then w3 else alps_e6_sort_of_setmode K cs E 0x94 w3
      let w5 := hw_enter K E w4
      if w5.ret ≠ 0 then (w5, v3_label.error_passthrough)
      else
        let w6 := alps_passthrough_mode_v3 K cs E false w5
        if w6.ret ≠ 0 then (w6, v3_label.error) else (w6, v3_label.done)

/-- Lines 1555-1632 of `alps_hw_init_v3`: everything before the final
`alps_exit_command_mode`, with the label at which it leaves. -/
def alps_hw_init_v3_body {σ : Type} (K : psmouse_commands) (E : psmouse_io σ) (s : σ) :
    HwRun σ × v3_label :=
  let cs := command_set_v3 K
  let w1 := hw_enter K E (hw_start s)
  if w1.ret ≠ 0 then (w1, v3_label.error)
  else
    let w2 := hw_read_reg K cs E 0x0008 w1
    if w2.ret = -1 then (w2, v3_label.error)
    else
      let t : HwRun σ × v3_label :=
        if w2.ret.toNat &&& 0x80 ≠ 0 then alps_hw_init_v3_trackstick K E w2
        else (w2, v3_label.done)
      if t.2 ≠ v3_label.done then t
      else
        let w3 := until_failure
          [ alps_absolute_mode_v3 K cs E,
            hw_read_then_write K cs E 0x0006 (fun reg_val => reg_val ||| 0x01),
            hw_read_then_write K cs E 0x0007 (fun reg_val => reg_val ||| 0x01),
            hw_read_then_write K cs E 0x0144 (fun _ => 0x04),
            hw_read_then_write K cs E 0x0159 (fun _ => 0x03),
            hw_read_check K cs E 0x0163,
            hw_write_reg cs E 0x0163 0x03,
            hw_read_check K cs E 0x0162,
            hw_write_reg cs E 0x0162 0x04,
            hw_write_reg cs E 0x0008 0x82 ] t.1
        if w3.ret ≠ 0 then (w3, v3_label.error) else (w3, v3_label.done)

/-- The function `alps_hw_init_v3` (lines 1545-1659). At `error_passthrough` the driver
enters command mode again and, if that succeeds, leaves passthrough mode, ignoring the
outcome; at `error` it exits command mode and returns -1. -/
def alps_hw_init_v3 {σ : Type} (K : psmouse_commands) (E : psmouse_io σ) (s : σ) :
    HwRun σ :=
  let b := alps_hw_init_v3_body K E s
  match b.2 with
  | v3_label.done =>
    let w := alps_set_rate_and_enable K E (hw_exit K E b.1)
    if w.ret ≠ 0 then { w with ret := -1 } else { w with ret := 0 }
  | v3_label.error => { hw_exit K E b.1 with ret := -1 }
  | v3_label.error_passthrough =>
    let w1 := hw_enter K E b.1
    let w2 := if w1.ret = 0 then alps_passthrough_mode_v3 K (command_set_v3 K) E false w1
      else w1
    { hw_exit K E w2 with ret := -1 }

/-- The function `alps_absolute_mode_v4` (lines 1662-1675). -/
def alps_absolute_mode_v4 {σ : Type} (K : psmouse_commands) (cs : alps_command_set)
    (E : psmouse_io σ) (w : HwRun σ) : HwRun σ :=
  hw_read_then_write K cs E 0x0004 (fun reg_val => reg_val ||| 0x02) w

/-- Lines 1684-1711 of `alps_hw_init_v4`: everything before the final
`alps_exit_command_mode`; a return value that is not zero stands for `goto error`. -/
def alps_hw_init_v4_body {σ : Type} (K : psmouse_commands) (E : psmouse_io σ) (s : σ) :
    HwRun σ :=
  let cs := command_set_v4 K
  until_failure
    [ hw_enter K E,
      alps_absolute_mode_v4 K cs E,
      hw_write_reg cs E 0x0007 0x8c,
      hw_write_reg cs E 0x0149 0x03,
      hw_write_reg cs E 0x0160 0x03,
      hw_write_reg cs E 0x017f 0x15,
      hw_write_reg cs E 0x0151 0x01,
      hw_write_reg cs E 0x0168 0x03,
      hw_write_reg cs E 0x014a 0x03,
      hw_write_reg cs E 0x0161 0x03 ] (hw_start s)

/-- The function `alps_hw_init_v4` (lines 1677-1745). -/
def alps_hw_init_v4 {σ : Type} (K : psmouse_commands) (E : psmouse_io σ) (s : σ) :
    HwRun σ :=
  let cs := command_set_v4 K
  let b := alps_hw_init_v4_body K E s
  if b.ret ≠ 0 then { hw_exit K E b with ret := -1 }
  else
    let w1 := until_failure
      [ hw_send_nibble cs E 0x9, hw_send_nibble cs E 0x8, hw_send_nibble cs E 0x7,
        hw_send_nibble cs E 0xa ] (hw_exit K E b)
    if w1.ret ≠ 0 then { w1 with ret := -1 }
    else
      let w2 := alps_set_rate_and_enable K E w1
      if w2.ret ≠ 0 then { w2 with ret := -1 } else { w2 with ret := 0 }

/-- Lines 1914-1926 of `alps_hw_init_v5_unified`: the common end of the function, with
`has_trackstick` as it stands at that point. -/
def alps_hw_init_v5_unified_tail {σ : Type} (K : psmouse_commands) (E : psmouse_io σ)
    (has_trackstick : Bool) (w : HwRun σ) : HwRun σ :=
  let cs := command_set_v3 K
  let w1 := hw_and (fun r => decide (r = 0)) (hw_checkset_reg K cs E 0xc2c4 0x02) w
  let w2 := hw_and (fun r => decide (r > 0)) (hw_check_reg K cs E 0xc2d9 0x00) w1
  let w3 := hw_and (fun r => decide (r = 0)) (hw_write_reg cs E 0xc2cb 0x00) w2
  let w4 := hw_and (fun r => decide (r = 0))
    (hw_checkset_reg K cs E 0xc2c8 (if has_trackstick then 0x82 else 0x00)) w3
  let w5 := hw_exit K E w4
  let w6 := hw_and (fun r => decide (r = 0)) (alps_set_rate_and_enable K E) w5
  { w6 with ret := if w6.ok then 0 else -1 }

/-- The function `alps_hw_init_v5_unified` (lines 1882-1945). -/
def alps_hw_init_v5_unified {σ : Type} (K : psmouse_commands) (E : psmouse_io σ) (s : σ) :
    HwRun σ :=
  let cs := command_set_v3 K
  let w1 := hw_and (fun r => decide (r = 0)) (hw_reset E) (hw_start s)
  let w2 := hw_and (fun r => decide (r = 0)) (hw_enter K E) w1
  if ¬ w2.ok then { w2 with ret := -1 }
  else
    let w3 := hw_and (fun r => decide (r ≥ 0)) (hw_read_reg K cs E 0xc2c8) w2
    if ¬ w3.ok then { hw_exit K E w3 with ret := -1 }
    else if w3.ret.toNat &&& 0x80 ≠ 0 then
      let w4 := hw_and (fun r => decide (r = 0)) (hw_write_value cs E 0x81) w3
      let w5 := hw_exit K E w4
      if ¬ w5.ok then { w5 with ret := -1 }
      else
        let w6 := hw_get_e7_report K E w5
        let has_trackstick : Bool := decide (w6.ret = 0)
        let w7 :=
          if w6.ret ≠ 0 then w6
          else hw_and (fun r => decide (r = 0)) (alps_e6_sort_of_setmode K cs E 0x94) w6
        let w8 := hw_and (fun r => decide (r = 0)) (hw_enter K E) w7
        let w9 := hw_and (fun r => decide (r = 0))
          (hw_checkset_reg K cs E 0xc2c8 (if has_trackstick then 0x82 else 0x00)) w8
        alps_hw_init_v5_unified_tail K E has_trackstick w9
    else alps_hw_init_v5_unified_tail K E false w3

/-- The function `alps_hw_init_v6` (lines 1947-2046). No return value is tested and the
function returns 0. -/
def alps_hw_init_v6 {σ : Type} (K : psmouse_commands) (E : psmouse_io σ) (s : σ) :
    HwRun σ :=
  let cs := command_set_v3 K
  let steps : List (HwRun σ → HwRun σ) :=
    [ hw_and (fun r => decide (r = 0)) (hw_reset E),
      hw_send_nibble cs E 0xa, hw_send_nibble cs E 0xe, hw_send_nibble cs E 0x9,
      hw_send_nibble cs E 0x8, hw_send_nibble cs E 0x7, hw_send_nibble cs E 0xa,
      hw_send_nibble cs E 0x9, hw_send_nibble cs E 0x9, hw_send_nibble cs E 0x7,
      hw_send_nibble cs E 0xa, hw_send_nibble cs E 0x8, hw_send_nibble cs E 0xf,
      hw_enter_param K E, hw_exit K E,
      hw_ps2 E none K.SETPOLL, hw_ps2 E none K.SETPOLL, hw_ps2_param E 0 K.GETINFO,
      hw_ps2 E none K.SETSTREAM, hw_ps2 E none K.SETSTREAM, hw_ps2_param E 0 K.GETINFO,
      hw_ps2 E none K.SETPOLL, hw_ps2 E none K.SETPOLL,
      hw_set_param 0 0x28, hw_set_param 1 0x50,
      hw_ps2_param E 0 K.SETRATE, hw_ps2_param E 1 K.SETRATE,
      hw_enter_param K E,
      hw_write_reg cs E 0x001f 0x08,
      hw_ps2 E none K.RESET_WRAP, hw_ps2 E none K.SETPOLL, hw_ps2 E none K.SETSCALE21,
      hw_ps2 E none K.SETSCALE21, hw_set_param 0 0x64, hw_ps2_param E 0 K.SETRATE,
      hw_ps2 E none K.SETPOLL,
      hw_exit K E,
      hw_ps2 E none K.DISABLE, hw_ps2 E none K.SETSTREAM, hw_ps2 E none K.SETSTREAM,
      hw_set_param 0 0x64, hw_set_param 1 0x28,
      hw_ps2_param E 0 K.SETRATE, hw_ps2_param E 1 K.SETRATE,
      hw_ps2 E none K.SETSTREAM, hw_ps2 E none K.SETSTREAM,
      hw_set_param 0 0x50, hw_set_param 1 0x0a,
      hw_ps2_param E 0 K.SETRATE, hw_ps2_param E 1 K.SETRATE,
      hw_ps2 E none K.SETSTREAM,
      hw_set_param 0 0x50, hw_ps2_param E 0 K.SETRATE,
      hw_ps2 E none K.SETSCALE11,
      hw_set_param 0 0x03, hw_ps2_param E 0 K.SETRES,
      hw_ps2 E none K.ENABLE ]
  { steps.foldl (fun w f => f w) (hw_start s) with ret := 0 }

/-- The function `alps_hw_init` (lines 2048-2074). -/
def alps_hw_init {σ : Type} (K : psmouse_commands) (E : psmouse_io σ)
    (model : alps_model_info) (s : σ) : HwRun σ :=
  match model.proto_version with
  | ALPS_PROTO_V1 | ALPS_PROTO_V2 => alps_hw_init_v1_v2 K E model s
  | ALPS_PROTO_V3 => alps_hw_init_v3 K E s
  | ALPS_PROTO_V4 => alps_hw_init_v4 K E s
  | ALPS_PROTO_V5 => alps_hw_init_v5_unified K E s
  | ALPS_PROTO_V6 => alps_hw_init_v6 K E s

/-- A register operation that failed: a register read that returned -1 or a register
write that returned a value other than 0. -/
def reg_failed : hw_event → Prop
  | hw_event.read_reg _ ret => ret = -1
  | hw_event.write_reg _ _ ret => ret ≠ 0
  | hw_event.write_value _ ret => ret ≠ 0
  | _ => False

instance (e : hw_event) : Decidable (reg_failed e) := by
  cases e <;> unfold reg_failed <;> infer_instance

/-- The event is the return of a call of `alps_enter_command_mode`. -/
def is_enter : hw_event → Bool
  | hw_event.enter_command_mode _ => true
  | _ => false

/-- After the last attempt to enter command mode the driver exits command mode: the
trace holds a `PSMOUSE_CMD_SETSTREAM` command followed by the return of
`alps_exit_command_mode`, and no return of `alps_enter_command_mode` after them. -/
def exits_after_last_enter (K : psmouse_commands) (trace : List hw_event) : Prop :=
  ∃ pre c r post, trace = pre ++ hw_event.command c :: hw_event.exit_command_mode r :: post ∧
    c.command = K.SETSTREAM ∧ ∀ e ∈ post, is_enter e = false

/-- Collaborators that replay a script of transport replies (see `scripted_transport`);
`psmouse_reset` succeeds and `ps2_drain` does nothing. -/
def scripted_io : psmouse_io (List (Bool × List Nat)) :=
  { transport := scripted_transport, reset := fun s => (s, 0), drain := fun s => s }

/-! ### Properties of runs of the hardware initialisation -/

/-- No register operation recorded in the trace failed. -/
def reg_clean (trace : List hw_event) : Prop := ∀ e ∈ trace, ¬ reg_failed e

/-- The step `f` only appends events to the trace, and every event it appends satisfies
`P`. -/
def Adds {σ : Type} (P : hw_event → Prop) (f : HwRun σ → HwRun σ) : Prop :=
  ∀ w : HwRun σ, ∃ post, (f w).trace = w.trace ++ post ∧ ∀ e ∈ post, P e

/-- When the step `f` starts from a trace without failed register operation and its
return value passes `test`, its trace holds no failed register operation. -/
def Guarded {σ : Type} (test : Int → Bool) (f : HwRun σ → HwRun σ) : Prop :=
  ∀ w : HwRun σ, reg_clean w.trace → test (f w).ret = true → reg_clean (f w).trace

/-- While the local `ok` is set, no register operation recorded in the trace failed. -/
def OkClean {σ : Type} (w : HwRun σ) : Prop := w.ok = true → reg_clean w.trace

/-- The event is not the return of a register operation. -/
def not_reg : hw_event → Prop
  | hw_event.read_reg _ _ => False
  | hw_event.write_reg _ _ _ => False
  | hw_event.write_value _ _ => False
  | _ => True

/-- The run returns 0 or -1, and it returns 0 only when no register operation recorded
in its trace failed. -/
def ReportsFailure {σ : Type} (w : HwRun σ) : Prop :=
  (w.ret = 0 ∨ w.ret = -1) ∧ (w.ret = 0 → reg_clean w.trace)

/-- When the body of `alps_hw_init_v3` leaves at the end of the register set-up, no
register operation recorded in the trace failed. -/
def CleanAtDone {σ : Type} (t : HwRun σ × v3_label) : Prop :=
  t.2 = v3_label.done → reg_clean t.1.trace

/-- The V3 row of `alps_model_data` with `command_mode_resp` 0x9d. -/
def model_v3_9d : alps_model_info :=
  ⟨(0x73, 0x02, 0x64), 0x9d, ALPS_PROTO_V3, 0x8f, 0x8f, ALPS_DUALPOINT⟩

/-- The V5 row of `alps_model_data` (Dell Latitude E6430, E6530). -/
def model_dell_e6430 : alps_model_info :=
  ⟨(0x73, 0x03, 0x0a), 0x1d, ALPS_PROTO_V5, 0x8f, 0x8f, ALPS_DUALPOINT⟩

/-- The event is not the return of a call of `alps_exit_command_mode`. -/
def not_exit : hw_event → Prop
  | hw_event.exit_command_mode _ => False
  | _ => True

/-- The event is not the return of a call of `alps_enter_command_mode`. -/
def not_enter (e : hw_event) : Prop := is_enter e = false

/-! ### Locals of the V1/V2 decoder and the bare PS/2 report (alps.c lines 184-212,
827-850) -/

/-- The local `x` of `alps_process_packet_v1_v2` (lines 188 and 195). -/
def v1_v2_x (model : alps_model_info) (packet : List Nat) : Nat :=
  if model.proto_version = ALPS_PROTO_V1 then
    byte_at packet 1 ||| ((byte_at packet 0 &&& 0x07) <<< 7)
  else byte_at packet 1 ||| ((byte_at packet 2 &&& 0x78) <<< (7 - 3))

/-- The local `y` of `alps_process_packet_v1_v2` (lines 189 and 196). -/
def v1_v2_y (model : alps_model_info) (packet : List Nat) : Nat :=
  if model.proto_version = ALPS_PROTO_V1 then
    byte_at packet 4 ||| ((byte_at packet 3 &&& 0x07) <<< 7)
  else byte_at packet 4 ||| ((byte_at packet 3 &&& 0x70) <<< (7 - 4))

/-- The local `left` of `alps_process_packet_v1_v2` (lines 185 and 192). -/
def v1_v2_left (model : alps_model_info) (packet : List Nat) : Nat :=
  if model.proto_version = ALPS_PROTO_V1 then byte_at packet 2 &&& 0x10
  else byte_at packet 3 &&& 1

/-- The local `right` of `alps_process_packet_v1_v2` (lines 186 and 193). -/
def v1_v2_right (model : alps_model_info) (packet : List Nat) : Nat :=
  if model.proto_version = ALPS_PROTO_V1 then byte_at packet 2 &&& 0x08
  else byte_at packet 3 &&& 2

/-- The local `middle` of `alps_process_packet_v1_v2` after line 209: with the flag
`ALPS_FW_BK_2` it is `forward && back` of the bits `packet[2] & 4` and `packet[3] & 4`,
otherwise the value of lines 187 and 194. -/
def v1_v2_middle (model : alps_model_info) (packet : List Nat) : Nat :=
  if model.flags &&& ALPS_FW_BK_2 ≠ 0 then
    (if byte_at packet 2 &&& 4 ≠ 0 ∧ byte_at packet 3 &&& 4 ≠ 0 then 1 else 0)
  else if model.proto_version = ALPS_PROTO_V1 then 0
  else byte_at packet 3 &&& 4

/-- The test of line 214 of `alps_process_packet_v1_v2`: the packet carries trackstick
data. -/
def v1_v2_trackstick_packet (model : alps_model_info) (packet : List Nat) : Prop :=
  model.flags &&& ALPS_DUALPOINT ≠ 0 ∧ byte_at packet 5 = 127

instance (model : alps_model_info) (packet : List Nat) :
    Decidable (v1_v2_trackstick_packet model packet) := by
  unfold v1_v2_trackstick_packet
  infer_instance

/-- The test of line 234 of `alps_process_packet_v1_v2`, `ges && fin && !priv->prev_fin`:
the synthetic event of a tap-and-drag start is emitted. -/
def tap_and_drag_start (priv : alps_data) (packet : List Nat) : Prop :=
  byte_at packet 2 &&& 1 ≠ 0 ∧ byte_at packet 2 &&& 2 ≠ 0 ∧ priv.prev_fin = 0

instance (priv : alps_data) (packet : List Nat) :
    Decidable (tap_and_drag_start priv packet) := by
  unfold tap_and_drag_start
  infer_instance

/-- The event reports a position, a pressure, a touch or a tool: an absolute axis event,
or a `BTN_TOUCH` or `BTN_TOOL_FINGER` key event. -/
def is_touch_surface_report : InputEvent → Bool
  | InputEvent.abs _ _ _ => true
  | InputEvent.key _ Key.BTN_TOUCH _ => true
  | InputEvent.key _ Key.BTN_TOOL_FINGER _ => true
  | _ => false

/-- The event is a relative motion (`REL_X` or `REL_Y`) of the secondary device. -/
def is_dev2_motion : InputEvent → Bool
  | InputEvent.rel Dev.dev2 RelAxis.REL_X _ => true
  | InputEvent.rel Dev.dev2 RelAxis.REL_Y _ => true
  | _ => false

/-- The function `alps_report_bare_ps2_packet` (lines 827-850) on the three bytes
`packet[0]`, `packet[1]`, `packet[2]` it is given; the debug output is left out. -/
def alps_report_bare_ps2_packet (key_state : Dev → Key → Bool) (b0 b1 b2 : Nat)
    (report_buttons : Bool) : List InputEvent :=
  (if report_buttons then
      alps_report_buttons key_state Dev.dev2 Dev.dev1 (b0 &&& 1) (b0 &&& 2) (b0 &&& 4)
    else []) ++
  [ InputEvent.rel Dev.dev2 RelAxis.REL_X
      (if b1 ≠ 0 then (b1 : Int) - (((b0 <<< 4) &&& 0x100 : Nat) : Int) else 0),
    InputEvent.rel Dev.dev2 RelAxis.REL_Y
      (if b2 ≠ 0 then (((b0 <<< 3) &&& 0x100 : Nat) : Int) - (b2 : Int) else 0),
    InputEvent.sync Dev.dev2 ]

/-- Lines 243-273 of `alps_process_packet_v1_v2`: the report made for a touchpad packet
after the assignment `priv->prev_fin = fin`; `z` is the pressure byte, replaced by 40
when the packet flags a hardware tap (line 226). -/
def v1_v2_normal_report (model : alps_model_info) (packet : List Nat) : List InputEvent :=
  let x := v1_v2_x model packet
  let y := v1_v2_y model packet
  let fb1 := model.flags &&& ALPS_FW_BK_1 ≠ 0
  let back1 := if fb1 then byte_at packet 0 &&& 0x10 else 0
  let forward1 := if fb1 then byte_at packet 2 &&& 4 else 0
  let fb2 := model.flags &&& ALPS_FW_BK_2 ≠ 0
  let back2 := if fb2 then byte_at packet 3 &&& 4 else back1
  let forward2 := if fb2 then byte_at packet 2 &&& 4 else forward1
  let back := if fb2 ∧ v1_v2_middle model packet ≠ 0 then 0 else back2
  let forward := if fb2 ∧ v1_v2_middle model packet ≠ 0 then 0 else forward2
  let z := if byte_at packet 2 &&& 1 ≠ 0 ∧ byte_at packet 2 &&& 2 = 0 then 40
    else byte_at packet 5
  (if z > 30 then [input_report_key Dev.dev1 Key.BTN_TOUCH 1] else [])
  ++ (if z < 25 then [input_report_key Dev.dev1 Key.BTN_TOUCH 0] else [])
  ++ (if z > 0 then
        [ InputEvent.abs Dev.dev1 AbsAxis.ABS_X x, InputEvent.abs Dev.dev1 AbsAxis.ABS_Y y ]
      else [])
  ++ [ InputEvent.abs Dev.dev1 AbsAxis.ABS_PRESSURE z,
       input_report_key Dev.dev1 Key.BTN_TOOL_FINGER (if z > 0 then 1 else 0) ]
  ++ (if model.flags &&& ALPS_WHEEL ≠ 0 then
        [ InputEvent.rel Dev.dev1 RelAxis.REL_WHEEL
            ((((byte_at packet 2 <<< 1) &&& 0x08 : Nat) : Int)
              - (((byte_at packet 0 >>> 4) &&& 0x07 : Nat) : Int)) ]
      else [])
  ++ (if model.flags &&& (ALPS_FW_BK_1 ||| ALPS_FW_BK_2) ≠ 0 then
        [ input_report_key Dev.dev1 Key.BTN_FORWARD forward,
          input_report_key Dev.dev1 Key.BTN_BACK back ]
      else [])
  ++ (if model.flags &&& ALPS_FOUR_BUTTONS ≠ 0 then
        [ input_report_key Dev.dev1 Key.BTN_0 (byte_at packet 2 &&& 4),
          input_report_key Dev.dev1 Key.BTN_1 (byte_at packet 0 &&& 0x10),
          input_report_key Dev.dev1 Key.BTN_2 (byte_at packet 3 &&& 4),
          input_report_key Dev.dev1 Key.BTN_3 (byte_at packet 0 &&& 0x20) ]
      else [])
  ++ [InputEvent.sync Dev.dev1]

/-- A script for `scripted_transport` on which `alps_get_model` sees the row `m`: the E6
sequence answered with `00 00 0a`, the `SETRES` command, the E7 sequence answered with
the signature of `m`, and, for a row of a variant above V2, the entry into command mode
answered with `88 07` and the `command_mode_resp` of `m`, and the exit. -/
def identify_script (m : alps_model_info) : List (Bool × List Nat) :=
  [ (false, [0]), (false, []), (false, []), (false, []), (false, [0, 0, 10]),
    (false, [0, 0, 10]),
    (false, []), (false, []), (false, []),
    (false, [m.signature.1, m.signature.2.1, m.signature.2.2]) ] ++
  (if proto_newer_than_v2 m.proto_version then
    [ (false, []), (false, []), (false, []), (false, [0x88, 0x07, m.command_mode_resp]),
      (false, []) ]
  else [])

/-- What holds of the locals of a scanning loop of `alps_process_bitmap` between two
iterations. The low point lies below the loop counter. While `point` is at the low point
at most one run was counted and the high point has no bits; once `point` is at the high
point the low point is a complete run that ends below the loop counter, and a second
run, when one was counted, starts above the end of the low point; while exactly two
runs were counted the high point lies below the loop counter. -/
def ScanInv (st : BitmapScan) : Prop :=
  0 ≤ st.i ∧ 0 ≤ st.fingers ∧ 0 ≤ st.low.start_bit ∧ 0 ≤ st.low.num_bits ∧
    st.low.start_bit + st.low.num_bits ≤ st.i ∧
    0 ≤ st.high.start_bit ∧ 0 ≤ st.high.num_bits ∧
    (if st.at_high then
      1 ≤ st.fingers ∧ 1 ≤ st.low.num_bits ∧
        st.low.start_bit + st.low.num_bits < st.i ∧
        (st.fingers = 1 → st.prev_bit = 0 ∧ st.high.num_bits = 0) ∧
        (2 ≤ st.fingers →
          st.low.start_bit + st.low.num_bits < st.high.start_bit ∧ st.high.start_bit < st.i) ∧
        (st.fingers = 2 → st.high.start_bit + st.high.num_bits ≤ st.i)
    else
      st.high.num_bits = 0 ∧ st.fingers ≤ 1 ∧
        (st.fingers = 0 → st.prev_bit = 0 ∧ st.low.num_bits = 0) ∧
        (st.fingers = 1 → st.prev_bit ≠ 0 ∧ 1 ≤ st.low.num_bits))


/-! ## Part II: lemmas and theorems -/

set_option maxRecDepth 100000

/-! ### Bytes and bit tests -/

lemma byte_at_set (l : List Nat) (i j v : Nat) :
    byte_at (l.set i v) j = if i = j ∧ i < l.length then v else byte_at l j := by
  unfold byte_at
  simp only [List.getD_eq_getElem?_getD, List.getElem?_set]
  by_cases hij : i = j
  · subst hij
    by_cases hi : i < l.length
    · simp [hi]
    · have : l.length ≤ i := by omega
      simp [hi, List.getElem?_eq_none this]
  · simp [hij]

lemma and_two_pow_eq_zero_iff (x k : Nat) : x &&& 2 ^ k = 0 ↔ x.testBit k = false := by
  constructor
  · intro h
    have h1 : (x &&& 2 ^ k).testBit k = false := by rw [h]; simp
    simpa [Nat.testBit_and, Nat.testBit_two_pow_self] using h1
  · intro h
    apply Nat.eq_of_testBit_eq
    intro i
    simp only [Nat.testBit_and, Nat.testBit_two_pow, Nat.zero_testBit]
    by_cases hk : k = i
    · subst hk; simp [h]
    · simp [hk]

lemma high_bit_clear_iff (x : Nat) : x &&& 0x80 = 0 ↔ x.testBit 7 = false :=
  and_two_pow_eq_zero_iff x 7

lemma high_bit_or3 (a b c : Nat) :
    (a ||| b ||| c) &&& 0x80 = 0 ↔ a &&& 0x80 = 0 ∧ b &&& 0x80 = 0 ∧ c &&& 0x80 = 0 := by
  simp only [high_bit_clear_iff, Nat.testBit_or, Bool.or_eq_false_iff, and_assoc]

lemma high_bit_and_f7 (x : Nat) (h : x &&& 0x80 = 0) : (x &&& 0xf7) &&& 0x80 = 0 := by
  rw [high_bit_clear_iff] at h ⊢
  simp [Nat.testBit_and, h]

lemma not_bare_of_high_bit (x : Nat) (h : x &&& 0x80 ≠ 0) : x &&& 0xc8 ≠ 0x08 := by
  intro hb
  apply h
  rw [high_bit_clear_iff]
  have h1 : (x &&& 0xc8).testBit 7 = false := by rw [hb]; decide
  have h2 : (0xc8 : Nat).testBit 7 = true := by decide
  simpa [Nat.testBit_and, h2] using h1

lemma and_f7_not_interleaved (x : Nat) : (x &&& 0xf7) &&& 0x0f ≠ 0x0f := by
  intro h
  have h1 : ((x &&& 0xf7) &&& 0x0f).testBit 3 = true := by rw [h]; decide
  have h2 : (0xf7 : Nat).testBit 3 = false := by decide
  simp [Nat.testBit_and, h2] at h1

lemma decoded_packets_append (a b : List FramingCall) :
    decoded_packets (a ++ b) = decoded_packets a ++ decoded_packets b := by
  induction a with
  | nil => rfl
  | cons c rest ih =>
    cases c <;> simp [decoded_packets, ih]


/-! ### Framing: only buffers with a valid first byte reach the decoder -/

lemma handle_interleaved_first_byte (model : alps_model_info) (ps : psmouse)
    (hsz : 3 ≤ ps.pktsize) (hlen : 1 ≤ ps.packet.length)
    (hnb : byte_at ps.packet 0 &&& 0xc8 ≠ 0x08)
    (hv : alps_is_valid_first_byte model (byte_at ps.packet 0) = true) :
    (∀ p ∈ decoded_packets (alps_handle_interleaved_ps2 model ps).2.2,
        alps_is_valid_first_byte model (byte_at p 0) = true) ∧
      ((alps_handle_interleaved_ps2 model ps).2.1 = PSMOUSE_GOOD_DATA →
        FirstByteInv model (alps_handle_interleaved_ps2 model ps).1) ∧
      (alps_handle_interleaved_ps2 model ps).1.pktsize = ps.pktsize ∧
      (alps_handle_interleaved_ps2 model ps).1.packet.length = ps.packet.length := by
  unfold alps_handle_interleaved_ps2
  split_ifs with h1 h2 h3 h4
  · exact ⟨by simp [decoded_packets], fun _ => ⟨hsz, hlen, fun _ => Or.inr ⟨hnb, hv⟩⟩, rfl, rfl⟩
  · exact ⟨by simp [decoded_packets], fun _ => ⟨hsz, hlen, fun _ => Or.inr ⟨hnb, hv⟩⟩, rfl, rfl⟩
  · exact ⟨by simp [decoded_packets], by simp, rfl, rfl⟩
  · push_neg at h4
    have hv6 : alps_is_valid_first_byte model (byte_at ps.packet 6) = true := by
      simpa using h4.2
    refine ⟨by simpa [decoded_packets] using hv, fun _ => ⟨hsz, by simpa using hlen, fun _ => ?_⟩,
      rfl, by simp⟩
    have hb0 : byte_at (ps.packet.set 0 (byte_at ps.packet 6)) 0 = byte_at ps.packet 6 := by
      rw [byte_at_set, if_pos ⟨rfl, by omega⟩]
    right
    simp only [hb0]
    exact ⟨not_bare_of_high_bit _ h3, hv6⟩
  · refine ⟨by simp [decoded_packets], fun _ => ⟨hsz, by simpa using hlen, fun _ => ?_⟩,
      rfl, by simp⟩
    have hb0 : byte_at (ps.packet.set 3 (byte_at ps.packet 6 &&& 0xf7)) 0 = byte_at ps.packet 0 := by
      rw [byte_at_set]; simp
    right
    simp only [hb0]
    exact ⟨hnb, hv⟩

lemma process_byte_first_byte (model : alps_model_info) (ps : psmouse)
    (hsz : 3 ≤ ps.pktsize) (hlen : 1 ≤ ps.packet.length) (hcnt : 1 ≤ ps.pktcnt)
    (hprev : 2 ≤ ps.pktcnt →
      (byte_at ps.packet 0 &&& 0xc8 = 0x08 ∧ ps.pktcnt ≤ 3) ∨
      (byte_at ps.packet 0 &&& 0xc8 ≠ 0x08 ∧
        alps_is_valid_first_byte model (byte_at ps.packet 0) = true)) :
    (∀ p ∈ decoded_packets (alps_process_byte model ps).2.2,
        alps_is_valid_first_byte model (byte_at p 0) = true) ∧
      ((alps_process_byte model ps).2.1 = PSMOUSE_GOOD_DATA →
        FirstByteInv model (alps_process_byte model ps).1) ∧
      (alps_process_byte model ps).1.pktsize = ps.pktsize ∧
      (alps_process_byte model ps).1.packet.length = ps.packet.length := by
  unfold alps_process_byte
  split_ifs with h1 h2 h3 h4 h5 h6
  · exact ⟨by simp [decoded_packets], by simp, rfl, rfl⟩
  · refine ⟨by simp [decoded_packets], fun _ => ⟨hsz, hlen, fun _ => Or.inl ⟨h1, ?_⟩⟩, rfl, rfl⟩
    show ps.pktcnt < 3
    by_cases h : 2 ≤ ps.pktcnt
    · rcases hprev h with ⟨_, h3⟩ | ⟨hn, _⟩
      · omega
      · exact absurd h1 hn
    · omega
  · have h2' : 2 ≤ ps.pktcnt := by omega
    rcases hprev h2' with ⟨hb, _⟩ | ⟨hnb, hv⟩
    · exact absurd hb h1
    · exact handle_interleaved_first_byte model ps hsz hlen hnb hv
  · exact ⟨by simp [decoded_packets], by simp, rfl, rfl⟩
  · exact ⟨by simp [decoded_packets], by simp, rfl, rfl⟩
  · have hv : alps_is_valid_first_byte model (byte_at ps.packet 0) = true := by simpa using h4
    exact ⟨by simpa [decoded_packets] using hv, by simp, rfl, rfl⟩
  · have hv : alps_is_valid_first_byte model (byte_at ps.packet 0) = true := by simpa using h4
    exact ⟨by simp [decoded_packets], fun _ => ⟨hsz, hlen, fun _ => Or.inr ⟨h1, hv⟩⟩, rfl, rfl⟩

lemma framing_step_first_byte (model : alps_model_info) (ps : psmouse) (inp : WireInput)
    (hinv : FirstByteInv model ps) :
    (∀ p ∈ decoded_packets (framing_step model ps inp).2,
        alps_is_valid_first_byte model (byte_at p 0) = true) ∧
      FirstByteInv model (framing_step model ps inp).1 := by
  obtain ⟨hsz, hlen, hb⟩ := hinv
  cases inp with
  | byte data =>
    have hstore := process_byte_first_byte model
      { ps with packet := ps.packet.set ps.pktcnt data, pktcnt := ps.pktcnt + 1 }
      hsz (by simpa using hlen) (by simp) (by
        intro h2
        have h1 : 1 ≤ ps.pktcnt := by simpa using h2
        have hne : ¬ (ps.pktcnt = 0 ∧ ps.pktcnt < ps.packet.length) := by omega
        simp only [byte_at_set, hne, if_false]
        rcases hb h1 with ⟨hx, hy⟩ | hx
        · exact Or.inl ⟨hx, by omega⟩
        · exact Or.inr hx)
    obtain ⟨hdec, hgood, hsz', hlen'⟩ := hstore
    simp only [framing_step, psmouse_handle_byte]
    split_ifs with hr
    · exact ⟨hdec, hgood hr⟩
    · refine ⟨hdec, ?_, ?_, ?_⟩
      · simpa [hsz'] using hsz
      · simp only [hlen']; simpa using hlen
      · simp
  | flush =>
    simp only [framing_step, alps_flush_packet]
    split_ifs with h1 h2
    · exact ⟨by simp [decoded_packets], hsz, hlen, by simp⟩
    · refine ⟨?_, hsz, hlen, by simp⟩
      have h3 : 1 ≤ ps.pktcnt := by omega
      rcases hb h3 with ⟨_, hy⟩ | ⟨_, hv⟩
      · omega
      · simpa [decoded_packets] using hv
    · exact ⟨by simp [decoded_packets], hsz, hlen, hb⟩

lemma framing_run_first_byte (model : alps_model_info) (inputs : List WireInput) :
    ∀ ps : psmouse, FirstByteInv model ps →
      ∀ p ∈ decoded_packets (framing_run model ps inputs).2,
        alps_is_valid_first_byte model (byte_at p 0) = true := by
  induction inputs with
  | nil => intro ps _ p hp; simp [framing_run, decoded_packets] at hp
  | cons inp rest ih =>
    intro ps hinv p hp
    obtain ⟨hdec, hinv'⟩ := framing_step_first_byte model ps inp hinv
    simp only [framing_run, decoded_packets_append, List.mem_append] at hp
    rcases hp with hp | hp
    · exact hdec p hp
    · exact ih _ hinv' p hp

lemma first_byte_inv_empty (model : alps_model_info) (packet : List Nat)
    (hlen : packet.length = 8) : FirstByteInv model (psmouse_empty model packet) := by
  refine ⟨?_, ?_, ?_⟩
  · simp only [psmouse_empty, alps_pktsize]; split_ifs <;> omega
  · simp only [psmouse_empty]; omega
  · simp [psmouse_empty]

/-- C1. For every model (in particular every row of `alps_model_data`) and every sequence
of received bytes and flush-timer expiries fed to the framing state machine from an empty
packet buffer, each buffer on which the variant decoder `alps_process_packet` is called
has a byte 0 that passes `alps_is_valid_first_byte` for the model. -/
theorem decoder_only_sees_valid_first_byte (model : alps_model_info) (packet : List Nat)
    (inputs : List WireInput) (hlen : packet.length = 8) :
    ∀ p ∈ decoded_packets (framing_run model (psmouse_empty model packet) inputs).2,
      alps_is_valid_first_byte model (byte_at p 0) = true :=
  framing_run_first_byte model inputs _ (first_byte_inv_empty model packet hlen)


/-- C1, witness: the theorem at the plain V2 row and the stream f8 01 02 03 04 05, whose
six bytes are decoded. -/
theorem decoder_only_sees_valid_first_byte_witness :
    [0, 0, 0, 0, 0, 0, 0, 0].length = 8 ∧
      alps_is_valid_first_byte model_plain_v2 (byte_at [0xf8, 1, 2, 3, 4, 5, 0, 0] 0) = true :=
  ⟨by decide,
    decoder_only_sees_valid_first_byte model_plain_v2 [0, 0, 0, 0, 0, 0, 0, 0]
      [WireInput.byte 0xf8, WireInput.byte 1, WireInput.byte 2, WireInput.byte 3,
        WireInput.byte 4, WireInput.byte 5] (by decide) [0xf8, 1, 2, 3, 4, 5, 0, 0] (by decide)⟩


/-! ### Framing: high bits of the bytes that reach the decoder -/

lemma alps_pktsize_ge (model : alps_model_info) : 6 ≤ alps_pktsize model := by
  unfold alps_pktsize; split_ifs <;> omega

lemma clearUpTo_succ {packet : List Nat} {n : Nat} (h : ClearUpTo packet n)
    (hn : byte_at packet n &&& 0x80 = 0) : ClearUpTo packet (n + 1) := by
  intro i h1 h2
  by_cases hi : i = n
  · subst hi; exact hn
  · exact h i h1 (by omega)

lemma clearUpTo_set {packet : List Nat} {n j v : Nat} (h : ClearUpTo packet n)
    (hj : n ≤ j ∨ j = 0 ∨ v &&& 0x80 = 0) : ClearUpTo (packet.set j v) n := by
  intro i h1 h2
  rw [byte_at_set]
  split_ifs with hc
  · rcases hj with hj | hj | hj
    · omega
    · omega
    · exact hj
  · exact h i h1 h2

lemma handle_interleaved_high_bit (model : alps_model_info) (ps : psmouse)
    (hIL : model.flags &&& ALPS_PS2_INTERLEAVED ≠ 0 → alps_pktsize model = 6)
    (hsz : ps.pktsize = alps_pktsize model) (hlen : ps.packet.length = 8)
    (hnb : byte_at ps.packet 0 &&& 0xc8 ≠ 0x08) (hact : InterleavedActive model ps)
    (hcnt : ps.pktcnt ≤ 7) (hclr : ClearUpTo ps.packet 3) :
    (∀ p ∈ decoded_packets (alps_handle_interleaved_ps2 model ps).2.2,
        ClearUpTo p (alps_pktsize model)) ∧
      ((alps_handle_interleaved_ps2 model ps).2.1 = PSMOUSE_GOOD_DATA →
        HighBitInv model (alps_handle_interleaved_ps2 model ps).1) ∧
      (alps_handle_interleaved_ps2 model ps).1.pktsize = ps.pktsize ∧
      (alps_handle_interleaved_ps2 model ps).1.packet.length = ps.packet.length := by
  have hsix : alps_pktsize model = 6 := hIL hact.1
  unfold alps_handle_interleaved_ps2
  split_ifs with h1 h2 h3 h4
  · exact ⟨by simp [decoded_packets],
      fun _ => ⟨hsz, hlen, fun _ => Or.inr ⟨hnb, Or.inl ⟨hact, by show ps.pktcnt ≤ 6; omega, hclr⟩⟩⟩,
      rfl, rfl⟩
  · exact ⟨by simp [decoded_packets],
      fun _ => ⟨hsz, hlen, fun _ => Or.inr ⟨hnb, Or.inl ⟨hact, by show ps.pktcnt ≤ 6; omega, hclr⟩⟩⟩,
      rfl, rfl⟩
  · exact ⟨by simp [decoded_packets], by simp, rfl, rfl⟩
  · push_neg at h4
    obtain ⟨h345, _⟩ := h4
    rw [high_bit_or3] at h345
    refine ⟨?_, fun _ => ⟨hsz, by simpa using hlen, fun _ => Or.inr ⟨?_, Or.inr ⟨?_, ?_, ?_⟩⟩⟩,
      rfl, by simp⟩
    · intro p hp
      simp only [decoded_packets, List.mem_singleton] at hp
      subst hp
      rw [hsix]
      intro i hi1 hi2
      by_cases hi3 : i < 3
      · exact hclr i hi1 hi3
      · have : i = 3 ∨ i = 4 ∨ i = 5 := by omega
        rcases this with h | h | h <;> subst h
        · exact h345.1
        · exact h345.2.1
        · exact h345.2.2
    · show byte_at (ps.packet.set 0 (byte_at ps.packet 6)) 0 &&& 0xc8 ≠ 0x08
      rw [byte_at_set, if_pos ⟨rfl, by omega⟩]
      exact not_bare_of_high_bit _ h3
    · intro hc
      have : (4 : Nat) ≤ 1 := hc.2.1
      omega
    · show 1 < ps.pktsize
      rw [hsz, hsix]; omega
    · intro i hi1 hi2
      have : i < 1 := hi2
      omega
  · have h6 : byte_at ps.packet 6 &&& 0x80 = 0 := by simpa using h3
    refine ⟨by simp [decoded_packets],
      fun _ => ⟨hsz, by simpa using hlen, fun _ => Or.inr ⟨?_, Or.inr ⟨?_, ?_, ?_⟩⟩⟩,
      rfl, by simp⟩
    · show byte_at (ps.packet.set 3 (byte_at ps.packet 6 &&& 0xf7)) 0 &&& 0xc8 ≠ 0x08
      rw [byte_at_set, if_neg (by omega)]
      exact hnb
    · intro hc
      have h3' : byte_at (ps.packet.set 3 (byte_at ps.packet 6 &&& 0xf7)) 3 &&& 0x0f = 0x0f :=
        hc.2.2
      rw [byte_at_set, if_pos ⟨rfl, by omega⟩] at h3'
      exact and_f7_not_interleaved _ h3'
    · show 4 < ps.pktsize
      rw [hsz, hsix]; omega
    · show ClearUpTo (ps.packet.set 3 (byte_at ps.packet 6 &&& 0xf7)) 4
      apply clearUpTo_succ
      · exact clearUpTo_set hclr (Or.inl (le_refl 3))
      · rw [byte_at_set, if_pos ⟨rfl, by omega⟩]
        exact high_bit_and_f7 _ h6

lemma process_byte_high_bit (model : alps_model_info) (ps : psmouse)
    (hv6 : model.proto_version ≠ ALPS_PROTO_V6)
    (hIL : model.flags &&& ALPS_PS2_INTERLEAVED ≠ 0 → alps_pktsize model = 6)
    (hpre : HighBitPre model ps) :
    (∀ p ∈ decoded_packets (alps_process_byte model ps).2.2,
        ClearUpTo p (alps_pktsize model)) ∧
      ((alps_process_byte model ps).2.1 = PSMOUSE_GOOD_DATA →
        HighBitInv model (alps_process_byte model ps).1) ∧
      (alps_process_byte model ps).1.pktsize = ps.pktsize ∧
      (alps_process_byte model ps).1.packet.length = ps.packet.length := by
  obtain ⟨hsz, hlen, hcnt, hpre⟩ := hpre
  have hge := alps_pktsize_ge model
  have key : ¬ InterleavedActive model ps → byte_at ps.packet 0 &&& 0xc8 ≠ 0x08 →
      ¬ (model.proto_version ≠ ALPS_PROTO_V6 ∧ ps.pktcnt ≥ 2 ∧ ps.pktcnt ≤ ps.pktsize
        ∧ byte_at ps.packet (ps.pktcnt - 1) &&& 0x80 ≠ 0) →
      ps.pktcnt ≤ ps.pktsize ∧ ClearUpTo ps.packet ps.pktcnt := by
    intro hna hnb hchk
    by_cases h2 : 2 ≤ ps.pktcnt
    · rcases hpre h2 with ⟨hb, _⟩ | ⟨_, ⟨ha, _⟩ | ⟨_, hle, hclr⟩⟩
      · exact absurd hb hnb
      · exact absurd ha hna
      · refine ⟨hle, ?_⟩
        have hlast : byte_at ps.packet (ps.pktcnt - 1) &&& 0x80 = 0 := by
          by_contra hc
          exact hchk ⟨hv6, h2, hle, hc⟩
        have := clearUpTo_succ hclr hlast
        have e : ps.pktcnt - 1 + 1 = ps.pktcnt := by omega
        rwa [e] at this
    · refine ⟨by omega, ?_⟩
      intro i hi1 hi2
      omega
  unfold alps_process_byte
  split_ifs with h1 h2 h3 h4 h5 h6
  · exact ⟨by simp [decoded_packets], by simp, rfl, rfl⟩
  · refine ⟨by simp [decoded_packets],
      fun _ => ⟨hsz, hlen, fun _ => Or.inl ⟨h1, ?_⟩⟩, rfl, rfl⟩
    show ps.pktcnt < 3
    by_cases h : 2 ≤ ps.pktcnt
    · rcases hpre h with ⟨_, h3⟩ | ⟨hn, _⟩
      · omega
      · exact absurd h1 hn
    · omega
  · have hact : InterleavedActive model ps := h3
    have h2' : 2 ≤ ps.pktcnt := by have := hact.2.1; omega
    rcases hpre h2' with ⟨hb, _⟩ | ⟨hnb, ⟨_, hle, hclr⟩ | ⟨hna, _⟩⟩
    · exact absurd hb h1
    · exact handle_interleaved_high_bit model ps hIL hsz hlen hnb hact hle hclr
    · exact absurd hact hna
  · exact ⟨by simp [decoded_packets], by simp, rfl, rfl⟩
  · exact ⟨by simp [decoded_packets], by simp, rfl, rfl⟩
  · obtain ⟨_, hclr⟩ := key h3 h1 h5
    refine ⟨?_, by simp, rfl, rfl⟩
    intro p hp
    simp only [decoded_packets, List.mem_singleton] at hp
    subst hp
    rw [← hsz, ← h6]
    exact hclr
  · obtain ⟨hle, hclr⟩ := key h3 h1 h5
    refine ⟨by simp [decoded_packets],
      fun _ => ⟨hsz, hlen, fun _ => Or.inr ⟨h1, Or.inr ⟨h3, ?_, hclr⟩⟩⟩, rfl, rfl⟩
    show ps.pktcnt < ps.pktsize
    omega

lemma high_bit_pre_of_store (model : alps_model_info) (ps : psmouse) (data : Nat)
    (hinv : HighBitInv model ps) :
    HighBitPre model
      { ps with packet := ps.packet.set ps.pktcnt data, pktcnt := ps.pktcnt + 1 } := by
  obtain ⟨hsz, hlen, hb⟩ := hinv
  refine ⟨hsz, by simpa using hlen, by simp, ?_⟩
  intro h2
  have h1 : 1 ≤ ps.pktcnt := by
    have : 2 ≤ ps.pktcnt + 1 := h2
    omega
  clear h2
  have hb0 : byte_at (ps.packet.set ps.pktcnt data) 0 = byte_at ps.packet 0 := by
    rw [byte_at_set, if_neg (by omega)]
  show (byte_at (ps.packet.set ps.pktcnt data) 0 &&& 0xc8 = 0x08 ∧ ps.pktcnt + 1 ≤ 3) ∨
    (byte_at (ps.packet.set ps.pktcnt data) 0 &&& 0xc8 ≠ 0x08 ∧ _)
  rw [hb0]
  rcases hb h1 with ⟨hbare, hlt⟩ | ⟨hnb, ⟨hact, hle, hclr⟩ | ⟨hna, hlt, hclr⟩⟩
  · exact Or.inl ⟨hbare, by omega⟩
  · right
    refine ⟨hnb, Or.inl ⟨⟨hact.1, ?_, ?_⟩, ?_, ?_⟩⟩
    · show ps.pktcnt + 1 ≥ 4
      have := hact.2.1
      omega
    · show byte_at (ps.packet.set ps.pktcnt data) 3 &&& 0x0f = 0x0f
      have := hact.2.1
      rw [byte_at_set, if_neg (by omega)]
      exact hact.2.2
    · show ps.pktcnt + 1 ≤ 7
      omega
    · have := hact.2.1
      exact clearUpTo_set hclr (Or.inl (by omega))
  · right
    refine ⟨hnb, ?_⟩
    by_cases hact1 : InterleavedActive model
        { ps with packet := ps.packet.set ps.pktcnt data, pktcnt := ps.pktcnt + 1 }
    · left
      have hcnt3 : ps.pktcnt = 3 := by
        by_contra hne
        have h4 : ps.pktcnt + 1 ≥ 4 := hact1.2.1
        have h4' : ps.pktcnt ≥ 4 := by omega
        have h3 : byte_at (ps.packet.set ps.pktcnt data) 3 &&& 0x0f = 0x0f := hact1.2.2
        rw [byte_at_set, if_neg (by omega)] at h3
        exact hna ⟨hact1.1, h4', h3⟩
      refine ⟨hact1, ?_, ?_⟩
      · show ps.pktcnt + 1 ≤ 7
        omega
      · have hclr3 : ClearUpTo ps.packet 3 := by rw [← hcnt3]; exact hclr
        exact clearUpTo_set hclr3 (Or.inl (by omega))
    · right
      refine ⟨hact1, ?_, ?_⟩
      · show ps.pktcnt + 1 ≤ ps.pktsize
        omega
      · show ClearUpTo (ps.packet.set ps.pktcnt data) (ps.pktcnt + 1 - 1)
        have e : ps.pktcnt + 1 - 1 = ps.pktcnt := by omega
        rw [e]
        exact clearUpTo_set hclr (Or.inl (le_refl _))

lemma framing_step_high_bit (model : alps_model_info) (ps : psmouse) (inp : WireInput)
    (hv6 : model.proto_version ≠ ALPS_PROTO_V6)
    (hIL : model.flags &&& ALPS_PS2_INTERLEAVED ≠ 0 → alps_pktsize model = 6)
    (hinv : HighBitInv model ps) :
    (∀ p ∈ decoded_packets (framing_step model ps inp).2, ClearUpTo p (alps_pktsize model)) ∧
      HighBitInv model (framing_step model ps inp).1 := by
  cases inp with
  | byte data =>
    obtain ⟨hdec, hgood, hsz', hlen'⟩ :=
      process_byte_high_bit model _ hv6 hIL (high_bit_pre_of_store model ps data hinv)
    obtain ⟨hsz, hlen, _⟩ := hinv
    simp only [framing_step, psmouse_handle_byte]
    split_ifs with hr
    · exact ⟨hdec, hgood hr⟩
    · refine ⟨hdec, ?_, ?_, ?_⟩
      · simpa [hsz'] using hsz
      · simp only [hlen']; simpa using hlen
      · simp
  | flush =>
    obtain ⟨hsz, hlen, hb⟩ := hinv
    have hge := alps_pktsize_ge model
    simp only [framing_step, alps_flush_packet]
    split_ifs with h1 h2
    · exact ⟨by simp [decoded_packets], hsz, hlen, by simp⟩
    · refine ⟨?_, hsz, hlen, by simp⟩
      have h345 : byte_at ps.packet 3 &&& 0x80 = 0 ∧ byte_at ps.packet 4 &&& 0x80 = 0 ∧
          byte_at ps.packet 5 &&& 0x80 = 0 := by
        rw [← high_bit_or3]; simpa using h2
      have h3 : 1 ≤ ps.pktcnt := by omega
      intro p hp
      simp only [decoded_packets, List.mem_singleton] at hp
      subst hp
      rcases hb h3 with ⟨_, hy⟩ | ⟨_, ⟨hact, _, hclr⟩ | ⟨_, hlt, _⟩⟩
      · omega
      · rw [hIL hact.1]
        intro i hi1 hi2
        by_cases hi3 : i < 3
        · exact hclr i hi1 hi3
        · have : i = 3 ∨ i = 4 ∨ i = 5 := by omega
          rcases this with h | h | h <;> subst h
          · exact h345.1
          · exact h345.2.1
          · exact h345.2.2
      · omega
    · exact ⟨by simp [decoded_packets], hsz, hlen, hb⟩

lemma framing_run_high_bit (model : alps_model_info) (inputs : List WireInput)
    (hv6 : model.proto_version ≠ ALPS_PROTO_V6)
    (hIL : model.flags &&& ALPS_PS2_INTERLEAVED ≠ 0 → alps_pktsize model = 6) :
    ∀ ps : psmouse, HighBitInv model ps →
      ∀ p ∈ decoded_packets (framing_run model ps inputs).2,
        ClearUpTo p (alps_pktsize model) := by
  induction inputs with
  | nil => intro ps _ p hp; simp [framing_run, decoded_packets] at hp
  | cons inp rest ih =>
    intro ps hinv p hp
    obtain ⟨hdec, hinv'⟩ := framing_step_high_bit model ps inp hv6 hIL hinv
    simp only [framing_run, decoded_packets_append, List.mem_append] at hp
    rcases hp with hp | hp
    · exact hdec p hp
    · exact ih _ hinv' p hp

lemma high_bit_inv_empty (model : alps_model_info) (packet : List Nat)
    (hlen : packet.length = 8) : HighBitInv model (psmouse_empty model packet) :=
  ⟨rfl, hlen, by simp [psmouse_empty]⟩

lemma table_interleaved_pktsize (model : alps_model_info) (hm : model ∈ alps_model_data) :
    model.flags &&& ALPS_PS2_INTERLEAVED ≠ 0 → alps_pktsize model = 6 := by
  revert model
  decide

lemma table_v6_rows (model : alps_model_info) (hm : model ∈ alps_model_data) :
    model.proto_version = ALPS_PROTO_V6 →
      model.flags &&& ALPS_PS2_INTERLEAVED = 0 ∧ model.mask0 = 0xc8 ∧ model.byte0 = 0xc8 := by
  revert model
  decide

lemma process_byte_rejects_high_bit (model : alps_model_info) (ps : psmouse)
    (hv6 : model.proto_version ≠ ALPS_PROTO_V6)
    (hnb : byte_at ps.packet 0 &&& 0xc8 ≠ 0x08) (hna : ¬ InterleavedActive model ps)
    (h2 : 2 ≤ ps.pktcnt) (hle : ps.pktcnt ≤ ps.pktsize)
    (hb : byte_at ps.packet (ps.pktcnt - 1) &&& 0x80 ≠ 0) :
    (alps_process_byte model ps).2.1 = PSMOUSE_BAD_DATA := by
  unfold InterleavedActive at hna
  unfold alps_process_byte
  rw [if_neg hnb, if_neg hna]
  split_ifs with h4 h5
  · rfl
  · rfl
  · exact absurd ⟨hv6, h2, hle, hb⟩ h5
  · exact absurd ⟨hv6, h2, hle, hb⟩ h5

lemma handle_interleaved_rejects_high_bit (model : alps_model_info) (ps : psmouse)
    (h7 : ps.pktcnt = 7) (h6 : byte_at ps.packet 6 &&& 0x80 ≠ 0)
    (hb : (byte_at ps.packet 3 ||| byte_at ps.packet 4 ||| byte_at ps.packet 5) &&& 0x80 ≠ 0) :
    (alps_handle_interleaved_ps2 model ps).2.1 = PSMOUSE_BAD_DATA := by
  unfold alps_handle_interleaved_ps2
  rw [if_neg (by omega), if_neg (by omega), if_pos h6, if_pos (Or.inl hb)]

lemma process_byte_v6_no_high_bit_check (model : alps_model_info) (ps : psmouse)
    (hm : model ∈ alps_model_data) (hv6 : model.proto_version = ALPS_PROTO_V6)
    (hv : alps_is_valid_first_byte model (byte_at ps.packet 0) = true) :
    (alps_process_byte model ps).2.1 =
      if ps.pktcnt = ps.pktsize then PSMOUSE_FULL_PACKET else PSMOUSE_GOOD_DATA := by
  obtain ⟨hfl, hmask, hbyte⟩ := table_v6_rows model hm hv6
  have hc8 : byte_at ps.packet 0 &&& 0xc8 = 0xc8 := by
    simpa [alps_is_valid_first_byte, hmask, hbyte] using hv
  unfold alps_process_byte
  rw [if_neg (by rw [hc8]; decide), if_neg (by rw [hfl]; simp), if_neg (by simp [hv]),
    if_neg (by simp [hv6])]
  split_ifs <;> rfl

/-- C2 (amended). For every row of `alps_model_data`: if the protocol version is not V6,
then (a) every buffer the framing state machine, started from an empty buffer, hands to
the variant decoder has the high bit clear in bytes `1 .. pktsize - 1`; (b)
`alps_process_byte` returns `PSMOUSE_BAD_DATA` for a byte after the first with the high
bit set whenever byte 0 does not carry the bare PS/2 signature and the interleaved
handling is not active; (c) in the interleaved handling a high bit in bytes 3-5 gives
`PSMOUSE_BAD_DATA` once the seventh byte arrives with its high bit set. If the protocol
version is V6, a buffer with a valid first byte gives `PSMOUSE_FULL_PACKET` at `pktsize`
bytes and `PSMOUSE_GOOD_DATA` otherwise, whatever the high bits of the bytes are. -/
theorem decoded_packets_high_bits (model : alps_model_info) (packet : List Nat)
    (inputs : List WireInput) (hm : model ∈ alps_model_data) (hlen : packet.length = 8) :
    (model.proto_version ≠ ALPS_PROTO_V6 →
      (∀ p ∈ decoded_packets (framing_run model (psmouse_empty model packet) inputs).2,
        ∀ i, 1 ≤ i → i < alps_pktsize model → byte_at p i &&& 0x80 = 0) ∧
      (∀ ps : psmouse, byte_at ps.packet 0 &&& 0xc8 ≠ 0x08 → ¬ InterleavedActive model ps →
        2 ≤ ps.pktcnt → ps.pktcnt ≤ ps.pktsize →
        byte_at ps.packet (ps.pktcnt - 1) &&& 0x80 ≠ 0 →
        (alps_process_byte model ps).2.1 = PSMOUSE_BAD_DATA) ∧
      (∀ ps : psmouse, ps.pktcnt = 7 → byte_at ps.packet 6 &&& 0x80 ≠ 0 →
        (byte_at ps.packet 3 ||| byte_at ps.packet 4 ||| byte_at ps.packet 5) &&& 0x80 ≠ 0 →
        (alps_handle_interleaved_ps2 model ps).2.1 = PSMOUSE_BAD_DATA)) ∧
    (model.proto_version = ALPS_PROTO_V6 →
      ∀ ps : psmouse, alps_is_valid_first_byte model (byte_at ps.packet 0) = true →
        (alps_process_byte model ps).2.1 =
          if ps.pktcnt = ps.pktsize then PSMOUSE_FULL_PACKET else PSMOUSE_GOOD_DATA) := by
  refine ⟨fun hv6 => ⟨?_, ?_, ?_⟩, fun hv6 ps hv => ?_⟩
  · exact framing_run_high_bit model inputs hv6 (table_interleaved_pktsize model hm) _
      (high_bit_inv_empty model packet hlen)
  · exact fun ps hnb hna h2 hle hb => process_byte_rejects_high_bit model ps hv6 hnb hna h2 hle hb
  · exact fun ps h7 h6 hb => handle_interleaved_rejects_high_bit model ps h7 h6 hb
  · exact process_byte_v6_no_high_bit_check model ps hm hv6 hv

/-- C2, witness: the theorem at the plain V2 row and the stream f8 01 02 03 04 05, and at
the V6 row of the Dell Inspiron N5110 with a second byte that has its high bit set. -/
theorem decoded_packets_high_bits_witness :
    model_plain_v2 ∈ alps_model_data ∧ [0, 0, 0, 0, 0, 0, 0, 0].length = 8 ∧
      model_plain_v2.proto_version ≠ ALPS_PROTO_V6 ∧
      byte_at [0xf8, 1, 2, 3, 4, 5, 0, 0] 5 &&& 0x80 = 0 ∧
      model_dell_n5110 ∈ alps_model_data ∧
      model_dell_n5110.proto_version = ALPS_PROTO_V6 ∧
      (alps_process_byte model_dell_n5110
        { packet := [0xc8, 0x80, 0, 0, 0, 0, 0, 0], pktcnt := 2, pktsize := 6 }).2.1 =
        PSMOUSE_GOOD_DATA :=
  ⟨by decide, by decide, by decide,
    ((decoded_packets_high_bits model_plain_v2 [0, 0, 0, 0, 0, 0, 0, 0]
      [WireInput.byte 0xf8, WireInput.byte 1, WireInput.byte 2, WireInput.byte 3,
        WireInput.byte 4, WireInput.byte 5] (by decide) (by decide)).1 (by decide)).1
      [0xf8, 1, 2, 3, 4, 5, 0, 0] (by decide) 5 (by decide) (by decide),
    by decide, by decide,
    (decoded_packets_high_bits model_dell_n5110 [0, 0, 0, 0, 0, 0, 0, 0] [] (by decide)
      (by decide)).2 (by decide)
      { packet := [0xc8, 0x80, 0, 0, 0, 0, 0, 0], pktcnt := 2, pktsize := 6 } (by decide)⟩

/-- C2, counterexample to the claim as stated: on the interleaved V2 row of the table,
after the bytes cf 00 00 the byte 8f (high bit set, fourth byte of the packet) makes
`alps_process_byte` return `PSMOUSE_GOOD_DATA`, not `PSMOUSE_BAD_DATA`. -/
theorem high_bit_byte_accepted_when_interleaved :
    model_dell_e6400 ∈ alps_model_data ∧
      model_dell_e6400.proto_version ≠ ALPS_PROTO_V6 ∧
      (0x8f : Nat) &&& 0x80 ≠ 0 ∧
      (framing_run model_dell_e6400 (psmouse_empty model_dell_e6400 [0, 0, 0, 0, 0, 0, 0, 0])
        [WireInput.byte 0xcf, WireInput.byte 0, WireInput.byte 0]).1
        = { packet := [0xcf, 0, 0, 0, 0, 0, 0, 0], pktcnt := 3, pktsize := 6 } ∧
      (alps_process_byte model_dell_e6400
        { packet := [0xcf, 0, 0, 0x8f, 0, 0, 0, 0], pktcnt := 4, pktsize := 6 }).2.1
        = PSMOUSE_GOOD_DATA ∧
      (psmouse_handle_byte model_dell_e6400
        { packet := [0xcf, 0, 0, 0, 0, 0, 0, 0], pktcnt := 3, pktsize := 6 } 0x8f).2.1
        = PSMOUSE_GOOD_DATA := by
  decide


/-! ### Framing: resynchronisation on the seventh byte of an interleaved packet -/

/-- C3. For a model with the `ALPS_PS2_INTERLEAVED` flag: when six bytes of a primary
packet are buffered (byte 0 is not a bare PS/2 first byte) with `(packet[3] & 0x0f) ==
0x0f` and the high bit clear in bytes 3, 4 and 5, and a seventh byte `data` arrives that
has its high bit set and passes the first-byte test of the model, then
`alps_process_byte` hands over to `alps_handle_interleaved_ps2`, which stops the timer,
calls the variant decoder exactly once, on a buffer whose first six bytes are the six
buffered bytes, and leaves a buffer that holds `data` as byte 0 with `pktcnt = 1`; the
result is `PSMOUSE_GOOD_DATA`, so the core keeps that byte. -/
theorem interleaved_seventh_byte_resync (model : alps_model_info) (ps : psmouse) (data : Nat)
    (hflag : model.flags &&& ALPS_PS2_INTERLEAVED ≠ 0)
    (hlen : ps.packet.length = 8) (hcnt : ps.pktcnt = 6)
    (hprim : byte_at ps.packet 0 &&& 0xc8 ≠ 0x08)
    (hnib : byte_at ps.packet 3 &&& 0x0f = 0x0f)
    (h3 : byte_at ps.packet 3 &&& 0x80 = 0) (h4 : byte_at ps.packet 4 &&& 0x80 = 0)
    (h5 : byte_at ps.packet 5 &&& 0x80 = 0)
    (hhigh : data &&& 0x80 ≠ 0) (hvalid : alps_is_valid_first_byte model data = true) :
    alps_process_byte model { ps with packet := ps.packet.set 6 data, pktcnt := 7 }
        = alps_handle_interleaved_ps2 model
            { ps with packet := ps.packet.set 6 data, pktcnt := 7 } ∧
      alps_handle_interleaved_ps2 model { ps with packet := ps.packet.set 6 data, pktcnt := 7 }
        = ({ ps with packet := (ps.packet.set 6 data).set 0 data, pktcnt := 1 },
            PSMOUSE_GOOD_DATA,
            [FramingCall.del_timer, FramingCall.process_packet (ps.packet.set 6 data)]) ∧
      psmouse_handle_byte model ps data
        = ({ ps with packet := (ps.packet.set 6 data).set 0 data, pktcnt := 1 },
            PSMOUSE_GOOD_DATA,
            [FramingCall.del_timer, FramingCall.process_packet (ps.packet.set 6 data)]) ∧
      decoded_packets (psmouse_handle_byte model ps data).2.2 = [ps.packet.set 6 data] ∧
      (ps.packet.set 6 data).take 6 = ps.packet.take 6 ∧
      byte_at (psmouse_handle_byte model ps data).1.packet 0 = data ∧
      (psmouse_handle_byte model ps data).1.pktcnt = 1 := by
  have hb0 : byte_at (ps.packet.set 6 data) 0 = byte_at ps.packet 0 := by
    rw [byte_at_set, if_neg (by omega)]
  have hb3 : byte_at (ps.packet.set 6 data) 3 = byte_at ps.packet 3 := by
    rw [byte_at_set, if_neg (by omega)]
  have hb4 : byte_at (ps.packet.set 6 data) 4 = byte_at ps.packet 4 := by
    rw [byte_at_set, if_neg (by omega)]
  have hb5 : byte_at (ps.packet.set 6 data) 5 = byte_at ps.packet 5 := by
    rw [byte_at_set, if_neg (by omega)]
  have hb6 : byte_at (ps.packet.set 6 data) 6 = data := by
    rw [byte_at_set, if_pos ⟨rfl, by omega⟩]
  have h345 : (byte_at ps.packet 3 ||| byte_at ps.packet 4 ||| byte_at ps.packet 5) &&& 0x80 = 0 :=
    (high_bit_or3 _ _ _).2 ⟨h3, h4, h5⟩
  have e1 : alps_process_byte model { ps with packet := ps.packet.set 6 data, pktcnt := 7 }
      = alps_handle_interleaved_ps2 model
          { ps with packet := ps.packet.set 6 data, pktcnt := 7 } := by
    rw [alps_process_byte]
    simp only [hb0, hb3]
    rw [if_neg hprim, if_pos ⟨hflag, by omega, hnib⟩]
  have e2 : alps_handle_interleaved_ps2 model
      { ps with packet := ps.packet.set 6 data, pktcnt := 7 }
      = ({ ps with packet := (ps.packet.set 6 data).set 0 data, pktcnt := 1 },
          PSMOUSE_GOOD_DATA,
          [FramingCall.del_timer, FramingCall.process_packet (ps.packet.set 6 data)]) := by
    rw [alps_handle_interleaved_ps2]
    simp only [hb3, hb4, hb5, hb6]
    rw [if_neg (by omega), if_neg (by omega), if_pos hhigh, if_neg (by simp [h345, hvalid])]
  have e3 : psmouse_handle_byte model ps data
      = ({ ps with packet := (ps.packet.set 6 data).set 0 data, pktcnt := 1 },
          PSMOUSE_GOOD_DATA,
          [FramingCall.del_timer, FramingCall.process_packet (ps.packet.set 6 data)]) := by
    have hst : ({ ps with packet := ps.packet.set ps.pktcnt data, pktcnt := ps.pktcnt + 1 } : psmouse)
        = { ps with packet := ps.packet.set 6 data, pktcnt := 7 } := by
      rw [hcnt]
    rw [psmouse_handle_byte]
    simp only [hst, e1, e2, if_true]
  refine ⟨e1, e2, e3, ?_, ?_, ?_, ?_⟩
  · rw [e3]; rfl
  · apply List.ext_getElem?
    intro i
    simp only [List.getElem?_take, List.getElem?_set]
    split_ifs with h1 h2 h3
    · omega
    · omega
    · rfl
    · rfl
  · rw [e3]
    show byte_at ((ps.packet.set 6 data).set 0 data) 0 = data
    rw [byte_at_set, if_pos ⟨rfl, by simp; omega⟩]
  · rw [e3]

/-- C3, witness: the theorem at the interleaved V2 row, six buffered bytes cf 01 02 0f 04
05 and the seventh byte cf. -/
theorem interleaved_seventh_byte_resync_witness :
    psmouse_handle_byte model_dell_e6400
        { packet := [0xcf, 1, 2, 0x0f, 4, 5, 0, 0], pktcnt := 6, pktsize := 6 } 0xcf
      = ({ packet := [0xcf, 1, 2, 0x0f, 4, 5, 0xcf, 0], pktcnt := 1, pktsize := 6 },
          PSMOUSE_GOOD_DATA,
          [FramingCall.del_timer,
            FramingCall.process_packet [0xcf, 1, 2, 0x0f, 4, 5, 0xcf, 0]]) :=
  (interleaved_seventh_byte_resync model_dell_e6400
    { packet := [0xcf, 1, 2, 0x0f, 4, 5, 0, 0], pktcnt := 6, pktsize := 6 } 0xcf
    (by decide) (by decide) (by decide) (by decide) (by decide) (by decide) (by decide)
    (by decide) (by decide) (by decide)).2.2.1


/-! ### V1/V2 decoder: `BTN_TOUCH` -/

lemma btn_touch_reports_append (a b : List InputEvent) :
    btn_touch_reports (a ++ b) = btn_touch_reports a ++ btn_touch_reports b := by
  simp [btn_touch_reports, List.filterMap_append]

lemma btn_touch_reports_nil : btn_touch_reports [] = [] := rfl

lemma btn_touch_reports_abs (d : Dev) (c : AbsAxis) (v : Int) (l : List InputEvent) :
    btn_touch_reports (InputEvent.abs d c v :: l) = btn_touch_reports l := by
  simp [btn_touch_reports]

lemma btn_touch_reports_rel (d : Dev) (c : RelAxis) (v : Int) (l : List InputEvent) :
    btn_touch_reports (InputEvent.rel d c v :: l) = btn_touch_reports l := by
  simp [btn_touch_reports]

lemma btn_touch_reports_sync (d : Dev) (l : List InputEvent) :
    btn_touch_reports (InputEvent.sync d :: l) = btn_touch_reports l := by
  simp [btn_touch_reports]

lemma btn_touch_reports_key (d : Dev) (k : Key) (v : Nat) (l : List InputEvent) :
    btn_touch_reports (input_report_key d k v :: l) =
      if k = Key.BTN_TOUCH then decide (v ≠ 0) :: btn_touch_reports l
      else btn_touch_reports l := by
  cases k <;> simp [btn_touch_reports, input_report_key, List.filterMap_cons]

lemma btn_touch_reports_buttons (key_state : Dev → Key → Bool) (d1 d2 : Dev)
    (left right middle : Nat) :
    btn_touch_reports (alps_report_buttons key_state d1 d2 left right middle) = [] := by
  simp [btn_touch_reports, alps_report_buttons, input_report_key]

/-- The `BTN_TOUCH` reports of `alps_process_packet_v1_v2` in closed form: none for a
trackstick packet (dual-point model and pressure byte 127); otherwise, with `z` the
pressure byte replaced by 40 when the packet flags a hardware tap, `true` when `z > 30`,
`false` when `z < 25`, and no report for `25 ≤ z ≤ 30`. -/
lemma v1_v2_btn_touch (model : alps_model_info) (key_state : Dev → Key → Bool)
    (priv : alps_data) (packet : List Nat) :
    btn_touch_reports (alps_process_packet_v1_v2 model key_state priv packet).2 =
      if model.flags &&& ALPS_DUALPOINT ≠ 0 ∧ byte_at packet 5 = 127 then []
      else if byte_at packet 2 &&& 1 ≠ 0 ∧ byte_at packet 2 &&& 2 = 0 then [true]
      else if byte_at packet 5 > 30 then [true]
      else if byte_at packet 5 < 25 then [false]
      else [] := by
  unfold alps_process_packet_v1_v2
  by_cases hd : model.flags &&& ALPS_DUALPOINT ≠ 0 ∧ byte_at packet 5 = 127
  · simp only [if_pos hd, btn_touch_reports_append, btn_touch_reports_buttons,
      btn_touch_reports_rel, btn_touch_reports_sync, btn_touch_reports_nil, List.append_nil]
  · simp only [if_neg hd, btn_touch_reports_append, btn_touch_reports_buttons,
      apply_ite btn_touch_reports, btn_touch_reports_abs,
      btn_touch_reports_rel, btn_touch_reports_sync, btn_touch_reports_key,
      btn_touch_reports_nil, List.append_nil, List.nil_append, ite_self,
      reduceCtorEq, if_false, if_true]
    by_cases ht : byte_at packet 2 &&& 1 ≠ 0 ∧ byte_at packet 2 &&& 2 = 0
    · simp only [if_pos ht]
      simp
    · simp only [if_neg ht]
      by_cases h30 : byte_at packet 5 > 30
      · have h25 : ¬ byte_at packet 5 < 25 := by omega
        simp only [if_pos h30, if_neg h25]
        simp
      · by_cases h25 : byte_at packet 5 < 25
        · simp only [if_neg h30, if_pos h25]
          simp
        · simp only [if_neg h30, if_neg h25]
          simp

/-- C9 (amended). For every V1/V2 packet whose pressure byte `z = packet[5]` satisfies
`1 ≤ z < 30`: if the packet flags a hardware tap (`packet[2] & 1` set, `packet[2] & 2`
clear) the decoder replaces `z` by 40 and reports `BTN_TOUCH` true; otherwise it reports
`BTN_TOUCH` false when `z < 25` and makes no `BTN_TOUCH` report when `25 ≤ z < 30`. -/
theorem v1_v2_touch_low_pressure (model : alps_model_info) (key_state : Dev → Key → Bool)
    (priv : alps_data) (packet : List Nat)
    (h1 : 1 ≤ byte_at packet 5) (h30 : byte_at packet 5 < 30) :
    btn_touch_reports (alps_process_packet_v1_v2 model key_state priv packet).2 =
      if byte_at packet 2 &&& 1 ≠ 0 ∧ byte_at packet 2 &&& 2 = 0 then [true]
      else if byte_at packet 5 < 25 then [false]
      else [] := by
  rw [v1_v2_btn_touch]
  have hd : ¬ (model.flags &&& ALPS_DUALPOINT ≠ 0 ∧ byte_at packet 5 = 127) := by
    intro h; omega
  have hgt : ¬ byte_at packet 5 > 30 := by omega
  rw [if_neg hd, if_neg hgt]

/-- C9, witness: a valid packet of the plain V2 row with pressure 10 and no tap flag;
`BTN_TOUCH` is reported false. -/
theorem v1_v2_touch_low_pressure_witness :
    valid_v1_v2_packet model_plain_v2 [0xf8, 0, 0, 0, 0, 10] ∧
      1 ≤ byte_at [0xf8, 0, 0, 0, 0, 10] 5 ∧ byte_at [0xf8, 0, 0, 0, 0, 10] 5 < 30 ∧
      btn_touch_reports (alps_process_packet_v1_v2 model_plain_v2 (fun _ _ => false)
        alps_data_zero [0xf8, 0, 0, 0, 0, 10]).2 = [false] :=
  ⟨by decide, by decide, by decide,
    v1_v2_touch_low_pressure model_plain_v2 (fun _ _ => false) alps_data_zero
      [0xf8, 0, 0, 0, 0, 10] (by decide) (by decide)⟩

/-- C9, counterexample to the claim as stated: on the plain V2 row, the valid packet
with pressure 27 produces no `BTN_TOUCH` report at all, and the valid packet with
pressure 10 and the hardware tap flag produces the report `BTN_TOUCH` true. -/
theorem v1_v2_touch_not_false_below_30 :
    model_plain_v2 ∈ alps_model_data ∧
      valid_v1_v2_packet model_plain_v2 [0xf8, 0, 0, 0, 0, 27] ∧
      btn_touch_reports (alps_process_packet_v1_v2 model_plain_v2 (fun _ _ => false)
        alps_data_zero [0xf8, 0, 0, 0, 0, 27]).2 = [] ∧
      valid_v1_v2_packet model_plain_v2 [0xf8, 0, 1, 0, 0, 10] ∧
      btn_touch_reports (alps_process_packet_v1_v2 model_plain_v2 (fun _ _ => false)
        alps_data_zero [0xf8, 0, 1, 0, 0, 10]).2 = [true] := by
  decide

/-- C10 (amended). For every V1/V2 packet whose pressure byte `z = packet[5]` satisfies
`30 < z ≤ 127`, on every model: the decoder reports `BTN_TOUCH` true, except when the
model has the `ALPS_DUALPOINT` flag and `z = 127`; the packet is then a trackstick
packet and no `BTN_TOUCH` report is made. -/
theorem v1_v2_touch_high_pressure (model : alps_model_info) (key_state : Dev → Key → Bool)
    (priv : alps_data) (packet : List Nat)
    (h30 : 30 < byte_at packet 5) (_h127 : byte_at packet 5 ≤ 127) :
    btn_touch_reports (alps_process_packet_v1_v2 model key_state priv packet).2 =
      if model.flags &&& ALPS_DUALPOINT ≠ 0 ∧ byte_at packet 5 = 127 then [] else [true] := by
  rw [v1_v2_btn_touch]
  have hgt : byte_at packet 5 > 30 := h30
  rw [if_pos hgt]
  split_ifs <;> rfl

/-- C10, witness: a valid packet of the plain V2 row with pressure 64; `BTN_TOUCH` is
reported true. -/
theorem v1_v2_touch_high_pressure_witness :
    valid_v1_v2_packet model_plain_v2 [0xf8, 0, 0, 0, 0, 64] ∧
      30 < byte_at [0xf8, 0, 0, 0, 0, 64] 5 ∧ byte_at [0xf8, 0, 0, 0, 0, 64] 5 ≤ 127 ∧
      btn_touch_reports (alps_process_packet_v1_v2 model_plain_v2 (fun _ _ => false)
        alps_data_zero [0xf8, 0, 0, 0, 0, 64]).2 = [true] :=
  ⟨by decide, by decide, by decide,
    v1_v2_touch_high_pressure model_plain_v2 (fun _ _ => false) alps_data_zero
      [0xf8, 0, 0, 0, 0, 64] (by decide) (by decide)⟩

/-- C10, counterexample to the claim as stated: on the dual-point V2 row of the Toshiba
Satellite Pro M10, the valid packet with pressure 127 is a trackstick packet; the decoder
makes no `BTN_TOUCH` report. -/
theorem v1_v2_no_touch_for_trackstick_packet :
    model_toshiba_m10 ∈ alps_model_data ∧
      valid_v1_v2_packet model_toshiba_m10 [0xf8, 0, 0, 0, 0, 127] ∧
      30 < byte_at [0xf8, 0, 0, 0, 0, 127] 5 ∧ byte_at [0xf8, 0, 0, 0, 0, 127] 5 ≤ 127 ∧
      btn_touch_reports (alps_process_packet_v1_v2 model_toshiba_m10 (fun _ _ => false)
        alps_data_zero [0xf8, 0, 0, 0, 0, 127]).2 = [] := by
  decide


/-! ### Maximal runs: counting by first bit and by last bit -/

lemma testBit_false_of_ge {m n i : Nat} (hm : m < 2 ^ n) (hi : n ≤ i) : m.testBit i = false :=
  Nat.testBit_lt_two_pow (lt_of_lt_of_le hm (Nat.pow_le_pow_right (by decide) hi))

/-- Every maximal run is determined by its first bit. -/
lemma count_runs_eq_starts (m : Nat) (hm : m < 2 ^ 32) :
    count_runs m = ((Finset.range 32).filter (fun i => IsRunStart m i)).card := by
  unfold count_runs
  apply Finset.card_bij (fun p _ => p.1)
  · intro p hp
    simp only [Finset.mem_filter, Finset.mem_product, Finset.mem_range] at hp ⊢
    obtain ⟨⟨h1, _⟩, hle, hall, hlo, _⟩ := hp
    exact ⟨h1, hall p.1 hle (le_refl _), hlo⟩
  · intro p hp q hq hpq
    simp only [Finset.mem_filter, Finset.mem_product, Finset.mem_range] at hp hq
    obtain ⟨_, hple, hpall, _, hphi⟩ := hp
    obtain ⟨_, hqle, hqall, _, hqhi⟩ := hq
    have hpq' : p.1 = q.1 := hpq
    have h2 : p.2 = q.2 := by
      rcases Nat.lt_trichotomy p.2 q.2 with h | h | h
      · have := hqall (p.2 + 1) (by omega) (by omega)
        rw [hphi] at this
        exact absurd this (by decide)
      · exact h
      · have := hpall (q.2 + 1) (by omega) (by omega)
        rw [hqhi] at this
        exact absurd this (by decide)
    exact Prod.ext hpq' h2
  · intro lo hlo
    simp only [Finset.mem_filter, Finset.mem_range] at hlo
    obtain ⟨hlt, hbit, hstart⟩ := hlo
    have hex : ∃ j, lo < j ∧ m.testBit j = false :=
      ⟨32, hlt, testBit_false_of_ge hm (le_refl _)⟩
    have hspec := Nat.find_spec hex
    have hmin := fun k (hk : k < Nat.find hex) => Nat.find_min hex hk
    have hle32 : Nat.find hex ≤ 32 :=
      Nat.find_min' hex ⟨hlt, testBit_false_of_ge hm (le_refl _)⟩
    refine ⟨(lo, Nat.find hex - 1), ?_, rfl⟩
    simp only [Finset.mem_filter, Finset.mem_product, Finset.mem_range]
    refine ⟨⟨hlt, by omega⟩, by omega, ?_, hstart, ?_⟩
    · intro k hk1 hk2
      by_cases hkl : k = lo
      · rw [hkl]; exact hbit
      · have := hmin k (by omega)
        simp only [not_and, Bool.not_eq_false] at this
        exact this (by omega)
    · have e : Nat.find hex - 1 + 1 = Nat.find hex := by omega
      rw [e]
      exact hspec.2

/-- Every maximal run is determined by its last bit. -/
lemma count_runs_eq_tops (m : Nat) :
    count_runs m = ((Finset.range 32).filter (fun i => IsRunTop m i)).card := by
  unfold count_runs
  apply Finset.card_bij (fun p _ => p.2)
  · intro p hp
    simp only [Finset.mem_filter, Finset.mem_product, Finset.mem_range] at hp ⊢
    obtain ⟨⟨_, h2⟩, hle, hall, _, hhi⟩ := hp
    exact ⟨h2, hall p.2 (le_refl _) hle, hhi⟩
  · intro p hp q hq hpq
    simp only [Finset.mem_filter, Finset.mem_product, Finset.mem_range] at hp hq
    obtain ⟨_, hple, hpall, hplo, _⟩ := hp
    obtain ⟨_, hqle, hqall, hqlo, _⟩ := hq
    have hpq' : p.2 = q.2 := hpq
    have h1 : p.1 = q.1 := by
      rcases Nat.lt_trichotomy p.1 q.1 with h | h | h
      · rcases hqlo with h0 | hb
        · omega
        · have := hpall (q.1 - 1) (by omega) (by omega)
          rw [hb] at this
          exact absurd this (by decide)
      · exact h
      · rcases hplo with h0 | hb
        · omega
        · have := hqall (p.1 - 1) (by omega) (by omega)
          rw [hb] at this
          exact absurd this (by decide)
    exact Prod.ext h1 hpq'
  · intro hi hhi
    simp only [Finset.mem_filter, Finset.mem_range] at hhi
    obtain ⟨hlt, hbit, htop⟩ := hhi
    have hex : ∃ d, d ≤ hi ∧ (d = hi ∨ m.testBit (hi - d - 1) = false) :=
      ⟨hi, le_refl _, Or.inl rfl⟩
    have hspec := Nat.find_spec hex
    have hmin := fun k (hk : k < Nat.find hex) => Nat.find_min hex hk
    refine ⟨(hi - Nat.find hex, hi), ?_, rfl⟩
    simp only [Finset.mem_filter, Finset.mem_product, Finset.mem_range]
    refine ⟨⟨by omega, hlt⟩, by omega, ?_, ?_, htop⟩
    · intro k hk1 hk2
      by_cases hkh : k = hi
      · rw [hkh]; exact hbit
      · have := hmin (hi - k - 1) (by omega)
        simp only [not_and, not_or, Bool.not_eq_false] at this
        have h3 := (this (by omega)).2
        have e : hi - (hi - k - 1) - 1 = k := by omega
        rwa [e] at h3
    · rcases hspec.2 with h | h
      · left; omega
      · right
        exact h


/-! ### The scanning loops count the maximal runs -/

lemma scan_body_fingers (bit : Nat) (st : BitmapScan) :
    (scan_body bit st).fingers = st.fingers + (if bit ≠ 0 ∧ st.prev_bit = 0 then 1 else 0) := by
  unfold scan_body
  by_cases hb : bit ≠ 0 <;> by_cases hp : st.prev_bit = 0 <;> by_cases ha : st.at_high = true <;>
    simp [hb, hp, ha]

lemma scan_body_prev_bit (bit : Nat) (st : BitmapScan) : (scan_body bit st).prev_bit = bit := by
  unfold scan_body
  rfl

lemma and_one_ne_zero_iff (m : Nat) : m &&& 1 ≠ 0 ↔ m.testBit 0 = true := by
  rw [Nat.and_one_is_mod, Nat.testBit_zero]
  simp only [decide_eq_true_eq]
  omega

lemma and_one_eq_zero_iff (m : Nat) : m &&& 1 = 0 ↔ m.testBit 0 = false := by
  rw [Nat.and_one_is_mod, Nat.testBit_zero]
  simp only [decide_eq_false_iff_not]
  omega

lemma testBit_shiftRight_one (m j : Nat) : (m >>> 1).testBit j = m.testBit (j + 1) := by
  rw [Nat.testBit_shiftRight, Nat.add_comm]

/-- The x loop adds to the finger counter the number of bits that begin a run, where bit 0
begins a run only if `prev_bit` is zero on entry. -/
lemma x_scan_fingers (fuel : Nat) :
    ∀ (m : Nat) (st : BitmapScan), m < 2 ^ fuel →
      (x_scan fuel m st).fingers = st.fingers +
        ∑ j in Finset.range fuel,
          (if m.testBit j = true ∧ (if j = 0 then st.prev_bit = 0 else m.testBit (j - 1) = false)
            then (1 : Int) else 0) := by
  induction fuel with
  | zero => intro m st _; simp [x_scan]
  | succ fuel ih =>
    intro m st hm
    unfold x_scan
    by_cases h0 : m = 0
    · subst h0
      simp
    · rw [if_neg h0]
      have hm' : m >>> 1 < 2 ^ fuel := by
        rw [Nat.shiftRight_eq_div_pow]
        rw [pow_succ] at hm
        omega
      rw [ih (m >>> 1) (scan_body (m &&& 1) st) hm', scan_body_fingers, scan_body_prev_bit,
        Finset.sum_range_succ']
      have hhead : (if m &&& 1 ≠ 0 ∧ st.prev_bit = 0 then (1 : Int) else 0) =
          (if m.testBit 0 = true ∧
              (if 0 = 0 then st.prev_bit = 0 else m.testBit (0 - 1) = false)
            then (1 : Int) else 0) := by
        simp only [and_one_ne_zero_iff, if_true]
      have htail : ∀ j ∈ Finset.range fuel,
          (if (m >>> 1).testBit j = true ∧
              (if j = 0 then m &&& 1 = 0 else (m >>> 1).testBit (j - 1) = false)
            then (1 : Int) else 0) =
          (if m.testBit (j + 1) = true ∧
              (if j + 1 = 0 then st.prev_bit = 0 else m.testBit (j + 1 - 1) = false)
            then (1 : Int) else 0) := by
        intro j _
        rw [testBit_shiftRight_one]
        by_cases hj : j = 0
        · subst hj
          simp only [and_one_eq_zero_iff, if_true, Nat.add_one_ne_zero, if_false, Nat.zero_add,
            Nat.add_sub_cancel]
        · have e : j + 1 - 1 = j - 1 + 1 := by omega
          simp only [hj, if_false, Nat.add_one_ne_zero, testBit_shiftRight_one, e]
      rw [Finset.sum_congr rfl htail, hhead]
      ring

lemma fingers_x_eq_count_runs (x_map : Nat) (hx : x_map < 2 ^ 32) :
    (x_scan 32 x_map scan_init).fingers = (count_runs x_map : Int) := by
  rw [x_scan_fingers 32 x_map scan_init hx, count_runs_eq_starts x_map hx, Finset.card_filter]
  simp only [scan_init, zero_add]
  push_cast
  apply Finset.sum_congr rfl
  intro j _
  unfold IsRunStart
  by_cases hj : j = 0
  · subst hj; simp
  · simp [hj]

lemma one_shiftLeft_31 : (1 <<< 31 : Nat) = 2 ^ 31 := by decide

lemma top_bit_ne_zero_iff (m : Nat) : m &&& (1 <<< 31) ≠ 0 ↔ m.testBit 31 = true := by
  rw [one_shiftLeft_31, Ne, and_two_pow_eq_zero_iff]
  simp

lemma top_bit_eq_zero_iff (m : Nat) : m &&& (1 <<< 31) = 0 ↔ m.testBit 31 = false := by
  rw [one_shiftLeft_31, and_two_pow_eq_zero_iff]

lemma testBit_shl_one_mod (m k : Nat) (h1 : 1 ≤ k) (h2 : k < 32) :
    ((m <<< 1) % 2 ^ 32).testBit k = m.testBit (k - 1) := by
  rw [Nat.testBit_mod_two_pow, Nat.testBit_shiftLeft]
  simp [h1, h2]

lemma shl_one_mod_low_zero (m fuel : Nat) (hf : fuel + 1 ≤ 32)
    (h : m % 2 ^ (32 - (fuel + 1)) = 0) : ((m <<< 1) % 2 ^ 32) % 2 ^ (32 - fuel) = 0 := by
  have hd : 2 ^ (32 - fuel) ∣ 2 ^ 32 := Nat.pow_dvd_pow 2 (by omega)
  rw [Nat.mod_mod_of_dvd _ hd, Nat.shiftLeft_eq]
  have e : 32 - fuel = (32 - (fuel + 1)) + 1 := by omega
  rw [e, pow_succ]
  obtain ⟨q, hq⟩ := Nat.dvd_of_mod_eq_zero h
  rw [hq, Nat.mul_assoc, Nat.mul_comm q, ← Nat.mul_assoc]
  exact Nat.mul_mod_right _ _

/-- The y loop adds to the finger counter the number of bits that, read from bit 31
downward, begin a run; bit 31 begins a run only if `prev_bit` is zero on entry. -/
lemma y_scan_fingers (fuel : Nat) :
    ∀ (m : Nat) (st : BitmapScan), fuel ≤ 32 → m < 2 ^ 32 → m % 2 ^ (32 - fuel) = 0 →
      (y_scan fuel m st).fingers = st.fingers +
        ∑ j in Finset.range fuel,
          (if m.testBit (31 - j) = true ∧
              (if j = 0 then st.prev_bit = 0 else m.testBit (32 - j) = false)
            then (1 : Int) else 0) := by
  induction fuel with
  | zero => intro m st _ _ _; simp [y_scan]
  | succ fuel ih =>
    intro m st hf hm hlow
    unfold y_scan
    by_cases h0 : m = 0
    · subst h0
      simp
    · rw [if_neg h0]
      have hm' : (m <<< 1) % 2 ^ 32 < 2 ^ 32 := Nat.mod_lt _ (by decide)
      rw [ih ((m <<< 1) % 2 ^ 32) (scan_body (m &&& (1 <<< 31)) st) (by omega) hm'
        (shl_one_mod_low_zero m fuel hf hlow), scan_body_fingers, scan_body_prev_bit,
        Finset.sum_range_succ']
      have hhead : (if m &&& (1 <<< 31) ≠ 0 ∧ st.prev_bit = 0 then (1 : Int) else 0) =
          (if m.testBit (31 - 0) = true ∧
              (if 0 = 0 then st.prev_bit = 0 else m.testBit (32 - 0) = false)
            then (1 : Int) else 0) := by
        simp only [top_bit_ne_zero_iff, if_true, Nat.sub_zero]
      have htail : ∀ j ∈ Finset.range fuel,
          (if ((m <<< 1) % 2 ^ 32).testBit (31 - j) = true ∧
              (if j = 0 then m &&& (1 <<< 31) = 0
                else ((m <<< 1) % 2 ^ 32).testBit (32 - j) = false)
            then (1 : Int) else 0) =
          (if m.testBit (31 - (j + 1)) = true ∧
              (if j + 1 = 0 then st.prev_bit = 0 else m.testBit (32 - (j + 1)) = false)
            then (1 : Int) else 0) := by
        intro j hj
        have hj' : j < fuel := Finset.mem_range.1 hj
        rw [testBit_shl_one_mod m (31 - j) (by omega) (by omega)]
        have e1 : 31 - j - 1 = 31 - (j + 1) := by omega
        rw [e1]
        by_cases hj0 : j = 0
        · subst hj0
          simp only [top_bit_eq_zero_iff, if_true, Nat.add_one_ne_zero, if_false, Nat.zero_add]
        · rw [testBit_shl_one_mod m (32 - j) (by omega) (by omega)]
          have e2 : 32 - j - 1 = 32 - (j + 1) := by omega
          simp only [hj0, if_false, Nat.add_one_ne_zero, e2]
      rw [Finset.sum_congr rfl htail, hhead]
      ring

lemma fingers_y_eq_count_runs (m : Nat) (hm : m < 2 ^ 32) :
    (y_scan 32 m scan_init).fingers = (count_runs m : Int) := by
  rw [y_scan_fingers 32 m scan_init (le_refl _) hm (Nat.mod_one m), count_runs_eq_tops m,
    Finset.card_filter]
  simp only [scan_init, zero_add]
  push_cast
  rw [← Finset.sum_range_reflect (fun i => if IsRunTop m i then (1 : Int) else 0) 32]
  apply Finset.sum_congr rfl
  intro j hj
  have hj' : j < 32 := Finset.mem_range.1 hj
  unfold IsRunTop
  have e1 : 32 - 1 - j = 31 - j := by omega
  by_cases hj0 : j = 0
  · subst hj0
    have h32 : m.testBit 32 = false := testBit_false_of_ge hm (le_refl _)
    simp [h32]
  · have e2 : 31 - j + 1 = 32 - j := by omega
    simp only [hj0, if_false, e1, e2]

lemma count_runs_shiftLeft (v c : Nat) (hc : c ≤ 32) (hv : v < 2 ^ (32 - c)) :
    count_runs (v <<< c) = count_runs v := by
  rw [count_runs_eq_tops, count_runs_eq_tops]
  apply Finset.card_nbij' (fun t => t - c) (fun s => s + c)
  · intro t ht
    simp only [Finset.mem_filter, Finset.mem_range, IsRunTop,
      Nat.testBit_shiftLeft, Bool.and_eq_true, decide_eq_true_eq, Bool.and_eq_false_imp] at ht ⊢
    obtain ⟨hlt, ⟨hge, hb⟩, hn⟩ := ht
    refine ⟨by omega, hb, ?_⟩
    have := hn (by omega)
    have e : t + 1 - c = t - c + 1 := by omega
    rwa [e] at this
  · intro s hs
    simp only [Finset.mem_filter, Finset.mem_range, IsRunTop,
      Nat.testBit_shiftLeft, Bool.and_eq_true, decide_eq_true_eq, Bool.and_eq_false_imp] at hs ⊢
    obtain ⟨hlt, hb, hn⟩ := hs
    have hs' : s < 32 - c := by
      by_contra hge
      have := testBit_false_of_ge hv (Nat.le_of_not_lt hge)
      rw [this] at hb
      exact absurd hb (by decide)
    refine ⟨by omega, ⟨by omega, by simpa using hb⟩, fun _ => ?_⟩
    have e : s + c + 1 - c = s + 1 := by omega
    rw [e]
    exact hn
  · intro t ht
    simp only [Finset.mem_filter, Finset.mem_range, IsRunTop,
      Nat.testBit_shiftLeft, Bool.and_eq_true, decide_eq_true_eq] at ht
    have := ht.2.1.1
    show t - c + c = t
    omega
  · intro s _
    show s + c - c = s
    omega

lemma shiftLeft_mod_two_pow (y c : Nat) (hc : c ≤ 32) :
    (y <<< c) % 2 ^ 32 = (y % 2 ^ (32 - c)) <<< c := by
  rw [Nat.shiftLeft_eq, Nat.shiftLeft_eq]
  have e : 2 ^ 32 = 2 ^ (32 - c) * 2 ^ c := by
    rw [← pow_add]; congr 1; omega
  rw [e, Nat.mul_mod_mul_right]


/-! ### The return value of `alps_process_bitmap` -/

lemma bitmap_points_fingers_max (g : Geometry) (x_map y_map : Nat) :
    (alps_bitmap_points g x_map y_map).fingers =
      max (x_scan 32 x_map scan_init).fingers
        (y_scan 32 ((y_map <<< (32 - g.ALPS_BITMAP_Y_BITS).toNat) % 2 ^ 32) scan_init).fingers := by
  unfold alps_bitmap_points
  simp only []
  split_ifs <;> rfl

lemma process_bitmap_fst (g : Geometry) (x_map y_map : Nat) (out : BitmapCoords) :
    (alps_process_bitmap g x_map y_map out).1 =
      if x_map = 0 ∨ y_map = 0 then 0 else (alps_bitmap_points g x_map y_map).fingers := by
  unfold alps_process_bitmap
  simp only []
  split_ifs <;> rfl

lemma y_bits_shift (g : Geometry) (h0 : 0 ≤ g.ALPS_BITMAP_Y_BITS)
    (h32 : g.ALPS_BITMAP_Y_BITS ≤ 32) :
    (32 - g.ALPS_BITMAP_Y_BITS).toNat ≤ 32 ∧
      32 - (32 - g.ALPS_BITMAP_Y_BITS).toNat = g.ALPS_BITMAP_Y_BITS.toNat := by
  omega

/-- The finger count computed by `alps_process_bitmap` on non-empty bit-fields is the
larger of the number of maximal runs of `x_map` and the number of maximal runs of the low
`ALPS_BITMAP_Y_BITS` bits of `y_map` (the pre-shift of line 328 drops the bits above). -/
lemma bitmap_points_fingers (g : Geometry) (x_map y_map : Nat) (hx : x_map < 2 ^ 32)
    (h0 : 0 ≤ g.ALPS_BITMAP_Y_BITS) (h32 : g.ALPS_BITMAP_Y_BITS ≤ 32) :
    (alps_bitmap_points g x_map y_map).fingers =
      ((max (count_runs x_map) (count_runs (y_map % 2 ^ g.ALPS_BITMAP_Y_BITS.toNat)) : Nat) :
        Int) := by
  obtain ⟨hc, hY⟩ := y_bits_shift g h0 h32
  rw [bitmap_points_fingers_max, fingers_x_eq_count_runs x_map hx,
    fingers_y_eq_count_runs _ (Nat.mod_lt _ (by decide)),
    shiftLeft_mod_two_pow _ _ hc, count_runs_shiftLeft _ _ hc (Nat.mod_lt _ (by positivity)), hY,
    Nat.cast_max]

lemma count_runs_pos (m : Nat) (hm : m < 2 ^ 32) (h0 : m ≠ 0) : 1 ≤ count_runs m := by
  rw [count_runs_eq_starts m hm]
  have hex : ∃ i, m.testBit i = true := Nat.ne_zero_implies_bit_true h0
  apply Finset.card_pos.2
  refine ⟨Nat.find hex, ?_⟩
  simp only [Finset.mem_filter, Finset.mem_range, IsRunStart]
  refine ⟨?_, Nat.find_spec hex, ?_⟩
  · by_contra hge
    have := testBit_false_of_ge hm (Nat.le_of_not_lt hge)
    rw [Nat.find_spec hex] at this
    exact absurd this (by decide)
  · by_cases hz : Nat.find hex = 0
    · exact Or.inl hz
    · right
      have := Nat.find_min hex (show Nat.find hex - 1 < Nat.find hex by omega)
      simpa using this

lemma y_bits_nonneg_of_fits (g : Geometry) (y_map : Nat) (hy0 : y_map ≠ 0)
    (hy : y_map < 2 ^ g.ALPS_BITMAP_Y_BITS.toNat) : 0 ≤ g.ALPS_BITMAP_Y_BITS := by
  by_contra hneg
  have : g.ALPS_BITMAP_Y_BITS.toNat = 0 := by omega
  rw [this] at hy
  omega

/-- C4. For every non-zero `x_map` (an `unsigned int`) and every non-zero `y_map` that
fits in `ALPS_BITMAP_Y_BITS` bits (with `ALPS_BITMAP_Y_BITS` at most 32, the width of
`y_map`), `alps_process_bitmap` returns `max(rx, ry)`, where `rx` and `ry` are the numbers
of maximal runs of consecutive 1 bits in `x_map` and in `y_map`. -/
theorem process_bitmap_returns_max_runs (g : Geometry) (x_map y_map : Nat) (out : BitmapCoords)
    (hx0 : x_map ≠ 0) (hy0 : y_map ≠ 0) (hx : x_map < 2 ^ 32)
    (h32 : g.ALPS_BITMAP_Y_BITS ≤ 32) (hy : y_map < 2 ^ g.ALPS_BITMAP_Y_BITS.toNat) :
    (alps_process_bitmap g x_map y_map out).1 =
      ((max (count_runs x_map) (count_runs y_map) : Nat) : Int) := by
  have h0 := y_bits_nonneg_of_fits g y_map hy0 hy
  rw [process_bitmap_fst, if_neg (by simp [hx0, hy0]),
    bitmap_points_fingers g x_map y_map hx h0 h32, Nat.mod_eq_of_lt hy]

/-- C4, witness: one run in x, two runs in y, with the V3-V5 geometry. -/
theorem process_bitmap_returns_max_runs_witness :
    (0b0111000 : Nat) ≠ 0 ∧ (0b00110011000 : Nat) ≠ 0 ∧ (0b0111000 : Nat) < 2 ^ 32 ∧
      geometry_v3_v4_v5.ALPS_BITMAP_Y_BITS ≤ 32 ∧
      (0b00110011000 : Nat) < 2 ^ geometry_v3_v4_v5.ALPS_BITMAP_Y_BITS.toNat ∧
      (alps_process_bitmap geometry_v3_v4_v5 0b0111000 0b00110011000 ⟨0, 0, 0, 0⟩).1 =
        ((max (count_runs 0b0111000) (count_runs 0b00110011000) : Nat) : Int) :=
  ⟨by decide, by decide, by decide, by decide, by decide,
    process_bitmap_returns_max_runs geometry_v3_v4_v5 0b0111000 0b00110011000 ⟨0, 0, 0, 0⟩
      (by decide) (by decide) (by decide) (by decide) (by decide)⟩

/-- C7. For every `x_map` and `y_map` (values of an `unsigned int`), whatever the
geometry, `alps_process_bitmap` returns 0 if and only if at least one of the two
bit-fields is zero. -/
theorem process_bitmap_zero_iff (g : Geometry) (x_map y_map : Nat) (out : BitmapCoords)
    (hx : x_map < 2 ^ 32) :
    (alps_process_bitmap g x_map y_map out).1 = 0 ↔ x_map = 0 ∨ y_map = 0 := by
  rw [process_bitmap_fst]
  constructor
  · intro h
    by_contra hne
    rw [if_neg hne, bitmap_points_fingers_max, fingers_x_eq_count_runs x_map hx] at h
    have hpos := count_runs_pos x_map hx (fun h0 => hne (Or.inl h0))
    have hle := le_max_left (count_runs x_map : Int)
      (y_scan 32 ((y_map <<< (32 - g.ALPS_BITMAP_Y_BITS).toNat) % 2 ^ 32) scan_init).fingers
    omega
  · intro h
    rw [if_pos h]

/-- C7, witness: an empty y bit-field gives 0, and the pair (1, 1) does not. -/
theorem process_bitmap_zero_iff_witness :
    (5 : Nat) < 2 ^ 32 ∧
      ((alps_process_bitmap geometry_v3_v4_v5 5 0 ⟨0, 0, 0, 0⟩).1 = 0 ↔
        (5 : Nat) = 0 ∨ (0 : Nat) = 0) :=
  ⟨by decide, process_bitmap_zero_iff geometry_v3_v4_v5 5 0 ⟨0, 0, 0, 0⟩ (by decide)⟩

/-- C6 (amended). For every `x_map` with at most two maximal runs of 1 bits and every
`y_map` that fits in `ALPS_BITMAP_Y_BITS` bits and has at most two maximal runs, the
contact count returned by `alps_process_bitmap` is 0, 1 or 2. -/
theorem process_bitmap_count_at_most_two (g : Geometry) (x_map y_map : Nat)
    (out : BitmapCoords) (hx : x_map < 2 ^ 32) (h32 : g.ALPS_BITMAP_Y_BITS ≤ 32)
    (hy : y_map < 2 ^ g.ALPS_BITMAP_Y_BITS.toNat)
    (hrx : count_runs x_map ≤ 2) (hry : count_runs y_map ≤ 2) :
    (alps_process_bitmap g x_map y_map out).1 = 0 ∨
      (alps_process_bitmap g x_map y_map out).1 = 1 ∨
      (alps_process_bitmap g x_map y_map out).1 = 2 := by
  by_cases hz : x_map = 0 ∨ y_map = 0
  · left
    rw [process_bitmap_fst, if_pos hz]
  · push_neg at hz
    have h0 := y_bits_nonneg_of_fits g y_map hz.2 hy
    rw [process_bitmap_fst, if_neg (by simp [hz.1, hz.2]),
      bitmap_points_fingers g x_map y_map hx h0 h32, Nat.mod_eq_of_lt hy]
    have h1 := count_runs_pos x_map hx hz.1
    have hm : max (count_runs x_map) (count_runs y_map) ≤ 2 := max_le hrx hry
    have hm1 : 1 ≤ max (count_runs x_map) (count_runs y_map) := le_trans h1 (le_max_left _ _)
    omega

/-- C6, witness: two runs in x and two runs in y, with the V3-V5 geometry. -/
theorem process_bitmap_count_at_most_two_witness :
    (0b110011 : Nat) < 2 ^ 32 ∧ geometry_v3_v4_v5.ALPS_BITMAP_Y_BITS ≤ 32 ∧
      (0b101 : Nat) < 2 ^ geometry_v3_v4_v5.ALPS_BITMAP_Y_BITS.toNat ∧
      ((alps_process_bitmap geometry_v3_v4_v5 0b110011 0b101 ⟨0, 0, 0, 0⟩).1 = 0 ∨
        (alps_process_bitmap geometry_v3_v4_v5 0b110011 0b101 ⟨0, 0, 0, 0⟩).1 = 1 ∨
        (alps_process_bitmap geometry_v3_v4_v5 0b110011 0b101 ⟨0, 0, 0, 0⟩).1 = 2) :=
  ⟨by decide, by decide, by decide,
    process_bitmap_count_at_most_two geometry_v3_v4_v5 0b110011 0b101 ⟨0, 0, 0, 0⟩
      (by decide) (by decide) (by decide) (by decide) (by decide)⟩

/-- C6, counterexample to the claim as stated: with the V3-V5 geometry the x bit-field
10101 (three runs) and the y bit-field 1 give the contact count 3. -/
theorem process_bitmap_returns_three :
    (alps_process_bitmap geometry_v3_v4_v5 0b10101 0b1 ⟨0, 0, 0, 0⟩).1 = 3 := by
  decide


/-! ### The scanning loops on a single run -/

lemma scan_body_zero_idle (st : BitmapScan) (hp : st.prev_bit = 0) (hh : st.at_high = false)
    (hn : st.low.num_bits = 0) : scan_body 0 st = { st with i := st.i + 1 } := by
  obtain ⟨i, prev_bit, at_high, ⟨lo_start, lo_num⟩, high, fingers⟩ := st
  simp only at hp hh hn
  subst hp hh hn
  simp [scan_body]

lemma scan_body_first_one (bit : Nat) (st : BitmapScan) (hb : bit ≠ 0) (hp : st.prev_bit = 0)
    (hh : st.at_high = false) :
    scan_body bit st =
      { st with i := st.i + 1, prev_bit := bit,
                low := { start_bit := st.i, num_bits := st.low.num_bits + 1 },
                fingers := st.fingers + 1 } := by
  obtain ⟨i, prev_bit, at_high, ⟨lo_start, lo_num⟩, high, fingers⟩ := st
  simp only at hp hh
  subst hp hh
  simp [scan_body, hb]

lemma scan_body_next_one (bit : Nat) (st : BitmapScan) (hb : bit ≠ 0) (hp : st.prev_bit ≠ 0)
    (hh : st.at_high = false) :
    scan_body bit st =
      { st with i := st.i + 1, prev_bit := bit,
                low := { st.low with num_bits := st.low.num_bits + 1 } } := by
  obtain ⟨i, prev_bit, at_high, ⟨lo_start, lo_num⟩, high, fingers⟩ := st
  simp only at hp hh
  subst hh
  simp [scan_body, hb, hp]

lemma x_scan_zero (fuel : Nat) (st : BitmapScan) : x_scan fuel 0 st = st := by
  cases fuel <;> simp [x_scan]

lemma y_scan_zero (fuel : Nat) (st : BitmapScan) : y_scan fuel 0 st = st := by
  cases fuel <;> simp [y_scan]

/-- The x loop over `s` clear low bits, before any set bit has been seen, only advances
the loop counter. -/
lemma x_scan_zeros (s : Nat) :
    ∀ (fuel m : Nat) (st : BitmapScan), m ≠ 0 → st.prev_bit = 0 → st.at_high = false →
      st.low.num_bits = 0 →
      x_scan (fuel + s) (m <<< s) st = x_scan fuel m { st with i := st.i + (s : Int) } := by
  induction s with
  | zero =>
    intro fuel m st _ _ _ _
    simp
  | succ s ih =>
    intro fuel m st hm hp hh hn
    have hne : m <<< (s + 1) ≠ 0 := by
      rw [Nat.shiftLeft_eq]
      exact Nat.mul_ne_zero hm (by positivity)
    have hbit : (m <<< (s + 1)) &&& 1 = 0 := by
      rw [Nat.shiftLeft_succ, Nat.and_one_is_mod]; omega
    have hshift : (m <<< (s + 1)) >>> 1 = m <<< s := by
      rw [Nat.shiftLeft_succ, Nat.shiftRight_eq_div_pow]; omega
    show x_scan ((fuel + s) + 1) (m <<< (s + 1)) st = _
    rw [x_scan, if_neg hne, hbit, hshift, scan_body_zero_idle st hp hh hn,
      ih fuel m { st with i := st.i + 1 } hm hp hh hn]
    congr 1
    simp only [BitmapScan.mk.injEq, and_true, true_and]
    push_cast
    ring

/-- The x loop over `n` set bits that continue a run of the low point. -/
lemma x_scan_ones (n : Nat) :
    ∀ (fuel : Nat) (st : BitmapScan), st.prev_bit = 1 → st.at_high = false →
      x_scan (fuel + n) (2 ^ n - 1) st =
        { st with i := st.i + (n : Int),
                  low := { st.low with num_bits := st.low.num_bits + (n : Int) } } := by
  induction n with
  | zero =>
    intro fuel st _ _
    simp [x_scan_zero]
  | succ n ih =>
    intro fuel st hp hh
    have hpow := Nat.one_le_two_pow (n := n)
    have hne : 2 ^ (n + 1) - 1 ≠ 0 := by rw [pow_succ]; omega
    have hbit : (2 ^ (n + 1) - 1) &&& 1 = 1 := by
      rw [Nat.and_one_is_mod, pow_succ]; omega
    have hshift : (2 ^ (n + 1) - 1) >>> 1 = 2 ^ n - 1 := by
      rw [Nat.shiftRight_eq_div_pow, pow_succ]; omega
    show x_scan ((fuel + n) + 1) (2 ^ (n + 1) - 1) st = _
    rw [x_scan, if_neg hne, hbit, hshift,
      scan_body_next_one 1 st (by decide) (by rw [hp]; decide) hh,
      ih fuel { st with i := st.i + 1, prev_bit := 1,
                        low := { st.low with num_bits := st.low.num_bits + 1 } } rfl hh]
    simp only [BitmapScan.mk.injEq, alps_bitmap_point.mk.injEq, and_true, true_and]
    refine ⟨?_, hp.symm, ?_⟩ <;> (push_cast; ring)

/-- The x loop on a single run of `n` bits starting at bit `s`. -/
lemma x_scan_run (s n : Nat) (hn : 1 ≤ n) (hsn : s + n ≤ 32) :
    x_scan 32 (run_bits s n) scan_init =
      { i := (s : Int) + n, prev_bit := 1, at_high := false,
        low := { start_bit := s, num_bits := n },
        high := { start_bit := 0, num_bits := 0 }, fingers := 1 } := by
  have hpow := Nat.one_le_two_pow (n := n - 1)
  have e32 : 32 = (32 - s) + s := by omega
  have hnz : 2 ^ n - 1 ≠ 0 := by
    have : n = (n - 1) + 1 := by omega
    rw [this, pow_succ]; omega
  unfold run_bits
  rw [e32, x_scan_zeros s (32 - s) (2 ^ n - 1) scan_init hnz rfl rfl rfl]
  have e2 : 32 - s = ((32 - s - n) + (n - 1)) + 1 := by omega
  have hbit : (2 ^ n - 1) &&& 1 = 1 := by
    have : n = (n - 1) + 1 := by omega
    rw [Nat.and_one_is_mod, this, pow_succ]; omega
  have hshift : (2 ^ n - 1) >>> 1 = 2 ^ (n - 1) - 1 := by
    have : n = (n - 1) + 1 := by omega
    rw [Nat.shiftRight_eq_div_pow]
    conv_lhs => rw [this, pow_succ]
    omega
  rw [e2, x_scan, if_neg hnz, hbit, hshift,
    scan_body_first_one 1 { scan_init with i := scan_init.i + (s : Int) } (by decide) rfl rfl,
    x_scan_ones (n - 1) (32 - s - n) _ rfl rfl]
  simp only [scan_init, BitmapScan.mk.injEq, alps_bitmap_point.mk.injEq, and_true, true_and,
    zero_add]
  refine ⟨?_, ?_⟩ <;> (push_cast [hn]; ring)

lemma top_bit_of_ge (v : Nat) (h1 : 2 ^ 31 ≤ v) (h2 : v < 2 ^ 32) :
    v &&& (1 <<< 31) = 2 ^ 31 := by
  have ht : v.testBit 31 = true := by
    have : v / 2 ^ 31 = 1 := by
      norm_num at h1 h2 ⊢
      omega
    rw [Nat.testBit_to_div_mod, this]
    decide
  rw [one_shiftLeft_31, Nat.and_two_pow, ht]
  simp

/-- The y loop over `z` clear top bits, before any set bit has been seen, only advances
the loop counter. -/
lemma y_scan_zeros (z : Nat) :
    ∀ (fuel cur : Nat) (st : BitmapScan), cur ≠ 0 → cur * 2 ^ z < 2 ^ 32 → st.prev_bit = 0 →
      st.at_high = false → st.low.num_bits = 0 →
      y_scan (fuel + z) cur st = y_scan fuel (cur * 2 ^ z) { st with i := st.i + (z : Int) } := by
  induction z with
  | zero =>
    intro fuel cur st _ _ _ _ _
    simp
  | succ z ih =>
    intro fuel cur st hc hlt hp hh hn
    have hpz := Nat.one_le_two_pow (n := z)
    have hlt2 : cur * 2 < 2 ^ 32 := by
      have h1 : cur * 2 ≤ cur * 2 ^ (z + 1) := by
        apply Nat.mul_le_mul_left
        rw [pow_succ]; omega
      omega
    have hbit : cur &&& (1 <<< 31) = 0 := by
      rw [top_bit_eq_zero_iff]
      apply Nat.testBit_lt_two_pow
      norm_num at hlt2 ⊢
      omega
    have hshift : (cur <<< 1) % 2 ^ 32 = cur * 2 := by
      rw [Nat.shiftLeft_eq, pow_one, Nat.mod_eq_of_lt hlt2]
    have hne2 : cur * 2 ≠ 0 := by omega
    have hlt' : cur * 2 * 2 ^ z < 2 ^ 32 := by
      have e : cur * 2 * 2 ^ z = cur * 2 ^ (z + 1) := by rw [pow_succ]; ring
      rw [e]; exact hlt
    show y_scan ((fuel + z) + 1) cur st = _
    rw [y_scan, if_neg hc, hbit, hshift, scan_body_zero_idle st hp hh hn,
      ih fuel (cur * 2) { st with i := st.i + 1 } hne2 hlt' hp hh hn]
    have e : cur * 2 * 2 ^ z = cur * 2 ^ (z + 1) := by rw [pow_succ]; ring
    rw [e]
    congr 1
    simp only [BitmapScan.mk.injEq, and_true, true_and]
    push_cast
    ring

/-- The y loop over `k` set top bits that continue a run of the low point. -/
lemma y_scan_ones (k : Nat) :
    ∀ (fuel : Nat) (st : BitmapScan), k ≤ 32 → st.prev_bit = 2 ^ 31 → st.at_high = false →
      y_scan (fuel + k) (2 ^ 32 - 2 ^ (32 - k)) st =
        { st with i := st.i + (k : Int),
                  low := { st.low with num_bits := st.low.num_bits + (k : Int) } } := by
  induction k with
  | zero =>
    intro fuel st _ _ _
    simp [y_scan_zero]
  | succ k ih =>
    intro fuel st hk hp hh
    have hP1 := Nat.one_le_two_pow (n := 31 - k)
    have hP2 : 2 ^ (31 - k) ≤ 2 ^ 31 := Nat.pow_le_pow_right (by decide) (by omega)
    have e1 : 32 - (k + 1) = 31 - k := by omega
    have e2 : 2 ^ (32 - k) = 2 * 2 ^ (31 - k) := by
      have : 32 - k = (31 - k) + 1 := by omega
      rw [this, pow_succ]; ring
    have h31 : (2 : Nat) ^ 31 = 2147483648 := by norm_num
    have h32 : (2 : Nat) ^ 32 = 4294967296 := by norm_num
    have hne : 2 ^ 32 - 2 ^ (32 - (k + 1)) ≠ 0 := by rw [e1]; omega
    have hbit : (2 ^ 32 - 2 ^ (32 - (k + 1))) &&& (1 <<< 31) = 2 ^ 31 := by
      apply top_bit_of_ge <;> rw [e1] <;> omega
    have hshift : ((2 ^ 32 - 2 ^ (32 - (k + 1))) <<< 1) % 2 ^ 32 = 2 ^ 32 - 2 ^ (32 - k) := by
      rw [Nat.shiftLeft_eq, pow_one, e1, e2]
      omega
    show y_scan ((fuel + k) + 1) (2 ^ 32 - 2 ^ (32 - (k + 1))) st = _
    rw [y_scan, if_neg hne, hbit, hshift,
      scan_body_next_one (2 ^ 31) st (by positivity) (by rw [hp]; positivity) hh,
      ih fuel { st with i := st.i + 1, prev_bit := 2 ^ 31,
                        low := { st.low with num_bits := st.low.num_bits + 1 } }
        (by omega) rfl hh]
    simp only [BitmapScan.mk.injEq, alps_bitmap_point.mk.injEq, and_true, true_and]
    refine ⟨?_, hp.symm, ?_⟩ <;> (push_cast; ring)

/-- The y loop on a 32-bit value that is a single run of `m` bits above `w` clear bits:
the run is found `32 - m - w` positions below the top. -/
lemma y_scan_run (m w : Nat) (hm : 1 ≤ m) (hw : m + w ≤ 32) :
    y_scan 32 ((2 ^ m - 1) * 2 ^ w) scan_init =
      { i := ((32 - m - w : Nat) : Int) + m, prev_bit := 2 ^ 31, at_high := false,
        low := { start_bit := ((32 - m - w : Nat) : Int), num_bits := m },
        high := { start_bit := 0, num_bits := 0 }, fingers := 1 } := by
  have hpm := Nat.one_le_two_pow (n := m - 1)
  have hm2 : 2 ^ m = 2 * 2 ^ (m - 1) := by
    have : m = (m - 1) + 1 := by omega
    conv_lhs => rw [this, pow_succ]
    ring
  have hnz : (2 ^ m - 1) * 2 ^ w ≠ 0 := by
    apply Nat.mul_ne_zero
    · omega
    · positivity
  have hfull : (2 ^ m - 1) * 2 ^ w * 2 ^ (32 - m - w) = 2 ^ 32 - 2 ^ (32 - m) := by
    rw [Nat.mul_assoc, ← pow_add, Nat.sub_mul, ← pow_add, one_mul]
    congr 2 <;> omega
  have hP1 := Nat.one_le_two_pow (n := 32 - m)
  have hP2 : 2 ^ (32 - m) ≤ 2 ^ 31 := Nat.pow_le_pow_right (by decide) (by omega)
  have h31 : (2 : Nat) ^ 31 = 2147483648 := by norm_num
  have h32 : (2 : Nat) ^ 32 = 4294967296 := by norm_num
  have hlt : (2 ^ m - 1) * 2 ^ w * 2 ^ (32 - m - w) < 2 ^ 32 := by
    rw [hfull]; omega
  have e32 : 32 = (m + w) + (32 - m - w) := by omega
  conv_lhs => rw [e32]
  rw [y_scan_zeros (32 - m - w) (m + w) _ scan_init hnz hlt rfl rfl rfl, hfull]
  have em : m + w = (w + (m - 1)) + 1 := by omega
  have hne : 2 ^ 32 - 2 ^ (32 - m) ≠ 0 := by omega
  have hbit : (2 ^ 32 - 2 ^ (32 - m)) &&& (1 <<< 31) = 2 ^ 31 := by
    apply top_bit_of_ge <;> omega
  have hshift : ((2 ^ 32 - 2 ^ (32 - m)) <<< 1) % 2 ^ 32 = 2 ^ 32 - 2 ^ (32 - (m - 1)) := by
    have e2 : 2 ^ (32 - (m - 1)) = 2 * 2 ^ (32 - m) := by
      have : 32 - (m - 1) = (32 - m) + 1 := by omega
      rw [this, pow_succ]; ring
    rw [Nat.shiftLeft_eq, pow_one, e2]
    omega
  rw [em, y_scan, if_neg hne, hbit, hshift,
    scan_body_first_one (2 ^ 31) { scan_init with i := scan_init.i + ((32 - m - w : Nat) : Int) }
      (by positivity) rfl rfl,
    y_scan_ones (m - 1) w _ (by omega) rfl rfl]
  simp only [scan_init, BitmapScan.mk.injEq, alps_bitmap_point.mk.injEq, and_true, true_and,
    zero_add]
  refine ⟨?_, ?_⟩ <;> (push_cast [hm]; ring)

/-! ### The iteration bound of the scanning loops is never reached -/

/-- Thirty-two iterations are enough for the x loop on an `unsigned int`: a larger bound
gives the same result, so the loop has ended by itself (`x_map == 0`). -/
lemma x_scan_fuel_enough (fuel : Nat) :
    ∀ (k m : Nat) (st : BitmapScan), m < 2 ^ fuel →
      x_scan (fuel + k) m st = x_scan fuel m st := by
  induction fuel with
  | zero =>
    intro k m st hm
    have h0 : m = 0 := by simpa using hm
    subst h0
    rw [x_scan_zero, x_scan_zero]
  | succ fuel ih =>
    intro k m st hm
    have e : fuel + 1 + k = (fuel + k) + 1 := by omega
    rw [e, x_scan, x_scan]
    by_cases h0 : m = 0
    · rw [if_pos h0, if_pos h0]
    · rw [if_neg h0, if_neg h0]
      apply ih
      rw [Nat.shiftRight_eq_div_pow]
      rw [pow_succ] at hm
      omega

/-- Thirty-two iterations are enough for the y loop on an `unsigned int`. -/
lemma y_scan_fuel_enough (fuel : Nat) :
    ∀ (k m : Nat) (st : BitmapScan), fuel ≤ 32 → m < 2 ^ 32 → m % 2 ^ (32 - fuel) = 0 →
      y_scan (fuel + k) m st = y_scan fuel m st := by
  induction fuel with
  | zero =>
    intro k m st _ hm hlow
    have h0 : m = 0 := by
      rw [Nat.sub_zero, Nat.mod_eq_of_lt hm] at hlow
      exact hlow
    subst h0
    rw [y_scan_zero, y_scan_zero]
  | succ fuel ih =>
    intro k m st hf hm hlow
    have e : fuel + 1 + k = (fuel + k) + 1 := by omega
    rw [e, y_scan, y_scan]
    by_cases h0 : m = 0
    · rw [if_pos h0, if_pos h0]
    · rw [if_neg h0, if_neg h0]
      exact ih k _ _ (by omega) (Nat.mod_lt _ (by decide)) (shl_one_mod_low_zero m fuel hf hlow)


/-! ### Single contacts and the bisection -/

lemma run_bits_ne_zero (s n : Nat) (hn : 1 ≤ n) : run_bits s n ≠ 0 := by
  unfold run_bits
  rw [Nat.shiftLeft_eq]
  apply Nat.mul_ne_zero
  · have := Nat.one_le_two_pow (n := n - 1)
    have e : n = (n - 1) + 1 := by omega
    rw [e, pow_succ]; omega
  · positivity

lemma run_bits_lt (s n w : Nat) (h : s + n ≤ w) : run_bits s n < 2 ^ w := by
  unfold run_bits
  rw [Nat.shiftLeft_eq]
  have h1 : (2 ^ n - 1) * 2 ^ s < 2 ^ n * 2 ^ s := by
    apply Nat.mul_lt_mul_of_pos_right
    · have := Nat.one_le_two_pow (n := n); omega
    · positivity
  rw [← pow_add] at h1
  exact lt_of_lt_of_le h1 (Nat.pow_le_pow_right (by decide) (by omega))

/-- The pre-shifted y bit-field of line 328 for a run of `m` bits with highest bit `h`. -/
lemma y_shifted_run (c h m : Nat) (hmh : m ≤ h + 1) (hc : h + 1 + c ≤ 32) :
    (run_bits (h + 1 - m) m <<< c) % 2 ^ 32 = (2 ^ m - 1) * 2 ^ (h + 1 - m + c) := by
  have hlt := run_bits_lt (h + 1 - m) m (32 - c) (by omega)
  rw [shiftLeft_mod_two_pow _ _ (by omega), Nat.mod_eq_of_lt hlt]
  unfold run_bits
  rw [Nat.shiftLeft_eq, Nat.shiftLeft_eq, Nat.mul_assoc, ← pow_add]

lemma bitmap_points_single (g : Geometry) (s n h m : Nat)
    (hn : 1 ≤ n) (hxb : ((s + n : Nat) : Int) ≤ g.ALPS_BITMAP_X_BITS)
    (hx32 : g.ALPS_BITMAP_X_BITS ≤ 32)
    (hm : 1 ≤ m) (hmh : m ≤ h + 1) (hyb : (h : Int) < g.ALPS_BITMAP_Y_BITS)
    (hy32 : g.ALPS_BITMAP_Y_BITS ≤ 32) :
    alps_bitmap_points g (run_bits s n) (run_bits (h + 1 - m) m) =
      { fingers_x := 1, fingers_y := 1, fingers := 1,
        x_low := { start_bit := s, num_bits := n },
        x_high := { start_bit := 0, num_bits := 0 },
        y_low := { start_bit := g.ALPS_BITMAP_Y_BITS - 1 - h, num_bits := m },
        y_high := { start_bit := 0, num_bits := 0 } } := by
  have hsn : s + n ≤ 32 := by omega
  have hc : h + 1 + (32 - g.ALPS_BITMAP_Y_BITS).toNat ≤ 32 := by omega
  unfold alps_bitmap_points
  simp only []
  rw [x_scan_run s n hn hsn, y_shifted_run _ h m hmh hc,
    y_scan_run m (h + 1 - m + (32 - g.ALPS_BITMAP_Y_BITS).toNat) hm (by omega)]
  simp only [max_self, gt_iff_lt, lt_self_iff_false, if_false, BitmapPoints.mk.injEq,
    alps_bitmap_point.mk.injEq, and_true, true_and]
  omega

/-- C8. For every geometry with bit counts between 2 and 32 (so that the divisors are
not zero and the bit-fields fit an `unsigned int`), every `x_map` that is a single run of
`n ≥ 1` one-bits starting at bit `s` (`s + n ≤ ALPS_BITMAP_X_BITS`) and every `y_map`
that is a single run of `m ≥ 1` one-bits whose highest bit is `h`
(`h < ALPS_BITMAP_Y_BITS`), `alps_process_bitmap` returns 1 and sets `x1 = (ALPS_X_MAX * (2*s + n - 1)) / (2 * (ALPS_BITMAP_X_BITS - 1))`,
`y1 = (ALPS_Y_MAX * (2*(ALPS_BITMAP_Y_BITS - 1 - h) + m - 1)) / (2 * (ALPS_BITMAP_Y_BITS -
1))` with C integer division, and `x2 = y2 = 0`. -/
theorem process_bitmap_single_contact (g : Geometry) (s n h m : Nat) (out : BitmapCoords)
    (_hx2 : 2 ≤ g.ALPS_BITMAP_X_BITS) (_hy2 : 2 ≤ g.ALPS_BITMAP_Y_BITS)
    (hn : 1 ≤ n) (hxb : ((s + n : Nat) : Int) ≤ g.ALPS_BITMAP_X_BITS)
    (hx32 : g.ALPS_BITMAP_X_BITS ≤ 32)
    (hm : 1 ≤ m) (hmh : m ≤ h + 1) (hyb : (h : Int) < g.ALPS_BITMAP_Y_BITS)
    (hy32 : g.ALPS_BITMAP_Y_BITS ≤ 32) :
    alps_process_bitmap g (run_bits s n) (run_bits (h + 1 - m) m) out =
      (1,
        { x1 := (g.ALPS_X_MAX * (2 * (s : Int) + n - 1)).tdiv (2 * (g.ALPS_BITMAP_X_BITS - 1)),
          y1 := (g.ALPS_Y_MAX * (2 * (g.ALPS_BITMAP_Y_BITS - 1 - h) + m - 1)).tdiv
            (2 * (g.ALPS_BITMAP_Y_BITS - 1)),
          x2 := 0, y2 := 0 }) := by
  have hx0 := run_bits_ne_zero s n hn
  have hy0 := run_bits_ne_zero (h + 1 - m) m hm
  unfold alps_process_bitmap
  rw [if_neg (by simp [hx0, hy0])]
  simp only [bitmap_points_single g s n h m hn hxb hx32 hm hmh hyb hy32, bitmap_scale]
  simp

/-- C8, witness: with the V3-V5 geometry, the x run of 3 bits at bit 3 and the y run
of 2 bits with highest bit 8 give one contact at (571, 350). -/
theorem process_bitmap_single_contact_witness :
    alps_process_bitmap geometry_v3_v4_v5 (run_bits 3 3) (run_bits (8 + 1 - 2) 2) ⟨7, 7, 7, 7⟩ =
      (1, { x1 := 571, y1 := 350, x2 := 0, y2 := 0 }) :=
  (process_bitmap_single_contact geometry_v3_v4_v5 3 3 8 2 ⟨7, 7, 7, 7⟩
    (by decide) (by decide) (by decide) (by decide) (by decide) (by decide) (by decide)
    (by decide) (by decide)).trans (by decide)

lemma count_runs_zero : count_runs 0 = 0 := by
  rw [count_runs_eq_tops]
  simp [IsRunTop]

lemma bitmap_points_bisect_x (g : Geometry) (s n y_map : Nat)
    (hn : 1 ≤ n) (hxb : ((s + n : Nat) : Int) ≤ g.ALPS_BITMAP_X_BITS)
    (hx32 : g.ALPS_BITMAP_X_BITS ≤ 32) (hy32 : g.ALPS_BITMAP_Y_BITS ≤ 32)
    (hy : y_map < 2 ^ g.ALPS_BITMAP_Y_BITS.toNat) (hry : count_runs y_map = 2) :
    (alps_bitmap_points g (run_bits s n) y_map).fingers = 2 ∧
      (alps_bitmap_points g (run_bits s n) y_map).x_low =
        { start_bit := s, num_bits := (n : Int) - ((n / 2 : Nat) : Int) } ∧
      (alps_bitmap_points g (run_bits s n) y_map).x_high =
        { start_bit := (s : Int) + ((n / 2 : Nat) : Int),
          num_bits := max ((n / 2 : Nat) : Int) 1 } := by
  have hsn : s + n ≤ 32 := by omega
  have hy0 : y_map ≠ 0 := by
    intro h0
    rw [h0, count_runs_zero] at hry
    omega
  have h0 := y_bits_nonneg_of_fits g y_map hy0 hy
  obtain ⟨hc, hY⟩ := y_bits_shift g h0 hy32
  have hfy : (y_scan 32 ((y_map <<< (32 - g.ALPS_BITMAP_Y_BITS).toNat) % 2 ^ 32)
      scan_init).fingers = 2 := by
    rw [fingers_y_eq_count_runs _ (Nat.mod_lt _ (by decide)), shiftLeft_mod_two_pow _ _ hc,
      count_runs_shiftLeft _ _ hc (Nat.mod_lt _ (by positivity)), hY, Nat.mod_eq_of_lt hy, hry]
    rfl
  unfold alps_bitmap_points
  simp only []
  rw [x_scan_run s n hn hsn, hfy]
  have hmax : max (1 : Int) 2 = 2 := by decide
  simp only [hmax, gt_iff_lt, show (1 : Int) < 2 by decide, if_true, Int.ofNat_tdiv]
  exact ⟨trivial, rfl, rfl⟩

/-- C5 (amended). For every X bit-field that is a single run of `n ≥ 1` one-bits starting
at bit `s` and every Y bit-field with exactly two maximal runs (both within the axis bit
widths, which are at most 32), `alps_process_bitmap` returns 2 and bisects the X run:
`x_low` keeps the start `s` with `n - n/2` bits and `x_high` starts at `s + n/2` with
`max(n/2, 1)` bits; `x1` and `x2` are scaled from these two points. The two bit lengths
add up to `n` when `n ≥ 2`; for a one-bit run both points have one bit, so they add up
to 2. -/
theorem process_bitmap_bisects_x_run (g : Geometry) (s n y_map : Nat) (out : BitmapCoords)
    (hn : 1 ≤ n) (hxb : ((s + n : Nat) : Int) ≤ g.ALPS_BITMAP_X_BITS)
    (hx32 : g.ALPS_BITMAP_X_BITS ≤ 32) (hy32 : g.ALPS_BITMAP_Y_BITS ≤ 32)
    (hy : y_map < 2 ^ g.ALPS_BITMAP_Y_BITS.toNat) (hry : count_runs y_map = 2) :
    (alps_process_bitmap g (run_bits s n) y_map out).1 = 2 ∧
      (alps_bitmap_points g (run_bits s n) y_map).x_low =
        { start_bit := s, num_bits := (n : Int) - ((n / 2 : Nat) : Int) } ∧
      (alps_bitmap_points g (run_bits s n) y_map).x_high =
        { start_bit := (s : Int) + ((n / 2 : Nat) : Int),
          num_bits := max ((n / 2 : Nat) : Int) 1 } ∧
      (alps_bitmap_points g (run_bits s n) y_map).x_low.num_bits +
          (alps_bitmap_points g (run_bits s n) y_map).x_high.num_bits =
        (if n = 1 then 2 else (n : Int)) ∧
      (alps_process_bitmap g (run_bits s n) y_map out).2.x1 =
        bitmap_scale g.ALPS_X_MAX g.ALPS_BITMAP_X_BITS
          { start_bit := s, num_bits := (n : Int) - ((n / 2 : Nat) : Int) } ∧
      (alps_process_bitmap g (run_bits s n) y_map out).2.x2 =
        bitmap_scale g.ALPS_X_MAX g.ALPS_BITMAP_X_BITS
          { start_bit := (s : Int) + ((n / 2 : Nat) : Int),
            num_bits := max ((n / 2 : Nat) : Int) 1 } := by
  obtain ⟨hf, hlow, hhigh⟩ := bitmap_points_bisect_x g s n y_map hn hxb hx32 hy32 hy hry
  have hx0 := run_bits_ne_zero s n hn
  have hy0 : y_map ≠ 0 := by
    intro h0
    rw [h0, count_runs_zero] at hry
    omega
  have hgt : (alps_bitmap_points g (run_bits s n) y_map).fingers > 1 := by rw [hf]; decide
  have hret : alps_process_bitmap g (run_bits s n) y_map out =
      ((alps_bitmap_points g (run_bits s n) y_map).fingers,
        { x1 := bitmap_scale g.ALPS_X_MAX g.ALPS_BITMAP_X_BITS
            (alps_bitmap_points g (run_bits s n) y_map).x_low,
          y1 := bitmap_scale g.ALPS_Y_MAX g.ALPS_BITMAP_Y_BITS
            (alps_bitmap_points g (run_bits s n) y_map).y_low,
          x2 := bitmap_scale g.ALPS_X_MAX g.ALPS_BITMAP_X_BITS
            (alps_bitmap_points g (run_bits s n) y_map).x_high,
          y2 := bitmap_scale g.ALPS_Y_MAX g.ALPS_BITMAP_Y_BITS
            (alps_bitmap_points g (run_bits s n) y_map).y_high }) := by
    rw [alps_process_bitmap, if_neg (by simp [hx0, hy0])]
    simp only [if_pos hgt]
  refine ⟨by rw [hret]; exact hf, hlow, hhigh, ?_, by rw [hret, hlow], by rw [hret, hhigh]⟩
  rw [hlow, hhigh]
  show (n : Int) - ((n / 2 : Nat) : Int) + max ((n / 2 : Nat) : Int) 1 = _
  by_cases h1 : n = 1
  · subst h1
    decide
  · rw [if_neg h1]
    have h2 : 1 ≤ n / 2 := by omega
    have hmax : max ((n / 2 : Nat) : Int) 1 = ((n / 2 : Nat) : Int) := by
      apply max_eq_left
      exact_mod_cast h2
    rw [hmax]
    omega

/-- C5, witness: with the V3-V5 geometry, the x run of 3 bits at bit 3 and the y
bit-field 00110011000 (two runs). -/
theorem process_bitmap_bisects_x_run_witness :
    count_runs 0b00110011000 = 2 ∧
      (alps_process_bitmap geometry_v3_v4_v5 (run_bits 3 3) 0b00110011000 ⟨0, 0, 0, 0⟩).1 = 2 ∧
      (alps_bitmap_points geometry_v3_v4_v5 (run_bits 3 3) 0b00110011000).x_low.num_bits +
          (alps_bitmap_points geometry_v3_v4_v5 (run_bits 3 3) 0b00110011000).x_high.num_bits =
        (if 3 = 1 then 2 else ((3 : Nat) : Int)) := by
  have hc : count_runs 0b00110011000 = 2 := by decide
  have h := process_bitmap_bisects_x_run geometry_v3_v4_v5 3 3 0b00110011000 ⟨0, 0, 0, 0⟩
    (by decide) (by decide) (by decide) (by decide) (by decide) hc
  exact ⟨hc, h.1, h.2.2.2.1⟩

/-- C5, counterexample to the claim as stated: with the V3-V5 geometry, the x bit-field 1
(a single run of one bit) and the y bit-field 101 (two runs) give the count 2, and the
two points of the bisected x run have one bit each: their bit lengths add up to 2, not
to the bit length 1 of the original run. -/
theorem bisected_one_bit_run_has_two_bits :
    run_bits 0 1 = 1 ∧ count_runs 0b101 = 2 ∧
      (alps_process_bitmap geometry_v3_v4_v5 (run_bits 0 1) 0b101 ⟨0, 0, 0, 0⟩).1 = 2 ∧
      (alps_bitmap_points geometry_v3_v4_v5 (run_bits 0 1) 0b101).x_low.num_bits = 1 ∧
      (alps_bitmap_points geometry_v3_v4_v5 (run_bits 0 1) 0b101).x_high.num_bits = 1 := by
  decide


/-! ### V1/V2 decoder: hysteresis of `BTN_TOUCH` -/

lemma v1_v2_no_touch_in_band (model : alps_model_info) (key_state : Dev → Key → Bool)
    (priv : alps_data) (packet : List Nat) (hb : in_hysteresis_band packet) :
    btn_touch_reports (alps_process_packet_v1_v2 model key_state priv packet).2 = [] := by
  obtain ⟨htap, h25, h30⟩ := hb
  rw [v1_v2_btn_touch]
  have hd : ¬ (model.flags &&& ALPS_DUALPOINT ≠ 0 ∧ byte_at packet 5 = 127) := by
    intro h; omega
  have hgt : ¬ byte_at packet 5 > 30 := by omega
  have hlt : ¬ byte_at packet 5 < 25 := by omega
  rw [if_neg hd, if_neg htap, if_neg hgt, if_neg hlt]

lemma v1_v2_run_no_touch_in_band (model : alps_model_info)
    (inputs : List ((Dev → Key → Bool) × List Nat)) :
    ∀ priv : alps_data, (∀ inp ∈ inputs, in_hysteresis_band inp.2) →
      btn_touch_reports (v1_v2_run model priv inputs).2 = [] := by
  induction inputs with
  | nil => intro priv _; rfl
  | cons inp rest ih =>
    intro priv hall
    obtain ⟨key_state, packet⟩ := inp
    have h1 : in_hysteresis_band packet := hall (key_state, packet) (List.mem_cons_self _ _)
    have h2 : ∀ inp ∈ rest, in_hysteresis_band inp.2 :=
      fun inp hin => hall inp (List.mem_cons_of_mem _ hin)
    simp only [v1_v2_run, btn_touch_reports_append]
    rw [v1_v2_no_touch_in_band model key_state priv packet h1, ih _ h2]
    rfl

/-- C11. Hysteresis: for every V1/V2 packet that does not flag a hardware tap and whose
pressure `z = packet[5]` lies in 25 .. 30, on every model, `alps_process_packet_v1_v2`
makes no `BTN_TOUCH` report at all; hence over any sequence of such packets no
`BTN_TOUCH` report is made and the touch state keeps the value it had before the
sequence. -/
theorem v1_v2_touch_hysteresis (model : alps_model_info) (priv : alps_data)
    (inputs : List ((Dev → Key → Bool) × List Nat))
    (hall : ∀ inp ∈ inputs, in_hysteresis_band inp.2) :
    (∀ inp ∈ inputs, ∀ p : alps_data,
        btn_touch_reports (alps_process_packet_v1_v2 model inp.1 p inp.2).2 = []) ∧
      btn_touch_reports (v1_v2_run model priv inputs).2 = [] ∧
      ∀ before : Bool, touch_state before (v1_v2_run model priv inputs).2 = before := by
  refine ⟨fun inp hin p => v1_v2_no_touch_in_band model inp.1 p inp.2 (hall inp hin),
    v1_v2_run_no_touch_in_band model inputs priv hall, fun before => ?_⟩
  unfold touch_state
  rw [v1_v2_run_no_touch_in_band model inputs priv hall]
  rfl

/-- C11, witness: the plain V2 row, a touch at pressure 40 followed by the pressures 27,
28, 25 and 30; the touch state `true` set by the first packet survives the four packets
of the band. -/
theorem v1_v2_touch_hysteresis_witness :
    (∀ inp ∈ [((fun _ _ => false : Dev → Key → Bool), [0xf8, 0, 0, 0, 0, 27]),
        ((fun _ _ => false), [0xf8, 0, 0, 0, 0, 28]),
        ((fun _ _ => false), [0xf8, 0, 0, 0, 0, 25]),
        ((fun _ _ => false), [0xf8, 0, 0, 0, 0, 30])], in_hysteresis_band inp.2) ∧
      touch_state true
        (v1_v2_run model_plain_v2 alps_data_zero
          [((fun _ _ => false), [0xf8, 0, 0, 0, 0, 27]),
            ((fun _ _ => false), [0xf8, 0, 0, 0, 0, 28]),
            ((fun _ _ => false), [0xf8, 0, 0, 0, 0, 25]),
            ((fun _ _ => false), [0xf8, 0, 0, 0, 0, 30])]).2 = true :=
  ⟨by decide,
    (v1_v2_touch_hysteresis model_plain_v2 alps_data_zero
      [((fun _ _ => false), [0xf8, 0, 0, 0, 0, 27]),
        ((fun _ _ => false), [0xf8, 0, 0, 0, 0, 28]),
        ((fun _ _ => false), [0xf8, 0, 0, 0, 0, 25]),
        ((fun _ _ => false), [0xf8, 0, 0, 0, 0, 30])] (by decide)).2.2 true⟩


/-! ### V4 decoder: the fragment counter and the bitmap decode -/

/-- The session state and the bitmap calls of `alps_process_packet_v4` when the fragment
counter `c`, taken after the sync-flag reset, is at most 2. -/
lemma v4_priv_and_calls (g : Geometry) (priv : alps_data) (packet : List Nat)
    (uninit : BitmapCoords) (c : Int)
    (hc : c = if byte_at packet 6 &&& 0x40 ≠ 0 then 0 else priv.multi_packet)
    (hle : c ≤ 2) :
    (alps_process_packet_v4 g priv packet uninit).priv =
        (if c + 1 > 2 then
          { priv with
            multi_packet := 0,
            multi_data := v4_store_fragment priv.multi_data c packet,
            fingers := (alps_process_bitmap g
              (v4_x_bitmap (v4_store_fragment priv.multi_data c packet))
              (v4_y_bitmap (v4_store_fragment priv.multi_data c packet)) uninit).1,
            x1 := (alps_process_bitmap g
              (v4_x_bitmap (v4_store_fragment priv.multi_data c packet))
              (v4_y_bitmap (v4_store_fragment priv.multi_data c packet)) uninit).2.x1,
            x2 := (alps_process_bitmap g
              (v4_x_bitmap (v4_store_fragment priv.multi_data c packet))
              (v4_y_bitmap (v4_store_fragment priv.multi_data c packet)) uninit).2.x2,
            y1 := (alps_process_bitmap g
              (v4_x_bitmap (v4_store_fragment priv.multi_data c packet))
              (v4_y_bitmap (v4_store_fragment priv.multi_data c packet)) uninit).2.y1,
            y2 := (alps_process_bitmap g
              (v4_x_bitmap (v4_store_fragment priv.multi_data c packet))
              (v4_y_bitmap (v4_store_fragment priv.multi_data c packet)) uninit).2.y2 }
        else
          { priv with
            multi_packet := c + 1,
            multi_data := v4_store_fragment priv.multi_data c packet }) ∧
      (alps_process_packet_v4 g priv packet uninit).bitmap_calls =
        (if c + 1 > 2 then
          [(v4_x_bitmap (v4_store_fragment priv.multi_data c packet),
            v4_y_bitmap (v4_store_fragment priv.multi_data c packet))]
        else []) := by
  have hng : ¬ c > 2 := by omega
  unfold alps_process_packet_v4
  simp only [← hc, if_neg hng, and_self]

lemma v4_counter_after_reset (priv : alps_data) (packet : List Nat)
    (h0 : 0 ≤ priv.multi_packet) (h2 : priv.multi_packet ≤ 2) :
    0 ≤ (if byte_at packet 6 &&& 0x40 ≠ 0 then (0 : Int) else priv.multi_packet) ∧
      (if byte_at packet 6 &&& 0x40 ≠ 0 then (0 : Int) else priv.multi_packet) ≤ 2 := by
  split_ifs <;> omega

lemma v4_run_decodes_at_three (g : Geometry) (inputs : List (List Nat × BitmapCoords)) :
    ∀ (priv : alps_data) (stored : Nat), (stored : Int) = priv.multi_packet → stored ≤ 2 →
      ∀ e ∈ v4_run g priv stored inputs, (e.1.bitmap_calls ≠ [] ↔ e.2 = 3) := by
  induction inputs with
  | nil => intro priv stored _ _ e he; simp [v4_run] at he
  | cons inp rest ih =>
    intro priv stored hst hle e he
    obtain ⟨packet, uninit⟩ := inp
    have h0 : 0 ≤ priv.multi_packet := by omega
    have h2 : priv.multi_packet ≤ 2 := by omega
    obtain ⟨hc0, hc2⟩ := v4_counter_after_reset priv packet h0 h2
    obtain ⟨hpriv, hcalls⟩ := v4_priv_and_calls g priv packet uninit _ rfl hc2
    have hghost : (((if v4_sync packet then 0 else stored) + 1 : Nat) : Int) =
        (if byte_at packet 6 &&& 0x40 ≠ 0 then (0 : Int) else priv.multi_packet) + 1 := by
      unfold v4_sync
      by_cases hs : byte_at packet 6 &&& 0x40 ≠ 0
      · simp [hs]
      · simp only [hs, decide_False, if_false]
        push_cast
        omega
    simp only [v4_run, List.mem_cons] at he
    by_cases hdec : (if byte_at packet 6 &&& 0x40 ≠ 0 then (0 : Int) else priv.multi_packet) + 1 > 2
    · rw [if_pos hdec] at hpriv hcalls
      have hne : (alps_process_packet_v4 g priv packet uninit).bitmap_calls ≠ [] := by
        rw [hcalls]; simp
      rcases he with he | he
      · subst he
        constructor
        · intro _
          show (if v4_sync packet then 0 else stored) + 1 = 3
          omega
        · intro _; exact hne
      · rw [if_pos hne] at he
        refine ih _ 0 ?_ (by omega) e he
        rw [hpriv]
        rfl
    · rw [if_neg hdec] at hpriv hcalls
      have hnil : ¬ (alps_process_packet_v4 g priv packet uninit).bitmap_calls ≠ [] := by
        rw [hcalls]; simp
      rcases he with he | he
      · subst he
        constructor
        · intro h; exact absurd h hnil
        · intro h
          have : (if v4_sync packet then 0 else stored) + 1 = 3 := h
          omega
      · rw [if_neg hnil] at he
        refine ih _ _ ?_ (by omega) e he
        rw [hpriv, hghost]

/-- C12. Starting from a fragment counter `priv->multi_packet` in {0, 1, 2}, let `c` be
the counter after the sync-flag reset (0 when bit 6 of `packet[6]` is set). A call of
`alps_process_packet_v4` stores the fragment at offset `2 * c`; it calls
`alps_process_bitmap` if and only if `c = 2`, and then exactly once, on the bitmaps
assembled from the stored fragments, overwriting the cached contact count and
coordinates with what that call returns and setting the counter to 0; on every other
call the cached contact count and coordinates are unchanged and the counter becomes
`c + 1`. Hence over any sequence of calls a bitmap is decoded exactly on the calls on
which the number of fragments stored since the last reset or decode reaches 3. -/
theorem v4_decodes_on_third_fragment (g : Geometry) (priv : alps_data) (packet : List Nat)
    (uninit : BitmapCoords) (h0 : 0 ≤ priv.multi_packet) (h2 : priv.multi_packet ≤ 2) :
    ((alps_process_packet_v4 g priv packet uninit).bitmap_calls ≠ [] ↔
        (if byte_at packet 6 &&& 0x40 ≠ 0 then (0 : Int) else priv.multi_packet) = 2) ∧
      (alps_process_packet_v4 g priv packet uninit).priv.multi_data =
        v4_store_fragment priv.multi_data
          (if byte_at packet 6 &&& 0x40 ≠ 0 then (0 : Int) else priv.multi_packet) packet ∧
      ((if byte_at packet 6 &&& 0x40 ≠ 0 then (0 : Int) else priv.multi_packet) = 2 →
        (alps_process_packet_v4 g priv packet uninit).bitmap_calls =
          [(v4_x_bitmap (alps_process_packet_v4 g priv packet uninit).priv.multi_data,
            v4_y_bitmap (alps_process_packet_v4 g priv packet uninit).priv.multi_data)] ∧
        cached_contacts (alps_process_packet_v4 g priv packet uninit).priv =
          ((alps_process_bitmap g
              (v4_x_bitmap (alps_process_packet_v4 g priv packet uninit).priv.multi_data)
              (v4_y_bitmap (alps_process_packet_v4 g priv packet uninit).priv.multi_data)
              uninit).1,
            (alps_process_bitmap g
              (v4_x_bitmap (alps_process_packet_v4 g priv packet uninit).priv.multi_data)
              (v4_y_bitmap (alps_process_packet_v4 g priv packet uninit).priv.multi_data)
              uninit).2.x1,
            (alps_process_bitmap g
              (v4_x_bitmap (alps_process_packet_v4 g priv packet uninit).priv.multi_data)
              (v4_y_bitmap (alps_process_packet_v4 g priv packet uninit).priv.multi_data)
              uninit).2.y1,
            (alps_process_bitmap g
              (v4_x_bitmap (alps_process_packet_v4 g priv packet uninit).priv.multi_data)
              (v4_y_bitmap (alps_process_packet_v4 g priv packet uninit).priv.multi_data)
              uninit).2.x2,
            (alps_process_bitmap g
              (v4_x_bitmap (alps_process_packet_v4 g priv packet uninit).priv.multi_data)
              (v4_y_bitmap (alps_process_packet_v4 g priv packet uninit).priv.multi_data)
              uninit).2.y2) ∧
        (alps_process_packet_v4 g priv packet uninit).priv.multi_packet = 0) ∧
      ((if byte_at packet 6 &&& 0x40 ≠ 0 then (0 : Int) else priv.multi_packet) ≠ 2 →
        cached_contacts (alps_process_packet_v4 g priv packet uninit).priv =
          cached_contacts priv ∧
        (alps_process_packet_v4 g priv packet uninit).priv.multi_packet =
          (if byte_at packet 6 &&& 0x40 ≠ 0 then (0 : Int) else priv.multi_packet) + 1) ∧
      ∀ inputs : List (List Nat × BitmapCoords),
        ∀ e ∈ v4_run g priv priv.multi_packet.toNat inputs,
          (e.1.bitmap_calls ≠ [] ↔ e.2 = 3) := by
  obtain ⟨hc0, hc2⟩ := v4_counter_after_reset priv packet h0 h2
  obtain ⟨hpriv, hcalls⟩ := v4_priv_and_calls g priv packet uninit _ rfl hc2
  refine ⟨?_, ?_, ?_, ?_, ?_⟩
  · rw [hcalls]
    constructor
    · intro h
      by_contra hne
      have : ¬ (if byte_at packet 6 &&& 0x40 ≠ 0 then (0 : Int) else priv.multi_packet) + 1 > 2 := by
        omega
      rw [if_neg this] at h
      exact h rfl
    · intro h
      have : (if byte_at packet 6 &&& 0x40 ≠ 0 then (0 : Int) else priv.multi_packet) + 1 > 2 := by
        omega
      rw [if_pos this]
      simp
  · rw [hpriv]
    split_ifs <;> rfl
  · intro h
    have hgt : (if byte_at packet 6 &&& 0x40 ≠ 0 then (0 : Int) else priv.multi_packet) + 1 > 2 := by
      omega
    rw [if_pos hgt] at hpriv hcalls
    rw [hcalls, hpriv]
    exact ⟨rfl, rfl, rfl⟩
  · intro h
    have hgt : ¬ (if byte_at packet 6 &&& 0x40 ≠ 0 then (0 : Int) else priv.multi_packet) + 1 > 2 := by
      omega
    rw [if_neg hgt] at hpriv
    rw [hpriv]
    exact ⟨rfl, rfl⟩
  · intro inputs
    exact v4_run_decodes_at_three g inputs priv priv.multi_packet.toNat (by omega) (by omega)

theorem v4_decodes_on_third_fragment_witness :
    (0 : Int) ≤ ({ alps_data_zero with multi_packet := 2 } : alps_data).multi_packet ∧
      ({ alps_data_zero with multi_packet := 2 } : alps_data).multi_packet ≤ 2 ∧
      (alps_process_packet_v4 geometry_v3_v4_v5 { alps_data_zero with multi_packet := 2 }
          [0x8f, 0, 0, 0, 0, 0, 0x01, 0x02] ⟨0, 0, 0, 0⟩).priv.multi_packet = 0 :=
  ⟨by decide, by decide,
    ((v4_decodes_on_third_fragment geometry_v3_v4_v5 { alps_data_zero with multi_packet := 2 }
      [0x8f, 0, 0, 0, 0, 0, 0x01, 0x02] ⟨0, 0, 0, 0⟩ (by decide) (by decide)).2.2.1
        (by decide)).2.2⟩

/-- C13. For every V4 packet with the sync flag set (bit 6 of `packet[6]`) and every
prior fragment counter (in {0, 1, 2} or not), `alps_process_packet_v4` stores the packet's
fragment at offset 0 (bytes 0 and 1 of `priv->multi_data`), leaves the fragment counter
at 1, calls `alps_process_bitmap` not at all, and changes no other field of the session
state: the cached contact count and coordinates are unchanged. -/
theorem v4_sync_restarts_without_decoding (g : Geometry) (priv : alps_data)
    (packet : List Nat) (uninit : BitmapCoords)
    (hsync : byte_at packet 6 &&& 0x40 ≠ 0) :
    (alps_process_packet_v4 g priv packet uninit).priv =
        { priv with multi_packet := 1,
                    multi_data := (priv.multi_data.set 0 (byte_at packet 6)).set 1
                      (byte_at packet 7) } ∧
      (alps_process_packet_v4 g priv packet uninit).bitmap_calls = [] ∧
      cached_contacts (alps_process_packet_v4 g priv packet uninit).priv =
        cached_contacts priv := by
  obtain ⟨hpriv, hcalls⟩ := v4_priv_and_calls g priv packet uninit 0
    (by rw [if_pos hsync]) (by decide)
  have hng : ¬ ((0 : Int) + 1 > 2) := by decide
  rw [if_neg hng] at hpriv hcalls
  refine ⟨?_, hcalls, ?_⟩
  · rw [hpriv]; rfl
  · rw [hpriv]; rfl

theorem v4_sync_restarts_without_decoding_witness :
    byte_at [0x8f, 0, 0, 0, 0, 0, 0x41, 0x02] 6 &&& 0x40 ≠ 0 ∧
      (alps_process_packet_v4 geometry_v3_v4_v5 { alps_data_zero with multi_packet := 2 }
          [0x8f, 0, 0, 0, 0, 0, 0x41, 0x02] ⟨0, 0, 0, 0⟩).bitmap_calls = [] :=
  ⟨by decide,
    (v4_sync_restarts_without_decoding geometry_v3_v4_v5
      { alps_data_zero with multi_packet := 2 }
      [0x8f, 0, 0, 0, 0, 0, 0x41, 0x02] ⟨0, 0, 0, 0⟩ (by decide)).2.1⟩

/-! ### Register engine -/

lemma nib_mod (a : Nat) : a &&& 0xf = a % 16 := Nat.and_pow_two_sub_one_eq_mod a 4

lemma shl8_or (a b : Nat) (hb : b < 256) : (a <<< 8) ||| b = a * 256 + b := by
  have h := Nat.mul_add_lt_is_or (show b < 2 ^ 8 by simpa using hb) a
  rw [Nat.shiftLeft_eq, Nat.mul_comm a (2 ^ 8), ← h]

lemma fail_stop_nil (ret : Int) : fail_stop [] ret := by
  intro k h
  simp at h

lemma fail_stop_single (c : ps2_call) (ret : Int) (h : c.failed = true → ret = -1) :
    fail_stop [c] ret := by
  intro k hk hf
  have hk0 : k = 0 := by simpa using hk
  subst hk0
  exact ⟨rfl, h hf⟩

lemma fail_stop_neg_one (l : List ps2_call) (ret : Int) (h : fail_stop l ret) :
    fail_stop l (-1) := fun k hk hf => ⟨(h k hk hf).1, rfl⟩

lemma fail_stop_clean (l : List ps2_call) (ret : Int) (h : fail_stop l ret)
    (hret : ret ≠ -1) : ∀ c ∈ l, c.failed = false := by
  intro c hc
  obtain ⟨k, hk, rfl⟩ := List.getElem_of_mem hc
  cases hf : l[k].failed
  · rfl
  · exact absurd (h k hk (by simpa using hf)).2 hret

lemma fail_stop_append (l1 l2 : List ps2_call) (ret : Int)
    (h1 : ∀ c ∈ l1, c.failed = false) (h2 : fail_stop l2 ret) :
    fail_stop (l1 ++ l2) ret := by
  intro k hk hf
  simp only [List.get_eq_getElem] at hf
  by_cases hlt : k < l1.length
  · rw [List.getElem_append_left hlt] at hf
    have := h1 _ (List.getElem_mem hlt)
    rw [this] at hf
    exact absurd hf (by decide)
  · have hge : l1.length ≤ k := by omega
    rw [List.getElem_append_right hge] at hf
    have hk2 : k - l1.length < l2.length := by
      simp only [List.length_append] at hk
      omega
    obtain ⟨hl, hr⟩ := h2 (k - l1.length) hk2 (by simpa using hf)
    refine ⟨?_, hr⟩
    simp only [List.length_append]
    omega

section engine
variable {σ : Type}

lemma ps2_command_ret_ne_zero (T : Transport σ) (s : σ) (p : Option (List Nat)) (c : Nat) :
    (ps2_command T s p c).ret ≠ 0 ↔ (T s p c).failed = true := by
  cases h : (T s p c).failed <;> simp [ps2_command, h]

lemma ps2_command_fail_stop (T : Transport σ) (s : σ) (p : Option (List Nat)) (c : Nat) :
    fail_stop (ps2_command T s p c).calls (ps2_command T s p c).ret := by
  apply fail_stop_single
  intro h
  simp only [ps2_command]
  simp only at h
  rw [h]
  rfl

lemma send_nibble_eq (cs : alps_command_set) (T : Transport σ) (s : σ) (n : Nat) :
    alps_command_mode_send_nibble cs T s n =
      { ret := if (T s (nibble_request cs n).2 (nibble_request cs n).1).failed then -1 else 0,
        state := (T s (nibble_request cs n).2 (nibble_request cs n).1).state,
        calls := [⟨(nibble_request cs n).1, (nibble_request cs n).2,
          (T s (nibble_request cs n).2 (nibble_request cs n).1).failed,
          (T s (nibble_request cs n).2 (nibble_request cs n).1).param.map (· % 256)⟩],
        param := [] } := by
  unfold alps_command_mode_send_nibble nibble_request ps2_command
  dsimp only
  split_ifs <;> simp_all

lemma fail_stop_seq (l1 l2 : List ps2_call) (ret1 ret2 : Int) (h1 : fail_stop l1 ret1)
    (h0 : ret1 = 0) (h2 : fail_stop l2 ret2) : fail_stop (l1 ++ l2) ret2 :=
  fail_stop_append l1 l2 ret2 (fail_stop_clean l1 ret1 h1 (by omega)) h2

lemma send_nibble_fail_stop (cs : alps_command_set) (T : Transport σ) (s : σ) (n : Nat) :
    fail_stop (alps_command_mode_send_nibble cs T s n).calls
      (alps_command_mode_send_nibble cs T s n).ret := by
  rw [send_nibble_eq]
  apply fail_stop_single
  intro h
  simp only at h
  simp only [h, if_true]

lemma set_addr_loop_fail_stop (cs : alps_command_set) (T : Transport σ) (addr : Nat) :
    ∀ (k : Nat) (s : σ), fail_stop (set_addr_loop cs T addr k s).calls
      (set_addr_loop cs T addr k s).ret := by
  intro k
  induction k with
  | zero => intro s; exact fail_stop_nil _
  | succ k ih =>
    intro s
    unfold set_addr_loop
    dsimp only
    have h1 := send_nibble_fail_stop cs T s ((addr >>> (4 * k)) &&& 0xf)
    split_ifs with h
    · exact fail_stop_neg_one _ _ h1
    · exact fail_stop_seq _ _ _ _ h1 (by simpa using h) (ih _)

lemma set_addr_fail_stop (cs : alps_command_set) (T : Transport σ) (s : σ) (addr : Nat) :
    fail_stop (alps_command_mode_set_addr cs T s addr).calls
      (alps_command_mode_set_addr cs T s addr).ret := by
  unfold alps_command_mode_set_addr
  dsimp only
  have h1 := ps2_command_fail_stop T s none cs.addr_command
  split_ifs with h
  · exact fail_stop_neg_one _ _ h1
  · exact fail_stop_seq _ _ _ _ h1 (by simpa using h) (set_addr_loop_fail_stop cs T addr 4 _)

lemma read_reg_inner_fail_stop (K : psmouse_commands) (T : Transport σ) (s : σ)
    (addr : Nat) :
    fail_stop (__alps_command_mode_read_reg K T s addr).calls
      (__alps_command_mode_read_reg K T s addr).ret := by
  unfold __alps_command_mode_read_reg
  dsimp only
  have h1 := ps2_command_fail_stop T s (some []) K.GETINFO
  split_ifs with h h2
  · exact fail_stop_neg_one _ _ h1
  · exact fail_stop_neg_one _ _ h1
  · intro k hk hf
    have := (h1 k hk hf).2
    have h0 := not_not.mp h
    omega

lemma read_reg_fail_stop (K : psmouse_commands) (cs : alps_command_set) (T : Transport σ)
    (s : σ) (addr : Nat) :
    fail_stop (alps_command_mode_read_reg K cs T s addr).calls
      (alps_command_mode_read_reg K cs T s addr).ret := by
  unfold alps_command_mode_read_reg
  dsimp only
  have h1 := set_addr_fail_stop cs T s addr
  split_ifs with h
  · exact fail_stop_neg_one _ _ h1
  · exact fail_stop_seq _ _ _ _ h1 (by simpa using h) (read_reg_inner_fail_stop K T _ addr)

lemma write_reg_inner_fail_stop (cs : alps_command_set) (T : Transport σ) (s : σ)
    (value : Nat) :
    fail_stop (__alps_command_mode_write_reg cs T s value).calls
      (__alps_command_mode_write_reg cs T s value).ret := by
  unfold __alps_command_mode_write_reg
  dsimp only
  have h1 := send_nibble_fail_stop cs T s (((value % 256) >>> 4) &&& 0xf)
  split_ifs with h h2
  · exact fail_stop_neg_one _ _ h1
  · exact fail_stop_seq _ _ _ _ h1 (by simpa using h)
      (fail_stop_neg_one _ _ (send_nibble_fail_stop cs T _ _))
  · have h3 := send_nibble_fail_stop cs T
      (alps_command_mode_send_nibble cs T s (((value % 256) >>> 4) &&& 0xf)).state
      ((value % 256) &&& 0xf)
    refine fail_stop_seq _ _ _ _ h1 (by simpa using h) ?_
    intro k hk hf
    have := (h3 k hk hf).2
    have h0 := not_not.mp h2
    omega

lemma write_reg_fail_stop (cs : alps_command_set) (T : Transport σ) (s : σ)
    (addr value : Nat) :
    fail_stop (alps_command_mode_write_reg cs T s addr value).calls
      (alps_command_mode_write_reg cs T s addr value).ret := by
  unfold alps_command_mode_write_reg
  dsimp only
  have h1 := set_addr_fail_stop cs T s addr
  split_ifs with h
  · exact fail_stop_neg_one _ _ h1
  · exact fail_stop_seq _ _ _ _ h1 (by simpa using h) (write_reg_inner_fail_stop cs T _ value)

lemma enter_command_mode_fail_stop (K : psmouse_commands) (T : Transport σ) (s : σ)
    (resp : Option (List Nat)) :
    fail_stop (alps_enter_command_mode K T s resp).calls
      (alps_enter_command_mode K T s resp).ret := by
  unfold alps_enter_command_mode
  dsimp only
  have h1 := ps2_command_fail_stop T s none K.RESET_WRAP
  have h2 := ps2_command_fail_stop T (ps2_command T s none K.RESET_WRAP).state none
    K.RESET_WRAP
  have h3 := ps2_command_fail_stop T
    (ps2_command T (ps2_command T s none K.RESET_WRAP).state none K.RESET_WRAP).state none
    K.RESET_WRAP
  have h4 := ps2_command_fail_stop T
    (ps2_command T (ps2_command T (ps2_command T s none K.RESET_WRAP).state none
      K.RESET_WRAP).state none K.RESET_WRAP).state (some []) K.GETINFO
  split_ifs with a b c d e
  · exact fail_stop_neg_one _ _ h1
  · exact fail_stop_seq _ _ _ _ h1 (by simpa using a) (fail_stop_neg_one _ _ h2)
  · rw [List.append_assoc]
    exact fail_stop_seq _ _ _ _ h1 (by simpa using a)
      (fail_stop_seq _ _ _ _ h2 (by simpa using b) (fail_stop_neg_one _ _ h3))
  · rw [List.append_assoc, List.append_assoc]
    exact fail_stop_seq _ _ _ _ h1 (by simpa using a)
      (fail_stop_seq _ _ _ _ h2 (by simpa using b)
        (fail_stop_seq _ _ _ _ h3 (by simpa using c) (fail_stop_neg_one _ _ h4)))
  · rw [List.append_assoc, List.append_assoc]
    exact fail_stop_seq _ _ _ _ h1 (by simpa using a)
      (fail_stop_seq _ _ _ _ h2 (by simpa using b)
        (fail_stop_seq _ _ _ _ h3 (by simpa using c) (fail_stop_neg_one _ _ h4)))
  · rw [List.append_assoc, List.append_assoc]
    refine fail_stop_seq _ _ _ _ h1 (by simpa using a)
      (fail_stop_seq _ _ _ _ h2 (by simpa using b)
        (fail_stop_seq _ _ _ _ h3 (by simpa using c) ?_))
    intro k hk hf
    have := (h4 k hk hf).2
    have h0 := not_not.mp d
    omega

end engine

lemma mock_send_nibble (K : psmouse_commands) (cs : alps_command_set)
    (hdec : mock_decodes K cs) (m : MockDevice) (n : Nat) (hn : n < 16) :
    (alps_command_mode_send_nibble cs (mock_transport K cs) m n).ret = 0 ∧
      (alps_command_mode_send_nibble cs (mock_transport K cs) m n).state =
        mock_nibble m n := by
  obtain ⟨h1, h2, h3⟩ := hdec.2 n hn
  have hT : mock_transport K cs m (nibble_request cs n).2 (nibble_request cs n).1 =
      { state := mock_nibble m n, failed := false,
        param := (nibble_request cs n).2.getD [] } := by
    unfold mock_transport
    have h1' : (nibble_request cs n).1 ≠ cs.addr_command := h1
    have h2' : (nibble_request cs n).1 ≠ K.GETINFO := h2
    simp only [if_neg h1', if_neg h2', h3]
  rw [send_nibble_eq, hT]
  exact ⟨rfl, rfl⟩

lemma mock_set_addr_loop_step (K : psmouse_commands) (cs : alps_command_set)
    (hdec : mock_decodes K cs) (m : MockDevice) (addr k : Nat) :
    (set_addr_loop cs (mock_transport K cs) addr (k + 1) m).ret =
        (set_addr_loop cs (mock_transport K cs) addr k
          (mock_nibble m ((addr >>> (4 * k)) &&& 0xf))).ret ∧
      (set_addr_loop cs (mock_transport K cs) addr (k + 1) m).state =
        (set_addr_loop cs (mock_transport K cs) addr k
          (mock_nibble m ((addr >>> (4 * k)) &&& 0xf))).state := by
  have hn : (addr >>> (4 * k)) &&& 0xf < 16 := by
    rw [nib_mod]
    omega
  obtain ⟨h1, h2⟩ := mock_send_nibble K cs hdec m _ hn
  rw [set_addr_loop]
  simp only [h1, h2, ne_eq, not_true_eq_false, if_false, and_self]

lemma mock_set_addr (K : psmouse_commands) (cs : alps_command_set)
    (hdec : mock_decodes K cs) (m : MockDevice) (addr : Nat) (haddr : addr < 2 ^ 16) :
    (alps_command_mode_set_addr cs (mock_transport K cs) m addr).ret = 0 ∧
      (alps_command_mode_set_addr cs (mock_transport K cs) m addr).state =
        { nibbles := some [(addr >>> 12) &&& 0xf, (addr >>> 8) &&& 0xf,
            (addr >>> 4) &&& 0xf, addr &&& 0xf],
          addr := addr, regs := m.regs } := by
  have hp : ps2_command (mock_transport K cs) m none cs.addr_command =
      { ret := 0, state := { m with nibbles := some [] },
        calls := [⟨cs.addr_command, none, false, []⟩], param := [] } := by
    simp [ps2_command, mock_transport]
  have hsum : ((addr >>> 12) &&& 0xf) * 4096 + ((addr >>> 8) &&& 0xf) * 256 +
      ((addr >>> 4) &&& 0xf) * 16 + (addr &&& 0xf) = addr := by
    simp only [nib_mod, Nat.shiftRight_eq_div_pow]
    omega
  unfold alps_command_mode_set_addr
  simp only [hp, ne_eq, not_true_eq_false, if_false]
  obtain ⟨a1, a2⟩ := mock_set_addr_loop_step K cs hdec { m with nibbles := some [] } addr 3
  obtain ⟨b1, b2⟩ := mock_set_addr_loop_step K cs hdec
    (mock_nibble { m with nibbles := some [] } ((addr >>> (4 * 3)) &&& 0xf)) addr 2
  obtain ⟨c1, c2⟩ := mock_set_addr_loop_step K cs hdec
    (mock_nibble (mock_nibble { m with nibbles := some [] } ((addr >>> (4 * 3)) &&& 0xf))
      ((addr >>> (4 * 2)) &&& 0xf)) addr 1
  obtain ⟨d1, d2⟩ := mock_set_addr_loop_step K cs hdec
    (mock_nibble (mock_nibble (mock_nibble { m with nibbles := some [] }
      ((addr >>> (4 * 3)) &&& 0xf)) ((addr >>> (4 * 2)) &&& 0xf))
      ((addr >>> (4 * 1)) &&& 0xf)) addr 0
  simp only [Nat.reduceAdd] at a1 a2 b1 b2 c1 c2 d1 d2
  rw [a1, b1, c1, d1, a2, b2, c2, d2]
  simp only [set_addr_loop, mock_nibble, List.nil_append, List.cons_append, List.length_cons,
    List.length_nil, Nat.reduceAdd, Nat.reduceEqDiff, if_false, if_true, List.getD_cons_zero,
    List.getD_cons_succ, Nat.reduceMul, Nat.shiftRight_zero, true_and]
  rw [hsum]

lemma mock_write_reg (K : psmouse_commands) (cs : alps_command_set)
    (hdec : mock_decodes K cs) (m : MockDevice) (addr value : Nat) (haddr : addr < 2 ^ 16)
    (hval : value < 256) :
    (alps_command_mode_write_reg cs (mock_transport K cs) m addr value).ret = 0 ∧
      (alps_command_mode_write_reg cs (mock_transport K cs) m addr value).state.regs =
        (addr, value) :: m.regs := by
  obtain ⟨s1, s2⟩ := mock_set_addr K cs hdec m addr haddr
  have hhi : ((value % 256) >>> 4) &&& 0xf < 16 := by rw [nib_mod]; omega
  have hlo : (value % 256) &&& 0xf < 16 := by rw [nib_mod]; omega
  have hv : (((value % 256) >>> 4) &&& 0xf) * 16 + ((value % 256) &&& 0xf) = value := by
    simp only [nib_mod, Nat.shiftRight_eq_div_pow]
    omega
  obtain ⟨a1, a2⟩ := mock_send_nibble K cs hdec
    (alps_command_mode_set_addr cs (mock_transport K cs) m addr).state _ hhi
  obtain ⟨b1, b2⟩ := mock_send_nibble K cs hdec
    (mock_nibble (alps_command_mode_set_addr cs (mock_transport K cs) m addr).state
      (((value % 256) >>> 4) &&& 0xf)) _ hlo
  unfold alps_command_mode_write_reg __alps_command_mode_write_reg
  simp only [s1, a1, a2, b1, b2, ne_eq, not_true_eq_false, if_false, true_and]
  rw [s2]
  simp only [mock_nibble, List.cons_append, List.nil_append, List.length_cons,
    List.length_nil, Nat.reduceAdd, Nat.reduceEqDiff, if_false, if_true,
    List.getD_cons_zero, List.getD_cons_succ]
  rw [hv]

/-- C14. Round trip over the mock device. When the mock device can tell the commands of
the command set apart (`mock_decodes`), for every state of the mock device, every 16-bit
address and every 8-bit value, `alps_command_mode_write_reg(addr, value)` returns 0 and
`alps_command_mode_read_reg(addr)`, called next, returns `value`. -/
theorem write_reg_then_read_reg_round_trip (K : psmouse_commands) (cs : alps_command_set)
    (m : MockDevice) (addr value : Nat) (hdec : mock_decodes K cs) (haddr : addr < 2 ^ 16)
    (hval : value < 256) :
    (alps_command_mode_write_reg cs (mock_transport K cs) m addr value).ret = 0 ∧
      (alps_command_mode_read_reg K cs (mock_transport K cs)
        (alps_command_mode_write_reg cs (mock_transport K cs) m addr value).state addr).ret =
        value := by
  obtain ⟨w1, w2⟩ := mock_write_reg K cs hdec m addr value haddr hval
  refine ⟨w1, ?_⟩
  generalize (alps_command_mode_write_reg cs (mock_transport K cs) m addr value).state = m1
    at w2
  obtain ⟨s1, s2⟩ := mock_set_addr K cs hdec m1 addr haddr
  have hq : ps2_command (mock_transport K cs)
      (alps_command_mode_set_addr cs (mock_transport K cs) m1 addr).state (some [])
      K.GETINFO =
      { ret := 0, state := (alps_command_mode_set_addr cs (mock_transport K cs) m1 addr).state,
        calls := [⟨K.GETINFO, some [], false, [addr / 256 % 256, addr % 256 % 256,
          value % 256]⟩],
        param := [addr / 256 % 256, addr % 256 % 256, value % 256] } := by
    have hne : K.GETINFO ≠ cs.addr_command := fun h => hdec.1 h.symm
    rw [s2]
    simp [ps2_command, mock_transport, hne, w2, mock_reg]
  have hecho : addr = ((addr / 256 % 256) <<< 8) ||| (addr % 256 % 256) := by
    rw [shl8_or _ _ (by omega)]
    omega
  unfold alps_command_mode_read_reg __alps_command_mode_read_reg
  simp only [s1, hq, ne_eq, not_true_eq_false, if_false, byte_at, List.getD_cons_zero,
    List.getD_cons_succ]
  rw [if_neg (not_not.mpr hecho)]
  show ((value % 256 : Nat) : Int) = value
  rw [Nat.mod_eq_of_lt hval]

theorem write_reg_then_read_reg_round_trip_witness :
    (mock_decodes linux_psmouse_commands (command_set_v3 linux_psmouse_commands) ∧
      (0xc2d9 : Nat) < 2 ^ 16 ∧ (0x5a : Nat) < 256) ∧
      (alps_command_mode_read_reg linux_psmouse_commands
        (command_set_v3 linux_psmouse_commands)
        (mock_transport linux_psmouse_commands (command_set_v3 linux_psmouse_commands))
        (alps_command_mode_write_reg (command_set_v3 linux_psmouse_commands)
          (mock_transport linux_psmouse_commands (command_set_v3 linux_psmouse_commands))
          ⟨none, 0, []⟩ 0xc2d9 0x5a).state 0xc2d9).ret = (0x5a : Nat) ∧
      mock_decodes linux_psmouse_commands (command_set_v4 linux_psmouse_commands) :=
  ⟨⟨by decide, by decide, by decide⟩,
    (write_reg_then_read_reg_round_trip linux_psmouse_commands
      (command_set_v3 linux_psmouse_commands) ⟨none, 0, []⟩ 0xc2d9 0x5a (by decide)
      (by decide) (by decide)).2,
    by decide⟩

lemma byte_at_map_mod_lt (l : List Nat) (i : Nat) : byte_at (l.map (· % 256)) i < 256 := by
  unfold byte_at
  rw [List.getD_eq_getElem?_getD, List.getElem?_map]
  cases l[i]? with
  | none => simp
  | some v => simp only [Option.map_some', Option.getD_some]; omega

lemma ps2_command_param_lt {σ : Type} (T : Transport σ) (s : σ) (p : Option (List Nat))
    (c i : Nat) : byte_at (ps2_command T s p c).param i < 256 :=
  byte_at_map_mod_lt _ i

/-- C15. With `q` the info query `ps2_command(ps2dev, param, PSMOUSE_CMD_GETINFO)` made
in the device state that `alps_command_mode_set_addr` leaves:
`alps_command_mode_read_reg(addr)` returns the third byte of the response, `param[2]`, if
and only if setting the address returns 0, the info query returns 0 and
`(param[0] << 8) | param[1]` equals `addr`; in every other case it returns -1. The third
byte lies in 0..255, so the result of a successful read is never -1. -/
theorem read_reg_returns_value_iff_echo {σ : Type} (K : psmouse_commands)
    (cs : alps_command_set) (T : Transport σ) (s : σ) (addr : Nat) :
    let sa := alps_command_mode_set_addr cs T s addr
    let q := ps2_command T sa.state (some []) K.GETINFO
    let r := alps_command_mode_read_reg K cs T s addr
    (r.ret = (byte_at q.param 2 : Int) ↔
        (sa.ret = 0 ∧ q.ret = 0 ∧ addr = (byte_at q.param 0 <<< 8) ||| byte_at q.param 1)) ∧
      (¬ (sa.ret = 0 ∧ q.ret = 0 ∧ addr = (byte_at q.param 0 <<< 8) ||| byte_at q.param 1) →
        r.ret = -1) ∧
      (0 ≤ (byte_at q.param 2 : Int) ∧ (byte_at q.param 2 : Int) ≤ 255) ∧
      (r.ret = -1 ∨ (0 ≤ r.ret ∧ r.ret ≤ 255)) := by
  intro sa q r
  have hlt : byte_at q.param 2 < 256 := ps2_command_param_lt T sa.state (some []) K.GETINFO 2
  have hr : r.ret = if sa.ret ≠ 0 then -1 else if q.ret ≠ 0 then -1
      else if addr ≠ (byte_at q.param 0 <<< 8) ||| byte_at q.param 1 then -1
      else (byte_at q.param 2 : Int) := by
    show (alps_command_mode_read_reg K cs T s addr).ret = _
    unfold alps_command_mode_read_reg __alps_command_mode_read_reg
    dsimp only
    split_ifs <;> rfl
  rw [hr]
  split_ifs with h1 h2 h3
  · refine ⟨⟨fun h => ?_, fun h => absurd h.1 h1⟩, fun _ => rfl, ⟨by omega, by omega⟩,
      Or.inl rfl⟩
    exact h.elim
  · refine ⟨⟨fun h => ?_, fun h => absurd h.2.1 h2⟩, fun _ => rfl, ⟨by omega, by omega⟩,
      Or.inl rfl⟩
    exact h.elim
  · refine ⟨⟨fun h => ?_, fun h => absurd h.2.2 h3⟩, fun _ => rfl, ⟨by omega, by omega⟩,
      Or.inl rfl⟩
    exact h.elim
  · refine ⟨⟨fun _ => ⟨not_not.mp h1, not_not.mp h2, not_not.mp h3⟩, fun _ => rfl⟩,
      fun h => absurd ⟨not_not.mp h1, not_not.mp h2, not_not.mp h3⟩ h,
      ⟨by omega, by omega⟩, Or.inr ⟨by omega, by omega⟩⟩

theorem read_reg_returns_value_iff_echo_witness :
    (alps_command_mode_read_reg linux_psmouse_commands
        (command_set_v3 linux_psmouse_commands) scripted_transport
        [ (false, []), (false, []), (false, []), (false, []), (false, []),
          (false, [0xc2, 0xd9, 0x47]) ] 0xc2d9).ret = 0x47 ∧
      (alps_command_mode_read_reg linux_psmouse_commands
        (command_set_v3 linux_psmouse_commands) scripted_transport
        [ (false, []), (false, []), (false, []), (false, []), (false, []),
          (false, [0xc2, 0xd8, 0x47]) ] 0xc2d9).ret = -1 :=
  ⟨((read_reg_returns_value_iff_echo linux_psmouse_commands
      (command_set_v3 linux_psmouse_commands) scripted_transport
      [ (false, []), (false, []), (false, []), (false, []), (false, []),
        (false, [0xc2, 0xd9, 0x47]) ] 0xc2d9).1.2
      ⟨by decide, by decide, by decide⟩).trans (by decide),
    (read_reg_returns_value_iff_echo linux_psmouse_commands
      (command_set_v3 linux_psmouse_commands) scripted_transport
      [ (false, []), (false, []), (false, []), (false, []), (false, []),
        (false, [0xc2, 0xd8, 0x47]) ] 0xc2d9).2.1 (by decide)⟩

section engine2
variable {σ : Type}

lemma send_nibble_ret_ne_zero (cs : alps_command_set) (T : Transport σ) (s : σ) (n : Nat) :
    (alps_command_mode_send_nibble cs T s n).ret ≠ 0 →
      ∃ c ∈ (alps_command_mode_send_nibble cs T s n).calls, c.failed = true := by
  rw [send_nibble_eq]
  intro h
  refine ⟨_, List.mem_singleton_self _, ?_⟩
  by_contra hf
  simp only [Bool.not_eq_true] at hf
  simp [hf] at h

lemma send_nibble_request (cs : alps_command_set) (T : Transport σ) (s : σ) (n : Nat) :
    (alps_command_mode_send_nibble cs T s n).calls.map (fun c => (c.command, c.param)) =
      [nibble_request cs n] := by
  rw [send_nibble_eq]
  rfl

lemma set_addr_loop_requests (cs : alps_command_set) (T : Transport σ) (addr : Nat) :
    ∀ (k : Nat) (s : σ),
      (∀ c ∈ (set_addr_loop cs T addr k s).calls, c.failed = false) →
      (set_addr_loop cs T addr k s).ret = 0 ∧
        (set_addr_loop cs T addr k s).calls.map (fun c => (c.command, c.param)) =
          (List.range k).reverse.map
            (fun j => nibble_request cs ((addr >>> (4 * j)) &&& 0xf)) := by
  intro k
  induction k with
  | zero => intro s _; exact ⟨rfl, rfl⟩
  | succ k ih =>
    intro s
    unfold set_addr_loop
    dsimp only
    split_ifs with h
    · intro hok
      obtain ⟨c, hc, hf⟩ := send_nibble_ret_ne_zero cs T s _ h
      rw [hok c hc] at hf
      exact absurd hf (by decide)
    · intro hok
      obtain ⟨h1, h2⟩ := ih _ (fun c hc => hok c (List.mem_append_right _ hc))
      refine ⟨h1, ?_⟩
      rw [List.map_append, send_nibble_request, h2, List.range_succ, List.reverse_append]
      rfl

end engine2

/-- C16. For every address, when every call of the transport made by
`alps_command_mode_set_addr` succeeds, the function returns 0 after exactly five calls:
the address-prefix command `priv->addr_command` with no parameter, then the nibble
commands for bits 15-12, 11-8, 7-4 and 3-0 of `addr`, in that order. For a 16-bit
address the four nibbles, read as base-16 digits from most to least significant, give
back `addr`. -/
theorem set_addr_sends_prefix_then_four_nibbles {σ : Type} (cs : alps_command_set)
    (T : Transport σ) (s : σ) (addr : Nat)
    (hok : ∀ c ∈ (alps_command_mode_set_addr cs T s addr).calls, c.failed = false) :
    (alps_command_mode_set_addr cs T s addr).ret = 0 ∧
      (alps_command_mode_set_addr cs T s addr).calls.map (fun c => (c.command, c.param)) =
        [ (cs.addr_command, none),
          nibble_request cs ((addr >>> 12) &&& 0xf),
          nibble_request cs ((addr >>> 8) &&& 0xf),
          nibble_request cs ((addr >>> 4) &&& 0xf),
          nibble_request cs (addr &&& 0xf) ] ∧
      (addr < 2 ^ 16 →
        ((addr >>> 12) &&& 0xf) * 16 ^ 3 + ((addr >>> 8) &&& 0xf) * 16 ^ 2 +
          ((addr >>> 4) &&& 0xf) * 16 + (addr &&& 0xf) = addr) := by
  have key : (alps_command_mode_set_addr cs T s addr).ret = 0 ∧
      (alps_command_mode_set_addr cs T s addr).calls.map (fun c => (c.command, c.param)) =
        [ (cs.addr_command, none),
          nibble_request cs ((addr >>> 12) &&& 0xf),
          nibble_request cs ((addr >>> 8) &&& 0xf),
          nibble_request cs ((addr >>> 4) &&& 0xf),
          nibble_request cs (addr &&& 0xf) ] := by
    revert hok
    unfold alps_command_mode_set_addr
    dsimp only
    split_ifs with h
    · intro hok
      have hf := (ps2_command_ret_ne_zero T s none cs.addr_command).1 h
      have := hok ⟨cs.addr_command, none, (T s none cs.addr_command).failed,
        (T s none cs.addr_command).param.map (· % 256)⟩ (List.mem_singleton_self _)
      simp only at this
      rw [this] at hf
      exact absurd hf (by decide)
    · intro hok
      obtain ⟨h1, h2⟩ := set_addr_loop_requests cs T addr 4 _
        (fun c hc => hok c (List.mem_append_right _ hc))
      refine ⟨h1, ?_⟩
      rw [List.map_append, h2]
      rfl
  refine ⟨key.1, key.2, ?_⟩
  intro haddr
  simp only [nib_mod, Nat.shiftRight_eq_div_pow]
  omega

theorem set_addr_sends_prefix_then_four_nibbles_witness :
    (∀ c ∈ (alps_command_mode_set_addr (command_set_v3 linux_psmouse_commands)
        scripted_transport [(false, []), (false, []), (false, []), (false, []), (false, [])]
        0xc2d9).calls, c.failed = false) ∧
      (alps_command_mode_set_addr (command_set_v3 linux_psmouse_commands)
        scripted_transport [(false, []), (false, []), (false, []), (false, []), (false, [])]
        0xc2d9).calls.map (fun c => (c.command, c.param)) =
        [ (0x00ec, none), (0x10e8, some [0x01]), (0x00e7, some [0x00]),
          (0x10e8, some [0x02]), (0x10f3, some [0xc8]) ] :=
  ⟨by decide,
    (set_addr_sends_prefix_then_four_nibbles (command_set_v3 linux_psmouse_commands)
      scripted_transport [(false, []), (false, []), (false, []), (false, []), (false, [])]
      0xc2d9 (by decide)).2.1⟩

/-- C17. In each operation of the register engine (`alps_command_mode_set_addr`,
`alps_command_mode_read_reg`, `alps_command_mode_write_reg`, `alps_enter_command_mode`),
for every transport, if the call of `ps2_command` at position `k` of the calls the
operation makes (counted from 0) fails, then that call is the last one, so that exactly
`k + 1` calls are made and none is repeated, and the operation returns -1. -/
theorem register_ops_stop_at_first_failure {σ : Type} (K : psmouse_commands)
    (cs : alps_command_set) (T : Transport σ) (s : σ) (addr value : Nat)
    (resp : Option (List Nat)) :
    fail_stop (alps_command_mode_set_addr cs T s addr).calls
        (alps_command_mode_set_addr cs T s addr).ret ∧
      fail_stop (alps_command_mode_read_reg K cs T s addr).calls
        (alps_command_mode_read_reg K cs T s addr).ret ∧
      fail_stop (alps_command_mode_write_reg cs T s addr value).calls
        (alps_command_mode_write_reg cs T s addr value).ret ∧
      fail_stop (alps_enter_command_mode K T s resp).calls
        (alps_enter_command_mode K T s resp).ret :=
  ⟨set_addr_fail_stop cs T s addr, read_reg_fail_stop K cs T s addr,
    write_reg_fail_stop cs T s addr value, enter_command_mode_fail_stop K T s resp⟩

theorem register_ops_stop_at_first_failure_witness :
    (alps_command_mode_write_reg (command_set_v4 linux_psmouse_commands) scripted_transport
        [(false, []), (false, []), (true, []), (false, []), (false, [])] 0x0004 0x8a
      ).calls.length = 2 + 1 ∧
      (alps_command_mode_write_reg (command_set_v4 linux_psmouse_commands) scripted_transport
        [(false, []), (false, []), (true, []), (false, []), (false, [])] 0x0004 0x8a
      ).ret = -1 :=
  (register_ops_stop_at_first_failure linux_psmouse_commands
    (command_set_v4 linux_psmouse_commands) scripted_transport
    [(false, []), (false, []), (true, []), (false, []), (false, [])] 0x0004 0x8a none).2.2.1
    2 (by decide) (by decide)

lemma ps2_command_failed_mem {σ : Type} (T : Transport σ) (s : σ) (p : Option (List Nat))
    (c : Nat) (h : (ps2_command T s p c).ret ≠ 0) :
    ∃ c1 ∈ (ps2_command T s p c).calls, c1.failed = true :=
  ⟨_, List.mem_singleton_self _, (ps2_command_ret_ne_zero T s p c).1 h⟩

lemma ps2_command_calls_eq {σ : Type} (T : Transport σ) (s : σ) (p : Option (List Nat))
    (c : Nat) :
    (ps2_command T s p c).calls =
      [⟨c, p, (T s p c).failed, (ps2_command T s p c).param⟩] := rfl

/-- C18. When every call of the transport made by `alps_enter_command_mode` succeeds, the
function makes four calls, and with `q` the last one (the info query) it returns 0 if and
only if the first byte of the response is 0x88 or 0x73, or the second byte is 0x07 or
0x01; otherwise it returns -1. A response such as (0x88, 0x00), which is neither
(0x88, 0x07) nor (0x73, 0x01), is therefore accepted. -/
theorem enter_command_mode_accepts_half_signature {σ : Type} (K : psmouse_commands)
    (T : Transport σ) (s : σ) (resp : Option (List Nat))
    (hok : ∀ c ∈ (alps_enter_command_mode K T s resp).calls, c.failed = false) :
    ∃ c1 c2 c3 q, (alps_enter_command_mode K T s resp).calls = [c1, c2, c3, q] ∧
      ((alps_enter_command_mode K T s resp).ret = 0 ↔
        (byte_at q.reply 0 = 0x88 ∨ byte_at q.reply 1 = 0x07 ∨
          byte_at q.reply 0 = 0x73 ∨ byte_at q.reply 1 = 0x01)) ∧
      ((alps_enter_command_mode K T s resp).ret = 0 ∨
        (alps_enter_command_mode K T s resp).ret = -1) := by
  revert hok
  unfold alps_enter_command_mode
  dsimp only
  split_ifs with a b c d e
  · intro hok
    obtain ⟨x, hx, hf⟩ := ps2_command_failed_mem _ _ _ _ a
    rw [hok x hx] at hf
    exact absurd hf (by decide)
  · intro hok
    obtain ⟨x, hx, hf⟩ := ps2_command_failed_mem _ _ _ _ b
    rw [hok x (List.mem_append_right _ hx)] at hf
    exact absurd hf (by decide)
  · intro hok
    obtain ⟨x, hx, hf⟩ := ps2_command_failed_mem _ _ _ _ c
    rw [hok x (List.mem_append_right _ hx)] at hf
    exact absurd hf (by decide)
  · intro hok
    obtain ⟨x, hx, hf⟩ := ps2_command_failed_mem _ _ _ _ d
    rw [hok x (List.mem_append_right _ hx)] at hf
    exact absurd hf (by decide)
  · intro _
    refine ⟨_, _, _, _, rfl, ?_, Or.inr rfl⟩
    constructor
    · intro h
      exact absurd (show (-1 : Int) = 0 from h) (by decide)
    · intro h
      exfalso
      have e1 := e.1.1
      have e2 := e.1.2
      have e3 := e.2.1
      have e4 := e.2.2
      rcases h with h | h | h | h
      · exact e1 h
      · exact e2 h
      · exact e3 h
      · exact e4 h
  · intro _
    refine ⟨_, _, _, _, rfl, ?_, Or.inl rfl⟩
    constructor
    · intro _
      by_contra hn
      apply e
      simp only [not_or] at hn
      exact ⟨⟨hn.1, hn.2.1⟩, ⟨hn.2.2.1, hn.2.2.2⟩⟩
    · intro _
      rfl

theorem enter_command_mode_accepts_half_signature_witness :
    (∀ c ∈ (alps_enter_command_mode linux_psmouse_commands scripted_transport
        [(false, []), (false, []), (false, []), (false, [0x88, 0x00, 0x00])] none).calls,
        c.failed = false) ∧
      (alps_enter_command_mode linux_psmouse_commands scripted_transport
        [(false, []), (false, []), (false, []), (false, [0x88, 0x00, 0x00])] none).ret = 0 :=
  ⟨by decide,
    (enter_command_mode_accepts_half_signature linux_psmouse_commands scripted_transport
      [(false, []), (false, []), (false, []), (false, [0x88, 0x00, 0x00])] none
      (by decide)).elim fun _ h1 => h1.elim fun _ h2 => h2.elim fun _ h3 =>
        h3.elim fun _ h4 => by
          have hq := h4.1
          have hiff := h4.2.1
          simp only [alps_enter_command_mode, ps2_command, scripted_transport] at hq
          simp at hq
          obtain ⟨_, _, _, rfl⟩ := hq
          exact hiff.2 (Or.inl rfl)⟩

/-! ### Model identification -/

lemma newer_rows_distinct_resp :
    ∀ m1 ∈ alps_model_data, ∀ m2 ∈ alps_model_data,
      proto_newer_than_v2 m1.proto_version = true →
      proto_newer_than_v2 m2.proto_version = true →
      m1.command_mode_resp = m2.command_mode_resp → m1 = m2 := by
  decide

lemma command_mode_resp_search_iff (param : List Nat) (m : alps_model_info) :
    command_mode_resp_search param = some m ↔
      (m ∈ alps_model_data ∧ proto_newer_than_v2 m.proto_version = true ∧
        m.command_mode_resp = byte_at param 0) := by
  unfold command_mode_resp_search
  constructor
  · intro h
    have hm := List.mem_of_find?_eq_some h
    have hp := List.find?_some h
    simp only [Bool.and_eq_true, decide_eq_true_eq] at hp
    exact ⟨hm, hp.1, hp.2⟩
  · rintro ⟨hm, hn, hr⟩
    cases hfind : alps_model_data.find? (fun m =>
        proto_newer_than_v2 m.proto_version &&
          decide (m.command_mode_resp = byte_at param 0)) with
    | none =>
      have := List.find?_eq_none.1 hfind m hm
      simp [hn, hr] at this
    | some m1 =>
      have hm1 := List.mem_of_find?_eq_some hfind
      have hp1 := List.find?_some hfind
      simp only [Bool.and_eq_true, decide_eq_true_eq] at hp1
      rw [newer_rows_distinct_resp m1 hm1 m hm hp1.1 hn (by rw [hp1.2, hr])]

section identify
variable {σ : Type}

lemma get_model_of_rejected (K : psmouse_commands) (T : Transport σ) (s : σ)
    (h : e6_rejected (alps_get_e6_report K T s []).param) :
    (alps_get_model K T s).model = none ∧
      (alps_get_model K T s).calls = (alps_get_e6_report K T s []).calls := by
  unfold e6_rejected at h
  unfold alps_get_model
  simp only [if_pos h, and_self]

lemma get_model_of_accepted (K : psmouse_commands) (T : Transport σ) (s : σ)
    (h : ¬ e6_rejected (alps_get_e6_report K T s []).param) :
    (alps_get_e6_report K T s []).calls ++ (get_model_setres K T s).calls <+:
      (alps_get_model K T s).calls := by
  unfold e6_rejected at h
  unfold alps_get_model get_model_setres
  simp only [if_neg h]
  split
  · exact List.prefix_refl _
  · split
    · exact List.prefix_append _ _
    · split
      · split
        · exact (List.prefix_append _ _).trans (List.prefix_append _ _)
        · exact ((List.prefix_append _ _).trans (List.prefix_append _ _)).trans
            (List.prefix_append _ _)
      · exact List.prefix_append _ _

lemma get_model_of_newer (K : psmouse_commands) (T : Transport σ) (s : σ)
    (m0 : alps_model_info)
    (he6 : ¬ e6_rejected (alps_get_e6_report K T s []).param)
    (hres : (get_model_setres K T s).ret = 0)
    (hsig : signature_search (get_model_e7 K T s).param = some m0)
    (hnew : proto_newer_than_v2 m0.proto_version = true)
    (hen : (get_model_enter K T s).ret = 0) :
    (alps_get_model K T s).model =
      command_mode_resp_search (get_model_enter K T s).param := by
  unfold e6_rejected at he6
  unfold get_model_enter get_model_e7 get_model_setres at *
  unfold alps_get_model
  simp only [if_neg he6, hres, ne_eq, not_true_eq_false, if_false, hsig, hnew, if_true, hen]

end identify

section identify2
variable {σ : Type}

lemma e6_report_commands (K : psmouse_commands) (T : Transport σ) (s : σ)
    (param : List Nat) :
    (alps_get_e6_report K T s param).calls.map (fun c => c.command) <+:
      [K.SETRES, K.SETSCALE11, K.SETSCALE11, K.SETSCALE11, K.GETINFO] := by
  unfold alps_get_e6_report
  dsimp only
  split
  · exact ⟨[K.SETSCALE11, K.SETSCALE11, K.SETSCALE11, K.GETINFO], rfl⟩
  · split
    · exact ⟨[K.SETSCALE11, K.SETSCALE11, K.GETINFO], rfl⟩
    · split
      · exact ⟨[K.SETSCALE11, K.GETINFO], rfl⟩
      · split
        · exact ⟨[K.GETINFO], rfl⟩
        · exact ⟨[], rfl⟩

lemma enter_command_mode_resp (K : psmouse_commands) (T : Transport σ) (s : σ)
    (buf : List Nat) (h : (alps_enter_command_mode K T s (some buf)).ret = 0) :
    ∃ q, (alps_enter_command_mode K T s (some buf)).calls.getLast? = some q ∧
      q.command = K.GETINFO ∧ q.failed = false ∧
      byte_at (alps_enter_command_mode K T s (some buf)).param 0 = byte_at q.reply 2 := by
  revert h
  unfold alps_enter_command_mode
  dsimp only
  split
  · intro h; exact absurd (show (-1 : Int) = 0 from h) (by decide)
  · split
    · intro h; exact absurd (show (-1 : Int) = 0 from h) (by decide)
    · split
      · intro h; exact absurd (show (-1 : Int) = 0 from h) (by decide)
      · split
        · intro h; exact absurd (show (-1 : Int) = 0 from h) (by decide)
        · rename_i h4
          have hf := (ps2_command_ret_ne_zero T _ (some []) K.GETINFO).not.1 h4
          split
          · intro h; exact absurd (show (-1 : Int) = 0 from h) (by decide)
          · intro _
            rw [ps2_command_calls_eq T _ (some []) K.GETINFO]
            exact ⟨_, List.getLast?_concat _, rfl, by simpa using hf, rfl⟩

end identify2

/-- C19. In `alps_get_model`, when the E6 response is accepted, the `SETRES` command
succeeds, the E7 signature first-matches a row `m0` of a variant above V2 and
`alps_enter_command_mode` returns 0, leaving in `param[0]` the response byte `r` (the
third byte of the reply to its info query): the function returns a row `m` if and only
if `m` is a row of `alps_model_data` of a variant above V2 whose `command_mode_resp`
equals `r`, whatever the signature of that row; such a row is unique. When no such row
exists the function returns no model. -/
theorem get_model_resolves_by_command_mode_response {σ : Type} (K : psmouse_commands)
    (T : Transport σ) (s : σ) (m0 : alps_model_info)
    (he6 : ¬ e6_rejected (alps_get_e6_report K T s []).param)
    (hres : (get_model_setres K T s).ret = 0)
    (hsig : signature_search (get_model_e7 K T s).param = some m0)
    (hnew : proto_newer_than_v2 m0.proto_version = true)
    (hen : (get_model_enter K T s).ret = 0) :
    (∃ q, (get_model_enter K T s).calls.getLast? = some q ∧ q.command = K.GETINFO ∧
        q.failed = false ∧
        byte_at (get_model_enter K T s).param 0 = byte_at q.reply 2) ∧
      (∀ m, (alps_get_model K T s).model = some m ↔
        (m ∈ alps_model_data ∧ proto_newer_than_v2 m.proto_version = true ∧
          m.command_mode_resp = byte_at (get_model_enter K T s).param 0)) ∧
      ((∀ m ∈ alps_model_data, proto_newer_than_v2 m.proto_version = true →
          m.command_mode_resp ≠ byte_at (get_model_enter K T s).param 0) →
        (alps_get_model K T s).model = none) := by
  have hmodel := get_model_of_newer K T s m0 he6 hres hsig hnew hen
  refine ⟨enter_command_mode_resp K T _ _ hen, ?_, ?_⟩
  · intro m
    rw [hmodel]
    exact command_mode_resp_search_iff _ m
  · intro hnone
    rw [hmodel]
    cases hs : command_mode_resp_search (get_model_enter K T s).param with
    | none => rfl
    | some m =>
      obtain ⟨h1, h2, h3⟩ := (command_mode_resp_search_iff _ m).1 hs
      exact absurd h3 (hnone m h1 h2)

theorem get_model_resolves_by_command_mode_response_witness :
    (¬ e6_rejected (alps_get_e6_report linux_psmouse_commands scripted_transport
        [ (false, [0]), (false, []), (false, []), (false, []), (false, [0, 0, 10]),
          (false, [0, 0, 10]),
          (false, []), (false, []), (false, []), (false, [0x73, 0x02, 0x64]),
          (false, []), (false, []), (false, []), (false, [0x88, 0x07, 0x8a]),
          (false, []) ] []).param) ∧
      (alps_get_model linux_psmouse_commands scripted_transport
        [ (false, [0]), (false, []), (false, []), (false, []), (false, [0, 0, 10]),
          (false, [0, 0, 10]),
          (false, []), (false, []), (false, []), (false, [0x73, 0x02, 0x64]),
          (false, []), (false, []), (false, []), (false, [0x88, 0x07, 0x8a]),
          (false, []) ]).model =
        some ⟨(0x73, 0x02, 0x64), 0x8a, ALPS_PROTO_V4, 0x8f, 0x8f, 0⟩ :=
  ⟨by decide,
    ((get_model_resolves_by_command_mode_response linux_psmouse_commands scripted_transport
      [ (false, [0]), (false, []), (false, []), (false, []), (false, [0, 0, 10]),
        (false, [0, 0, 10]),
        (false, []), (false, []), (false, []), (false, [0x73, 0x02, 0x64]),
        (false, []), (false, []), (false, []), (false, [0x88, 0x07, 0x8a]),
        (false, []) ]
      ⟨(0x73, 0x02, 0x64), 0x9b, ALPS_PROTO_V3, 0x8f, 0x8f, ALPS_DUALPOINT⟩
      (by decide) (by decide) (by decide) (by decide) (by decide)).2.1
      ⟨(0x73, 0x02, 0x64), 0x8a, ALPS_PROTO_V4, 0x8f, 0x8f, 0⟩).2
      ⟨by decide, by decide, by decide⟩⟩

/-- C20. `alps_get_model` returns no model right after the E6 report, having issued
nothing but the commands of the E6 sequence, whenever the buffer that the E6 report
leaves has one of bits 3-7 of byte 0 set (`param[0] & 0xf8`), or byte 1 not zero, or
byte 2 neither 10 nor 100. Bits 0-2 of byte 0 are not tested: for every other response
the function goes on with the `SETRES` command that precedes the E7 sequence. -/
theorem get_model_aborts_on_rejected_e6_response {σ : Type} (K : psmouse_commands)
    (T : Transport σ) (s : σ) :
    ((byte_at (alps_get_e6_report K T s []).param 0 &&& 0xf8 ≠ 0 ∨
          byte_at (alps_get_e6_report K T s []).param 1 ≠ 0 ∨
          (byte_at (alps_get_e6_report K T s []).param 2 ≠ 10 ∧
            byte_at (alps_get_e6_report K T s []).param 2 ≠ 100)) →
        (alps_get_model K T s).model = none ∧
        (alps_get_model K T s).calls = (alps_get_e6_report K T s []).calls ∧
        (alps_get_model K T s).calls.map (fun c => c.command) <+:
          [K.SETRES, K.SETSCALE11, K.SETSCALE11, K.SETSCALE11, K.GETINFO]) ∧
      (¬ (byte_at (alps_get_e6_report K T s []).param 0 &&& 0xf8 ≠ 0 ∨
          byte_at (alps_get_e6_report K T s []).param 1 ≠ 0 ∨
          (byte_at (alps_get_e6_report K T s []).param 2 ≠ 10 ∧
            byte_at (alps_get_e6_report K T s []).param 2 ≠ 100)) →
        ∃ c rest, (alps_get_model K T s).calls =
            (alps_get_e6_report K T s []).calls ++ c :: rest ∧
          c.command = K.SETRES ∧
          c.param = some (0 :: (alps_get_e6_report K T s []).param.tail)) := by
  constructor
  · intro h
    obtain ⟨h1, h2⟩ := get_model_of_rejected K T s h
    refine ⟨h1, h2, ?_⟩
    rw [h2]
    exact e6_report_commands K T s []
  · intro h
    obtain ⟨t, ht⟩ := get_model_of_accepted K T s h
    have hc : (get_model_setres K T s).calls =
        [⟨K.SETRES, some (0 :: (alps_get_e6_report K T s []).param.tail),
          (T (alps_get_e6_report K T s []).state
            (some (0 :: (alps_get_e6_report K T s []).param.tail)) K.SETRES).failed,
          (get_model_setres K T s).param⟩] := rfl
    rw [hc, List.append_assoc] at ht
    exact ⟨_, t, ht.symm, rfl, rfl⟩

theorem get_model_aborts_on_rejected_e6_response_witness :
    (alps_get_model linux_psmouse_commands scripted_transport
        [ (false, [0]), (false, []), (false, []), (false, []), (false, [0x08, 0, 10]),
          (false, [0, 0, 10]),
          (false, []), (false, []), (false, []), (false, [0x73, 0x02, 0x0a]) ]).model = none :=
  ((get_model_aborts_on_rejected_e6_response linux_psmouse_commands scripted_transport
      [ (false, [0]), (false, []), (false, []), (false, []), (false, [0x08, 0, 10]),
        (false, [0, 0, 10]),
        (false, []), (false, []), (false, []), (false, [0x73, 0x02, 0x0a]) ]).1
    (by decide)).1

/-- Counterexample to C20 as stated: the E6 response (0x01, 0x00, 0x0a) has the low
nibble of byte 0 not clear, yet `alps_get_model` does not abort: it issues the E7
sequence and returns the row with signature 73 02 0a. -/
theorem get_model_continues_with_button_bits_set :
    byte_at [0x01, 0, 10] 0 &&& 0x0f ≠ 0 ∧
      (alps_get_e6_report linux_psmouse_commands scripted_transport
        [ (false, [0]), (false, []), (false, []), (false, []), (false, [0x01, 0, 10]),
          (false, [0, 0, 10]),
          (false, []), (false, []), (false, []), (false, [0x73, 0x02, 0x0a]) ] []).param =
        [0x01, 0, 10] ∧
      (alps_get_model linux_psmouse_commands scripted_transport
        [ (false, [0]), (false, []), (false, []), (false, []), (false, [0x01, 0, 10]),
          (false, [0, 0, 10]),
          (false, []), (false, []), (false, []), (false, [0x73, 0x02, 0x0a]) ]).model =
        some ⟨(0x73, 0x02, 0x0a), 0x00, ALPS_PROTO_V2, 0xf8, 0xf8, 0⟩ ∧
      (alps_get_model linux_psmouse_commands scripted_transport
        [ (false, [0]), (false, []), (false, []), (false, []), (false, [0x01, 0, 10]),
          (false, [0, 0, 10]),
          (false, []), (false, []), (false, []), (false, [0x73, 0x02, 0x0a]) ]).calls.map
          (fun c => c.command) =
        [0x10e8, 0x00e6, 0x00e6, 0x00e6, 0x03e9, 0x10e8, 0x00e7, 0x00e7, 0x00e7, 0x03e9] := by
  decide

/-! ### Projections of an event list -/

lemma dev2_key_reports_nil : dev2_key_reports [] = [] := rfl

lemma dev2_key_reports_append (a b : List InputEvent) :
    dev2_key_reports (a ++ b) = dev2_key_reports a ++ dev2_key_reports b := by
  simp [dev2_key_reports]

lemma dev2_key_reports_key1 (k : Key) (v : Nat) (l : List InputEvent) :
    dev2_key_reports (input_report_key Dev.dev1 k v :: l) = dev2_key_reports l := rfl

lemma dev2_key_reports_key2 (k : Key) (v : Nat) (l : List InputEvent) :
    dev2_key_reports (input_report_key Dev.dev2 k v :: l) =
      input_report_key Dev.dev2 k v :: dev2_key_reports l := rfl

lemma dev2_key_reports_abs (d : Dev) (c : AbsAxis) (v : Int) (l : List InputEvent) :
    dev2_key_reports (InputEvent.abs d c v :: l) = dev2_key_reports l := rfl

lemma dev2_key_reports_rel (d : Dev) (c : RelAxis) (v : Int) (l : List InputEvent) :
    dev2_key_reports (InputEvent.rel d c v :: l) = dev2_key_reports l := rfl

lemma dev2_key_reports_sync (d : Dev) (l : List InputEvent) :
    dev2_key_reports (InputEvent.sync d :: l) = dev2_key_reports l := rfl

lemma dev2_key_reports_finger_count (d : Dev) (v : Int) (l : List InputEvent) :
    dev2_key_reports (InputEvent.mt_finger_count d v :: l) = dev2_key_reports l := rfl

lemma dev2_key_reports_set_slot (d : Dev) (slot : Int) (active : Bool) (x y : Int) :
    dev2_key_reports (alps_set_slot d slot active x y) = [] := by
  cases active <;> rfl

lemma dev2_key_reports_semi_mt (d : Dev) (n x1 y1 x2 y2 : Int) :
    dev2_key_reports (alps_report_semi_mt_data d n x1 y1 x2 y2) = [] := by
  unfold alps_report_semi_mt_data
  rw [dev2_key_reports_append, dev2_key_reports_set_slot, dev2_key_reports_set_slot]
  rfl

lemma abs_pressure_reports_nil : abs_pressure_reports [] = [] := rfl

lemma abs_pressure_reports_append (a b : List InputEvent) :
    abs_pressure_reports (a ++ b) = abs_pressure_reports a ++ abs_pressure_reports b := by
  simp [abs_pressure_reports]

lemma abs_pressure_reports_key (d : Dev) (k : Key) (v : Nat) (l : List InputEvent) :
    abs_pressure_reports (input_report_key d k v :: l) = abs_pressure_reports l := rfl

lemma abs_pressure_reports_pressure (d : Dev) (v : Int) (l : List InputEvent) :
    abs_pressure_reports (InputEvent.abs d AbsAxis.ABS_PRESSURE v :: l) =
      v :: abs_pressure_reports l := rfl

lemma abs_pressure_reports_x (d : Dev) (v : Int) (l : List InputEvent) :
    abs_pressure_reports (InputEvent.abs d AbsAxis.ABS_X v :: l) = abs_pressure_reports l := rfl

lemma abs_pressure_reports_y (d : Dev) (v : Int) (l : List InputEvent) :
    abs_pressure_reports (InputEvent.abs d AbsAxis.ABS_Y v :: l) = abs_pressure_reports l := rfl

lemma abs_pressure_reports_rel (d : Dev) (c : RelAxis) (v : Int) (l : List InputEvent) :
    abs_pressure_reports (InputEvent.rel d c v :: l) = abs_pressure_reports l := rfl

lemma abs_pressure_reports_sync (d : Dev) (l : List InputEvent) :
    abs_pressure_reports (InputEvent.sync d :: l) = abs_pressure_reports l := rfl

lemma abs_pressure_reports_finger_count (d : Dev) (v : Int) (l : List InputEvent) :
    abs_pressure_reports (InputEvent.mt_finger_count d v :: l) = abs_pressure_reports l := rfl

lemma abs_pressure_reports_set_slot (d : Dev) (slot : Int) (active : Bool) (x y : Int) :
    abs_pressure_reports (alps_set_slot d slot active x y) = [] := by
  cases active <;> rfl

lemma abs_pressure_reports_semi_mt (d : Dev) (n x1 y1 x2 y2 : Int) :
    abs_pressure_reports (alps_report_semi_mt_data d n x1 y1 x2 y2) = [] := by
  unfold alps_report_semi_mt_data
  rw [abs_pressure_reports_append, abs_pressure_reports_set_slot,
    abs_pressure_reports_set_slot]
  rfl

lemma abs_pressure_reports_buttons (key_state : Dev → Key → Bool) (d1 d2 : Dev)
    (left right middle : Nat) :
    abs_pressure_reports (alps_report_buttons key_state d1 d2 left right middle) = [] := rfl

lemma finger_count_reports_nil : finger_count_reports [] = [] := rfl

lemma finger_count_reports_append (a b : List InputEvent) :
    finger_count_reports (a ++ b) = finger_count_reports a ++ finger_count_reports b := by
  simp [finger_count_reports]

lemma finger_count_reports_key (d : Dev) (k : Key) (v : Nat) (l : List InputEvent) :
    finger_count_reports (input_report_key d k v :: l) = finger_count_reports l := rfl

lemma finger_count_reports_abs (d : Dev) (c : AbsAxis) (v : Int) (l : List InputEvent) :
    finger_count_reports (InputEvent.abs d c v :: l) = finger_count_reports l := rfl

lemma finger_count_reports_sync (d : Dev) (l : List InputEvent) :
    finger_count_reports (InputEvent.sync d :: l) = finger_count_reports l := rfl

lemma finger_count_reports_count (d : Dev) (v : Int) (l : List InputEvent) :
    finger_count_reports (InputEvent.mt_finger_count d v :: l) =
      v :: finger_count_reports l := rfl

lemma finger_count_reports_set_slot (d : Dev) (slot : Int) (active : Bool) (x y : Int) :
    finger_count_reports (alps_set_slot d slot active x y) = [] := by
  cases active <;> rfl

lemma finger_count_reports_semi_mt (d : Dev) (n x1 y1 x2 y2 : Int) :
    finger_count_reports (alps_report_semi_mt_data d n x1 y1 x2 y2) = [] := by
  unfold alps_report_semi_mt_data
  rw [finger_count_reports_append, finger_count_reports_set_slot,
    finger_count_reports_set_slot]
  rfl

/-! ### Flush timer, register check-and-set, purity of the bitmap resolver -/

/-- C24. `alps_flush_packet`: when `pktcnt` equals `pktsize` the buffer is emptied
(`pktcnt = 0`), and `alps_process_packet` is called, once and on the buffered packet, if
and only if `packet[3]`, `packet[4]` and `packet[5]` all have the high bit clear; when
one of them has it set no call is made and the packet is dropped. When `pktcnt` differs
from `pktsize` nothing is decoded and the buffer and the count are unchanged. -/
theorem flush_packet_decodes_iff_high_bits_clear (ps : psmouse) :
    (ps.pktcnt = ps.pktsize →
        (alps_flush_packet ps).1 = { ps with pktcnt := 0 } ∧
        ((alps_flush_packet ps).2 = [FramingCall.process_packet ps.packet] ↔
          (byte_at ps.packet 3 &&& 0x80 = 0 ∧ byte_at ps.packet 4 &&& 0x80 = 0 ∧
            byte_at ps.packet 5 &&& 0x80 = 0)) ∧
        (¬ (byte_at ps.packet 3 &&& 0x80 = 0 ∧ byte_at ps.packet 4 &&& 0x80 = 0 ∧
            byte_at ps.packet 5 &&& 0x80 = 0) → (alps_flush_packet ps).2 = [])) ∧
      (ps.pktcnt ≠ ps.pktsize → alps_flush_packet ps = (ps, [])) := by
  constructor
  · intro h
    unfold alps_flush_packet
    rw [if_pos h]
    by_cases hb : (byte_at ps.packet 3 ||| byte_at ps.packet 4 ||| byte_at ps.packet 5) &&&
        0x80 ≠ 0
    · rw [if_pos hb]
      have hn : ¬ (byte_at ps.packet 3 &&& 0x80 = 0 ∧ byte_at ps.packet 4 &&& 0x80 = 0 ∧
          byte_at ps.packet 5 &&& 0x80 = 0) := fun hc => hb ((high_bit_or3 _ _ _).2 hc)
      refine ⟨rfl, ⟨fun hc => ?_, fun hc => absurd hc hn⟩, fun _ => rfl⟩
      simp at hc
    · rw [if_neg hb]
      have hc := (high_bit_or3 _ _ _).1 (not_not.mp hb)
      exact ⟨rfl, ⟨fun _ => hc, fun _ => rfl⟩, fun hn => absurd hc hn⟩
  · intro h
    unfold alps_flush_packet
    rw [if_neg h]

theorem flush_packet_decodes_iff_high_bits_clear_witness :
    (alps_flush_packet ⟨[0xcf, 1, 2, 3, 4, 5, 0, 0], 6, 6⟩).2 =
        [FramingCall.process_packet [0xcf, 1, 2, 3, 4, 5, 0, 0]] ∧
      (alps_flush_packet ⟨[0xcf, 1, 2, 3, 0x84, 5, 0, 0], 6, 6⟩).2 = [] :=
  ⟨((flush_packet_decodes_iff_high_bits_clear ⟨[0xcf, 1, 2, 3, 4, 5, 0, 0], 6, 6⟩).1
      (by decide)).2.1.2 (by decide),
    ((flush_packet_decodes_iff_high_bits_clear ⟨[0xcf, 1, 2, 3, 0x84, 5, 0, 0], 6, 6⟩).1
      (by decide)).2.2 (by decide)⟩

/-- C25 (what the code does). `alps_command_mode_checkset_reg(addr, value)` returns 0 if
and only if the register read returns a value (not -1) and the write of `value` that
follows returns 0; otherwise it returns -1. So on success it returns 0 whatever the
register held, where its comment (lines 1125-1126) promises the previous register value.
When the read succeeds the calls of the transport are those of the read followed by those
of the write. -/
theorem checkset_reg_returns_zero_on_success {σ : Type} (K : psmouse_commands)
    (cs : alps_command_set) (T : Transport σ) (s : σ) (addr value : Nat) :
    ((alps_command_mode_checkset_reg K cs T s addr value).ret = 0 ↔
        (0 ≤ (alps_command_mode_read_reg K cs T s addr).ret ∧
          (__alps_command_mode_write_reg cs T
            (alps_command_mode_read_reg K cs T s addr).state value).ret = 0)) ∧
      (¬ (0 ≤ (alps_command_mode_read_reg K cs T s addr).ret ∧
          (__alps_command_mode_write_reg cs T
            (alps_command_mode_read_reg K cs T s addr).state value).ret = 0) →
        (alps_command_mode_checkset_reg K cs T s addr value).ret = -1) ∧
      (0 ≤ (alps_command_mode_read_reg K cs T s addr).ret →
        (alps_command_mode_checkset_reg K cs T s addr value).calls =
          (alps_command_mode_read_reg K cs T s addr).calls ++
            (__alps_command_mode_write_reg cs T
              (alps_command_mode_read_reg K cs T s addr).state value).calls) := by
  unfold alps_command_mode_checkset_reg
  dsimp only
  by_cases h1 : (alps_command_mode_read_reg K cs T s addr).ret < 0
  · rw [if_pos h1]
    refine ⟨⟨fun h => absurd (show (-1 : Int) = 0 from h) (by decide), fun h => ?_⟩,
      fun _ => rfl, fun h => ?_⟩
    · omega
    · omega
  · rw [if_neg h1]
    by_cases h2 : (__alps_command_mode_write_reg cs T
        (alps_command_mode_read_reg K cs T s addr).state value).ret ≠ 0
    · rw [if_pos h2]
      exact ⟨⟨fun h => absurd (show (-1 : Int) = 0 from h) (by decide),
        fun h => absurd h.2 h2⟩, fun _ => rfl, fun _ => rfl⟩
    · rw [if_neg h2]
      exact ⟨⟨fun _ => ⟨by omega, not_not.mp h2⟩, fun _ => rfl⟩,
        fun h => absurd ⟨by omega, not_not.mp h2⟩ h, fun _ => rfl⟩

/-- C25 at the failing input: the register 0xc2c8 holds 0x81, the eight commands of the
read and of the write all succeed, and `alps_command_mode_checkset_reg` returns 0, not
the previous contents 0x81. -/
theorem checkset_reg_returns_zero_on_success_witness :
    (∀ c ∈ (alps_command_mode_checkset_reg linux_psmouse_commands
        (command_set_v3 linux_psmouse_commands) scripted_transport
        [ (false, []), (false, []), (false, []), (false, []), (false, []),
          (false, [0xc2, 0xc8, 0x81]), (false, []), (false, []) ] 0xc2c8 0x82).calls,
        c.failed = false) ∧
      (alps_command_mode_checkset_reg linux_psmouse_commands
        (command_set_v3 linux_psmouse_commands) scripted_transport
        [ (false, []), (false, []), (false, []), (false, []), (false, []),
          (false, [0xc2, 0xc8, 0x81]), (false, []), (false, []) ] 0xc2c8 0x82).calls.length
        = 8 ∧
      (alps_command_mode_read_reg linux_psmouse_commands
        (command_set_v3 linux_psmouse_commands) scripted_transport
        [ (false, []), (false, []), (false, []), (false, []), (false, []),
          (false, [0xc2, 0xc8, 0x81]), (false, []), (false, []) ] 0xc2c8).ret = 0x81 ∧
      (alps_command_mode_checkset_reg linux_psmouse_commands
        (command_set_v3 linux_psmouse_commands) scripted_transport
        [ (false, []), (false, []), (false, []), (false, []), (false, []),
          (false, [0xc2, 0xc8, 0x81]), (false, []), (false, []) ] 0xc2c8 0x82).ret = 0 :=
  ⟨by decide, by decide, by decide,
    (checkset_reg_returns_zero_on_success linux_psmouse_commands
      (command_set_v3 linux_psmouse_commands) scripted_transport
      [ (false, []), (false, []), (false, []), (false, []), (false, []),
        (false, [0xc2, 0xc8, 0x81]), (false, []), (false, []) ] 0xc2c8 0x82).1.2
      ⟨by decide, by decide⟩⟩

/-- C26 (amended). `alps_process_bitmap` is a function of the axis geometry, of the two
bit-fields and, when a bit-field is zero, of what its four outputs `*x1`, `*y1`, `*x2`,
`*y2` held before the call; the session state is not among its inputs. Two calls with
identical bit-fields return the same contact count. They leave the same coordinates
whenever both bit-fields are non-zero, that is whenever the count is not 0. When a
bit-field is zero the function returns 0 before it writes the outputs, which keep what
the caller had put there. -/
theorem process_bitmap_pure (g : Geometry) (x_map y_map : Nat) (out1 out2 : BitmapCoords) :
    (alps_process_bitmap g x_map y_map out1).1 = (alps_process_bitmap g x_map y_map out2).1 ∧
      ((x_map ≠ 0 ∧ y_map ≠ 0) →
        alps_process_bitmap g x_map y_map out1 = alps_process_bitmap g x_map y_map out2) ∧
      ((alps_process_bitmap g x_map y_map out1).1 ≠ 0 →
        alps_process_bitmap g x_map y_map out1 = alps_process_bitmap g x_map y_map out2) ∧
      ((x_map = 0 ∨ y_map = 0) → alps_process_bitmap g x_map y_map out1 = (0, out1)) := by
  unfold alps_process_bitmap
  by_cases h : x_map = 0 ∨ y_map = 0
  · rw [if_pos h, if_pos h]
    refine ⟨rfl, fun hn => ?_, fun hn => absurd rfl hn, fun _ => rfl⟩
    rcases h with h | h
    · exact absurd h hn.1
    · exact absurd h hn.2
  · rw [if_neg h, if_neg h]
    exact ⟨rfl, fun _ => rfl, fun _ => rfl, fun hz => absurd hz h⟩

theorem process_bitmap_pure_witness :
    alps_process_bitmap geometry_v3_v4_v5 0x0c 0x30 ⟨1, 2, 3, 4⟩ =
        alps_process_bitmap geometry_v3_v4_v5 0x0c 0x30 ⟨5, 6, 7, 8⟩ ∧
      alps_process_bitmap geometry_v3_v4_v5 0x0c 0x30 ⟨1, 2, 3, 4⟩ =
        (1, { x1 := 357, y1 := 770, x2 := 0, y2 := 0 }) :=
  ⟨(process_bitmap_pure geometry_v3_v4_v5 0x0c 0x30 ⟨1, 2, 3, 4⟩ ⟨5, 6, 7, 8⟩).2.1
    ⟨by decide, by decide⟩, by decide⟩

/-- Counterexample to C26 as stated: two calls with the identical bit-fields
`x_map = 0`, `y_map = 0x30` and the same geometry return the count 0 and leave different
coordinates, (1, 2, 3, 4) and (5, 6, 7, 8), those the outputs held before each call. -/
theorem process_bitmap_empty_map_keeps_outputs :
    alps_process_bitmap geometry_v3_v4_v5 0 0x30 ⟨1, 2, 3, 4⟩ = (0, ⟨1, 2, 3, 4⟩) ∧
      alps_process_bitmap geometry_v3_v4_v5 0 0x30 ⟨5, 6, 7, 8⟩ = (0, ⟨5, 6, 7, 8⟩) ∧
      (alps_process_bitmap geometry_v3_v4_v5 0 0x30 ⟨1, 2, 3, 4⟩).2 ≠
        (alps_process_bitmap geometry_v3_v4_v5 0 0x30 ⟨5, 6, 7, 8⟩).2 := by
  decide

/-! ### The V3/V5 decoders -/

lemma and_two_pow_eq (x k : Nat) : x &&& 2 ^ k = if x.testBit k then 2 ^ k else 0 := by
  apply Nat.eq_of_testBit_eq
  intro i
  by_cases h : x.testBit k
  · rw [if_pos h, Nat.testBit_and, Nat.testBit_two_pow]
    by_cases hi : k = i
    · subst hi; simp [h]
    · simp [hi]
  · rw [if_neg h, Nat.testBit_and, Nat.testBit_two_pow]
    by_cases hi : k = i
    · subst hi; simp [h]
    · simp [hi]

lemma or_and_self_right (a q : Nat) : (a ||| q) &&& q = q := by
  apply Nat.eq_of_testBit_eq
  intro i
  rw [Nat.testBit_and, Nat.testBit_or]
  cases a.testBit i <;> cases q.testBit i <;> rfl

lemma tdiv8_bounds (a : Int) (h1 : -128 ≤ a) (h2 : a ≤ 127) :
    -16 ≤ a.tdiv 8 ∧ a.tdiv 8 ≤ 15 := by
  by_cases h : 0 ≤ a
  · rw [Int.tdiv_eq_ediv h (by decide)]
    omega
  · have : a.tdiv 8 = -((-a) / 8) := by
      rw [← Int.tdiv_eq_ediv (by omega) (by decide), Int.neg_tdiv, neg_neg]
    rw [this]
    omega

lemma trackstick_s8_x (b0 b1 : Nat) :
    s8 (((b0 &&& 0x20) <<< 2) ||| (b1 &&& 0x7f)) =
      if (if b0.testBit 5 then 128 else 0) + b1 % 128 ≥ 128 then
        (((if b0.testBit 5 then 128 else 0) + b1 % 128 : Nat) : Int) - 256
      else (((if b0.testBit 5 then 128 else 0) + b1 % 128 : Nat) : Int) := by
  have h1 : b1 &&& 0x7f = b1 % 128 := Nat.and_pow_two_sub_one_eq_mod b1 7
  have h0 : b0 &&& 0x20 = if b0.testBit 5 then 32 else 0 := and_two_pow_eq b0 5
  have hlt : b1 % 128 < 2 ^ 7 := Nat.mod_lt _ (by decide)
  have hor : ((b0 &&& 0x20) <<< 2) ||| (b1 &&& 0x7f) =
      (if b0.testBit 5 then 128 else 0) + b1 % 128 := by
    rw [h0, h1]
    by_cases hb : b0.testBit 5
    · simp only [hb, if_true]
      have := Nat.mul_add_lt_is_or hlt 1
      simp only [Nat.reducePow, Nat.mul_one] at this
      rw [show (32 : Nat) <<< 2 = 128 from rfl, ← this]
    · simp only [hb, Bool.false_eq_true, if_false]
      simp
  rw [hor]
  unfold s8
  have hm : ((if b0.testBit 5 then 128 else 0) + b1 % 128) % 256 =
      (if b0.testBit 5 then 128 else 0) + b1 % 128 := by
    apply Nat.mod_eq_of_lt
    split_ifs <;> omega
  rw [hm]

lemma trackstick_s8_y (b0 b2 : Nat) :
    s8 (((b0 &&& 0x10) <<< 3) ||| (b2 &&& 0x7f)) =
      if (if b0.testBit 4 then 128 else 0) + b2 % 128 ≥ 128 then
        (((if b0.testBit 4 then 128 else 0) + b2 % 128 : Nat) : Int) - 256
      else (((if b0.testBit 4 then 128 else 0) + b2 % 128 : Nat) : Int) := by
  have h1 : b2 &&& 0x7f = b2 % 128 := Nat.and_pow_two_sub_one_eq_mod b2 7
  have h0 : b0 &&& 0x10 = if b0.testBit 4 then 16 else 0 := and_two_pow_eq b0 4
  have hlt : b2 % 128 < 2 ^ 7 := Nat.mod_lt _ (by decide)
  have hor : ((b0 &&& 0x10) <<< 3) ||| (b2 &&& 0x7f) =
      (if b0.testBit 4 then 128 else 0) + b2 % 128 := by
    rw [h0, h1]
    by_cases hb : b0.testBit 4
    · simp only [hb, if_true]
      have := Nat.mul_add_lt_is_or hlt 1
      simp only [Nat.reducePow, Nat.mul_one] at this
      rw [show (16 : Nat) <<< 3 = 128 from rfl, ← this]
    · simp only [hb, Bool.false_eq_true, if_false]
      simp
  rw [hor]
  unfold s8
  have hm : ((if b0.testBit 4 then 128 else 0) + b2 % 128) % 256 =
      (if b0.testBit 4 then 128 else 0) + b2 % 128 := by
    apply Nat.mod_eq_of_lt
    split_ifs <;> omega
  rw [hm]

lemma s8_bounds (v : Nat) : -128 ≤ s8 v ∧ s8 v ≤ 127 := by
  unfold s8
  split_ifs <;> omega

/-- The events of an accepted trackstick packet. -/
lemma trackstick_events (Q : Nat) (priv : alps_data) (packet : List Nat)
    (hacc : trackstick_accepted packet) :
    (alps_process_trackstick_packet_v3_v5 Q priv packet).events =
      [ InputEvent.rel Dev.dev2 RelAxis.REL_X
          ((s8 (((byte_at packet 0 &&& 0x20) <<< 2) ||| (byte_at packet 1 &&& 0x7f))).tdiv 8),
        InputEvent.rel Dev.dev2 RelAxis.REL_Y
          (-((s8 (((byte_at packet 0 &&& 0x10) <<< 3) ||| (byte_at packet 2 &&& 0x7f))).tdiv 8)) ]
      ++ (if (alps_process_trackstick_packet_v3_v5 Q priv packet).priv.quirks &&& Q ≠ 0 then
            [ input_report_key Dev.dev2 Key.BTN_LEFT (byte_at packet 3 &&& 0x01),
              input_report_key Dev.dev2 Key.BTN_RIGHT (byte_at packet 3 &&& 0x02),
              input_report_key Dev.dev2 Key.BTN_MIDDLE (byte_at packet 3 &&& 0x04) ]
          else [])
      ++ [InputEvent.sync Dev.dev2] := by
  unfold alps_process_trackstick_packet_v3_v5
  simp only [if_neg hacc.1, if_neg hacc.2]

/-- The quirks after an accepted trackstick packet. -/
lemma trackstick_quirks (Q : Nat) (priv : alps_data) (packet : List Nat)
    (hacc : trackstick_accepted packet) :
    (alps_process_trackstick_packet_v3_v5 Q priv packet).priv.quirks =
      if priv.quirks &&& Q = 0 ∧ (byte_at packet 3 &&& 0x01 ≠ 0 ∨ byte_at packet 3 &&& 0x02 ≠ 0
          ∨ byte_at packet 3 &&& 0x04 ≠ 0) then priv.quirks ||| Q
      else priv.quirks := by
  unfold alps_process_trackstick_packet_v3_v5
  simp only [if_neg hacc.1, if_neg hacc.2]

/-- C30. For every accepted V3/V5 trackstick packet (`packet[5] == 0x3f`, bit 0x40 of
byte 0 set, not the end-of-stream packet) the first two events of the decoder are
`REL_X = sx / 8` and `REL_Y = -(sy / 8)` on the secondary device, and no other relative
motion is reported; `sx` is the signed 8-bit value with bit 7 equal to bit 5 of byte 0
and low seven bits `packet[1] & 0x7f`, `sy` the one with bit 7 equal to bit 4 of byte 0
and low seven bits `packet[2] & 0x7f`, and the division truncates toward zero. So
`REL_X` lies in -16 .. 15 and `REL_Y` in -15 .. 16. -/
theorem trackstick_relative_motion (g : Geometry) (Q : Nat) (priv : alps_data)
    (packet : List Nat) (h5 : byte_at packet 5 = 0x3f) (hacc : trackstick_accepted packet) :
    ∃ (sx sy : Int) (rest : List InputEvent),
      sx = (if (if (byte_at packet 0).testBit 5 then 128 else 0) + byte_at packet 1 % 128 ≥ 128
          then (((if (byte_at packet 0).testBit 5 then 128 else 0) + byte_at packet 1 % 128
            : Nat) : Int) - 256
          else (((if (byte_at packet 0).testBit 5 then 128 else 0) + byte_at packet 1 % 128
            : Nat) : Int)) ∧
      sy = (if (if (byte_at packet 0).testBit 4 then 128 else 0) + byte_at packet 2 % 128 ≥ 128
          then (((if (byte_at packet 0).testBit 4 then 128 else 0) + byte_at packet 2 % 128
            : Nat) : Int) - 256
          else (((if (byte_at packet 0).testBit 4 then 128 else 0) + byte_at packet 2 % 128
            : Nat) : Int)) ∧
      (alps_process_packet_v3_v5 g Q priv packet).events =
        InputEvent.rel Dev.dev2 RelAxis.REL_X (sx.tdiv 8) ::
          InputEvent.rel Dev.dev2 RelAxis.REL_Y (-(sy.tdiv 8)) :: rest ∧
      (∀ e ∈ rest, ∀ d a v, e ≠ InputEvent.rel d a v) ∧
      -16 ≤ sx.tdiv 8 ∧ sx.tdiv 8 ≤ 15 ∧ -15 ≤ -(sy.tdiv 8) ∧ -(sy.tdiv 8) ≤ 16 := by
  refine ⟨_, _,
    (if (alps_process_trackstick_packet_v3_v5 Q priv packet).priv.quirks &&& Q ≠ 0 then
        [ input_report_key Dev.dev2 Key.BTN_LEFT (byte_at packet 3 &&& 0x01),
          input_report_key Dev.dev2 Key.BTN_RIGHT (byte_at packet 3 &&& 0x02),
          input_report_key Dev.dev2 Key.BTN_MIDDLE (byte_at packet 3 &&& 0x04) ]
      else []) ++ [InputEvent.sync Dev.dev2], rfl, rfl, ?_, ?_, ?_⟩
  · unfold alps_process_packet_v3_v5
    rw [if_pos h5, trackstick_events Q priv packet hacc, trackstick_s8_x, trackstick_s8_y]
    rfl
  · intro e he d a v
    simp only [List.mem_append, List.mem_singleton] at he
    rcases he with he | he
    · split_ifs at he
      · simp only [input_report_key, List.mem_cons, List.mem_singleton, List.not_mem_nil,
          or_false] at he
        rcases he with he | he | he <;> rw [he] <;> exact fun h => InputEvent.noConfusion h
      · simp at he
    · rw [he]
      exact fun h => InputEvent.noConfusion h
  · have hx := s8_bounds (((byte_at packet 0 &&& 0x20) <<< 2) ||| (byte_at packet 1 &&& 0x7f))
    have hy := s8_bounds (((byte_at packet 0 &&& 0x10) <<< 3) ||| (byte_at packet 2 &&& 0x7f))
    rw [trackstick_s8_x] at hx
    rw [trackstick_s8_y] at hy
    have bx := tdiv8_bounds _ hx.1 hx.2
    have byy := tdiv8_bounds _ hy.1 hy.2
    refine ⟨bx.1, bx.2, ?_, ?_⟩ <;> omega

theorem trackstick_relative_motion_witness :
    byte_at [0x60, 0x00, 0x7f, 0x00, 0x00, 0x3f] 5 = 0x3f ∧
      trackstick_accepted [0x60, 0x00, 0x7f, 0x00, 0x00, 0x3f] ∧
      ∃ (sx sy : Int) (rest : List InputEvent),
        sx = -128 ∧ sy = 127 ∧
        (alps_process_packet_v3_v5 geometry_v3_v4_v5 1 alps_data_zero
          [0x60, 0x00, 0x7f, 0x00, 0x00, 0x3f]).events =
          InputEvent.rel Dev.dev2 RelAxis.REL_X (sx.tdiv 8) ::
            InputEvent.rel Dev.dev2 RelAxis.REL_Y (-(sy.tdiv 8)) :: rest :=
  ⟨by decide, by decide,
    (trackstick_relative_motion geometry_v3_v4_v5 1 alps_data_zero
      [0x60, 0x00, 0x7f, 0x00, 0x00, 0x3f] (by decide) (by decide)).elim
      fun sx h => h.elim fun sy h => h.elim fun rest h =>
        ⟨sx, sy, rest, h.1.trans (by decide), h.2.1.trans (by decide), h.2.2.1⟩⟩

/-! ### The V3/V5 touchpad decoder -/

/-- The decoder `alps_process_touchpad_packet_v3_v5` reports nothing or makes the report
of lines 536-596. -/
lemma touchpad_events_cases (g : Geometry) (Q : Nat) (priv : alps_data) (packet : List Nat) :
    (alps_process_touchpad_packet_v3_v5 g Q priv packet).events = [] ∨
      (alps_process_touchpad_packet_v3_v5 g Q priv packet).events =
        v3_touchpad_report Q priv.quirks (v3_position_packet priv packet)
          (v3_fingers g priv packet) (v3_coords g priv packet) := by
  unfold alps_process_touchpad_packet_v3_v5
  dsimp only
  split_ifs <;> first | exact Or.inl rfl | exact Or.inr rfl

lemma touchpad_quirks (g : Geometry) (Q : Nat) (priv : alps_data) (packet : List Nat) :
    (alps_process_touchpad_packet_v3_v5 g Q priv packet).priv.quirks = priv.quirks := by
  unfold alps_process_touchpad_packet_v3_v5
  dsimp only
  split_ifs <;> rfl

lemma touchpad_bitmap_calls (g : Geometry) (Q : Nat) (priv : alps_data) (packet : List Nat) :
    (alps_process_touchpad_packet_v3_v5 g Q priv packet).bitmap_calls =
      if v3_bitmap_packet priv packet then [(v3_x_bitmap packet, v3_y_bitmap packet)]
      else [] := by
  unfold alps_process_touchpad_packet_v3_v5
  dsimp only
  split_ifs <;> rfl

lemma touchpad_report_finger_count (Q quirks : Nat) (pkt : List Nat) (f0 : Int)
    (loc : BitmapCoords) :
    finger_count_reports (v3_touchpad_report Q quirks pkt f0 loc) =
      [if f0 = 0 then (if byte_at pkt 5 &&& 0x7f > 0 then 1 else 0) else f0] := by
  unfold v3_touchpad_report
  simp only [finger_count_reports_append, finger_count_reports_semi_mt,
    finger_count_reports_key, finger_count_reports_count, finger_count_reports_abs,
    finger_count_reports_sync, finger_count_reports_nil,
    apply_ite finger_count_reports, ite_self, List.nil_append, List.append_nil,
    List.singleton_append]

lemma touchpad_report_pressure (Q quirks : Nat) (pkt : List Nat) (f0 : Int)
    (loc : BitmapCoords) :
    abs_pressure_reports (v3_touchpad_report Q quirks pkt f0 loc) =
      [((byte_at pkt 5 &&& 0x7f : Nat) : Int)] := by
  unfold v3_touchpad_report
  simp only [abs_pressure_reports_append, abs_pressure_reports_semi_mt,
    abs_pressure_reports_key, abs_pressure_reports_pressure, abs_pressure_reports_x,
    abs_pressure_reports_y, abs_pressure_reports_finger_count,
    abs_pressure_reports_sync, abs_pressure_reports_nil,
    apply_ite abs_pressure_reports, ite_self, List.nil_append, List.append_nil,
    List.singleton_append]

lemma touchpad_report_dev2 (Q quirks : Nat) (pkt : List Nat) (f0 : Int)
    (loc : BitmapCoords) :
    dev2_key_reports (v3_touchpad_report Q quirks pkt f0 loc) =
      if quirks &&& Q = 0 then
        [ input_report_key Dev.dev2 Key.BTN_LEFT (byte_at pkt 3 &&& 0x10),
          input_report_key Dev.dev2 Key.BTN_RIGHT (byte_at pkt 3 &&& 0x20),
          input_report_key Dev.dev2 Key.BTN_MIDDLE (byte_at pkt 3 &&& 0x40) ]
      else [] := by
  unfold v3_touchpad_report
  simp only [dev2_key_reports_append, dev2_key_reports_semi_mt,
    dev2_key_reports_key1, dev2_key_reports_key2, dev2_key_reports_abs,
    dev2_key_reports_finger_count,
    dev2_key_reports_sync, dev2_key_reports_nil,
    apply_ite dev2_key_reports, ite_self, List.nil_append, List.append_nil,
    List.singleton_append]

lemma touchpad_report_slot0 (Q quirks : Nat) (pkt : List Nat) (f0 : Int)
    (loc : BitmapCoords) :
    slot0_position (v3_touchpad_report Q quirks pkt f0 loc) =
      if f0 = 0 then
        (if byte_at pkt 5 &&& 0x7f > 0 then some ((v3_x pkt : Int), (v3_y pkt : Int)) else none)
      else some (loc.x1, loc.y1) := by
  unfold v3_touchpad_report alps_report_semi_mt_data alps_set_slot input_report_key
  by_cases h0 : f0 = 0
  · by_cases hz : byte_at pkt 5 &&& 0x7f > 0
    · simp only [h0, hz, if_true]
      simp [slot0_position]
    · simp only [h0, hz, if_true, if_false]
      by_cases hq : quirks &&& Q = 0 <;> simp [slot0_position, hq]
  · simp only [h0, if_false]
    simp [slot0_position, h0]

/-- C29. Whenever `alps_process_touchpad_packet_v3_v5` reports a finger count greater
than 1 (`input_mt_report_finger_count`), the packet was handled as a bitmap packet (a
multi-packet sequence was open and bit 6 of byte 0 is set), `alps_process_bitmap` was
called once, on the bitmaps of that packet, and it returned at least 2. -/
theorem touchpad_multi_finger_needs_bitmap (g : Geometry) (Q : Nat) (priv : alps_data)
    (packet : List Nat) (v : Int)
    (hv : v ∈ finger_count_reports (alps_process_touchpad_packet_v3_v5 g Q priv packet).events)
    (h1 : v > 1) :
    v3_bitmap_packet priv packet ∧
      (alps_process_touchpad_packet_v3_v5 g Q priv packet).bitmap_calls =
        [(v3_x_bitmap packet, v3_y_bitmap packet)] ∧
      2 ≤ (alps_process_bitmap g (v3_x_bitmap packet) (v3_y_bitmap packet) ⟨0, 0, 0, 0⟩).1 := by
  rcases touchpad_events_cases g Q priv packet with he | he
  · rw [he] at hv
    simp [finger_count_reports] at hv
  · rw [he, touchpad_report_finger_count, List.mem_singleton] at hv
    have hb : v3_bitmap_packet priv packet := by
      by_contra hb
      unfold v3_fingers at hv
      rw [if_neg hb] at hv
      simp only [if_true] at hv
      split_ifs at hv <;> omega
    refine ⟨hb, by rw [touchpad_bitmap_calls, if_pos hb], ?_⟩
    unfold v3_fingers at hv
    rw [if_pos hb] at hv
    by_contra hlt
    have hlt2 : (alps_process_bitmap g (v3_x_bitmap packet) (v3_y_bitmap packet)
        ⟨0, 0, 0, 0⟩).1 < 2 := by omega
    split_ifs at hv <;> omega

theorem touchpad_multi_finger_needs_bitmap_witness :
    (2 : Int) ∈ finger_count_reports (alps_process_touchpad_packet_v3_v5 geometry_v3_v4_v5 1
        { alps_data_zero with multi_packet := 1,
                              multi_data := [0x8f, 0x10, 0x20, 0x00, 0x40, 0x30] }
        [0xcf, 0x11, 0x11, 0x00, 0x00, 0x01]).events ∧
      v3_bitmap_packet
        { alps_data_zero with multi_packet := 1,
                              multi_data := [0x8f, 0x10, 0x20, 0x00, 0x40, 0x30] }
        [0xcf, 0x11, 0x11, 0x00, 0x00, 0x01] :=
  ⟨by decide,
    (touchpad_multi_finger_needs_bitmap geometry_v3_v4_v5 1
      { alps_data_zero with multi_packet := 1,
                            multi_data := [0x8f, 0x10, 0x20, 0x00, 0x40, 0x30] }
      [0xcf, 0x11, 0x11, 0x00, 0x00, 0x01] 2 (by decide) (by decide)).1⟩

/-- A bitmap packet whose finger-count field is 1 (`packet[5] & 3` is 0) while one of the
bit-fields is zero: the finger count stays 1, the test `if (!fingers)` of line 560 fails,
and slot 0 is reported at the initial values (0, 0) of `x1` and `y1`, not at the
single-contact coordinates that the comment of lines 556-559 asks for. -/
lemma touchpad_slot0_empty_bitmap_single_field (g : Geometry) (Q : Nat) (priv : alps_data)
    (packet : List Nat)
    (hrep : (alps_process_touchpad_packet_v3_v5 g Q priv packet).events ≠ [])
    (hb : v3_bitmap_packet priv packet) (hf : byte_at packet 5 &&& 0x3 = 0)
    (he : v3_x_bitmap packet = 0 ∨ v3_y_bitmap packet = 0) :
    slot0_position (alps_process_touchpad_packet_v3_v5 g Q priv packet).events =
      some (0, 0) := by
  have hev : (alps_process_touchpad_packet_v3_v5 g Q priv packet).events =
      v3_touchpad_report Q priv.quirks (v3_position_packet priv packet)
        (v3_fingers g priv packet) (v3_coords g priv packet) := by
    rcases touchpad_events_cases g Q priv packet with h | h
    · exact absurd h hrep
    · exact h
  have hbm : alps_process_bitmap g (v3_x_bitmap packet) (v3_y_bitmap packet) ⟨0, 0, 0, 0⟩ =
      (0, ⟨0, 0, 0, 0⟩) := by
    unfold alps_process_bitmap
    rw [if_pos he]
  have hfin : v3_fingers g priv packet = 1 := by
    unfold v3_fingers
    rw [if_pos hb, hf, if_neg (by omega)]
    rfl
  have hco : v3_coords g priv packet = ⟨0, 0, 0, 0⟩ := by
    unfold v3_coords
    rw [if_pos hb, hbm]
  rw [hev, touchpad_report_slot0, hfin, hco, if_neg (by decide)]

/-- C28 (amended). When `alps_process_touchpad_packet_v3_v5` makes a report: if the
packet is not handled as a bitmap packet, or the finger-count field claims more than one
finger and `alps_process_bitmap` returns 0 (an empty bitmap), slot 0 is reported at the
single-contact coordinates `(x, y)` of the position packet when the pressure is not 0,
and inactive otherwise; if the packet is handled as a bitmap packet and
`alps_process_bitmap` returns a count other than 0, slot 0 is reported at the first point
`(x1, y1)` that `alps_process_bitmap` leaves, also when the bitmap resolves to fewer
contacts than the field claims. -/
theorem touchpad_slot0_coordinates (g : Geometry) (Q : Nat) (priv : alps_data)
    (packet : List Nat)
    (hrep : (alps_process_touchpad_packet_v3_v5 g Q priv packet).events ≠ []) :
    ((¬ v3_bitmap_packet priv packet ∨
          (byte_at packet 5 &&& 0x3 ≠ 0 ∧
            (alps_process_bitmap g (v3_x_bitmap packet) (v3_y_bitmap packet)
              ⟨0, 0, 0, 0⟩).1 = 0)) →
        slot0_position (alps_process_touchpad_packet_v3_v5 g Q priv packet).events =
          if byte_at (v3_position_packet priv packet) 5 &&& 0x7f > 0 then
            some ((v3_x (v3_position_packet priv packet) : Int),
              (v3_y (v3_position_packet priv packet) : Int))
          else none) ∧
      (v3_bitmap_packet priv packet →
        (alps_process_bitmap g (v3_x_bitmap packet) (v3_y_bitmap packet)
          ⟨0, 0, 0, 0⟩).1 ≠ 0 →
        slot0_position (alps_process_touchpad_packet_v3_v5 g Q priv packet).events =
          some ((alps_process_bitmap g (v3_x_bitmap packet) (v3_y_bitmap packet)
              ⟨0, 0, 0, 0⟩).2.x1,
            (alps_process_bitmap g (v3_x_bitmap packet) (v3_y_bitmap packet)
              ⟨0, 0, 0, 0⟩).2.y1)) := by
  have he : (alps_process_touchpad_packet_v3_v5 g Q priv packet).events =
      v3_touchpad_report Q priv.quirks (v3_position_packet priv packet)
        (v3_fingers g priv packet) (v3_coords g priv packet) := by
    rcases touchpad_events_cases g Q priv packet with he | he
    · exact absurd he hrep
    · exact he
  refine ⟨fun h => ?_, fun hb hn => ?_⟩
  · have h0 : v3_fingers g priv packet = 0 := by
      unfold v3_fingers
      rcases h with h | ⟨h1, h2⟩
      · rw [if_neg h]
      · by_cases hb : v3_bitmap_packet priv packet
        · rw [if_pos hb, if_pos ⟨by omega, by omega⟩, h2]
        · rw [if_neg hb]
    rw [he, touchpad_report_slot0, if_pos h0]
  · have h0 : v3_fingers g priv packet ≠ 0 := by
      unfold v3_fingers
      rw [if_pos hb]
      split_ifs
      · exact hn
      · omega
    rw [he, touchpad_report_slot0, if_neg h0]
    unfold v3_coords
    rw [if_pos hb]

theorem touchpad_slot0_coordinates_witness :
    (alps_process_touchpad_packet_v3_v5 geometry_v3_v4_v5 1 alps_data_zero
        [0x8f, 0x10, 0x20, 0x00, 0x00, 0x30]).events ≠ [] ∧
      slot0_position (alps_process_touchpad_packet_v3_v5 geometry_v3_v4_v5 1 alps_data_zero
        [0x8f, 0x10, 0x20, 0x00, 0x00, 0x30]).events = some (256, 512) ∧
      slot0_position (alps_process_touchpad_packet_v3_v5 geometry_v3_v4_v5 1
        { alps_data_zero with multi_packet := 1,
                              multi_data := [0x8f, 0x10, 0x20, 0x00, 0x40, 0x30] }
        [0xcf, 0x11, 0x11, 0x00, 0x00, 0x01]).events =
        some (285, 700) :=
  ⟨by decide,
    ((touchpad_slot0_coordinates geometry_v3_v4_v5 1 alps_data_zero
      [0x8f, 0x10, 0x20, 0x00, 0x00, 0x30] (by decide)).1 (Or.inl (by decide))).trans
      (by decide),
    ((touchpad_slot0_coordinates geometry_v3_v4_v5 1
      { alps_data_zero with multi_packet := 1,
                            multi_data := [0x8f, 0x10, 0x20, 0x00, 0x40, 0x30] }
      [0xcf, 0x11, 0x11, 0x00, 0x00, 0x01] (by decide)).2 (by decide) (by decide)).trans
      (by decide)⟩

/-- Counterexample to C28 as stated. A bitmap packet whose finger-count field claims two
fingers while the bitmap resolves to one contact: slot 0 is reported at the point
(285, 1260) of the bitmap and not at the single-contact coordinates (256, 512) of the
position packet. -/
theorem touchpad_slot0_uses_bitmap_point :
    v3_bitmap_packet
        { alps_data_zero with multi_packet := 1,
                              multi_data := [0x8f, 0x10, 0x20, 0x00, 0x40, 0x30] }
        [0xcf, 0x01, 0x01, 0x00, 0x00, 0x01] ∧
      (byte_at [0xcf, 0x01, 0x01, 0x00, 0x00, 0x01] 5 &&& 0x3) + 1 = 2 ∧
      (alps_process_bitmap geometry_v3_v4_v5 (v3_x_bitmap [0xcf, 0x01, 0x01, 0x00, 0x00, 0x01])
        (v3_y_bitmap [0xcf, 0x01, 0x01, 0x00, 0x00, 0x01]) ⟨0, 0, 0, 0⟩).1 = 1 ∧
      (v3_x [0x8f, 0x10, 0x20, 0x00, 0x40, 0x30], v3_y [0x8f, 0x10, 0x20, 0x00, 0x40, 0x30]) =
        (256, 512) ∧
      slot0_position (alps_process_touchpad_packet_v3_v5 geometry_v3_v4_v5 1
        { alps_data_zero with multi_packet := 1,
                              multi_data := [0x8f, 0x10, 0x20, 0x00, 0x40, 0x30] }
        [0xcf, 0x01, 0x01, 0x00, 0x00, 0x01]).events = some (285, 1260) := by
  decide

/-! ### The trackstick-buttons latch -/

lemma v3_v5_quirks (g : Geometry) (Q : Nat) (priv : alps_data) (packet : List Nat) :
    (alps_process_packet_v3_v5 g Q priv packet).priv.quirks =
      if byte_at packet 5 = 0x3f ∧ trackstick_accepted packet ∧ priv.quirks &&& Q = 0 ∧
          trackstick_button_pressed packet then priv.quirks ||| Q
      else priv.quirks := by
  unfold alps_process_packet_v3_v5
  by_cases h5 : byte_at packet 5 = 0x3f
  · rw [if_pos h5]
    by_cases hacc : trackstick_accepted packet
    · rw [trackstick_quirks Q priv packet hacc]
      unfold trackstick_button_pressed
      by_cases hc : priv.quirks &&& Q = 0 ∧ (byte_at packet 3 &&& 0x01 ≠ 0 ∨
          byte_at packet 3 &&& 0x02 ≠ 0 ∨ byte_at packet 3 &&& 0x04 ≠ 0)
      · rw [if_pos hc, if_pos ⟨h5, hacc, hc⟩]
      · rw [if_neg hc, if_neg (fun h => hc h.2.2)]
    · rw [if_neg (fun h => hacc h.2.1)]
      unfold alps_process_trackstick_packet_v3_v5
      unfold trackstick_accepted at hacc
      split_ifs <;> first | rfl | (exfalso; apply hacc; constructor <;> assumption)
  · rw [if_neg h5, touchpad_quirks, if_neg (fun h => h5 h.1)]

lemma latch_step (g : Geometry) (Q : Nat) (hQ : Q ≠ 0) (priv : alps_data)
    (packet : List Nat) :
    (alps_process_packet_v3_v5 g Q priv packet).priv.quirks &&& Q ≠ 0 ↔
      (priv.quirks &&& Q ≠ 0 ∨
        (byte_at packet 5 = 0x3f ∧ trackstick_accepted packet ∧
          trackstick_button_pressed packet)) := by
  rw [v3_v5_quirks]
  by_cases hl : priv.quirks &&& Q = 0
  · by_cases hc : byte_at packet 5 = 0x3f ∧ trackstick_accepted packet ∧
        trackstick_button_pressed packet
    · rw [if_pos ⟨hc.1, hc.2.1, hl, hc.2.2⟩, or_and_self_right]
      exact ⟨fun _ => Or.inr hc, fun _ => hQ⟩
    · rw [if_neg (fun h => hc ⟨h.1, h.2.1, h.2.2.2⟩)]
      exact ⟨fun h => absurd hl h, fun h => h.elim (fun h => absurd hl h) (fun h => absurd h hc)⟩
  · rw [if_neg (fun h => hl h.2.2.1)]
    exact ⟨fun h => Or.inl h, fun _ => hl⟩

lemma latch_run (g : Geometry) (Q : Nat) (hQ : Q ≠ 0) (packets : List (List Nat)) :
    ∀ priv : alps_data,
      ((v3_v5_run g Q priv packets).quirks &&& Q ≠ 0 ↔
        (priv.quirks &&& Q ≠ 0 ∨
          ∃ p ∈ packets, byte_at p 5 = 0x3f ∧ trackstick_accepted p ∧
            trackstick_button_pressed p)) := by
  induction packets with
  | nil => intro priv; simp [v3_v5_run]
  | cons p rest ih =>
    intro priv
    rw [v3_v5_run, ih, latch_step g Q hQ]
    simp only [List.mem_cons, exists_eq_or_imp]
    tauto

/-- C27. The trackstick-buttons latch `priv->quirks & ALPS_QUIRK_TRACKSTICK_BUTTONS`
(the constant is any non-zero value `Q`). No call of `alps_process_packet_v3_v5` clears
it. After a call it is set if and only if it was set before or the packet is an accepted
trackstick packet (`packet[5] == 0x3f`, bit 0x40 of byte 0 set, not the end-of-stream
packet) with one of the three button bits of byte 3 set; so over a sequence of packets
it is set from the first such packet on. A trackstick packet reports buttons (key events
on the secondary device) exactly when it is accepted and the latch is set after the
call; a touchpad packet reports keys of the secondary device only when the latch is not
set. -/
theorem trackstick_buttons_latch_one_way (g : Geometry) (Q : Nat) (hQ : Q ≠ 0)
    (priv : alps_data) (packet : List Nat) :
    (priv.quirks &&& Q ≠ 0 →
        (alps_process_packet_v3_v5 g Q priv packet).priv.quirks &&& Q ≠ 0) ∧
      ((alps_process_packet_v3_v5 g Q priv packet).priv.quirks &&& Q ≠ 0 ↔
        (priv.quirks &&& Q ≠ 0 ∨
          (byte_at packet 5 = 0x3f ∧ trackstick_accepted packet ∧
            trackstick_button_pressed packet))) ∧
      (byte_at packet 5 = 0x3f →
        (dev2_key_reports (alps_process_packet_v3_v5 g Q priv packet).events ≠ [] ↔
          (trackstick_accepted packet ∧
            (alps_process_packet_v3_v5 g Q priv packet).priv.quirks &&& Q ≠ 0))) ∧
      (byte_at packet 5 ≠ 0x3f →
        dev2_key_reports (alps_process_packet_v3_v5 g Q priv packet).events ≠ [] →
        priv.quirks &&& Q = 0) ∧
      (∀ packets : List (List Nat),
        ((v3_v5_run g Q priv packets).quirks &&& Q ≠ 0 ↔
          (priv.quirks &&& Q ≠ 0 ∨
            ∃ p ∈ packets, byte_at p 5 = 0x3f ∧ trackstick_accepted p ∧
              trackstick_button_pressed p))) := by
  refine ⟨fun h => (latch_step g Q hQ priv packet).2 (Or.inl h), latch_step g Q hQ priv packet,
    fun h5 => ?_, fun h5 hne => ?_, fun packets => latch_run g Q hQ packets priv⟩
  · unfold alps_process_packet_v3_v5
    rw [if_pos h5]
    by_cases hacc : trackstick_accepted packet
    · rw [trackstick_events Q priv packet hacc]
      simp only [dev2_key_reports_append, dev2_key_reports_rel, dev2_key_reports_sync,
        dev2_key_reports_nil, List.append_nil, List.nil_append, List.cons_append]
      by_cases hq : (alps_process_trackstick_packet_v3_v5 Q priv packet).priv.quirks &&& Q ≠ 0
      · rw [if_pos hq]
        simp only [dev2_key_reports_key2, dev2_key_reports_nil]
        exact ⟨fun _ => ⟨hacc, hq⟩, fun _ => by simp⟩
      · rw [if_neg hq]
        exact ⟨fun h => absurd rfl h, fun h => absurd h.2 hq⟩
    · have hev : (alps_process_trackstick_packet_v3_v5 Q priv packet).events = [] := by
        unfold alps_process_trackstick_packet_v3_v5
        unfold trackstick_accepted at hacc
        split_ifs <;> first | rfl | (exfalso; apply hacc; constructor <;> assumption)
      rw [hev]
      exact ⟨fun h => absurd rfl h, fun h => absurd h.1 hacc⟩
  · unfold alps_process_packet_v3_v5 at hne
    rw [if_neg h5] at hne
    rcases touchpad_events_cases g Q priv packet with he | he
    · rw [he] at hne
      exact absurd rfl hne
    · rw [he, touchpad_report_dev2] at hne
      by_contra hq
      rw [if_neg hq] at hne
      exact hne rfl

theorem trackstick_buttons_latch_one_way_witness :
    (1 : Nat) ≠ 0 ∧
      ((v3_v5_run geometry_v3_v4_v5 1 alps_data_zero
        [ [0x40, 0x01, 0x01, 0x00, 0x00, 0x3f], [0x40, 0x01, 0x01, 0x01, 0x00, 0x3f],
          [0x40, 0x01, 0x01, 0x00, 0x00, 0x3f] ]).quirks &&& 1 ≠ 0) :=
  ⟨by decide,
    ((trackstick_buttons_latch_one_way geometry_v3_v4_v5 1 (by decide) alps_data_zero
      []).2.2.2.2
      [ [0x40, 0x01, 0x01, 0x00, 0x00, 0x3f], [0x40, 0x01, 0x01, 0x01, 0x00, 0x3f],
        [0x40, 0x01, 0x01, 0x00, 0x00, 0x3f] ]).2
      (Or.inr ⟨[0x40, 0x01, 0x01, 0x01, 0x00, 0x3f], by decide, by decide, by decide,
        by decide⟩)⟩

/-! ### The range of the reported pressure -/

lemma byte_lt_128 (x : Nat) (h : x < 256) (hb : x &&& 0x80 = 0) : x < 128 := by
  have h7 := (high_bit_clear_iff x).1 hb
  rw [Nat.testBit_to_div_mod] at h7
  simp only [decide_eq_false_iff_not] at h7
  omega

lemma and_7f_le (x : Nat) : x &&& 0x7f ≤ 127 := Nat.and_le_right

lemma byte_at_lt (l : List Nat) (h : ∀ b ∈ l, b < 256) (i : Nat) : byte_at l i < 256 := by
  unfold byte_at
  by_cases hi : i < l.length
  · rw [List.getD_eq_getElem l 0 hi]
    exact h _ (List.getElem_mem hi)
  · rw [List.getD_eq_default l 0 (by omega)]
    omega

lemma set_bytes_lt (l : List Nat) (h : ∀ b ∈ l, b < 256) (i v : Nat) (hv : v < 256) :
    ∀ b ∈ l.set i v, b < 256 := by
  intro b hb
  rcases List.mem_or_eq_of_mem_set hb with hb | hb
  · exact h b hb
  · omega

/-- The `ABS_PRESSURE` reports of `alps_process_packet_v1_v2` in closed form: none for a
trackstick packet; otherwise the synthesized report of pressure 0 when the packet flags
a tap-and-drag start, followed by `z`, the pressure byte replaced by 40 when the packet
flags a hardware tap. -/
lemma v1_v2_pressure (model : alps_model_info) (key_state : Dev → Key → Bool)
    (priv : alps_data) (packet : List Nat) :
    abs_pressure_reports (alps_process_packet_v1_v2 model key_state priv packet).2 =
      if model.flags &&& ALPS_DUALPOINT ≠ 0 ∧ byte_at packet 5 = 127 then []
      else
        (if byte_at packet 2 &&& 1 ≠ 0 ∧ byte_at packet 2 &&& 2 ≠ 0 ∧ priv.prev_fin = 0 then
            [(0 : Int)] else []) ++
          [((if byte_at packet 2 &&& 1 ≠ 0 ∧ byte_at packet 2 &&& 2 = 0 then 40
              else byte_at packet 5 : Nat) : Int)] := by
  unfold alps_process_packet_v1_v2
  by_cases hd : model.flags &&& ALPS_DUALPOINT ≠ 0 ∧ byte_at packet 5 = 127
  · simp only [if_pos hd, abs_pressure_reports_append, abs_pressure_reports_buttons,
      abs_pressure_reports_rel, abs_pressure_reports_sync, abs_pressure_reports_nil,
      List.append_nil]
  · simp only [if_neg hd, abs_pressure_reports_append, abs_pressure_reports_buttons,
      apply_ite abs_pressure_reports, abs_pressure_reports_x, abs_pressure_reports_y,
      abs_pressure_reports_pressure,
      abs_pressure_reports_rel, abs_pressure_reports_sync, abs_pressure_reports_key,
      abs_pressure_reports_nil, List.append_nil, List.nil_append, ite_self]

lemma v4_pressure (g : Geometry) (priv : alps_data) (packet : List Nat)
    (uninit : BitmapCoords) :
    ∀ v ∈ abs_pressure_reports (alps_process_packet_v4 g priv packet uninit).events,
      v = ((byte_at packet 5 &&& 0x7f : Nat) : Int) := by
  unfold alps_process_packet_v4
  dsimp only
  split_ifs
  all_goals first
    | (intro v hv; simp [abs_pressure_reports] at hv; done)
    | simp only [abs_pressure_reports_append, abs_pressure_reports_semi_mt,
        abs_pressure_reports_key, abs_pressure_reports_pressure, abs_pressure_reports_x,
        abs_pressure_reports_y, abs_pressure_reports_finger_count,
        abs_pressure_reports_sync, abs_pressure_reports_nil,
        apply_ite abs_pressure_reports, ite_self, List.nil_append, List.append_nil,
        List.singleton_append, List.cons_append, List.mem_singleton, imp_self, implies_true]

lemma v6_report_pressure (pkt : List Nat) (f0 : Int) (loc : BitmapCoords) :
    abs_pressure_reports (v6_report pkt f0 loc) = [((v6_z pkt : Nat) : Int)] := by
  unfold v6_report
  simp only [abs_pressure_reports_append, abs_pressure_reports_semi_mt,
    abs_pressure_reports_key, abs_pressure_reports_pressure, abs_pressure_reports_x,
    abs_pressure_reports_y, abs_pressure_reports_finger_count,
    abs_pressure_reports_sync, abs_pressure_reports_nil,
    apply_ite abs_pressure_reports, ite_self, List.nil_append, List.append_nil,
    List.singleton_append, List.cons_append]

lemma v6_z_le (pkt : List Nat) : v6_z pkt ≤ 127 := by
  unfold v6_z
  split_ifs
  · omega
  · exact and_7f_le _

lemma v6_pressure (g : Geometry) (priv : alps_data) (packet : List Nat) :
    ∀ v ∈ abs_pressure_reports (alps_process_packet_v6 g priv packet).events,
      0 ≤ v ∧ v ≤ 127 := by
  unfold alps_process_packet_v6
  dsimp only
  split_ifs
  all_goals first
    | (intro v hv; simp [abs_pressure_reports] at hv; done)
    | (intro v hv
       rw [v6_report_pressure, List.mem_singleton] at hv
       have := v6_z_le (v6_position_packet priv packet)
       omega)

lemma v3_v5_pressure (g : Geometry) (Q : Nat) (priv : alps_data) (packet : List Nat) :
    ∀ v ∈ abs_pressure_reports (alps_process_packet_v3_v5 g Q priv packet).events,
      0 ≤ v ∧ v ≤ 127 := by
  intro v hv
  unfold alps_process_packet_v3_v5 at hv
  split_ifs at hv with h5
  · by_cases hacc : trackstick_accepted packet
    · rw [trackstick_events Q priv packet hacc] at hv
      simp only [abs_pressure_reports_append, abs_pressure_reports_rel,
        abs_pressure_reports_sync, abs_pressure_reports_key, abs_pressure_reports_nil,
        apply_ite abs_pressure_reports, ite_self, List.append_nil, List.not_mem_nil] at hv
    · have hev : (alps_process_trackstick_packet_v3_v5 Q priv packet).events = [] := by
        unfold alps_process_trackstick_packet_v3_v5
        unfold trackstick_accepted at hacc
        split_ifs <;> first | rfl | (exfalso; apply hacc; constructor <;> assumption)
      rw [hev] at hv
      simp [abs_pressure_reports] at hv
  · rcases touchpad_events_cases g Q priv packet with he | he
    · rw [he] at hv
      simp [abs_pressure_reports] at hv
    · rw [he, touchpad_report_pressure, List.mem_singleton] at hv
      have := and_7f_le (byte_at (v3_position_packet priv packet) 5)
      omega

lemma process_byte_bytes_lt (model : alps_model_info) (ps : psmouse)
    (h : ∀ b ∈ ps.packet, b < 256) :
    (∀ b ∈ (alps_process_byte model ps).1.packet, b < 256) ∧
      ∀ p ∈ decoded_packets (alps_process_byte model ps).2.2, ∀ b ∈ p, b < 256 := by
  have h6 := byte_at_lt ps.packet h 6
  have h6f : byte_at ps.packet 6 &&& 0xf7 < 256 :=
    lt_of_le_of_lt Nat.and_le_left h6
  unfold alps_process_byte alps_handle_interleaved_ps2
  have hp : ∀ p ∈ [ps.packet], ∀ b ∈ p, b < 256 := by
    intro p hp
    rw [List.mem_singleton.1 hp]
    exact h
  split_ifs <;>
    first
    | exact ⟨h, hp⟩
    | exact ⟨set_bytes_lt _ h _ _ h6, hp⟩
    | exact ⟨h, fun p hp => absurd hp (List.not_mem_nil p)⟩
    | exact ⟨set_bytes_lt _ h _ _ h6f, fun p hp => absurd hp (List.not_mem_nil p)⟩

lemma framing_step_bytes_lt (model : alps_model_info) (ps : psmouse) (inp : WireInput)
    (h : ∀ b ∈ ps.packet, b < 256) (hin : ∀ d, inp = WireInput.byte d → d < 256) :
    (∀ b ∈ (framing_step model ps inp).1.packet, b < 256) ∧
      ∀ p ∈ decoded_packets (framing_step model ps inp).2, ∀ b ∈ p, b < 256 := by
  cases inp with
  | byte data =>
    have hs := process_byte_bytes_lt model
      { ps with packet := ps.packet.set ps.pktcnt data, pktcnt := ps.pktcnt + 1 }
      (set_bytes_lt _ h _ _ (hin data rfl))
    simp only [framing_step, psmouse_handle_byte]
    split_ifs
    · exact hs
    · exact hs
  | flush =>
    simp only [framing_step]
    unfold alps_flush_packet
    split_ifs
    · exact ⟨h, by simp [decoded_packets]⟩
    · refine ⟨h, fun p hp => ?_⟩
      rw [List.mem_singleton.1 (show p ∈ [ps.packet] from hp)]
      exact h
    · exact ⟨h, by simp [decoded_packets]⟩

lemma framing_run_bytes_lt (model : alps_model_info) (inputs : List WireInput)
    (hin : ∀ d, WireInput.byte d ∈ inputs → d < 256) :
    ∀ ps : psmouse, (∀ b ∈ ps.packet, b < 256) →
      ∀ p ∈ decoded_packets (framing_run model ps inputs).2, ∀ b ∈ p, b < 256 := by
  induction inputs with
  | nil => intro ps _ p hp; simp [framing_run, decoded_packets] at hp
  | cons inp rest ih =>
    intro ps h p hp
    obtain ⟨hst, hdec⟩ := framing_step_bytes_lt model ps inp h
      (fun d hd => hin d (by rw [hd]; exact List.mem_cons_self _ _))
    simp only [framing_run, decoded_packets_append, List.mem_append] at hp
    rcases hp with hp | hp
    · exact hdec p hp
    · exact ih (fun d hd => hin d (List.mem_cons_of_mem _ hd)) _ hst p hp

/-- C23. For every model of the table, every packet buffer of eight bytes and every
sequence of received bytes and flush-timer expiries, each packet that the framing state
machine hands to the variant decoder makes `alps_process_packet` report only
`ABS_PRESSURE` values in the range 0..127, whatever the session state; this covers the
V1/V2 decoder with its synthesized tap-and-drag report and its replaced tap pressure, and
the V3/V5, V4 and V6 decoders. -/
theorem abs_pressure_in_range (g : Geometry) (Q : Nat) (model : alps_model_info)
    (hm : model ∈ alps_model_data) (buf : List Nat) (hlen : buf.length = 8)
    (hbuf : ∀ b ∈ buf, b < 256) (inputs : List WireInput)
    (hin : ∀ d, WireInput.byte d ∈ inputs → d < 256)
    (key_state : Dev → Key → Bool) (priv : alps_data) (uninit : BitmapCoords) :
    ∀ p ∈ decoded_packets (framing_run model (psmouse_empty model buf) inputs).2,
      ∀ v ∈ abs_pressure_reports (alps_process_packet g Q model key_state priv p uninit).events,
        0 ≤ v ∧ v ≤ 127 := by
  intro p hp v hv
  have hv12 : model.proto_version = ALPS_PROTO_V1 ∨ model.proto_version = ALPS_PROTO_V2 →
      v ∈ abs_pressure_reports (alps_process_packet_v1_v2 model key_state priv p).2 →
      0 ≤ v ∧ v ≤ 127 := by
    intro hpv hv
    have hv6 : model.proto_version ≠ ALPS_PROTO_V6 := by
      rcases hpv with h | h <;> rw [h] <;> decide
    have hclr := framing_run_high_bit model inputs hv6 (table_interleaved_pktsize model hm) _
      (high_bit_inv_empty model buf hlen) p hp 5 (by omega)
      (by have := alps_pktsize_ge model; omega)
    have hlt := byte_at_lt p (framing_run_bytes_lt model inputs hin _ hbuf p hp) 5
    have h5 := byte_lt_128 _ hlt hclr
    rw [v1_v2_pressure] at hv
    split_ifs at hv <;> simp at hv <;> omega
  unfold alps_process_packet at hv
  cases hpv : model.proto_version <;> rw [hpv] at hv <;> dsimp only at hv
  · exact hv12 (Or.inl hpv) hv
  · exact hv12 (Or.inr hpv) hv
  · exact v3_v5_pressure g Q priv p v hv
  · have := v4_pressure g priv p uninit v hv
    have := and_7f_le (byte_at p 5)
    omega
  · exact v3_v5_pressure g Q priv p v hv
  · exact v6_pressure g priv p v hv

theorem abs_pressure_in_range_witness :
    model_plain_v2 ∈ alps_model_data ∧
      [0xf8, 0x10, 0x01, 0x00, 0x20, 0x7f, 0, 0] ∈
        decoded_packets (framing_run model_plain_v2
          (psmouse_empty model_plain_v2 [0, 0, 0, 0, 0, 0, 0, 0])
          [WireInput.byte 0xf8, WireInput.byte 0x10, WireInput.byte 0x01, WireInput.byte 0x00,
            WireInput.byte 0x20, WireInput.byte 0x7f]).2 ∧
      (40 : Int) ∈ abs_pressure_reports (alps_process_packet geometry_v3_v4_v5 1 model_plain_v2
          (fun _ _ => false) alps_data_zero [0xf8, 0x10, 0x01, 0x00, 0x20, 0x7f, 0, 0]
          ⟨0, 0, 0, 0⟩).events ∧
      (0 : Int) ≤ 40 ∧ (40 : Int) ≤ 127 :=
  ⟨by decide, by decide, by decide,
    abs_pressure_in_range geometry_v3_v4_v5 1 model_plain_v2 (by decide)
      [0, 0, 0, 0, 0, 0, 0, 0] (by decide) (by decide)
      [WireInput.byte 0xf8, WireInput.byte 0x10, WireInput.byte 0x01, WireInput.byte 0x00,
        WireInput.byte 0x20, WireInput.byte 0x7f]
      (by intro d hd; simp at hd; omega) (fun _ _ => false) alps_data_zero ⟨0, 0, 0, 0⟩
      [0xf8, 0x10, 0x01, 0x00, 0x20, 0x7f, 0, 0] (by decide) 40 (by decide)⟩

/-! ### Failed register operations and the return value of `alps_hw_init` -/

lemma reg_clean_nil : reg_clean [] := fun _ h => absurd h (List.not_mem_nil _)

lemma reg_clean_append {a b : List hw_event} :
    reg_clean (a ++ b) ↔ reg_clean a ∧ reg_clean b := by
  unfold reg_clean
  simp only [List.mem_append]
  exact ⟨fun h => ⟨fun e he => h e (Or.inl he), fun e he => h e (Or.inr he)⟩,
    fun h e he => he.elim (h.1 e) (h.2 e)⟩

lemma not_reg_not_failed (e : hw_event) (h : not_reg e) : ¬ reg_failed e := by
  cases e <;> simp_all [not_reg, reg_failed]

lemma adds_clean {σ : Type} {f : HwRun σ → HwRun σ} (h : Adds not_reg f) (w : HwRun σ)
    (hw : reg_clean w.trace) : reg_clean (f w).trace := by
  obtain ⟨post, ht, hp⟩ := h w
  rw [ht]
  exact reg_clean_append.2 ⟨hw, fun e he => not_reg_not_failed e (hp e he)⟩

lemma adds_guarded {σ : Type} {f : HwRun σ → HwRun σ} (h : Adds not_reg f)
    (test : Int → Bool) : Guarded test f :=
  fun w hw _ => adds_clean h w hw

lemma hw_op_trace {σ : Type} (f : σ → CmdResult σ) (marks : Int → List hw_event)
    (w : HwRun σ) :
    (hw_op f marks w).trace =
      w.trace ++ ((f w.state).calls.map hw_event.command ++ marks (f w.state).ret) := by
  simp [hw_op, List.append_assoc]

lemma adds_hw_op {σ : Type} (P : hw_event → Prop) (hc : ∀ c, P (hw_event.command c))
    (f : σ → CmdResult σ) (marks : Int → List hw_event) (hm : ∀ r, ∀ e ∈ marks r, P e) :
    Adds P (hw_op f marks) := by
  intro w
  refine ⟨_, hw_op_trace f marks w, fun e he => ?_⟩
  rcases List.mem_append.1 he with he | he
  · obtain ⟨c, _, rfl⟩ := List.mem_map.1 he
    exact hc c
  · exact hm _ e he

lemma adds_hw_ps2 {σ : Type} (P : hw_event → Prop) (hc : ∀ c, P (hw_event.command c))
    (E : psmouse_io σ) (param : Option (List Nat)) (command : Nat) :
    Adds P (hw_ps2 E param command) :=
  adds_hw_op P hc _ _ (fun _ e he => absurd he (List.not_mem_nil e))

lemma adds_hw_send_nibble {σ : Type} (P : hw_event → Prop)
    (hc : ∀ c, P (hw_event.command c)) (cs : alps_command_set) (E : psmouse_io σ)
    (nibble : Nat) : Adds P (hw_send_nibble cs E nibble) :=
  adds_hw_op P hc _ _ (fun _ e he => absurd he (List.not_mem_nil e))

lemma adds_hw_ps2_param {σ : Type} (P : hw_event → Prop) (hc : ∀ c, P (hw_event.command c))
    (E : psmouse_io σ) (off command : Nat) : Adds P (hw_ps2_param E off command) := by
  intro w
  exact adds_hw_op P hc (fun s => ps2_command E.transport s (some (w.param.drop off)) command)
    (fun _ => []) (fun _ e he => absurd he (List.not_mem_nil e)) w

lemma adds_hw_get_e7_report {σ : Type} (P : hw_event → Prop)
    (hc : ∀ c, P (hw_event.command c)) (K : psmouse_commands) (E : psmouse_io σ) :
    Adds P (hw_get_e7_report K E) := by
  intro w
  exact adds_hw_op P hc (fun s => alps_get_e7_report K E.transport s w.param)
    (fun _ => []) (fun _ e he => absurd he (List.not_mem_nil e)) w

lemma adds_hw_set_param {σ : Type} (P : hw_event → Prop) (i v : Nat) :
    Adds P (hw_set_param i v : HwRun σ → HwRun σ) :=
  fun w => ⟨[], by simp [hw_set_param], fun e he => absurd he (List.not_mem_nil e)⟩

lemma adds_hw_reset {σ : Type} (P : hw_event → Prop) (hr : ∀ r, P (hw_event.reset r))
    (E : psmouse_io σ) : Adds P (hw_reset E) :=
  fun w => ⟨[hw_event.reset (E.reset w.state).2], rfl,
    fun e he => by rw [List.mem_singleton.1 he]; exact hr _⟩

lemma adds_hw_drain {σ : Type} (P : hw_event → Prop) (hd : P hw_event.drain)
    (E : psmouse_io σ) : Adds P (hw_drain E) :=
  fun w => ⟨[hw_event.drain], rfl, fun e he => by rw [List.mem_singleton.1 he]; exact hd⟩

lemma adds_hw_enter {σ : Type} (P : hw_event → Prop) (hc : ∀ c, P (hw_event.command c))
    (he : ∀ r, P (hw_event.enter_command_mode r)) (K : psmouse_commands) (E : psmouse_io σ) :
    Adds P (hw_enter K E) :=
  adds_hw_op P hc _ _ (fun r e h => by rw [List.mem_singleton.1 h]; exact he r)

lemma adds_hw_enter_param {σ : Type} (P : hw_event → Prop)
    (hc : ∀ c, P (hw_event.command c)) (he : ∀ r, P (hw_event.enter_command_mode r))
    (K : psmouse_commands) (E : psmouse_io σ) : Adds P (hw_enter_param K E) := by
  intro w
  exact adds_hw_op P hc (fun s => alps_enter_command_mode K E.transport s (some w.param))
    (fun r => [hw_event.enter_command_mode r])
    (fun r e h => by rw [List.mem_singleton.1 h]; exact he r) w

lemma adds_hw_exit {σ : Type} (P : hw_event → Prop) (hc : ∀ c, P (hw_event.command c))
    (hx : ∀ r, P (hw_event.exit_command_mode r)) (K : psmouse_commands) (E : psmouse_io σ) :
    Adds P (hw_exit K E) :=
  adds_hw_op P hc _ _ (fun r e h => by rw [List.mem_singleton.1 h]; exact hx r)

lemma adds_set_ret {σ : Type} (P : hw_event → Prop) (r : Int) :
    Adds P (fun w : HwRun σ => { w with ret := r }) :=
  fun w => ⟨[], by simp, fun e he => absurd he (List.not_mem_nil e)⟩

lemma adds_comp {σ : Type} {P : hw_event → Prop} {f g : HwRun σ → HwRun σ}
    (hf : Adds P f) (hg : Adds P g) : Adds P (fun w => g (f w)) := by
  intro w
  obtain ⟨p1, h1, hp1⟩ := hf w
  obtain ⟨p2, h2, hp2⟩ := hg (f w)
  refine ⟨p1 ++ p2, by rw [h2, h1, List.append_assoc], fun e he => ?_⟩
  rcases List.mem_append.1 he with he | he
  · exact hp1 e he
  · exact hp2 e he

lemma adds_with_ret {σ : Type} {P : hw_event → Prop} {f : HwRun σ → HwRun σ}
    (hf : Adds P f) (r : HwRun σ → Int) : Adds P (fun w => { f w with ret := r w }) :=
  fun w => hf w

lemma adds_ite {σ : Type} {P : hw_event → Prop} {f g : HwRun σ → HwRun σ}
    (c : HwRun σ → Prop) [DecidablePred c]
    (hf : Adds P f) (hg : Adds P g) : Adds P (fun w => if c w then f w else g w) := by
  intro w
  by_cases h : c w
  · simp only [if_pos h]; exact hf w
  · simp only [if_neg h]; exact hg w

lemma adds_until_failure {σ : Type} (P : hw_event → Prop) (fs : List (HwRun σ → HwRun σ))
    (h : ∀ f ∈ fs, Adds P f) : Adds P (until_failure fs) := by
  induction fs with
  | nil => exact adds_set_ret P 0
  | cons f fs ih =>
    intro w
    have hf := h f (List.mem_cons_self _ _)
    have hfs := ih (fun g hg => h g (List.mem_cons_of_mem _ hg))
    unfold until_failure
    split_ifs
    · exact hf w
    · exact adds_comp hf hfs w

lemma adds_hw_and {σ : Type} {P : hw_event → Prop} {f : HwRun σ → HwRun σ}
    (hf : Adds P f) (test : Int → Bool) : Adds P (hw_and test f) := by
  intro w
  unfold hw_and
  split_ifs
  · exact hf w
  · exact ⟨[], by simp, fun e he => absurd he (List.not_mem_nil e)⟩

lemma until_failure_ret {σ : Type} (fs : List (HwRun σ → HwRun σ)) :
    ∀ w : HwRun σ, (until_failure fs w).ret = 0 ∨ (until_failure fs w).ret = -1 := by
  induction fs with
  | nil => intro w; exact Or.inl rfl
  | cons f fs ih =>
    intro w
    unfold until_failure
    split_ifs
    · exact Or.inr rfl
    · exact ih (f w)

lemma guarded_until_failure {σ : Type} (fs : List (HwRun σ → HwRun σ))
    (h : ∀ f ∈ fs, Guarded (fun r => decide (r = 0)) f) :
    Guarded (fun r => decide (r = 0)) (until_failure fs) := by
  induction fs with
  | nil => intro w hw _; exact hw
  | cons f fs ih =>
    intro w hw hr
    have hf := h f (List.mem_cons_self _ _)
    have hfs := ih (fun g hg => h g (List.mem_cons_of_mem _ hg))
    unfold until_failure at hr ⊢
    split_ifs at hr ⊢ with h0
    · simp at hr
    · exact hfs (f w) (hf w hw (by simpa using h0)) hr

lemma adds_set_rate_and_enable {σ : Type} (P : hw_event → Prop)
    (hc : ∀ c, P (hw_event.command c)) (K : psmouse_commands) (E : psmouse_io σ) :
    Adds P (alps_set_rate_and_enable K E) := by
  apply adds_until_failure
  intro f hf
  simp only [List.mem_cons, List.mem_singleton, List.not_mem_nil, or_false] at hf
  rcases hf with rfl | rfl <;> exact adds_hw_ps2 P hc _ _ _

lemma adds_e6_sort_of_setmode {σ : Type} (P : hw_event → Prop)
    (hc : ∀ c, P (hw_event.command c)) (K : psmouse_commands) (cs : alps_command_set)
    (E : psmouse_io σ) (byte : Nat) : Adds P (alps_e6_sort_of_setmode K cs E byte) := by
  apply adds_until_failure
  intro f hf
  simp only [List.mem_cons, List.mem_singleton, List.not_mem_nil, or_false] at hf
  rcases hf with rfl | rfl | rfl | rfl | rfl <;>
    first | exact adds_hw_ps2 P hc _ _ _ | exact adds_hw_send_nibble P hc _ _ _

lemma adds_then {σ : Type} {P : hw_event → Prop} {f g : HwRun σ → HwRun σ}
    (hf : Adds P f) (hg : Adds P g) :
    Adds P (fun w => if (f w).ret ≠ 0 then f w else g (f w)) := by
  intro w
  by_cases h : (f w).ret ≠ 0
  · simp only [if_pos h]; exact hf w
  · simp only [if_neg h]; exact adds_comp hf hg w

lemma adds_passthrough_mode_v2 {σ : Type} (P : hw_event → Prop)
    (hc : ∀ c, P (hw_event.command c)) (hd : P hw_event.drain) (K : psmouse_commands)
    (E : psmouse_io σ) (enable : Bool) : Adds P (alps_passthrough_mode_v2 K E enable) := by
  have h1 : ∀ cmd, Adds P (until_failure
      [hw_ps2 E none cmd, hw_ps2 E none cmd, hw_ps2 E none cmd, hw_ps2 E none K.DISABLE]) := by
    intro cmd
    apply adds_until_failure
    intro f hf
    simp only [List.mem_cons, List.mem_singleton, List.not_mem_nil, or_false] at hf
    rcases hf with rfl | rfl | rfl | rfl <;> exact adds_hw_ps2 P hc _ _ _
  exact adds_then (h1 _) (adds_with_ret (adds_hw_drain P hd E) (fun _ => 0))

lemma adds_absolute_mode_v1_v2 {σ : Type} (P : hw_event → Prop)
    (hc : ∀ c, P (hw_event.command c)) (K : psmouse_commands) (E : psmouse_io σ) :
    Adds P (alps_absolute_mode_v1_v2 K E) := by
  have h1 : Adds P (until_failure
      [hw_ps2 E none K.DISABLE, hw_ps2 E none K.DISABLE, hw_ps2 E none K.DISABLE,
        hw_ps2 E none K.DISABLE, hw_ps2 E none K.ENABLE]) := by
    apply adds_until_failure
    intro f hf
    simp only [List.mem_cons, List.mem_singleton, List.not_mem_nil, or_false] at hf
    rcases hf with rfl | rfl | rfl | rfl | rfl <;> exact adds_hw_ps2 P hc _ _ _
  exact adds_then h1 (adds_hw_ps2 P hc E none K.SETPOLL)

lemma adds_get_status {σ : Type} (P : hw_event → Prop)
    (hc : ∀ c, P (hw_event.command c)) (K : psmouse_commands) (E : psmouse_io σ) :
    Adds P (alps_get_status K E) := by
  apply adds_until_failure
  intro f hf
  simp only [List.mem_cons, List.mem_singleton, List.not_mem_nil, or_false] at hf
  rcases hf with rfl | rfl | rfl | rfl <;>
    first | exact adds_hw_ps2 P hc _ _ _ | exact adds_hw_ps2_param P hc _ _ _

lemma adds_tap_mode {σ : Type} (P : hw_event → Prop)
    (hc : ∀ c, P (hw_event.command c)) (K : psmouse_commands) (E : psmouse_io σ)
    (enable : Bool) : Adds P (alps_tap_mode K E enable) := by
  have h1 : ∀ tap_arg cmd, Adds P (fun w : HwRun σ => until_failure
      [hw_ps2_param E 0 K.GETINFO, hw_ps2 E none K.DISABLE, hw_ps2 E none K.DISABLE,
        hw_ps2 E (some [tap_arg]) cmd] { w with param := [] }) := by
    intro tap_arg cmd w
    refine adds_until_failure P _ ?_ { w with param := [] }
    intro f hf
    simp only [List.mem_cons, List.mem_singleton, List.not_mem_nil, or_false] at hf
    rcases hf with rfl | rfl | rfl | rfl <;>
      first | exact adds_hw_ps2 P hc _ _ _ | exact adds_hw_ps2_param P hc _ _ _
  have h2 : Adds P (until_failure [alps_get_status K E]) := by
    apply adds_until_failure
    intro f hf
    rw [List.mem_singleton.1 hf]
    exact adds_get_status P hc K E
  exact adds_then (h1 _ _) h2

lemma adds_hw_init_v1_v2 {σ : Type} (P : hw_event → Prop)
    (hc : ∀ c, P (hw_event.command c)) (hd : P hw_event.drain) (K : psmouse_commands)
    (E : psmouse_io σ) (model : alps_model_info) (s : σ) :
    ∀ e ∈ (alps_hw_init_v1_v2 K E model s).trace, P e := by
  have h : Adds P (until_failure
      [ (fun w => if model.flags &&& ALPS_PASS ≠ 0 then alps_passthrough_mode_v2 K E true w
          else { w with ret := 0 }),
        alps_tap_mode K E true,
        alps_absolute_mode_v1_v2 K E,
        (fun w => if model.flags &&& ALPS_PASS ≠ 0 then alps_passthrough_mode_v2 K E false w
          else { w with ret := 0 }),
        hw_ps2 E none K.SETSTREAM ]) := by
    apply adds_until_failure
    intro f hf
    simp only [List.mem_cons, List.mem_singleton, List.not_mem_nil, or_false] at hf
    rcases hf with rfl | rfl | rfl | rfl | rfl
    · exact adds_ite (fun _ => model.flags &&& ALPS_PASS ≠ 0)
        (adds_passthrough_mode_v2 P hc hd K E true) (adds_set_ret P 0)
    · exact adds_tap_mode P hc K E true
    · exact adds_absolute_mode_v1_v2 P hc K E
    · exact adds_ite (fun _ => model.flags &&& ALPS_PASS ≠ 0)
        (adds_passthrough_mode_v2 P hc hd K E false) (adds_set_ret P 0)
    · exact adds_hw_ps2 P hc _ _ _
  obtain ⟨post, ht, hp⟩ := h (hw_start s)
  intro e he
  unfold alps_hw_init_v1_v2 at he
  rw [ht] at he
  exact hp e (by simpa [hw_start] using he)

lemma reg_clean_commands (l : List ps2_call) : reg_clean (l.map hw_event.command) := by
  intro e he
  obtain ⟨c, _, rfl⟩ := List.mem_map.1 he
  exact fun h => h

lemma hw_op_clean {σ : Type} (f : σ → CmdResult σ) (marks : Int → List hw_event)
    (w : HwRun σ) (hw : reg_clean w.trace) (hm : reg_clean (marks (f w.state).ret)) :
    reg_clean (hw_op f marks w).trace := by
  rw [hw_op_trace]
  exact reg_clean_append.2 ⟨hw, reg_clean_append.2 ⟨reg_clean_commands _, hm⟩⟩

lemma hw_read_reg_clean {σ : Type} (K : psmouse_commands) (cs : alps_command_set)
    (E : psmouse_io σ) (addr : Nat) (w : HwRun σ) (hw : reg_clean w.trace)
    (h : (hw_read_reg K cs E addr w).ret ≠ -1) :
    reg_clean (hw_read_reg K cs E addr w).trace := by
  apply hw_op_clean _ _ w hw
  intro e he
  rw [List.mem_singleton.1 he]
  exact h

lemma hw_write_value_clean {σ : Type} (cs : alps_command_set) (E : psmouse_io σ)
    (value : Nat) (w : HwRun σ) (hw : reg_clean w.trace)
    (h : (hw_write_value cs E value w).ret = 0) :
    reg_clean (hw_write_value cs E value w).trace := by
  apply hw_op_clean _ _ w hw
  intro e he
  rw [List.mem_singleton.1 he]
  exact fun hf => hf h

lemma guarded_hw_write_reg {σ : Type} (cs : alps_command_set) (E : psmouse_io σ)
    (addr value : Nat) : Guarded (fun r => decide (r = 0)) (hw_write_reg cs E addr value) := by
  intro w hw h
  apply hw_op_clean _ _ w hw
  intro e he
  rw [List.mem_singleton.1 he]
  exact fun hf => hf (by simpa using h)

lemma guarded_hw_write_value {σ : Type} (cs : alps_command_set) (E : psmouse_io σ)
    (value : Nat) : Guarded (fun r => decide (r = 0)) (hw_write_value cs E value) :=
  fun w hw h => hw_write_value_clean cs E value w hw (by simpa using h)

lemma guarded_hw_read_reg {σ : Type} (K : psmouse_commands) (cs : alps_command_set)
    (E : psmouse_io σ) (addr : Nat) :
    Guarded (fun r => decide (r ≥ 0)) (hw_read_reg K cs E addr) := by
  intro w hw h
  have h0 : (hw_read_reg K cs E addr w).ret ≥ 0 := by simpa using h
  exact hw_read_reg_clean K cs E addr w hw (by omega)

lemma guarded_hw_read_then_write {σ : Type} (K : psmouse_commands) (cs : alps_command_set)
    (E : psmouse_io σ) (addr : Nat) (f : Nat → Nat) :
    Guarded (fun r => decide (r = 0)) (hw_read_then_write K cs E addr f) := by
  intro w hw h
  unfold hw_read_then_write at h ⊢
  dsimp only at h ⊢
  by_cases h1 : (hw_read_reg K cs E addr w).ret = -1
  · rw [if_pos h1] at h
    simp at h
  · rw [if_neg h1] at h ⊢
    have hc1 := hw_read_reg_clean K cs E addr w hw h1
    by_cases h2 : (hw_write_value cs E (f (hw_read_reg K cs E addr w).ret.toNat)
        (hw_read_reg K cs E addr w)).ret ≠ 0
    · rw [if_pos h2] at h
      simp at h
    · rw [if_neg h2]
      exact hw_write_value_clean cs E _ _ hc1 (not_not.1 h2)

lemma guarded_hw_read_check {σ : Type} (K : psmouse_commands) (cs : alps_command_set)
    (E : psmouse_io σ) (addr : Nat) :
    Guarded (fun r => decide (r = 0)) (hw_read_check K cs E addr) := by
  intro w hw h
  unfold hw_read_check at h ⊢
  dsimp only at h ⊢
  by_cases h1 : (hw_read_reg K cs E addr w).ret = -1
  · rw [if_pos h1] at h
    simp at h
  · exact hw_read_reg_clean K cs E addr w hw h1

lemma guarded_hw_checkset_reg {σ : Type} (K : psmouse_commands) (cs : alps_command_set)
    (E : psmouse_io σ) (addr value : Nat) :
    Guarded (fun r => decide (r = 0)) (hw_checkset_reg K cs E addr value) := by
  intro w hw h
  unfold hw_checkset_reg at h ⊢
  dsimp only at h ⊢
  by_cases h1 : (hw_read_reg K cs E addr w).ret < 0
  · rw [if_pos h1] at h
    simp at h
  · rw [if_neg h1] at h ⊢
    have hc1 := hw_read_reg_clean K cs E addr w hw (by omega)
    by_cases h2 : (hw_write_value cs E value (hw_read_reg K cs E addr w)).ret ≠ 0
    · rw [if_pos h2] at h
      simp at h
    · rw [if_neg h2]
      exact hw_write_value_clean cs E _ _ hc1 (not_not.1 h2)

lemma guarded_hw_check_reg {σ : Type} (K : psmouse_commands) (cs : alps_command_set)
    (E : psmouse_io σ) (addr value : Nat) :
    Guarded (fun r => decide (r > 0)) (hw_check_reg K cs E addr value) := by
  intro w hw h
  unfold hw_check_reg at h ⊢
  dsimp only at h ⊢
  by_cases h1 : (hw_read_reg K cs E addr w).ret < 0
  · rw [if_pos h1] at h
    simp at h
  · rw [if_neg h1]
    exact hw_read_reg_clean K cs E addr w hw (by omega)

lemma guarded_absolute_mode_v3 {σ : Type} (K : psmouse_commands) (cs : alps_command_set)
    (E : psmouse_io σ) : Guarded (fun r => decide (r = 0)) (alps_absolute_mode_v3 K cs E) :=
  fun w hw h => guarded_hw_read_then_write K cs E 0x0004 (fun reg_val => reg_val ||| 0x06) w hw h

lemma guarded_absolute_mode_v4 {σ : Type} (K : psmouse_commands) (cs : alps_command_set)
    (E : psmouse_io σ) : Guarded (fun r => decide (r = 0)) (alps_absolute_mode_v4 K cs E) :=
  fun w hw h => guarded_hw_read_then_write K cs E 0x0004 (fun reg_val => reg_val ||| 0x02) w hw h

lemma guarded_passthrough_mode_v3 {σ : Type} (K : psmouse_commands) (cs : alps_command_set)
    (E : psmouse_io σ) (enable : Bool) :
    Guarded (fun r => decide (r = 0)) (alps_passthrough_mode_v3 K cs E enable) :=
  fun w hw h => guarded_hw_read_then_write K cs E 0x0008
    (fun reg_val => if enable then reg_val ||| 0x01 else reg_val &&& 0xfe) w hw h

lemma okclean_start {σ : Type} (s : σ) : OkClean (hw_start s) := fun _ => reg_clean_nil

lemma okclean_hw_and {σ : Type} {test : Int → Bool} {f : HwRun σ → HwRun σ}
    (hg : Guarded test f) {w : HwRun σ} (h : OkClean w) : OkClean (hw_and test f w) := by
  unfold hw_and
  by_cases hok : w.ok = true
  · rw [if_pos hok]
    exact fun h2 => hg w (h hok) h2
  · rw [if_neg hok]
    exact h

lemma okclean_adds {σ : Type} {f : HwRun σ → HwRun σ} (hf : Adds not_reg f)
    (hok : ∀ w, (f w).ok = w.ok) {w : HwRun σ} (h : OkClean w) : OkClean (f w) :=
  fun h2 => adds_clean hf w (h (by rw [← hok w]; exact h2))

lemma okclean_ite {σ : Type} (c : Prop) [Decidable c] {a b : HwRun σ} (ha : OkClean a)
    (hb : OkClean b) : OkClean (if c then a else b) := by
  split_ifs
  · exact ha
  · exact hb

lemma reports_fail {σ : Type} (w : HwRun σ) : ReportsFailure { w with ret := -1 } :=
  ⟨Or.inr rfl, fun h => absurd (show (-1 : Int) = 0 from h) (by decide)⟩

lemma reports_ite {σ : Type} {c : Prop} [Decidable c] {a b : HwRun σ}
    (ha : c → ReportsFailure a) (hb : ¬ c → ReportsFailure b) :
    ReportsFailure (if c then a else b) := by
  split_ifs with h
  · exact ha h
  · exact hb h

lemma reports_zero {σ : Type} (w : HwRun σ) (h : reg_clean w.trace) :
    ReportsFailure { w with ret := 0 } := ⟨Or.inl rfl, fun _ => h⟩

lemma reports_until_failure {σ : Type} (fs : List (HwRun σ → HwRun σ))
    (h : ∀ f ∈ fs, Guarded (fun r => decide (r = 0)) f) (w : HwRun σ)
    (hw : reg_clean w.trace) : ReportsFailure (until_failure fs w) :=
  ⟨until_failure_ret fs w,
    fun h0 => guarded_until_failure fs h w hw (by simpa using h0)⟩

lemma not_reg_command (c : ps2_call) : not_reg (hw_event.command c) := trivial

lemma not_reg_enter (r : Int) : not_reg (hw_event.enter_command_mode r) := trivial

lemma not_reg_exit (r : Int) : not_reg (hw_event.exit_command_mode r) := trivial

lemma not_reg_reset (r : Int) : not_reg (hw_event.reset r) := trivial

lemma hw_init_v1_v2_reports {σ : Type} (K : psmouse_commands) (E : psmouse_io σ)
    (model : alps_model_info) (s : σ) : ReportsFailure (alps_hw_init_v1_v2 K E model s) :=
  ⟨until_failure_ret _ _, fun _ e he =>
    not_reg_not_failed e (adds_hw_init_v1_v2 not_reg not_reg_command trivial K E model s e he)⟩

lemma hw_init_v4_reports {σ : Type} (K : psmouse_commands) (E : psmouse_io σ) (s : σ) :
    ReportsFailure (alps_hw_init_v4 K E s) := by
  have hb : ReportsFailure (alps_hw_init_v4_body K E s) := by
    apply reports_until_failure _ _ _ reg_clean_nil
    intro f hf
    simp only [List.mem_cons, List.mem_singleton, List.not_mem_nil, or_false] at hf
    rcases hf with rfl | rfl | rfl | rfl | rfl | rfl | rfl | rfl | rfl | rfl
    · exact adds_guarded (adds_hw_enter not_reg not_reg_command not_reg_enter K E) _
    · exact guarded_absolute_mode_v4 K _ E
    all_goals exact guarded_hw_write_reg _ E _ _
  unfold alps_hw_init_v4
  dsimp only
  refine reports_ite (fun _ => reports_fail _) (fun h0 => ?_)
  have hc := hb.2 (not_not.1 h0)
  have h1 : Adds not_reg (fun w : HwRun σ => until_failure
      [ hw_send_nibble (command_set_v4 K) E 0x9, hw_send_nibble (command_set_v4 K) E 0x8,
        hw_send_nibble (command_set_v4 K) E 0x7, hw_send_nibble (command_set_v4 K) E 0xa ]
      (hw_exit K E w)) := by
    refine adds_comp (adds_hw_exit not_reg not_reg_command not_reg_exit K E)
      (adds_until_failure not_reg _ ?_)
    intro f hf
    simp only [List.mem_cons, List.mem_singleton, List.not_mem_nil, or_false] at hf
    rcases hf with rfl | rfl | rfl | rfl <;>
      exact adds_hw_send_nibble not_reg not_reg_command _ _ _
  have hc1 := adds_clean h1 _ hc
  refine reports_ite (fun _ => reports_fail _) (fun _ => ?_)
  refine reports_ite (fun _ => reports_fail _) (fun _ => ?_)
  exact reports_zero _ (adds_clean (adds_set_rate_and_enable not_reg not_reg_command K E) _ hc1)

lemma cleanatdone_ite {σ : Type} {c : Prop} [Decidable c] {a b : HwRun σ × v3_label}
    (ha : c → CleanAtDone a) (hb : ¬ c → CleanAtDone b) :
    CleanAtDone (if c then a else b) := by
  split_ifs with h
  · exact ha h
  · exact hb h

lemma cleanatdone_error {σ : Type} (w : HwRun σ) : CleanAtDone (w, v3_label.error) :=
  fun h => absurd (show v3_label.error = v3_label.done from h) (by decide)

lemma cleanatdone_error_passthrough {σ : Type} (w : HwRun σ) :
    CleanAtDone (w, v3_label.error_passthrough) :=
  fun h => absurd (show v3_label.error_passthrough = v3_label.done from h) (by decide)

lemma reg_clean_ite {σ : Type} (c : Prop) [Decidable c] {a b : HwRun σ}
    (ha : reg_clean a.trace) (hb : reg_clean b.trace) :
    reg_clean (if c then a else b).trace := by
  split_ifs
  · exact ha
  · exact hb

lemma hw_init_v3_trackstick_clean {σ : Type} (K : psmouse_commands) (E : psmouse_io σ)
    (w : HwRun σ) (hw : reg_clean w.trace) :
    CleanAtDone (alps_hw_init_v3_trackstick K E w) := by
  unfold alps_hw_init_v3_trackstick
  dsimp only
  refine cleanatdone_ite (fun _ => cleanatdone_error _) (fun h1 => ?_)
  have c1 := guarded_passthrough_mode_v3 K (command_set_v3 K) E true w hw
    (by simpa using h1)
  refine cleanatdone_ite (fun _ => cleanatdone_error _) (fun _ => ?_)
  have c2 := adds_clean (adds_hw_exit not_reg not_reg_command not_reg_exit K E) _ c1
  have c3 := adds_clean (adds_hw_get_e7_report not_reg not_reg_command K E) _
    (adds_clean (adds_hw_set_param not_reg 0 0x64) _ c2)
  have c4 := reg_clean_ite
    ((hw_get_e7_report K E (hw_set_param 0 0x64 (hw_exit K E
      (alps_passthrough_mode_v3 K (command_set_v3 K) E true w)))).ret ≠ 0) c3
    (adds_clean (adds_e6_sort_of_setmode not_reg not_reg_command K (command_set_v3 K) E 0x94)
      _ c3)
  have c5 := adds_clean (adds_hw_enter not_reg not_reg_command not_reg_enter K E) _ c4
  refine cleanatdone_ite (fun _ => cleanatdone_error_passthrough _) (fun _ => ?_)
  refine cleanatdone_ite (fun _ => cleanatdone_error _) (fun h6 => ?_)
  intro _
  exact guarded_passthrough_mode_v3 K (command_set_v3 K) E false _ c5 (by simpa using h6)

lemma hw_init_v3_body_clean {σ : Type} (K : psmouse_commands) (E : psmouse_io σ) (s : σ) :
    CleanAtDone (alps_hw_init_v3_body K E s) := by
  unfold alps_hw_init_v3_body
  dsimp only
  refine cleanatdone_ite (fun _ => cleanatdone_error _) (fun _ => ?_)
  have c1 : reg_clean (hw_enter K E (hw_start s)).trace :=
    adds_clean (adds_hw_enter not_reg not_reg_command not_reg_enter K E) _ reg_clean_nil
  refine cleanatdone_ite (fun _ => cleanatdone_error _) (fun h2 => ?_)
  have c2 := hw_read_reg_clean K (command_set_v3 K) E 0x0008 _ c1 h2
  have ct : CleanAtDone
      (if (hw_read_reg K (command_set_v3 K) E 0x0008 (hw_enter K E (hw_start s))).ret.toNat
          &&& 0x80 ≠ 0 then
        alps_hw_init_v3_trackstick K E
          (hw_read_reg K (command_set_v3 K) E 0x0008 (hw_enter K E (hw_start s)))
      else (hw_read_reg K (command_set_v3 K) E 0x0008 (hw_enter K E (hw_start s)),
        v3_label.done)) :=
    cleanatdone_ite (fun _ => hw_init_v3_trackstick_clean K E _ c2) (fun _ _ => c2)
  refine cleanatdone_ite (fun h => fun h2 => absurd h2 h) (fun h3 => ?_)
  have c3 := ct (not_not.1 h3)
  refine cleanatdone_ite (fun _ => cleanatdone_error _) (fun h4 => ?_)
  intro _
  refine guarded_until_failure _ ?_ _ c3 (by simpa using h4)
  intro f hf
  simp only [List.mem_cons, List.mem_singleton, List.not_mem_nil, or_false] at hf
  rcases hf with rfl | rfl | rfl | rfl | rfl | rfl | rfl | rfl | rfl | rfl
  · exact guarded_absolute_mode_v3 K _ E
  · exact guarded_hw_read_then_write K _ E _ _
  · exact guarded_hw_read_then_write K _ E _ _
  · exact guarded_hw_read_then_write K _ E _ _
  · exact guarded_hw_read_then_write K _ E _ _
  · exact guarded_hw_read_check K _ E _
  · exact guarded_hw_write_reg _ E _ _
  · exact guarded_hw_read_check K _ E _
  · exact guarded_hw_write_reg _ E _ _
  · exact guarded_hw_write_reg _ E _ _

lemma hw_init_v3_reports {σ : Type} (K : psmouse_commands) (E : psmouse_io σ) (s : σ) :
    ReportsFailure (alps_hw_init_v3 K E s) := by
  have hb := hw_init_v3_body_clean K E s
  unfold alps_hw_init_v3
  dsimp only
  cases hl : (alps_hw_init_v3_body K E s).2
  · dsimp only
    refine reports_ite (fun _ => reports_fail _) (fun _ => ?_)
    exact reports_zero _ (adds_clean (adds_set_rate_and_enable not_reg not_reg_command K E) _
      (adds_clean (adds_hw_exit not_reg not_reg_command not_reg_exit K E) _ (hb hl)))
  · exact reports_fail _
  · exact reports_fail _
lemma reports_of_ok {σ : Type} (w : HwRun σ) (h : OkClean w) :
    ReportsFailure { w with ret := if w.ok then 0 else -1 } := by
  by_cases hok : w.ok = true
  · exact ⟨Or.inl (by simp [hok]), fun _ => h hok⟩
  · exact ⟨Or.inr (by simp [hok]), fun h0 => by simp [hok] at h0⟩

lemma hw_init_v5_tail_reports {σ : Type} (K : psmouse_commands) (E : psmouse_io σ)
    (has_trackstick : Bool) (w : HwRun σ) (h : OkClean w) :
    ReportsFailure (alps_hw_init_v5_unified_tail K E has_trackstick w) := by
  unfold alps_hw_init_v5_unified_tail
  dsimp only
  apply reports_of_ok
  refine okclean_hw_and
    (adds_guarded (adds_set_rate_and_enable not_reg not_reg_command K E) _) ?_
  refine okclean_adds (adds_hw_exit not_reg not_reg_command not_reg_exit K E) (fun _ => rfl) ?_
  refine okclean_hw_and (guarded_hw_checkset_reg K _ E _ _) ?_
  refine okclean_hw_and (guarded_hw_write_reg _ E _ _) ?_
  refine okclean_hw_and (guarded_hw_check_reg K _ E _ _) ?_
  exact okclean_hw_and (guarded_hw_checkset_reg K _ E _ _) h

lemma hw_init_v5_reports {σ : Type} (K : psmouse_commands) (E : psmouse_io σ) (s : σ) :
    ReportsFailure (alps_hw_init_v5_unified K E s) := by
  have k2 : OkClean (hw_and (fun r => decide (r = 0)) (hw_enter K E)
      (hw_and (fun r => decide (r = 0)) (hw_reset E) (hw_start s))) :=
    okclean_hw_and (adds_guarded (adds_hw_enter not_reg not_reg_command not_reg_enter K E) _)
      (okclean_hw_and (adds_guarded (adds_hw_reset not_reg not_reg_reset E) _)
        (okclean_start s))
  have k3 := okclean_hw_and (guarded_hw_read_reg K (command_set_v3 K) E 0xc2c8) k2
  have k6 := okclean_adds (adds_hw_get_e7_report not_reg not_reg_command K E) (fun _ => rfl)
    (okclean_adds (adds_hw_exit not_reg not_reg_command not_reg_exit K E) (fun _ => rfl)
      (okclean_hw_and (guarded_hw_write_value (command_set_v3 K) E 0x81) k3))
  unfold alps_hw_init_v5_unified
  dsimp only
  refine reports_ite (fun _ => reports_fail _) (fun _ => ?_)
  refine reports_ite (fun _ => reports_fail _) (fun _ => ?_)
  refine reports_ite (fun _ => ?_) (fun _ => hw_init_v5_tail_reports K E false _ k3)
  refine reports_ite (fun _ => reports_fail _) (fun _ => ?_)
  apply hw_init_v5_tail_reports
  refine okclean_hw_and (guarded_hw_checkset_reg K _ E _ _) ?_
  refine okclean_hw_and
    (adds_guarded (adds_hw_enter not_reg not_reg_command not_reg_enter K E) _) ?_
  exact okclean_ite _ k6
    (okclean_hw_and
      (adds_guarded
        (adds_e6_sort_of_setmode not_reg not_reg_command K (command_set_v3 K) E 0x94) _) k6)

lemma hw_init_reports {σ : Type} (K : psmouse_commands) (E : psmouse_io σ)
    (model : alps_model_info) (s : σ) (hv6 : model.proto_version ≠ ALPS_PROTO_V6) :
    ReportsFailure (alps_hw_init K E model s) := by
  unfold alps_hw_init
  cases hpv : model.proto_version <;> dsimp only
  · exact hw_init_v1_v2_reports K E model s
  · exact hw_init_v1_v2_reports K E model s
  · exact hw_init_v3_reports K E s
  · exact hw_init_v4_reports K E s
  · exact hw_init_v5_reports K E s
  · exact absurd hpv hv6

/-- C21 (what the code does). For the protocol versions V1 to V5 and every behaviour of
the transport, of `psmouse_reset` and of `ps2_drain`, `alps_hw_init` returns 0 or -1, and
it returns -1 whenever a register read or a register write it issued failed. For V6 it
returns 0 on every run, whatever the register operations returned. -/
theorem hw_init_register_failure {σ : Type} (K : psmouse_commands) (E : psmouse_io σ)
    (model : alps_model_info) (s : σ) :
    (model.proto_version ≠ ALPS_PROTO_V6 →
        ((alps_hw_init K E model s).ret = 0 ∨ (alps_hw_init K E model s).ret = -1) ∧
        ((∃ e ∈ (alps_hw_init K E model s).trace, reg_failed e) →
          (alps_hw_init K E model s).ret = -1)) ∧
      (model.proto_version = ALPS_PROTO_V6 → (alps_hw_init K E model s).ret = 0) := by
  refine ⟨fun hv6 => ?_, fun hv6 => ?_⟩
  · obtain ⟨hret, hclean⟩ := hw_init_reports K E model s hv6
    refine ⟨hret, fun ⟨e, he, hf⟩ => ?_⟩
    rcases hret with h0 | h1
    · exact absurd hf (hclean h0 e he)
    · exact h1
  · unfold alps_hw_init
    rw [hv6]
    rfl

theorem hw_init_register_failure_witness :
    (hw_event.read_reg 0x0008 (-1) ∈
        (alps_hw_init linux_psmouse_commands scripted_io model_v3_9d
          [(false, []), (false, []), (false, []), (false, [0x88, 0x07, 0x9d])]).trace ∧
      (alps_hw_init linux_psmouse_commands scripted_io model_v3_9d
          [(false, []), (false, []), (false, []), (false, [0x88, 0x07, 0x9d])]).ret = -1) ∧
      (hw_event.write_reg 0x001f 0x08 (-1) ∈
          (alps_hw_init linux_psmouse_commands scripted_io model_dell_n5110 []).trace ∧
        reg_failed (hw_event.write_reg 0x001f 0x08 (-1)) ∧
        (alps_hw_init linux_psmouse_commands scripted_io model_dell_n5110 []).ret = 0) :=
  ⟨⟨by decide,
      ((hw_init_register_failure linux_psmouse_commands scripted_io model_v3_9d
        [(false, []), (false, []), (false, []), (false, [0x88, 0x07, 0x9d])]).1
        (by decide)).2 ⟨hw_event.read_reg 0x0008 (-1), by decide, by decide⟩⟩,
    by decide, by decide,
    (hw_init_register_failure linux_psmouse_commands scripted_io model_dell_n5110 []).2
      (by decide)⟩

/-! ### Leaving command mode on the failure paths -/

lemma not_enter_command (c : ps2_call) : not_enter (hw_event.command c) := rfl

lemma not_exit_command (c : ps2_call) : not_exit (hw_event.command c) := trivial

lemma exits_of_hw_exit {σ : Type} (K : psmouse_commands) (E : psmouse_io σ) (w : HwRun σ) :
    exits_after_last_enter K (hw_exit K E w).trace := by
  refine ⟨w.trace, ⟨K.SETSTREAM, none, (E.transport w.state none K.SETSTREAM).failed,
    (E.transport w.state none K.SETSTREAM).param.map (· % 256)⟩,
    (alps_exit_command_mode K E.transport w.state).ret, [], ?_, rfl,
    fun e he => absurd he (List.not_mem_nil e)⟩
  unfold hw_exit
  rw [hw_op_trace]
  unfold alps_exit_command_mode ps2_command
  dsimp only
  split_ifs <;> rfl

lemma exits_append (K : psmouse_commands) (t post : List hw_event)
    (h : exits_after_last_enter K t) (hp : ∀ e ∈ post, not_enter e) :
    exits_after_last_enter K (t ++ post) := by
  obtain ⟨pre, c, r, p, ht, hc, hne⟩ := h
  refine ⟨pre, c, r, p ++ post, by rw [ht]; simp, hc, fun e he => ?_⟩
  rcases List.mem_append.1 he with he | he
  · exact hne e he
  · exact hp e he

lemma exits_adds {σ : Type} (K : psmouse_commands) {f : HwRun σ → HwRun σ}
    (hf : Adds not_enter f) (w : HwRun σ) (h : exits_after_last_enter K w.trace) :
    exits_after_last_enter K (f w).trace := by
  obtain ⟨post, ht, hp⟩ := hf w
  rw [ht]
  exact exits_append K _ _ h hp

lemma exits_ite {σ : Type} (K : psmouse_commands) {c : Prop} [Decidable c] {a b : HwRun σ}
    (ha : c → exits_after_last_enter K a.trace) (hb : ¬ c → exits_after_last_enter K b.trace) :
    exits_after_last_enter K (if c then a else b).trace := by
  split_ifs with h
  · exact ha h
  · exact hb h

lemma hw_init_v3_exits {σ : Type} (K : psmouse_commands) (E : psmouse_io σ) (s : σ) :
    exits_after_last_enter K (alps_hw_init_v3 K E s).trace := by
  unfold alps_hw_init_v3
  dsimp only
  cases (alps_hw_init_v3_body K E s).2 <;> dsimp only
  · refine exits_ite K (fun _ => ?_) (fun _ => ?_) <;>
      exact exits_adds K (adds_set_rate_and_enable not_enter not_enter_command K E) _
        (exits_of_hw_exit K E _)
  · exact exits_of_hw_exit K E _
  · exact exits_of_hw_exit K E _

lemma hw_init_v4_exits {σ : Type} (K : psmouse_commands) (E : psmouse_io σ) (s : σ) :
    exits_after_last_enter K (alps_hw_init_v4 K E s).trace := by
  have h1 : ∀ w : HwRun σ, exits_after_last_enter K (until_failure
      [ hw_send_nibble (command_set_v4 K) E 0x9, hw_send_nibble (command_set_v4 K) E 0x8,
        hw_send_nibble (command_set_v4 K) E 0x7, hw_send_nibble (command_set_v4 K) E 0xa ]
      (hw_exit K E w)).trace := by
    intro w
    refine exits_adds K (adds_until_failure not_enter _ ?_) _ (exits_of_hw_exit K E w)
    intro f hf
    simp only [List.mem_cons, List.mem_singleton, List.not_mem_nil, or_false] at hf
    rcases hf with rfl | rfl | rfl | rfl <;>
      exact adds_hw_send_nibble not_enter not_enter_command _ _ _
  unfold alps_hw_init_v4
  dsimp only
  refine exits_ite K (fun _ => exits_of_hw_exit K E _) (fun _ => ?_)
  refine exits_ite K (fun _ => h1 _) (fun _ => ?_)
  refine exits_ite K (fun _ => ?_) (fun _ => ?_) <;>
    exact exits_adds K (adds_set_rate_and_enable not_enter not_enter_command K E) _ (h1 _)

lemma hw_init_v5_tail_exits {σ : Type} (K : psmouse_commands) (E : psmouse_io σ)
    (has_trackstick : Bool) (w : HwRun σ) :
    exits_after_last_enter K (alps_hw_init_v5_unified_tail K E has_trackstick w).trace := by
  unfold alps_hw_init_v5_unified_tail
  dsimp only
  exact exits_adds K
    (adds_hw_and (adds_set_rate_and_enable not_enter not_enter_command K E) _) _
    (exits_of_hw_exit K E _)

lemma hw_init_v5_exits {σ : Type} (K : psmouse_commands) (E : psmouse_io σ) (s : σ)
    (hok : (hw_and (fun r => decide (r = 0)) (hw_enter K E)
      (hw_and (fun r => decide (r = 0)) (hw_reset E) (hw_start s))).ok = true) :
    exits_after_last_enter K (alps_hw_init_v5_unified K E s).trace := by
  unfold alps_hw_init_v5_unified
  dsimp only
  rw [if_neg (not_not.2 hok)]
  refine exits_ite K (fun _ => exits_of_hw_exit K E _) (fun _ => ?_)
  refine exits_ite K (fun _ => ?_) (fun _ => hw_init_v5_tail_exits K E false _)
  refine exits_ite K (fun _ => exits_of_hw_exit K E _) (fun _ => ?_)
  exact hw_init_v5_tail_exits K E _ _

lemma hw_init_v5_no_exit {σ : Type} (K : psmouse_commands) (E : psmouse_io σ) (s : σ)
    (hok : (hw_and (fun r => decide (r = 0)) (hw_enter K E)
      (hw_and (fun r => decide (r = 0)) (hw_reset E) (hw_start s))).ok = false) :
    (alps_hw_init_v5_unified K E s).ret = -1 ∧
      ∀ e ∈ (alps_hw_init_v5_unified K E s).trace, not_exit e := by
  have ha : Adds not_exit (fun w : HwRun σ => hw_and (fun r => decide (r = 0)) (hw_enter K E)
      (hw_and (fun r => decide (r = 0)) (hw_reset E) w)) :=
    adds_comp (adds_hw_and (adds_hw_reset not_exit (fun _ => trivial) E) _)
      (adds_hw_and (adds_hw_enter not_exit not_exit_command (fun _ => trivial) K E) _)
  obtain ⟨post, ht, hp⟩ := ha (hw_start s)
  unfold alps_hw_init_v5_unified
  dsimp only
  rw [if_pos (by rw [hok]; decide)]
  refine ⟨rfl, fun e he => hp e ?_⟩
  dsimp only at ht he
  rw [ht] at he
  simpa [hw_start] using he

/-- C22 (what the code does). For V3 and V4 every run of `alps_hw_init`, whatever the
transport does, exits command mode after its last attempt to enter it: the trace holds a
`PSMOUSE_CMD_SETSTREAM` command issued by `alps_exit_command_mode` and no return of
`alps_enter_command_mode` after it. For V5 this holds of every run in which
`psmouse_reset` and the first `alps_enter_command_mode` succeed; when one of them fails,
`alps_hw_init` returns -1 and no call of `alps_exit_command_mode` was made. For V6 no run
returns failure. -/
theorem hw_init_exits_command_mode {σ : Type} (K : psmouse_commands) (E : psmouse_io σ)
    (model : alps_model_info) (s : σ) :
    (model.proto_version = ALPS_PROTO_V3 ∨ model.proto_version = ALPS_PROTO_V4 →
        exits_after_last_enter K (alps_hw_init K E model s).trace) ∧
      (model.proto_version = ALPS_PROTO_V5 →
        ((hw_and (fun r => decide (r = 0)) (hw_enter K E)
            (hw_and (fun r => decide (r = 0)) (hw_reset E) (hw_start s))).ok = true →
          exits_after_last_enter K (alps_hw_init K E model s).trace) ∧
        ((hw_and (fun r => decide (r = 0)) (hw_enter K E)
            (hw_and (fun r => decide (r = 0)) (hw_reset E) (hw_start s))).ok = false →
          (alps_hw_init K E model s).ret = -1 ∧
            ∀ e ∈ (alps_hw_init K E model s).trace, not_exit e)) ∧
      (model.proto_version = ALPS_PROTO_V6 → (alps_hw_init K E model s).ret = 0) := by
  refine ⟨fun h => ?_, fun h => ?_, fun h => ?_⟩
  · unfold alps_hw_init
    rcases h with h | h <;> rw [h] <;> dsimp only
    · exact hw_init_v3_exits K E s
    · exact hw_init_v4_exits K E s
  · unfold alps_hw_init
    rw [h]
    dsimp only
    exact ⟨hw_init_v5_exits K E s, hw_init_v5_no_exit K E s⟩
  · unfold alps_hw_init
    rw [h]
    rfl

theorem hw_init_exits_command_mode_witness :
    hw_event.enter_command_mode (-1) ∈
        (alps_hw_init linux_psmouse_commands scripted_io model_dell_e6430
          [(false, []), (false, []), (false, []), (false, [0, 0, 0])]).trace ∧
      (alps_hw_init linux_psmouse_commands scripted_io model_dell_e6430
          [(false, []), (false, []), (false, []), (false, [0, 0, 0])]).ret = -1 ∧
      ∀ e ∈ (alps_hw_init linux_psmouse_commands scripted_io model_dell_e6430
          [(false, []), (false, []), (false, []), (false, [0, 0, 0])]).trace, not_exit e :=
  ⟨by decide,
    ((hw_init_exits_command_mode linux_psmouse_commands scripted_io model_dell_e6430
      [(false, []), (false, []), (false, []), (false, [0, 0, 0])]).2.1 (by decide)).2
      (by decide)⟩

/-! ### First bytes, contact slots and the nibble tables -/

lemma table_first_byte_high_bit :
    ∀ m ∈ alps_model_data, m.mask0 &&& 0x80 = 0x80 ∧ m.byte0 &&& 0x80 = 0x80 := by
  decide

lemma and_high_bit_of_masked (b mask v : Nat) (hm : mask &&& 0x80 = 0x80)
    (hv : v &&& 0x80 = 0x80) (h : b &&& mask = v) : b &&& 0x80 ≠ 0 := by
  have h1 : (b &&& mask) &&& 0x80 = 0x80 := by rw [h, hv]
  rw [Nat.and_assoc, hm] at h1
  rw [h1]
  decide

/-- C37. For every row of `alps_model_data` and every byte, the byte does not pass both
the first-byte test of the row (`alps_is_valid_first_byte`) and the bare PS/2 test
`(byte & 0xc8) == 0x08` of line 967: every row has bit 7 set in `mask0` and in `byte0`,
so a valid first byte has bit 7 set, and a bare PS/2 first byte has it clear. Hence in
`alps_process_byte` a buffer whose first byte is valid for the model is never handled by
the bare PS/2 branch. -/
theorem valid_first_byte_is_not_bare_ps2 (model : alps_model_info)
    (hm : model ∈ alps_model_data) (data : Nat) :
    ¬ (alps_is_valid_first_byte model data = true ∧ data &&& 0xc8 = 0x08) ∧
      (alps_is_valid_first_byte model data = true → data &&& 0x80 ≠ 0) ∧
      (∀ ps : psmouse, alps_is_valid_first_byte model (byte_at ps.packet 0) = true →
        ∀ b0 b1 b2 rb, FramingCall.report_bare_ps2_packet b0 b1 b2 rb ∈
            (alps_process_byte model ps).2.2 → InterleavedActive model ps) := by
  obtain ⟨hmask, hbyte⟩ := table_first_byte_high_bit model hm
  have hhigh : ∀ d, alps_is_valid_first_byte model d = true → d &&& 0x80 ≠ 0 := by
    intro d hv
    unfold alps_is_valid_first_byte at hv
    exact and_high_bit_of_masked d _ _ hmask hbyte (by simpa using hv)
  refine ⟨fun h => not_bare_of_high_bit data (hhigh data h.1) h.2, hhigh data,
    fun ps hv b0 b1 b2 rb hmem => ?_⟩
  have hnb := not_bare_of_high_bit _ (hhigh _ hv)
  unfold alps_process_byte at hmem
  rw [if_neg hnb] at hmem
  by_cases hIA : model.flags &&& ALPS_PS2_INTERLEAVED ≠ 0 ∧ ps.pktcnt ≥ 4
      ∧ byte_at ps.packet 3 &&& 0x0f = 0x0f
  · exact hIA
  · rw [if_neg hIA] at hmem
    split_ifs at hmem <;> simp at hmem

theorem valid_first_byte_is_not_bare_ps2_witness :
    model_plain_v2 ∈ alps_model_data ∧
      alps_is_valid_first_byte model_plain_v2 0xf8 = true ∧ (0xf8 : Nat) &&& 0x80 ≠ 0 :=
  ⟨by decide, by decide,
    (valid_first_byte_is_not_bare_ps2 model_plain_v2 (by decide) 0xf8).2.1 (by decide)⟩

/-- C38. `alps_report_semi_mt_data` selects slot 0, reports it active exactly when the
finger count is not 0 and sends its coordinates only then; it then selects slot 1,
reports it active exactly when the finger count is 2 and sends its coordinates only
then. For a finger count of 3 or more (or any count other than 0 and 2) slot 0 alone is
active. -/
theorem semi_mt_slot_states (dev : Dev) (n x1 y1 x2 y2 : Int) :
    alps_report_semi_mt_data dev n x1 y1 x2 y2 =
        [InputEvent.mt_slot dev 0, InputEvent.mt_slot_state dev (decide (n ≠ 0))] ++
          (if n ≠ 0 then [InputEvent.abs dev AbsAxis.ABS_MT_POSITION_X x1,
            InputEvent.abs dev AbsAxis.ABS_MT_POSITION_Y y1] else []) ++
          [InputEvent.mt_slot dev 1, InputEvent.mt_slot_state dev (decide (n = 2))] ++
          (if n = 2 then [InputEvent.abs dev AbsAxis.ABS_MT_POSITION_X x2,
            InputEvent.abs dev AbsAxis.ABS_MT_POSITION_Y y2] else []) ∧
      (n = 0 → alps_report_semi_mt_data dev n x1 y1 x2 y2 =
        [InputEvent.mt_slot dev 0, InputEvent.mt_slot_state dev false,
          InputEvent.mt_slot dev 1, InputEvent.mt_slot_state dev false]) ∧
      (n = 2 → alps_report_semi_mt_data dev n x1 y1 x2 y2 =
        [InputEvent.mt_slot dev 0, InputEvent.mt_slot_state dev true,
          InputEvent.abs dev AbsAxis.ABS_MT_POSITION_X x1,
          InputEvent.abs dev AbsAxis.ABS_MT_POSITION_Y y1,
          InputEvent.mt_slot dev 1, InputEvent.mt_slot_state dev true,
          InputEvent.abs dev AbsAxis.ABS_MT_POSITION_X x2,
          InputEvent.abs dev AbsAxis.ABS_MT_POSITION_Y y2]) ∧
      (n ≠ 0 → n ≠ 2 → alps_report_semi_mt_data dev n x1 y1 x2 y2 =
        [InputEvent.mt_slot dev 0, InputEvent.mt_slot_state dev true,
          InputEvent.abs dev AbsAxis.ABS_MT_POSITION_X x1,
          InputEvent.abs dev AbsAxis.ABS_MT_POSITION_Y y1,
          InputEvent.mt_slot dev 1, InputEvent.mt_slot_state dev false]) := by
  unfold alps_report_semi_mt_data alps_set_slot
  refine ⟨?_, ?_, ?_, ?_⟩
  · by_cases h0 : n = 0 <;> by_cases h2 : n = 2 <;> simp [h0, h2]
  · intro h0
    subst h0
    simp
  · intro h2
    subst h2
    simp
  · intro h0 h2
    simp [h0, h2]

theorem semi_mt_slot_states_witness :
    alps_report_semi_mt_data Dev.dev1 3 10 20 30 40 =
      [InputEvent.mt_slot Dev.dev1 0, InputEvent.mt_slot_state Dev.dev1 true,
        InputEvent.abs Dev.dev1 AbsAxis.ABS_MT_POSITION_X 10,
        InputEvent.abs Dev.dev1 AbsAxis.ABS_MT_POSITION_Y 20,
        InputEvent.mt_slot Dev.dev1 1, InputEvent.mt_slot_state Dev.dev1 false] :=
  (semi_mt_slot_states Dev.dev1 3 10 20 30 40).2.2.2 (by decide) (by decide)

/-- C39. When the command codes that the tables use are pairwise distinct (they are
defined in psmouse.h) and differ from `ALPS_CMD_NIBBLE_10`, each of the tables
`alps_v3_nibble_commands` and `alps_v4_nibble_commands` has 16 entries, its entries are
pairwise distinct as (command, data) pairs, and no entry has the address-prefix command
of its command set (`PSMOUSE_CMD_RESET_WRAP` for the V3 set, `PSMOUSE_CMD_DISABLE` for
the V4 set). The two tables have the same entries for the nibbles 1 to 15 and differ at
nibble 0. -/
theorem nibble_tables_injective (K : psmouse_commands)
    (hK : [K.SETPOLL, K.ENABLE, K.RESET_DIS, K.SETSCALE21, K.SETRATE, ALPS_CMD_NIBBLE_10,
      K.SETRES, K.SETSCALE11, K.RESET_WRAP, K.DISABLE].Nodup) :
    (alps_v3_nibble_commands K).length = 16 ∧ (alps_v4_nibble_commands K).length = 16 ∧
      (alps_v3_nibble_commands K).Nodup ∧ (alps_v4_nibble_commands K).Nodup ∧
      (∀ e ∈ (command_set_v3 K).nibble_commands, e.command ≠ (command_set_v3 K).addr_command) ∧
      (∀ e ∈ (command_set_v4 K).nibble_commands, e.command ≠ (command_set_v4 K).addr_command) ∧
      (alps_v3_nibble_commands K).tail = (alps_v4_nibble_commands K).tail ∧
      (alps_v3_nibble_commands K).head? ≠ (alps_v4_nibble_commands K).head? := by
  simp only [List.nodup_cons, List.mem_cons, List.mem_singleton, List.not_mem_nil,
    List.nodup_nil, not_or, or_false, and_true] at hK
  obtain ⟨h1, h2, h3, h4, h5, h6, h7, h8, h9⟩ := hK
  refine ⟨rfl, rfl, ?_, ?_, ?_, ?_, rfl, ?_⟩
  · simp [alps_v3_nibble_commands, h1, h2, h3, h4, h5, h6, h7, h8, h9]
  · simp [alps_v4_nibble_commands, h1, h2, h3, h4, h5, h6, h7, h8, h9]
  · intro e he
    simp only [command_set_v3, alps_v3_nibble_commands, List.mem_cons, List.mem_singleton,
      List.not_mem_nil, or_false] at he
    rcases he with rfl | rfl | rfl | rfl | rfl | rfl | rfl | rfl | rfl | rfl | rfl | rfl |
      rfl | rfl | rfl | rfl <;> simp [command_set_v3, h1, h2, h3, h4, h5, h6, h7, h8, h9]
  · intro e he
    simp only [command_set_v4, alps_v4_nibble_commands, List.mem_cons, List.mem_singleton,
      List.not_mem_nil, or_false] at he
    rcases he with rfl | rfl | rfl | rfl | rfl | rfl | rfl | rfl | rfl | rfl | rfl | rfl |
      rfl | rfl | rfl | rfl <;> simp [command_set_v4, h1, h2, h3, h4, h5, h6, h7, h8, h9]
  · simp [alps_v3_nibble_commands, alps_v4_nibble_commands, h1]

theorem nibble_tables_injective_witness :
    (alps_v3_nibble_commands linux_psmouse_commands).Nodup ∧
      (alps_v4_nibble_commands linux_psmouse_commands).Nodup :=
  ⟨(nibble_tables_injective linux_psmouse_commands (by decide)).2.2.1,
    (nibble_tables_injective linux_psmouse_commands (by decide)).2.2.2.1⟩

/-! ### The V4 fragment counter stays in range -/

lemma v4_events_ne_nil (g : Geometry) (priv : alps_data) (packet : List Nat)
    (uninit : BitmapCoords)
    (hle : (if byte_at packet 6 &&& 0x40 ≠ 0 then (0 : Int) else priv.multi_packet) ≤ 2) :
    (alps_process_packet_v4 g priv packet uninit).events ≠ [] := by
  have hng : ¬ (if byte_at packet 6 &&& 0x40 ≠ 0 then (0 : Int) else priv.multi_packet) > 2 := by
    omega
  unfold alps_process_packet_v4
  simp only [if_neg hng]
  exact fun h => by simp at h

lemma v4_step_in_range (g : Geometry) (priv : alps_data) (packet : List Nat)
    (uninit : BitmapCoords) (h0 : 0 ≤ priv.multi_packet) (h2 : priv.multi_packet ≤ 2) :
    0 ≤ (alps_process_packet_v4 g priv packet uninit).priv.multi_packet ∧
      (alps_process_packet_v4 g priv packet uninit).priv.multi_packet ≤ 2 ∧
      (alps_process_packet_v4 g priv packet uninit).priv.multi_data =
        v4_store_fragment priv.multi_data
          (if byte_at packet 6 &&& 0x40 ≠ 0 then 0 else priv.multi_packet) packet := by
  obtain ⟨hc0, hc2⟩ := v4_counter_after_reset priv packet h0 h2
  obtain ⟨hpriv, _⟩ := v4_priv_and_calls g priv packet uninit _ rfl hc2
  rw [hpriv]
  split_ifs <;> refine ⟨?_, ?_, rfl⟩ <;> dsimp only <;> omega

lemma v4_run_in_range (g : Geometry) (inputs : List (List Nat × BitmapCoords)) :
    ∀ (priv : alps_data) (stored : Nat), 0 ≤ priv.multi_packet → priv.multi_packet ≤ 2 →
      ∀ e ∈ v4_run g priv stored inputs,
        0 ≤ e.1.priv.multi_packet ∧ e.1.priv.multi_packet ≤ 2 ∧ e.1.events ≠ [] := by
  induction inputs with
  | nil => intro priv stored _ _ e he; simp [v4_run] at he
  | cons inp rest ih =>
    intro priv stored h0 h2 e he
    obtain ⟨packet, uninit⟩ := inp
    obtain ⟨hr0, hr2, _⟩ := v4_step_in_range g priv packet uninit h0 h2
    have hev := v4_events_ne_nil g priv packet uninit (v4_counter_after_reset priv packet h0 h2).2
    simp only [v4_run, List.mem_cons] at he
    rcases he with he | he
    · rw [he]
      exact ⟨hr0, hr2, hev⟩
    · exact ih _ _ hr0 hr2 e he

/-- C36. If `priv->multi_packet` is 0, 1 or 2 before a call of `alps_process_packet_v4`,
then the guard `WARN_ON_ONCE(priv->multi_packet > 2)` does not fire and the packet is
reported, the two fragment bytes `packet[6]` and `packet[7]` are stored at the indices
`k` and `k + 1` of `priv->multi_data` for a `k` among 0, 2, 4 (so only indices 0 to 5
are written), and `priv->multi_packet` is 0, 1 or 2 after the call. Hence over every
sequence of packets decoded from such a state, the zero-initialised one included, the
counter stays in range and no packet is dropped by the guard. -/
theorem v4_fragment_counter_in_range (g : Geometry) (priv : alps_data) (packet : List Nat)
    (uninit : BitmapCoords) (h0 : 0 ≤ priv.multi_packet) (h2 : priv.multi_packet ≤ 2) :
    (0 ≤ (alps_process_packet_v4 g priv packet uninit).priv.multi_packet ∧
        (alps_process_packet_v4 g priv packet uninit).priv.multi_packet ≤ 2) ∧
      (alps_process_packet_v4 g priv packet uninit).events ≠ [] ∧
      (∃ k : Nat, (k = 0 ∨ k = 2 ∨ k = 4) ∧
        ((k : Int) = 2 * (if byte_at packet 6 &&& 0x40 ≠ 0 then 0 else priv.multi_packet)) ∧
        (alps_process_packet_v4 g priv packet uninit).priv.multi_data =
          (priv.multi_data.set k (byte_at packet 6)).set (k + 1) (byte_at packet 7)) ∧
      (∀ i, 6 ≤ i →
        byte_at (alps_process_packet_v4 g priv packet uninit).priv.multi_data i =
          byte_at priv.multi_data i) ∧
      (∀ (inputs : List (List Nat × BitmapCoords)) (stored : Nat),
        ∀ e ∈ v4_run g priv stored inputs,
          0 ≤ e.1.priv.multi_packet ∧ e.1.priv.multi_packet ≤ 2 ∧ e.1.events ≠ []) := by
  obtain ⟨hc0, hc2⟩ := v4_counter_after_reset priv packet h0 h2
  obtain ⟨hr0, hr2, hmd⟩ := v4_step_in_range g priv packet uninit h0 h2
  have hk : ∃ k : Nat, (k = 0 ∨ k = 2 ∨ k = 4) ∧
      ((k : Int) = 2 * (if byte_at packet 6 &&& 0x40 ≠ 0 then 0 else priv.multi_packet)) ∧
      (alps_process_packet_v4 g priv packet uninit).priv.multi_data =
        (priv.multi_data.set k (byte_at packet 6)).set (k + 1) (byte_at packet 7) := by
    refine ⟨(2 * (if byte_at packet 6 &&& 0x40 ≠ 0 then (0 : Int)
      else priv.multi_packet)).toNat, ?_, ?_, ?_⟩
    · omega
    · omega
    · rw [hmd]
      rfl
  refine ⟨⟨hr0, hr2⟩, v4_events_ne_nil g priv packet uninit hc2, hk, fun i hi => ?_,
    fun inputs stored => v4_run_in_range g inputs priv stored h0 h2⟩
  obtain ⟨k, hk1, _, hk3⟩ := hk
  rw [hk3, byte_at_set, byte_at_set]
  have h1 : ¬ (k + 1 = i ∧ k + 1 < (priv.multi_data.set k (byte_at packet 6)).length) := by
    omega
  have h2 : ¬ (k = i ∧ k < priv.multi_data.length) := by omega
  rw [if_neg h1, if_neg h2]

theorem v4_fragment_counter_in_range_witness :
    (0 : Int) ≤ alps_data_zero.multi_packet ∧ alps_data_zero.multi_packet ≤ 2 ∧
      ∀ e ∈ v4_run geometry_v3_v4_v5 alps_data_zero 0
          [ ([0, 0, 0, 0, 0, 0, 0x01, 0x02], ⟨0, 0, 0, 0⟩),
            ([0, 0, 0, 0, 0, 0, 0x03, 0x04], ⟨0, 0, 0, 0⟩),
            ([0, 0, 0, 0, 0, 0, 0x05, 0x06], ⟨0, 0, 0, 0⟩),
            ([0, 0, 0, 0, 0, 0, 0x07, 0x08], ⟨0, 0, 0, 0⟩) ],
        0 ≤ e.1.priv.multi_packet ∧ e.1.priv.multi_packet ≤ 2 ∧ e.1.events ≠ [] :=
  ⟨by decide, by decide,
    (v4_fragment_counter_in_range geometry_v3_v4_v5 alps_data_zero [] ⟨0, 0, 0, 0⟩
      (by decide) (by decide)).2.2.2.2 _ 0⟩


/-! ### V1/V2 packets: trackstick data and the tap-and-drag event -/

lemma v1_v2_middle_eq (model : alps_model_info) (packet : List Nat) :
    (if model.flags &&& ALPS_FW_BK_2 ≠ 0 then
        (if (if model.flags &&& ALPS_FW_BK_2 ≠ 0 then byte_at packet 2 &&& 4
              else if model.flags &&& ALPS_FW_BK_1 ≠ 0 then byte_at packet 2 &&& 4 else 0) ≠ 0 ∧
            (if model.flags &&& ALPS_FW_BK_2 ≠ 0 then byte_at packet 3 &&& 4
              else if model.flags &&& ALPS_FW_BK_1 ≠ 0 then byte_at packet 0 &&& 0x10 else 0) ≠ 0
          then 1 else 0)
      else if model.proto_version = ALPS_PROTO_V1 then 0 else byte_at packet 3 &&& 4) =
      v1_v2_middle model packet := by
  unfold v1_v2_middle
  by_cases h : model.flags &&& ALPS_FW_BK_2 ≠ 0
  · simp only [if_pos h]
  · simp only [if_neg h]

/-- The result of `alps_process_packet_v1_v2` for a trackstick packet. -/
lemma v1_v2_trackstick_result (model : alps_model_info) (key_state : Dev → Key → Bool)
    (priv : alps_data) (packet : List Nat) (hd : v1_v2_trackstick_packet model packet) :
    alps_process_packet_v1_v2 model key_state priv packet =
      (priv,
        [ InputEvent.rel Dev.dev2 RelAxis.REL_X
            (if v1_v2_x model packet > 383 then (v1_v2_x model packet : Int) - 768
              else (v1_v2_x model packet : Int)),
          InputEvent.rel Dev.dev2 RelAxis.REL_Y
            (-(if v1_v2_y model packet > 255 then (v1_v2_y model packet : Int) - 512
              else (v1_v2_y model packet : Int))) ]
        ++ alps_report_buttons key_state Dev.dev2 Dev.dev1 (v1_v2_left model packet)
            (v1_v2_right model packet) (v1_v2_middle model packet)
        ++ [InputEvent.sync Dev.dev2]) := by
  rw [← v1_v2_middle_eq]
  unfold v1_v2_trackstick_packet at hd
  unfold alps_process_packet_v1_v2 v1_v2_x v1_v2_y v1_v2_left v1_v2_right
  simp only [if_pos hd]

/-- The result of `alps_process_packet_v1_v2` for a touchpad packet: the button report,
the synthetic event when the packet starts a tap-and-drag, and the normal report. -/
lemma v1_v2_touchpad_result (model : alps_model_info) (key_state : Dev → Key → Bool)
    (priv : alps_data) (packet : List Nat) (hd : ¬ v1_v2_trackstick_packet model packet) :
    alps_process_packet_v1_v2 model key_state priv packet =
      ({ priv with prev_fin := byte_at packet 2 &&& 2 },
        alps_report_buttons key_state Dev.dev1 Dev.dev2 (v1_v2_left model packet)
          (v1_v2_right model packet) (v1_v2_middle model packet)
        ++ (if tap_and_drag_start priv packet then
              [ InputEvent.abs Dev.dev1 AbsAxis.ABS_X (v1_v2_x model packet),
                InputEvent.abs Dev.dev1 AbsAxis.ABS_Y (v1_v2_y model packet),
                InputEvent.abs Dev.dev1 AbsAxis.ABS_PRESSURE 0,
                InputEvent.key Dev.dev1 Key.BTN_TOOL_FINGER false,
                InputEvent.sync Dev.dev1 ]
            else [])
        ++ v1_v2_normal_report model packet) := by
  unfold v1_v2_trackstick_packet at hd
  unfold v1_v2_normal_report
  rw [← v1_v2_middle_eq]
  unfold alps_process_packet_v1_v2 v1_v2_x v1_v2_y v1_v2_left v1_v2_right tap_and_drag_start
  simp only [if_neg hd, List.append_assoc]
  rfl

lemma v1_v2_normal_pressure (model : alps_model_info) (packet : List Nat) :
    abs_pressure_reports (v1_v2_normal_report model packet) =
      [((if byte_at packet 2 &&& 1 ≠ 0 ∧ byte_at packet 2 &&& 2 = 0 then 40
          else byte_at packet 5 : Nat) : Int)] := by
  unfold v1_v2_normal_report
  simp only [abs_pressure_reports_append,
    apply_ite abs_pressure_reports, abs_pressure_reports_x, abs_pressure_reports_y,
    abs_pressure_reports_pressure,
    abs_pressure_reports_rel, abs_pressure_reports_sync, abs_pressure_reports_key,
    abs_pressure_reports_nil, List.append_nil, List.nil_append, ite_self]

lemma filter_ite_nil {α : Type} (p : α → Bool) (c : Prop) [Decidable c] (l : List α) :
    (if c then l else []).filter p = if c then l.filter p else [] := by
  split_ifs <;> rfl

lemma v1_v2_normal_no_dev2_motion (model : alps_model_info) (packet : List Nat) :
    (v1_v2_normal_report model packet).filter is_dev2_motion = [] := by
  unfold v1_v2_normal_report
  simp only [List.filter_append, filter_ite_nil]
  simp [is_dev2_motion, input_report_key]

lemma v1_v2_normal_sync (model : alps_model_info) (packet : List Nat) :
    (v1_v2_normal_report model packet).filter (fun e => decide (e = InputEvent.sync Dev.dev1)) =
      [InputEvent.sync Dev.dev1] := by
  unfold v1_v2_normal_report
  simp only [List.filter_append, filter_ite_nil]
  simp [input_report_key]

lemma buttons_no_touch_surface (key_state : Dev → Key → Bool) (d1 d2 : Dev) (l r m : Nat) :
    (alps_report_buttons key_state d1 d2 l r m).filter is_touch_surface_report = [] := by
  simp [alps_report_buttons, input_report_key, is_touch_surface_report]

lemma buttons_no_dev2_motion (key_state : Dev → Key → Bool) (d1 d2 : Dev) (l r m : Nat) :
    (alps_report_buttons key_state d1 d2 l r m).filter is_dev2_motion = [] := by
  simp [alps_report_buttons, input_report_key, is_dev2_motion]

lemma v1_v2_run_trackstick (model : alps_model_info)
    (mids : List ((Dev → Key → Bool) × List Nat))
    (h : ∀ kp ∈ mids, v1_v2_trackstick_packet model kp.2) :
    ∀ priv : alps_data, (v1_v2_run model priv mids).1 = priv := by
  induction mids with
  | nil => intro priv; rfl
  | cons kp rest ih =>
    intro priv
    obtain ⟨ks, p⟩ := kp
    have h1 := h (ks, p) (List.mem_cons_self _ _)
    simp only [v1_v2_run]
    rw [ih (fun kp hkp => h kp (List.mem_cons_of_mem _ hkp)),
      v1_v2_trackstick_result model ks priv p h1]

/-- C31. `alps_process_packet_v1_v2` treats the packet as trackstick data if and only if
the model has the flag `ALPS_DUALPOINT` and the pressure byte `packet[5]` is 127. In
that case it reports `REL_X = (x > 383 ? x - 768 : x)` and `REL_Y = -(y > 255 ? y - 512 :
y)` on the secondary device, then the buttons and a sync; it reports no position,
pressure, touch or tool event, and it leaves the session state, `prev_fin` included, as
it was. Otherwise it reports no `REL_X` or `REL_Y` on the secondary device, it reports a
pressure on the touch surface and it stores the finger bit in `prev_fin`. -/
theorem v1_v2_trackstick_iff_dualpoint_and_127 (model : alps_model_info)
    (key_state : Dev → Key → Bool) (priv : alps_data) (packet : List Nat) :
    (v1_v2_trackstick_packet model packet ↔
        (model.flags &&& ALPS_DUALPOINT ≠ 0 ∧ byte_at packet 5 = 127)) ∧
      (v1_v2_trackstick_packet model packet →
        alps_process_packet_v1_v2 model key_state priv packet =
          (priv,
            [ InputEvent.rel Dev.dev2 RelAxis.REL_X
                (if v1_v2_x model packet > 383 then (v1_v2_x model packet : Int) - 768
                  else (v1_v2_x model packet : Int)),
              InputEvent.rel Dev.dev2 RelAxis.REL_Y
                (-(if v1_v2_y model packet > 255 then (v1_v2_y model packet : Int) - 512
                  else (v1_v2_y model packet : Int))) ]
            ++ alps_report_buttons key_state Dev.dev2 Dev.dev1 (v1_v2_left model packet)
                (v1_v2_right model packet) (v1_v2_middle model packet)
            ++ [InputEvent.sync Dev.dev2]) ∧
        (alps_process_packet_v1_v2 model key_state priv packet).2.filter
          is_touch_surface_report = []) ∧
      (¬ v1_v2_trackstick_packet model packet →
        (alps_process_packet_v1_v2 model key_state priv packet).2.filter is_dev2_motion = [] ∧
        abs_pressure_reports (alps_process_packet_v1_v2 model key_state priv packet).2 ≠ [] ∧
        (alps_process_packet_v1_v2 model key_state priv packet).1 =
          { priv with prev_fin := byte_at packet 2 &&& 2 }) := by
  refine ⟨Iff.rfl, fun hd => ?_, fun hd => ?_⟩
  · refine ⟨v1_v2_trackstick_result model key_state priv packet hd, ?_⟩
    rw [v1_v2_trackstick_result model key_state priv packet hd]
    simp only [List.filter_append, buttons_no_touch_surface]
    simp [is_touch_surface_report]
  · rw [v1_v2_touchpad_result model key_state priv packet hd]
    refine ⟨?_, ?_, rfl⟩
    · simp only [List.filter_append, filter_ite_nil, buttons_no_dev2_motion,
        v1_v2_normal_no_dev2_motion]
      simp [is_dev2_motion]
    · simp only [abs_pressure_reports_append, v1_v2_normal_pressure]
      simp

theorem v1_v2_trackstick_iff_dualpoint_and_127_witness :
    v1_v2_trackstick_packet model_toshiba_m10 [0xf8, 0x7f, 0x18, 0x00, 0x05, 0x7f] ∧
      (alps_process_packet_v1_v2 model_toshiba_m10 (fun _ _ => false) alps_data_zero
        [0xf8, 0x7f, 0x18, 0x00, 0x05, 0x7f]).2 =
        [ InputEvent.rel Dev.dev2 RelAxis.REL_X (-257),
          InputEvent.rel Dev.dev2 RelAxis.REL_Y (-5),
          InputEvent.key Dev.dev2 Key.BTN_LEFT false,
          InputEvent.key Dev.dev2 Key.BTN_RIGHT false,
          InputEvent.key Dev.dev2 Key.BTN_MIDDLE false,
          InputEvent.sync Dev.dev1, InputEvent.sync Dev.dev2 ] :=
  ⟨by decide,
    (congrArg Prod.snd
      ((v1_v2_trackstick_iff_dualpoint_and_127 model_toshiba_m10 (fun _ _ => false)
        alps_data_zero [0xf8, 0x7f, 0x18, 0x00, 0x05, 0x7f]).2.1 (by decide)).1).trans
      (by decide)⟩

/-- C32. For a touchpad packet (not trackstick data), `alps_process_packet_v1_v2` reports
the buttons, then the synthetic event (`ABS_X`, `ABS_Y`, `ABS_PRESSURE` 0,
`BTN_TOOL_FINGER` released, sync) if and only if the packet has the gesture bit
`packet[2] & 1` and the finger bit `packet[2] & 2` set and the stored flag `prev_fin` is
clear, then the normal report, which holds one pressure report and ends with the only
sync of its own. After the call `prev_fin` is the finger bit of the packet; trackstick
packets leave it as it is. So when the synthetic event is emitted for a touchpad packet
it is not emitted for the next touchpad packet, whatever trackstick packets come in
between. -/
theorem v1_v2_tap_and_drag_event (model : alps_model_info) (key_state : Dev → Key → Bool)
    (priv : alps_data) (packet : List Nat) (hd : ¬ v1_v2_trackstick_packet model packet) :
    alps_process_packet_v1_v2 model key_state priv packet =
        ({ priv with prev_fin := byte_at packet 2 &&& 2 },
          alps_report_buttons key_state Dev.dev1 Dev.dev2 (v1_v2_left model packet)
            (v1_v2_right model packet) (v1_v2_middle model packet)
          ++ (if byte_at packet 2 &&& 1 ≠ 0 ∧ byte_at packet 2 &&& 2 ≠ 0 ∧ priv.prev_fin = 0 then
                [ InputEvent.abs Dev.dev1 AbsAxis.ABS_X (v1_v2_x model packet),
                  InputEvent.abs Dev.dev1 AbsAxis.ABS_Y (v1_v2_y model packet),
                  InputEvent.abs Dev.dev1 AbsAxis.ABS_PRESSURE 0,
                  InputEvent.key Dev.dev1 Key.BTN_TOOL_FINGER false,
                  InputEvent.sync Dev.dev1 ]
              else [])
          ++ v1_v2_normal_report model packet) ∧
      (abs_pressure_reports (v1_v2_normal_report model packet)).length = 1 ∧
      (v1_v2_normal_report model packet).filter
        (fun e => decide (e = InputEvent.sync Dev.dev1)) = [InputEvent.sync Dev.dev1] ∧
      ((abs_pressure_reports (alps_process_packet_v1_v2 model key_state priv packet).2).length
          = 2 ↔ tap_and_drag_start priv packet) ∧
      (∀ (mids : List ((Dev → Key → Bool) × List Nat)) (packet2 : List Nat),
        (∀ kp ∈ mids, v1_v2_trackstick_packet model kp.2) →
        tap_and_drag_start priv packet →
        ¬ tap_and_drag_start
          (v1_v2_run model (alps_process_packet_v1_v2 model key_state priv packet).1 mids).1
          packet2) := by
  have hres := v1_v2_touchpad_result model key_state priv packet hd
  refine ⟨hres, ?_, v1_v2_normal_sync model packet, ?_, fun mids packet2 hm ht ht2 => ?_⟩
  · rw [v1_v2_normal_pressure]
    rfl
  · rw [hres]
    simp only [abs_pressure_reports_append, abs_pressure_reports_buttons,
      v1_v2_normal_pressure, apply_ite abs_pressure_reports, abs_pressure_reports_x,
      abs_pressure_reports_y, abs_pressure_reports_pressure, abs_pressure_reports_key,
      abs_pressure_reports_nil, List.nil_append]
    have hk : abs_pressure_reports
        [InputEvent.key Dev.dev1 Key.BTN_TOOL_FINGER false, InputEvent.sync Dev.dev1] = [] := rfl
    rw [hk]
    by_cases ht : tap_and_drag_start priv packet
    · simp [ht]
    · simp [ht]
  · rw [v1_v2_run_trackstick model mids hm, hres] at ht2
    unfold tap_and_drag_start at ht ht2
    exact ht.2.1 ht2.2.2

theorem v1_v2_tap_and_drag_event_witness :
    ¬ v1_v2_trackstick_packet model_plain_v2 [0xf8, 0x10, 0x03, 0x00, 0x20, 0x30] ∧
      tap_and_drag_start alps_data_zero [0xf8, 0x10, 0x03, 0x00, 0x20, 0x30] ∧
      abs_pressure_reports (alps_process_packet_v1_v2 model_plain_v2 (fun _ _ => false)
        alps_data_zero [0xf8, 0x10, 0x03, 0x00, 0x20, 0x30]).2 = [0, 48] ∧
      ¬ tap_and_drag_start
        (alps_process_packet_v1_v2 model_plain_v2 (fun _ _ => false) alps_data_zero
          [0xf8, 0x10, 0x03, 0x00, 0x20, 0x30]).1 [0xf8, 0x10, 0x03, 0x00, 0x20, 0x30] :=
  ⟨by decide, by decide, by decide,
    (v1_v2_tap_and_drag_event model_plain_v2 (fun _ _ => false) alps_data_zero
      [0xf8, 0x10, 0x03, 0x00, 0x20, 0x30] (by decide)).2.2.2.2 []
      [0xf8, 0x10, 0x03, 0x00, 0x20, 0x30]
      (fun _ h => absurd h (List.not_mem_nil _)) (by decide)⟩

/-! ### A bare PS/2 packet inside a primary packet -/

lemma not_interleaved_of_byte3 (model : alps_model_info) (ps : psmouse)
    (h : byte_at ps.packet 3 &&& 0x0f ≠ 0x0f) : ¬ InterleavedActive model ps :=
  fun hia => h hia.2.2

lemma process_byte_ordinary (model : alps_model_info) (ps : psmouse)
    (hnb : byte_at ps.packet 0 &&& 0xc8 ≠ 0x08) (hna : ¬ InterleavedActive model ps)
    (hv : alps_is_valid_first_byte model (byte_at ps.packet 0) = true)
    (hb : byte_at ps.packet (ps.pktcnt - 1) &&& 0x80 = 0) :
    alps_process_byte model ps =
      if ps.pktcnt = ps.pktsize then
        (ps, PSMOUSE_FULL_PACKET, [FramingCall.process_packet ps.packet])
      else (ps, PSMOUSE_GOOD_DATA, []) := by
  unfold InterleavedActive at hna
  unfold alps_process_byte
  rw [if_neg hnb, if_neg hna, if_neg (by simp [hv]), if_neg (fun h => h.2.2.2 hb)]

/-- C33. With seven bytes buffered, `(packet[3] & 0x0f) == 0x0f` and the high bit of
`packet[6]` clear, `alps_handle_interleaved_ps2` stops the flush timer, calls
`alps_report_bare_ps2_packet(psmouse, &packet[3], false)`, whose report is exactly
`REL_X = packet[4] ? packet[4] - ((packet[3] << 4) & 0x100) : 0`,
`REL_Y = packet[5] ? ((packet[3] << 3) & 0x100) - packet[5] : 0` and a sync, all three on
the secondary device, with no button event; it calls no variant decoder, stores
`packet[6] & 0xf7` in `packet[3]`, leaves the other bytes as they are, sets `pktcnt` to
4 and returns `PSMOUSE_GOOD_DATA`; `alps_process_byte` takes this path for an
interleaved-capable model when byte 0 is not a bare PS/2 first byte. From the state it
leaves, the tests of line 977 fail for the next two bytes, whatever they are, so neither
goes to `alps_handle_interleaved_ps2`; when byte 0 is a valid first byte, `pktsize` is
6 and the two bytes have the high bit clear, the first is accepted and the second
completes the packet, which `alps_process_byte` hands to the variant decoder. -/
theorem interleaved_bare_packet_then_resume (model : alps_model_info) (ps : psmouse)
    (h7 : ps.pktcnt = 7) (h3 : byte_at ps.packet 3 &&& 0x0f = 0x0f)
    (h6 : byte_at ps.packet 6 &&& 0x80 = 0) (hlen : ps.packet.length = 8) :
    alps_handle_interleaved_ps2 model ps =
        ({ ps with packet := ps.packet.set 3 (byte_at ps.packet 6 &&& 0xf7), pktcnt := 4 },
          PSMOUSE_GOOD_DATA,
          [FramingCall.del_timer,
            FramingCall.report_bare_ps2_packet (byte_at ps.packet 3) (byte_at ps.packet 4)
              (byte_at ps.packet 5) false]) ∧
      (model.flags &&& ALPS_PS2_INTERLEAVED ≠ 0 → byte_at ps.packet 0 &&& 0xc8 ≠ 0x08 →
        alps_process_byte model ps = alps_handle_interleaved_ps2 model ps) ∧
      (∀ key_state : Dev → Key → Bool,
        alps_report_bare_ps2_packet key_state (byte_at ps.packet 3) (byte_at ps.packet 4)
            (byte_at ps.packet 5) false =
          [ InputEvent.rel Dev.dev2 RelAxis.REL_X
              (if byte_at ps.packet 4 ≠ 0 then
                (byte_at ps.packet 4 : Int) -
                  (((byte_at ps.packet 3 <<< 4) &&& 0x100 : Nat) : Int)
              else 0),
            InputEvent.rel Dev.dev2 RelAxis.REL_Y
              (if byte_at ps.packet 5 ≠ 0 then
                (((byte_at ps.packet 3 <<< 3) &&& 0x100 : Nat) : Int) -
                  (byte_at ps.packet 5 : Int)
              else 0),
            InputEvent.sync Dev.dev2 ]) ∧
      decoded_packets (alps_handle_interleaved_ps2 model ps).2.2 = [] ∧
      (∀ i, i ≠ 3 →
        byte_at (alps_handle_interleaved_ps2 model ps).1.packet i = byte_at ps.packet i) ∧
      byte_at (alps_handle_interleaved_ps2 model ps).1.packet 3 =
        byte_at ps.packet 6 &&& 0xf7 ∧
      (∀ d4 d5 : Nat,
        ¬ InterleavedActive model
            { ps with packet := (ps.packet.set 3 (byte_at ps.packet 6 &&& 0xf7)).set 4 d4,
                      pktcnt := 5 } ∧
          ¬ InterleavedActive model
            { ps with
              packet := ((ps.packet.set 3 (byte_at ps.packet 6 &&& 0xf7)).set 4 d4).set 5 d5,
              pktcnt := 6 }) ∧
      (∀ d4 d5 : Nat, byte_at ps.packet 0 &&& 0xc8 ≠ 0x08 →
        alps_is_valid_first_byte model (byte_at ps.packet 0) = true → ps.pktsize = 6 →
        d4 &&& 0x80 = 0 → d5 &&& 0x80 = 0 →
        framing_run model (alps_handle_interleaved_ps2 model ps).1
            [WireInput.byte d4, WireInput.byte d5] =
          ({ ps with
              packet := ((ps.packet.set 3 (byte_at ps.packet 6 &&& 0xf7)).set 4 d4).set 5 d5,
              pktcnt := 0 },
            [FramingCall.process_packet
              (((ps.packet.set 3 (byte_at ps.packet 6 &&& 0xf7)).set 4 d4).set 5 d5)])) := by
  have hres : alps_handle_interleaved_ps2 model ps =
      ({ ps with packet := ps.packet.set 3 (byte_at ps.packet 6 &&& 0xf7), pktcnt := 4 },
        PSMOUSE_GOOD_DATA,
        [FramingCall.del_timer,
          FramingCall.report_bare_ps2_packet (byte_at ps.packet 3) (byte_at ps.packet 4)
            (byte_at ps.packet 5) false]) := by
    unfold alps_handle_interleaved_ps2
    rw [if_neg (by omega), if_neg (by omega), if_neg (by simp [h6])]
  have hb3 : ∀ d4 : Nat, byte_at ((ps.packet.set 3 (byte_at ps.packet 6 &&& 0xf7)).set 4 d4) 3 =
      byte_at ps.packet 6 &&& 0xf7 := by
    intro d4
    rw [byte_at_set, byte_at_set]
    simp [hlen]
  have hb3' : ∀ d4 d5 : Nat,
      byte_at (((ps.packet.set 3 (byte_at ps.packet 6 &&& 0xf7)).set 4 d4).set 5 d5) 3 =
        byte_at ps.packet 6 &&& 0xf7 := by
    intro d4 d5
    rw [byte_at_set, byte_at_set, byte_at_set]
    simp [hlen]
  have hna1 : ∀ d4 : Nat, ¬ InterleavedActive model
      { ps with packet := (ps.packet.set 3 (byte_at ps.packet 6 &&& 0xf7)).set 4 d4,
                pktcnt := 5 } :=
    fun d4 => not_interleaved_of_byte3 model _ (by
      show byte_at ((ps.packet.set 3 (byte_at ps.packet 6 &&& 0xf7)).set 4 d4) 3 &&& 0x0f ≠ 0x0f
      rw [hb3]
      exact and_f7_not_interleaved _)
  have hna2 : ∀ d4 d5 : Nat, ¬ InterleavedActive model
      { ps with
        packet := ((ps.packet.set 3 (byte_at ps.packet 6 &&& 0xf7)).set 4 d4).set 5 d5,
        pktcnt := 6 } :=
    fun d4 d5 => not_interleaved_of_byte3 model _ (by
      show byte_at (((ps.packet.set 3 (byte_at ps.packet 6 &&& 0xf7)).set 4 d4).set 5 d5) 3
        &&& 0x0f ≠ 0x0f
      rw [hb3']
      exact and_f7_not_interleaved _)
  refine ⟨hres, fun hIL hnb => ?_, fun key_state => ?_, ?_, fun i hi => ?_, ?_,
    fun d4 d5 => ⟨hna1 d4, hna2 d4 d5⟩, fun d4 d5 hnb hv hsz hd4 hd5 => ?_⟩
  · unfold alps_process_byte
    rw [if_neg hnb, if_pos ⟨hIL, by omega, h3⟩]
  · unfold alps_report_bare_ps2_packet
    rfl
  · rw [hres]
    rfl
  · rw [hres]
    show byte_at (ps.packet.set 3 (byte_at ps.packet 6 &&& 0xf7)) i = byte_at ps.packet i
    rw [byte_at_set, if_neg (fun h => hi h.1.symm)]
  · rw [hres]
    show byte_at (ps.packet.set 3 (byte_at ps.packet 6 &&& 0xf7)) 3 = _
    rw [byte_at_set, if_pos ⟨rfl, by omega⟩]
  · rw [hres]
    have hb0 : ∀ d4 : Nat, byte_at ((ps.packet.set 3 (byte_at ps.packet 6 &&& 0xf7)).set 4 d4) 0 =
        byte_at ps.packet 0 := by
      intro d4
      rw [byte_at_set, byte_at_set]
      simp
    have hb0' : ∀ d4 d5 : Nat,
        byte_at (((ps.packet.set 3 (byte_at ps.packet 6 &&& 0xf7)).set 4 d4).set 5 d5) 0 =
          byte_at ps.packet 0 := by
      intro d4 d5
      rw [byte_at_set, byte_at_set, byte_at_set]
      simp
    have hb4 : byte_at ((ps.packet.set 3 (byte_at ps.packet 6 &&& 0xf7)).set 4 d4) 4 = d4 := by
      rw [byte_at_set]
      simp [hlen]
    have hb5 : byte_at (((ps.packet.set 3 (byte_at ps.packet 6 &&& 0xf7)).set 4 d4).set 5 d5) 5
        = d5 := by
      rw [byte_at_set]
      simp [hlen]
    have s1 : alps_process_byte model
        { ps with packet := (ps.packet.set 3 (byte_at ps.packet 6 &&& 0xf7)).set 4 d4,
                  pktcnt := 5 } =
        ({ ps with packet := (ps.packet.set 3 (byte_at ps.packet 6 &&& 0xf7)).set 4 d4,
                   pktcnt := 5 }, PSMOUSE_GOOD_DATA, []) := by
      rw [process_byte_ordinary model _
        (by show byte_at _ 0 &&& 0xc8 ≠ 0x08; rw [hb0]; exact hnb) (hna1 d4)
        (by show alps_is_valid_first_byte model (byte_at _ 0) = true; rw [hb0]; exact hv)
        (by show byte_at _ (5 - 1) &&& 0x80 = 0; rw [hb4]; exact hd4)]
      exact if_neg (by show ¬ ((5 : Nat) = ps.pktsize); omega)
    have s2 : alps_process_byte model
        { ps with
          packet := ((ps.packet.set 3 (byte_at ps.packet 6 &&& 0xf7)).set 4 d4).set 5 d5,
          pktcnt := 6 } =
        ({ ps with
            packet := ((ps.packet.set 3 (byte_at ps.packet 6 &&& 0xf7)).set 4 d4).set 5 d5,
            pktcnt := 6 }, PSMOUSE_FULL_PACKET,
          [FramingCall.process_packet
            (((ps.packet.set 3 (byte_at ps.packet 6 &&& 0xf7)).set 4 d4).set 5 d5)]) := by
      rw [process_byte_ordinary model _
        (by show byte_at _ 0 &&& 0xc8 ≠ 0x08; rw [hb0']; exact hnb) (hna2 d4 d5)
        (by show alps_is_valid_first_byte model (byte_at _ 0) = true; rw [hb0']; exact hv)
        (by show byte_at _ (6 - 1) &&& 0x80 = 0; rw [hb5]; exact hd5)]
      exact if_pos (by show (6 : Nat) = ps.pktsize; omega)
    have t1 : psmouse_handle_byte model
        { ps with packet := ps.packet.set 3 (byte_at ps.packet 6 &&& 0xf7), pktcnt := 4 } d4 =
        ({ ps with packet := (ps.packet.set 3 (byte_at ps.packet 6 &&& 0xf7)).set 4 d4,
                   pktcnt := 5 }, PSMOUSE_GOOD_DATA, []) := by
      unfold psmouse_handle_byte
      show (if (alps_process_byte model
          { ps with packet := (ps.packet.set 3 (byte_at ps.packet 6 &&& 0xf7)).set 4 d4,
                    pktcnt := 5 }).2.1 = PSMOUSE_GOOD_DATA then _ else _) = _
      rw [s1]
      rfl
    have t2 : psmouse_handle_byte model
        { ps with packet := (ps.packet.set 3 (byte_at ps.packet 6 &&& 0xf7)).set 4 d4,
                  pktcnt := 5 } d5 =
        ({ ps with
            packet := ((ps.packet.set 3 (byte_at ps.packet 6 &&& 0xf7)).set 4 d4).set 5 d5,
            pktcnt := 0 }, PSMOUSE_FULL_PACKET,
          [FramingCall.process_packet
            (((ps.packet.set 3 (byte_at ps.packet 6 &&& 0xf7)).set 4 d4).set 5 d5)]) := by
      unfold psmouse_handle_byte
      show (if (alps_process_byte model
          { ps with
            packet := ((ps.packet.set 3 (byte_at ps.packet 6 &&& 0xf7)).set 4 d4).set 5 d5,
            pktcnt := 6 }).2.1 = PSMOUSE_GOOD_DATA then _ else _) = _
      rw [s2]
      rfl
    simp only [framing_run, framing_step, t1, t2, List.nil_append, List.append_nil]

theorem interleaved_bare_packet_then_resume_witness :
    alps_handle_interleaved_ps2 model_dell_e6400
        ⟨[0xcf, 0x10, 0x20, 0x1f, 0x05, 0x06, 0x41, 0x00], 7, 6⟩ =
      (⟨[0xcf, 0x10, 0x20, 0x41, 0x05, 0x06, 0x41, 0x00], 4, 6⟩, PSMOUSE_GOOD_DATA,
        [FramingCall.del_timer, FramingCall.report_bare_ps2_packet 0x1f 0x05 0x06 false]) ∧
      alps_report_bare_ps2_packet (fun _ _ => false) 0x1f 0x05 0x06 false =
        [ InputEvent.rel Dev.dev2 RelAxis.REL_X (-251),
          InputEvent.rel Dev.dev2 RelAxis.REL_Y (-6), InputEvent.sync Dev.dev2 ] ∧
      framing_run model_dell_e6400 ⟨[0xcf, 0x10, 0x20, 0x41, 0x05, 0x06, 0x41, 0x00], 4, 6⟩
          [WireInput.byte 0x30, WireInput.byte 0x28] =
        (⟨[0xcf, 0x10, 0x20, 0x41, 0x30, 0x28, 0x41, 0x00], 0, 6⟩,
          [FramingCall.process_packet [0xcf, 0x10, 0x20, 0x41, 0x30, 0x28, 0x41, 0x00]]) :=
  ⟨(interleaved_bare_packet_then_resume model_dell_e6400
      ⟨[0xcf, 0x10, 0x20, 0x1f, 0x05, 0x06, 0x41, 0x00], 7, 6⟩ (by decide) (by decide)
      (by decide) (by decide)).1,
    ((interleaved_bare_packet_then_resume model_dell_e6400
      ⟨[0xcf, 0x10, 0x20, 0x1f, 0x05, 0x06, 0x41, 0x00], 7, 6⟩ (by decide) (by decide)
      (by decide) (by decide)).2.2.1 (fun _ _ => false)).trans (by decide),
    by decide⟩

/-! ### Every row of the table can be identified -/

lemma table_signatures :
    ∀ m ∈ alps_model_data, ∀ m0 ∈ alps_model_data, m0.signature = m.signature →
      (proto_newer_than_v2 m0.proto_version = proto_newer_than_v2 m.proto_version) ∧
        (proto_newer_than_v2 m.proto_version = false → m0 = m) := by
  decide

lemma signature_search_some (param : List Nat) (m : alps_model_info)
    (hm : m ∈ alps_model_data)
    (hsig : (byte_at param 0, byte_at param 1, byte_at param 2) = m.signature) :
    ∃ m0, signature_search param = some m0 ∧ m0 ∈ alps_model_data ∧
      m0.signature = m.signature := by
  unfold signature_search
  cases hfind : alps_model_data.find? (fun m =>
      decide ((byte_at param 0, byte_at param 1, byte_at param 2) = m.signature)) with
  | none =>
    have := List.find?_eq_none.1 hfind m hm
    simp [hsig] at this
  | some m0 =>
    have hm0 := List.mem_of_find?_eq_some hfind
    have hp := List.find?_some hfind
    simp only [decide_eq_true_eq] at hp
    exact ⟨m0, rfl, hm0, by rw [← hp, hsig]⟩

section identify3
variable {σ : Type}

lemma get_model_of_older (K : psmouse_commands) (T : Transport σ) (s : σ)
    (m0 : alps_model_info)
    (he6 : ¬ e6_rejected (alps_get_e6_report K T s []).param)
    (hres : (get_model_setres K T s).ret = 0)
    (hsig : signature_search (get_model_e7 K T s).param = some m0)
    (hold : proto_newer_than_v2 m0.proto_version = false) :
    (alps_get_model K T s).model = some m0 := by
  unfold e6_rejected at he6
  unfold get_model_e7 get_model_setres at *
  unfold alps_get_model
  simp only [if_neg he6, hres, ne_eq, not_true_eq_false, if_false, hsig, hold,
    Bool.false_eq_true]

end identify3

lemma get_model_returns_row {σ : Type} (K : psmouse_commands) (m : alps_model_info)
    (hm : m ∈ alps_model_data) (T : Transport σ) (s : σ)
    (he6 : ¬ e6_rejected (alps_get_e6_report K T s []).param)
    (hres : (get_model_setres K T s).ret = 0)
    (hsig : (byte_at (get_model_e7 K T s).param 0, byte_at (get_model_e7 K T s).param 1,
      byte_at (get_model_e7 K T s).param 2) = m.signature)
    (hen : proto_newer_than_v2 m.proto_version = true →
      (get_model_enter K T s).ret = 0 ∧
        byte_at (get_model_enter K T s).param 0 = m.command_mode_resp) :
    (alps_get_model K T s).model = some m := by
  obtain ⟨m0, hs0, hm0, hsig0⟩ := signature_search_some _ m hm hsig
  obtain ⟨hnew, hsame⟩ := table_signatures m hm m0 hm0 hsig0
  cases hn : proto_newer_than_v2 m.proto_version with
  | false =>
    rw [get_model_of_older K T s m0 he6 hres hs0 (by rw [hnew, hn]), hsame hn]
  | true =>
    obtain ⟨hret, hresp⟩ := hen hn
    rw [get_model_of_newer K T s m0 he6 hres hs0 (by rw [hnew, hn]) hret]
    exact (command_mode_resp_search_iff _ m).2 ⟨hm, hn, hresp.symm⟩

lemma identify_script_e6 (K : psmouse_commands) (m : alps_model_info) :
    ¬ e6_rejected (alps_get_e6_report K scripted_transport (identify_script m) []).param := by
  rw [show (alps_get_e6_report K scripted_transport (identify_script m) []).param = [0, 0, 10]
    from rfl]
  decide

/-- C40. No row of `alps_model_data` is shadowed. For every row `m` and every transport:
when the E6 response is accepted, the `SETRES` command succeeds, the E7 report leaves
the signature of `m` and, if `m` is of a variant above V2, `alps_enter_command_mode`
succeeds and leaves the `command_mode_resp` of `m`, then `alps_get_model` returns `m`.
Such a transport exists for every row (`identify_script`). The table facts behind it:
two rows with the same signature are both of a variant above V2 or are the same row,
and two rows of a variant above V2 with the same `command_mode_resp` are the same
row. -/
theorem get_model_reaches_every_row {σ : Type} (K : psmouse_commands)
    (m : alps_model_info) (hm : m ∈ alps_model_data) :
    (∀ (T : Transport σ) (s : σ),
        ¬ e6_rejected (alps_get_e6_report K T s []).param →
        (get_model_setres K T s).ret = 0 →
        (byte_at (get_model_e7 K T s).param 0, byte_at (get_model_e7 K T s).param 1,
          byte_at (get_model_e7 K T s).param 2) = m.signature →
        (proto_newer_than_v2 m.proto_version = true →
          (get_model_enter K T s).ret = 0 ∧
            byte_at (get_model_enter K T s).param 0 = m.command_mode_resp) →
        (alps_get_model K T s).model = some m) ∧
      (alps_get_model K scripted_transport (identify_script m)).model = some m ∧
      (∀ m0 ∈ alps_model_data, m0.signature = m.signature →
        proto_newer_than_v2 m.proto_version = false → m0 = m) ∧
      (∀ m0 ∈ alps_model_data, proto_newer_than_v2 m0.proto_version = true →
        proto_newer_than_v2 m.proto_version = true →
        m0.command_mode_resp = m.command_mode_resp → m0 = m) := by
  refine ⟨fun T s he6 hres hsig hen => get_model_returns_row K m hm T s he6 hres hsig hen,
    ?_, fun m0 hm0 hs hold => (table_signatures m hm m0 hm0 hs).2 hold,
    fun m0 hm0 h0 h1 hr => newer_rows_distinct_resp m0 hm0 m hm h0 h1 hr⟩
  have key : ∀ m0 ∈ alps_model_data,
      (get_model_setres K scripted_transport (identify_script m0)).ret = 0 →
      (byte_at (get_model_e7 K scripted_transport (identify_script m0)).param 0,
        byte_at (get_model_e7 K scripted_transport (identify_script m0)).param 1,
        byte_at (get_model_e7 K scripted_transport (identify_script m0)).param 2) =
          m0.signature →
      (proto_newer_than_v2 m0.proto_version = true →
        (get_model_enter K scripted_transport (identify_script m0)).ret = 0 ∧
          byte_at (get_model_enter K scripted_transport (identify_script m0)).param 0 =
            m0.command_mode_resp) →
      (alps_get_model K scripted_transport (identify_script m0)).model = some m0 :=
    fun m0 hm0 h1 h2 h3 =>
      get_model_returns_row K m0 hm0 scripted_transport _ (identify_script_e6 K m0) h1 h2 h3
  have hm2 := hm
  simp only [alps_model_data, List.mem_cons, List.mem_singleton, List.not_mem_nil,
    or_false] at hm2
  rcases hm2 with rfl | rfl | rfl | rfl | rfl | rfl | rfl | rfl | rfl | rfl | rfl | rfl |
    rfl | rfl | rfl | rfl | rfl | rfl | rfl | rfl | rfl | rfl | rfl | rfl | rfl | rfl |
    rfl <;>
    first
    | exact key _ hm rfl rfl (fun _ => ⟨rfl, rfl⟩)
    | exact key _ hm rfl rfl (fun h => absurd h Bool.false_ne_true)

theorem get_model_reaches_every_row_witness :
    (⟨(0x73, 0x03, 0x50), 0x02, ALPS_PROTO_V6, 0xc8, 0xc8, 0⟩ : alps_model_info) ∈
        alps_model_data ∧
      (alps_get_model linux_psmouse_commands scripted_transport
        [ (false, [0]), (false, []), (false, []), (false, []), (false, [0, 0, 10]),
          (false, [0, 0, 10]),
          (false, []), (false, []), (false, []), (false, [0x73, 0x03, 0x50]),
          (false, []), (false, []), (false, []), (false, [0x88, 0x07, 0x02]),
          (false, []) ]).model =
        some ⟨(0x73, 0x03, 0x50), 0x02, ALPS_PROTO_V6, 0xc8, 0xc8, 0⟩ :=
  ⟨by decide,
    (get_model_reaches_every_row linux_psmouse_commands
      ⟨(0x73, 0x03, 0x50), 0x02, ALPS_PROTO_V6, 0xc8, 0xc8, 0⟩ (by decide)).1
      scripted_transport
      [ (false, [0]), (false, []), (false, []), (false, []), (false, [0, 0, 10]),
        (false, [0, 0, 10]),
        (false, []), (false, []), (false, []), (false, [0x73, 0x03, 0x50]),
        (false, []), (false, []), (false, []), (false, [0x88, 0x07, 0x02]),
        (false, []) ]
      (by decide) (by decide) (by decide) (fun _ => ⟨by decide, by decide⟩)⟩

/-! ### The points of the bitmap resolver -/

lemma scan_init_inv : ScanInv scan_init := by
  unfold ScanInv scan_init
  simp

lemma scan_body_i (bit : Nat) (st : BitmapScan) : (scan_body bit st).i = st.i + 1 := by
  unfold scan_body
  dsimp only
  split_ifs <;> rfl

lemma scan_body_inv (bit : Nat) (st : BitmapScan) (h : ScanInv st) :
    ScanInv (scan_body bit st) := by
  unfold ScanInv at h ⊢
  unfold scan_body
  obtain ⟨h1, h2, h3, h4, h5, h6, h7, h8⟩ := h
  cases hah : st.at_high
  · rw [hah] at h8
    simp only [Bool.false_eq_true, if_false] at h8
    obtain ⟨k1, k2, k3, k4⟩ := h8
    by_cases hb : bit = 0 <;> by_cases hp : st.prev_bit = 0 <;>
      simp only [hb, hp, hah, ne_eq, not_true_eq_false, not_false_eq_true, if_false, if_true,
        Bool.false_eq_true] <;>
      (repeat' (first | constructorm _ ∧ _ | intro _)) <;>
      first | trivial | omega
  · rw [hah] at h8
    simp only [if_true] at h8
    obtain ⟨k1, k2, k3, k4, k5, k6⟩ := h8
    by_cases hb : bit = 0 <;> by_cases hp : st.prev_bit = 0 <;>
      simp only [hb, hp, hah, ne_eq, not_true_eq_false, not_false_eq_true, if_false, if_true,
        Bool.false_eq_true] <;>
      (repeat' (first | constructorm _ ∧ _ | intro _)) <;>
      first | trivial | omega

lemma x_scan_inv (fuel : Nat) :
    ∀ (m : Nat) (st : BitmapScan) (k : Nat) (B : Int), ScanInv st → m < 2 ^ k →
      st.i + k ≤ B → ScanInv (x_scan fuel m st) ∧ (x_scan fuel m st).i ≤ B := by
  induction fuel with
  | zero =>
    intro m st k B h _ hB
    exact ⟨h, by rw [x_scan]; omega⟩
  | succ fuel ih =>
    intro m st k B h hm hB
    rw [x_scan]
    by_cases h0 : m = 0
    · rw [if_pos h0]
      exact ⟨h, by omega⟩
    · rw [if_neg h0]
      have hk : 1 ≤ k := by
        by_contra hk
        have : k = 0 := by omega
        rw [this] at hm
        omega
      refine ih _ _ (k - 1) B (scan_body_inv _ _ h) ?_ ?_
      · rw [Nat.shiftRight_eq_div_pow]
        have e : 2 ^ k = 2 ^ (k - 1) * 2 := by rw [← pow_succ]; congr 1; omega
        rw [e] at hm
        omega
      · rw [scan_body_i]
        omega

lemma y_scan_inv (fuel : Nat) :
    ∀ (m : Nat) (st : BitmapScan) (k : Nat) (B : Int), ScanInv st → k ≤ 32 → m < 2 ^ 32 →
      m % 2 ^ (32 - k) = 0 → st.i + k ≤ B →
      ScanInv (y_scan fuel m st) ∧ (y_scan fuel m st).i ≤ B := by
  induction fuel with
  | zero =>
    intro m st k B h _ _ _ hB
    exact ⟨h, by rw [y_scan]; omega⟩
  | succ fuel ih =>
    intro m st k B h hk32 hm hlow hB
    rw [y_scan]
    by_cases h0 : m = 0
    · rw [if_pos h0]
      exact ⟨h, by omega⟩
    · rw [if_neg h0]
      have hk : 1 ≤ k := by
        by_contra hk
        have : k = 0 := by omega
        rw [this, Nat.sub_zero, Nat.mod_eq_of_lt hm] at hlow
        exact h0 hlow
      refine ih _ _ (k - 1) B (scan_body_inv _ _ h) (by omega) (Nat.mod_lt _ (by decide)) ?_ ?_
      · have := shl_one_mod_low_zero m (k - 1) (by omega)
          (by rw [show k - 1 + 1 = k by omega]; exact hlow)
        exact this
      · rw [scan_body_i]
        omega

/-- The locals of the x loop after the loop, for an `x_map` of at most `bits` bits. -/
lemma x_scan_final (x_map bits : Nat) (hx : x_map < 2 ^ bits) :
    ScanInv (x_scan 32 x_map scan_init) ∧ (x_scan 32 x_map scan_init).i ≤ bits :=
  x_scan_inv 32 x_map scan_init bits bits scan_init_inv hx (by simp [scan_init])

/-- The locals of the y loop after the loop, for a `y_map` moved up by `c` bits in an
`unsigned int`. -/
lemma y_scan_final (y_map c : Nat) (hc : c ≤ 32) :
    ScanInv (y_scan 32 ((y_map <<< c) % 2 ^ 32) scan_init) ∧
      (y_scan 32 ((y_map <<< c) % 2 ^ 32) scan_init).i ≤ ((32 - c : Nat) : Int) := by
  refine y_scan_inv 32 _ scan_init (32 - c) _ scan_init_inv (by omega)
    (Nat.mod_lt _ (by decide)) ?_ (by simp [scan_init])
  have hd : 2 ^ (32 - (32 - c)) ∣ 2 ^ 32 := Nat.pow_dvd_pow 2 (by omega)
  rw [Nat.mod_mod_of_dvd _ hd, Nat.shiftLeft_eq, show 32 - (32 - c) = c by omega]
  exact Nat.mul_mod_left _ _

lemma scale_bounds (M d n : Int) (hM : 0 ≤ M) (hd : 0 < d) (h0 : 0 ≤ n) (hn : n ≤ d) :
    0 ≤ (M * n).tdiv d ∧ (M * n).tdiv d ≤ M := by
  have hmn : 0 ≤ M * n := Int.mul_nonneg hM h0
  rw [Int.tdiv_eq_ediv hmn (le_of_lt hd)]
  refine ⟨Int.ediv_nonneg hmn (le_of_lt hd), ?_⟩
  have h1 : M * n ≤ M * d := Int.mul_le_mul_of_nonneg_left hn hM
  calc M * n / d ≤ M * d / d := Int.ediv_le_ediv hd h1
    _ = M := Int.mul_ediv_cancel _ (ne_of_gt hd)

lemma scale_nonneg (M d n : Int) (hM : 0 ≤ M) (hd : 0 < d) (h0 : 0 ≤ n) :
    0 ≤ (M * n).tdiv d := by
  have hmn : 0 ≤ M * n := Int.mul_nonneg hM h0
  rw [Int.tdiv_eq_ediv hmn (le_of_lt hd)]
  exact Int.ediv_nonneg hmn (le_of_lt hd)

lemma scale_mono (M d a b : Int) (hM : 0 ≤ M) (hd : 0 < d) (h0 : 0 ≤ a) (hab : a ≤ b) :
    (M * a).tdiv d ≤ (M * b).tdiv d := by
  rw [Int.tdiv_eq_ediv (Int.mul_nonneg hM h0) (le_of_lt hd),
    Int.tdiv_eq_ediv (Int.mul_nonneg hM (le_trans h0 hab)) (le_of_lt hd)]
  exact Int.ediv_le_ediv hd (Int.mul_le_mul_of_nonneg_left hab hM)

/-- What the scaling of lines 374-383 needs of the two points of an axis of `bits` bits:
the low point is a run inside the axis; `ord` says that the points are ordered and the
high point is not below the axis, `top` that the high point is inside the axis. -/
lemma real_points_facts (st : BitmapScan) (B : Int) (h : ScanInv st) (hi : st.i ≤ B)
    (h2 : 2 ≤ st.fingers) :
    0 ≤ st.low.start_bit ∧ 1 ≤ st.low.num_bits ∧ st.low.start_bit + st.low.num_bits ≤ B ∧
      2 * st.low.start_bit + st.low.num_bits - 1 ≤ 2 * st.high.start_bit + st.high.num_bits - 1 ∧
      0 ≤ 2 * st.high.start_bit + st.high.num_bits - 1 ∧
      (st.fingers = 2 → 2 * st.high.start_bit + st.high.num_bits - 1 ≤ 2 * (B - 1)) := by
  unfold ScanInv at h
  obtain ⟨h1, h2', h3, h4, h5, h6, h7, h8⟩ := h
  cases hah : st.at_high
  · rw [hah] at h8
    simp only [Bool.false_eq_true, if_false] at h8
    omega
  · rw [hah] at h8
    simp only [if_true] at h8
    obtain ⟨k1, k2, k3, k4, k5, k6⟩ := h8
    refine ⟨h3, k2, by omega, by omega, by omega, fun hf => ?_⟩
    have := k5 (by omega)
    have := k6 hf
    omega

lemma low_point_facts (st : BitmapScan) (B : Int) (h : ScanInv st) (hi : st.i ≤ B)
    (h1 : 1 ≤ st.fingers) :
    0 ≤ st.low.start_bit ∧ 1 ≤ st.low.num_bits ∧ st.low.start_bit + st.low.num_bits ≤ B := by
  unfold ScanInv at h
  obtain ⟨_, _, h3, h4, h5, _, _, h8⟩ := h
  cases hah : st.at_high
  · rw [hah] at h8
    simp only [Bool.false_eq_true, if_false] at h8
    obtain ⟨_, k2, _, k4⟩ := h8
    have := k4 (by omega)
    omega
  · rw [hah] at h8
    simp only [if_true] at h8
    omega

lemma bisect_facts (s n B : Int) (h0 : 0 ≤ s) (h1 : 1 ≤ n) (hB : s + n ≤ B) :
    0 ≤ 2 * s + (n - n.tdiv 2) - 1 ∧
      2 * s + (n - n.tdiv 2) - 1 ≤ 2 * (s + n.tdiv 2) + max (n.tdiv 2) 1 - 1 ∧
      2 * s + (n - n.tdiv 2) - 1 ≤ 2 * (B - 1) ∧
      2 * (s + n.tdiv 2) + max (n.tdiv 2) 1 - 1 ≤ 2 * (B - 1) := by
  rw [Int.tdiv_eq_ediv (by omega) (by decide)]
  rcases max_cases (n / 2) 1 with ⟨hm, _⟩ | ⟨hm, _⟩ <;> rw [hm] <;> omega

lemma scale_point (M bits : Int) (p : alps_bitmap_point) (hM : 0 ≤ M) (hb : 2 ≤ bits)
    (h0 : 0 ≤ 2 * p.start_bit + p.num_bits - 1) :
    0 ≤ bitmap_scale M bits p ∧
      (2 * p.start_bit + p.num_bits - 1 ≤ 2 * (bits - 1) → bitmap_scale M bits p ≤ M) := by
  unfold bitmap_scale
  exact ⟨scale_nonneg M _ _ hM (by omega) h0,
    fun h => (scale_bounds M _ _ hM (by omega) h0 h).2⟩

lemma scale_point_mono (M bits : Int) (p q : alps_bitmap_point) (hM : 0 ≤ M) (hb : 2 ≤ bits)
    (h0 : 0 ≤ 2 * p.start_bit + p.num_bits - 1)
    (h : 2 * p.start_bit + p.num_bits - 1 ≤ 2 * q.start_bit + q.num_bits - 1) :
    bitmap_scale M bits p ≤ bitmap_scale M bits q := by
  unfold bitmap_scale
  exact scale_mono M _ _ _ hM (by omega) h0 h

/-- The coordinates that `alps_process_bitmap` writes, for bit-fields that are not zero
and fit in the bits of their axis: the first point is inside the axis ranges, no
coordinate is negative, the second point is inside the range of an axis whose bit-field
has at most two runs, and when the return value is 2 or more the two points are ordered
on both axes. -/
lemma process_bitmap_coords (g : Geometry) (x_map y_map : Nat) (out : BitmapCoords)
    (hXM : 0 ≤ g.ALPS_X_MAX) (hYM : 0 ≤ g.ALPS_Y_MAX)
    (hX2 : 2 ≤ g.ALPS_BITMAP_X_BITS) (hX32 : g.ALPS_BITMAP_X_BITS ≤ 32)
    (hY2 : 2 ≤ g.ALPS_BITMAP_Y_BITS) (hY32 : g.ALPS_BITMAP_Y_BITS ≤ 32)
    (hx0 : x_map ≠ 0) (hx : x_map < 2 ^ g.ALPS_BITMAP_X_BITS.toNat)
    (hy0 : y_map ≠ 0) (hy : y_map < 2 ^ g.ALPS_BITMAP_Y_BITS.toNat) :
    (0 ≤ (alps_process_bitmap g x_map y_map out).2.x1 ∧
        (alps_process_bitmap g x_map y_map out).2.x1 ≤ g.ALPS_X_MAX) ∧
      (0 ≤ (alps_process_bitmap g x_map y_map out).2.y1 ∧
        (alps_process_bitmap g x_map y_map out).2.y1 ≤ g.ALPS_Y_MAX) ∧
      0 ≤ (alps_process_bitmap g x_map y_map out).2.x2 ∧
      0 ≤ (alps_process_bitmap g x_map y_map out).2.y2 ∧
      (count_runs x_map ≤ 2 → (alps_process_bitmap g x_map y_map out).2.x2 ≤ g.ALPS_X_MAX) ∧
      (count_runs y_map ≤ 2 → (alps_process_bitmap g x_map y_map out).2.y2 ≤ g.ALPS_Y_MAX) ∧
      (2 ≤ (alps_process_bitmap g x_map y_map out).1 →
        (alps_process_bitmap g x_map y_map out).2.x1 ≤
            (alps_process_bitmap g x_map y_map out).2.x2 ∧
          (alps_process_bitmap g x_map y_map out).2.y1 ≤
            (alps_process_bitmap g x_map y_map out).2.y2) := by
  have hx32 : x_map < 2 ^ 32 :=
    lt_of_lt_of_le hx (Nat.pow_le_pow_right (by decide) (by omega))
  obtain ⟨hc, hY⟩ := y_bits_shift g (by omega) hY32
  -- the x loop
  obtain ⟨ivx, hix⟩ := x_scan_final x_map _ hx
  have hix' : (x_scan 32 x_map scan_init).i ≤ g.ALPS_BITMAP_X_BITS := by
    have : ((g.ALPS_BITMAP_X_BITS.toNat : Nat) : Int) = g.ALPS_BITMAP_X_BITS :=
      Int.toNat_of_nonneg (by omega)
    omega
  have hfx : (x_scan 32 x_map scan_init).fingers = (count_runs x_map : Int) :=
    fingers_x_eq_count_runs x_map hx32
  have hfx1 := count_runs_pos x_map hx32 hx0
  -- the y loop
  obtain ⟨ivy, hiy⟩ := y_scan_final y_map _ hc
  have hiy' : (y_scan 32 ((y_map <<< (32 - g.ALPS_BITMAP_Y_BITS).toNat) % 2 ^ 32) scan_init).i ≤
      g.ALPS_BITMAP_Y_BITS := by
    have : ((g.ALPS_BITMAP_Y_BITS.toNat : Nat) : Int) = g.ALPS_BITMAP_Y_BITS :=
      Int.toNat_of_nonneg (by omega)
    rw [hY] at hiy
    omega
  have hfy : (y_scan 32 ((y_map <<< (32 - g.ALPS_BITMAP_Y_BITS).toNat) % 2 ^ 32)
      scan_init).fingers = (count_runs y_map : Int) := by
    rw [fingers_y_eq_count_runs _ (Nat.mod_lt _ (by decide)), shiftLeft_mod_two_pow _ _ hc,
      count_runs_shiftLeft _ _ hc (Nat.mod_lt _ (by positivity)), hY, Nat.mod_eq_of_lt hy]
  have hy32 : y_map < 2 ^ 32 :=
    lt_of_lt_of_le hy (Nat.pow_le_pow_right (by decide) (by omega))
  have hfy1 := count_runs_pos y_map hy32 hy0
  -- the function
  unfold alps_process_bitmap
  rw [if_neg (by simp [hx0, hy0])]
  unfold alps_bitmap_points
  dsimp only
  generalize x_scan 32 x_map scan_init = sx at *
  generalize y_scan 32 ((y_map <<< (32 - g.ALPS_BITMAP_Y_BITS).toNat) % 2 ^ 32) scan_init = sy at *
  have lx := low_point_facts sx _ ivx hix' (by omega)
  have ly := low_point_facts sy _ ivy hiy' (by omega)
  by_cases hF : max sx.fingers sy.fingers > 1
  · by_cases h1x : sx.fingers = 1
    · -- the x run is bisected, y has two runs or more
      have h2y : 2 ≤ sy.fingers := by
        rcases max_cases sx.fingers sy.fingers with ⟨hm, _⟩ | ⟨hm, _⟩ <;> omega
      have ry := real_points_facts sy _ ivy hiy' h2y
      have bx := bisect_facts sx.low.start_bit sx.low.num_bits _ lx.1 lx.2.1 lx.2.2
      simp only [hF, if_true, if_pos h1x]
      have px1 := scale_point g.ALPS_X_MAX g.ALPS_BITMAP_X_BITS
        { sx.low with num_bits := sx.low.num_bits - sx.low.num_bits.tdiv 2 } hXM hX2 bx.1
      have px2 := scale_point g.ALPS_X_MAX g.ALPS_BITMAP_X_BITS
        { start_bit := sx.low.start_bit + sx.low.num_bits.tdiv 2,
          num_bits := max (sx.low.num_bits.tdiv 2) 1 } hXM hX2 (by dsimp only; omega)
      have py1 := scale_point g.ALPS_Y_MAX g.ALPS_BITMAP_Y_BITS sy.low hYM hY2 (by omega)
      have py2 := scale_point g.ALPS_Y_MAX g.ALPS_BITMAP_Y_BITS sy.high hYM hY2 ry.2.2.2.2.1
      refine ⟨⟨px1.1, px1.2 bx.2.2.1⟩, ⟨py1.1, py1.2 (by omega)⟩, px2.1, py2.1,
        fun _ => px2.2 bx.2.2.2, fun h2 => py2.2 (ry.2.2.2.2.2 (by omega)), fun _ => ⟨?_, ?_⟩⟩
      · exact scale_point_mono _ _ _ _ hXM hX2 bx.1 bx.2.1
      · exact scale_point_mono _ _ _ _ hYM hY2 (by omega) ry.2.2.2.1
    · have h2x : 2 ≤ sx.fingers := by omega
      have rx := real_points_facts sx _ ivx hix' h2x
      have px1 := scale_point g.ALPS_X_MAX g.ALPS_BITMAP_X_BITS sx.low hXM hX2 (by omega)
      have px2 := scale_point g.ALPS_X_MAX g.ALPS_BITMAP_X_BITS sx.high hXM hX2 rx.2.2.2.2.1
      by_cases h1y : sy.fingers = 1
      · -- the y run is bisected, x has two runs or more
        have bY := bisect_facts sy.low.start_bit sy.low.num_bits _ ly.1 ly.2.1 ly.2.2
        simp only [hF, if_true, if_neg h1x, if_pos h1y]
        have py1 := scale_point g.ALPS_Y_MAX g.ALPS_BITMAP_Y_BITS
          { sy.low with num_bits := sy.low.num_bits - sy.low.num_bits.tdiv 2 } hYM hY2 bY.1
        have py2 := scale_point g.ALPS_Y_MAX g.ALPS_BITMAP_Y_BITS
          { start_bit := sy.low.start_bit + sy.low.num_bits.tdiv 2,
            num_bits := max (sy.low.num_bits.tdiv 2) 1 } hYM hY2 (by dsimp only; omega)
        refine ⟨⟨px1.1, px1.2 (by omega)⟩, ⟨py1.1, py1.2 bY.2.2.1⟩, px2.1, py2.1,
          fun h2 => px2.2 (rx.2.2.2.2.2 (by omega)), fun _ => py2.2 bY.2.2.2,
          fun _ => ⟨?_, ?_⟩⟩
        · exact scale_point_mono _ _ _ _ hXM hX2 (by omega) rx.2.2.2.1
        · exact scale_point_mono _ _ _ _ hYM hY2 bY.1 bY.2.1
      · -- both axes have two runs or more
        have h2y : 2 ≤ sy.fingers := by omega
        have ry := real_points_facts sy _ ivy hiy' h2y
        simp only [hF, if_true, if_neg h1x, if_neg h1y]
        have py1 := scale_point g.ALPS_Y_MAX g.ALPS_BITMAP_Y_BITS sy.low hYM hY2 (by omega)
        have py2 := scale_point g.ALPS_Y_MAX g.ALPS_BITMAP_Y_BITS sy.high hYM hY2 ry.2.2.2.2.1
        refine ⟨⟨px1.1, px1.2 (by omega)⟩, ⟨py1.1, py1.2 (by omega)⟩, px2.1, py2.1,
          fun h2 => px2.2 (rx.2.2.2.2.2 (by omega)), fun h2 => py2.2 (ry.2.2.2.2.2 (by omega)),
          fun _ => ⟨?_, ?_⟩⟩
        · exact scale_point_mono _ _ _ _ hXM hX2 (by omega) rx.2.2.2.1
        · exact scale_point_mono _ _ _ _ hYM hY2 (by omega) ry.2.2.2.1
  · -- one finger: the second point stays at zero
    simp only [hF, if_false]
    have px1 := scale_point g.ALPS_X_MAX g.ALPS_BITMAP_X_BITS sx.low hXM hX2 (by omega)
    have py1 := scale_point g.ALPS_Y_MAX g.ALPS_BITMAP_Y_BITS sy.low hYM hY2 (by omega)
    refine ⟨⟨px1.1, px1.2 (by omega)⟩, ⟨py1.1, py1.2 (by omega)⟩, le_refl _, le_refl _,
      fun _ => hXM, fun _ => hYM, fun h2 => ?_⟩
    exact absurd h2 (by omega)

/-- C34 (what the code does). For every geometry with non-negative axis maxima and bit
counts between 2 and 32, the two set by `alps_init` among them, every non-zero `x_map`
below `2 ^ ALPS_BITMAP_X_BITS` and every non-zero `y_map` below `2 ^ ALPS_BITMAP_Y_BITS`:
the first point written by `alps_process_bitmap` is inside the axis ranges
(`0 <= x1 <= ALPS_X_MAX`, `0 <= y1 <= ALPS_Y_MAX`), the second point is not negative,
and `x2 <= ALPS_X_MAX` when `x_map` has at most two runs of 1 bits, `y2 <= ALPS_Y_MAX`
when `y_map` has at most two runs. With three runs or more the high point of the axis
can add up the bits of several runs, and the bound fails. -/
theorem process_bitmap_coordinates_range (g : Geometry) (x_map y_map : Nat)
    (out : BitmapCoords)
    (hXM : 0 ≤ g.ALPS_X_MAX) (hYM : 0 ≤ g.ALPS_Y_MAX)
    (hX2 : 2 ≤ g.ALPS_BITMAP_X_BITS) (hX32 : g.ALPS_BITMAP_X_BITS ≤ 32)
    (hY2 : 2 ≤ g.ALPS_BITMAP_Y_BITS) (hY32 : g.ALPS_BITMAP_Y_BITS ≤ 32)
    (hx0 : x_map ≠ 0) (hx : x_map < 2 ^ g.ALPS_BITMAP_X_BITS.toNat)
    (hy0 : y_map ≠ 0) (hy : y_map < 2 ^ g.ALPS_BITMAP_Y_BITS.toNat) :
    (0 ≤ (alps_process_bitmap g x_map y_map out).2.x1 ∧
        (alps_process_bitmap g x_map y_map out).2.x1 ≤ g.ALPS_X_MAX) ∧
      (0 ≤ (alps_process_bitmap g x_map y_map out).2.y1 ∧
        (alps_process_bitmap g x_map y_map out).2.y1 ≤ g.ALPS_Y_MAX) ∧
      0 ≤ (alps_process_bitmap g x_map y_map out).2.x2 ∧
      0 ≤ (alps_process_bitmap g x_map y_map out).2.y2 ∧
      (count_runs x_map ≤ 2 → (alps_process_bitmap g x_map y_map out).2.x2 ≤ g.ALPS_X_MAX) ∧
      (count_runs y_map ≤ 2 → (alps_process_bitmap g x_map y_map out).2.y2 ≤ g.ALPS_Y_MAX) := by
  obtain ⟨h1, h2, h3, h4, h5, h6, _⟩ :=
    process_bitmap_coords g x_map y_map out hXM hYM hX2 hX32 hY2 hY32 hx0 hx hy0 hy
  exact ⟨h1, h2, h3, h4, h5, h6⟩

theorem process_bitmap_coordinates_range_witness :
    ((0x5400 : Nat) < 2 ^ geometry_v3_v4_v5.ALPS_BITMAP_X_BITS.toNat ∧
        (0x15 : Nat) < 2 ^ geometry_v3_v4_v5.ALPS_BITMAP_Y_BITS.toNat) ∧
      alps_process_bitmap geometry_v3_v4_v5 0x5400 0x15 ⟨0, 0, 0, 0⟩ =
        (3, { x1 := 1428, y1 := 840, x2 := 2071, y2 := 1470 }) ∧
      (0 ≤ (alps_process_bitmap geometry_v3_v4_v5 0x5400 0x15 ⟨0, 0, 0, 0⟩).2.x1 ∧
        (alps_process_bitmap geometry_v3_v4_v5 0x5400 0x15 ⟨0, 0, 0, 0⟩).2.x1 ≤
          geometry_v3_v4_v5.ALPS_X_MAX) ∧
      (alps_process_bitmap geometry_v6 0x03 0x30 ⟨0, 0, 0, 0⟩).2.x2 ≤ geometry_v6.ALPS_X_MAX :=
  ⟨⟨by decide, by decide⟩, by decide,
    (process_bitmap_coordinates_range geometry_v3_v4_v5 0x5400 0x15 ⟨0, 0, 0, 0⟩ (by decide)
      (by decide) (by decide) (by decide) (by decide) (by decide) (by decide) (by decide)
      (by decide) (by decide)).1,
    (process_bitmap_coordinates_range geometry_v6 0x03 0x30 ⟨0, 0, 0, 0⟩ (by decide)
      (by decide) (by decide) (by decide) (by decide) (by decide) (by decide) (by decide)
      (by decide) (by decide)).2.2.2.2.1 (by decide)⟩

/-- C35. For every geometry with non-negative axis maxima and bit counts between 2 and
32, every non-zero `x_map` below `2 ^ ALPS_BITMAP_X_BITS` and every non-zero `y_map`
below `2 ^ ALPS_BITMAP_Y_BITS`: when `alps_process_bitmap` returns 2 or more, the two
points it writes are ordered on both axes, `x1 <= x2` and `y1 <= y2`; this covers an
axis with a single run, which is bisected, and an axis with three runs or more. -/
theorem process_bitmap_points_ordered (g : Geometry) (x_map y_map : Nat)
    (out : BitmapCoords)
    (hXM : 0 ≤ g.ALPS_X_MAX) (hYM : 0 ≤ g.ALPS_Y_MAX)
    (hX2 : 2 ≤ g.ALPS_BITMAP_X_BITS) (hX32 : g.ALPS_BITMAP_X_BITS ≤ 32)
    (hY2 : 2 ≤ g.ALPS_BITMAP_Y_BITS) (hY32 : g.ALPS_BITMAP_Y_BITS ≤ 32)
    (hx0 : x_map ≠ 0) (hx : x_map < 2 ^ g.ALPS_BITMAP_X_BITS.toNat)
    (hy0 : y_map ≠ 0) (hy : y_map < 2 ^ g.ALPS_BITMAP_Y_BITS.toNat)
    (h2 : 2 ≤ (alps_process_bitmap g x_map y_map out).1) :
    (alps_process_bitmap g x_map y_map out).2.x1 ≤ (alps_process_bitmap g x_map y_map out).2.x2 ∧
      (alps_process_bitmap g x_map y_map out).2.y1 ≤
        (alps_process_bitmap g x_map y_map out).2.y2 :=
  (process_bitmap_coords g x_map y_map out hXM hYM hX2 hX32 hY2 hY32 hx0 hx hy0 hy).2.2.2.2.2.2
    h2

theorem process_bitmap_points_ordered_witness :
    (2 : Int) ≤ (alps_process_bitmap geometry_v3_v4_v5 0x0e 0x48 ⟨0, 0, 0, 0⟩).1 ∧
      alps_process_bitmap geometry_v3_v4_v5 0x0e 0x48 ⟨0, 0, 0, 0⟩ =
        (2, { x1 := 214, y1 := 560, x2 := 285, y2 := 980 }) ∧
      (alps_process_bitmap geometry_v3_v4_v5 0x0e 0x48 ⟨0, 0, 0, 0⟩).2.x1 ≤
        (alps_process_bitmap geometry_v3_v4_v5 0x0e 0x48 ⟨0, 0, 0, 0⟩).2.x2 :=
  ⟨by decide, by decide,
    (process_bitmap_points_ordered geometry_v3_v4_v5 0x0e 0x48 ⟨0, 0, 0, 0⟩ (by decide)
      (by decide) (by decide) (by decide) (by decide) (by decide) (by decide) (by decide)
      (by decide) (by decide) (by decide)).1⟩


end Alps
